import Mathlib

/-! # Subsystem-restart coordinator (arch/arm/mach-msm/subsystem_restart.c)

A shallow embedding of the restart worker, the crash-loop detector, the registry,
the restart-level setting and the request entry point of `subsystem_restart.c`,
and of `lowmem_shrink` of `drivers/staging/android/lowmemorykiller.c`, followed
by theorems about them.

Conventions of the embedding

* A `struct subsys_data *` is an address (`SubsysPtr`); the records live in
  `State.mem`.  A pointer to a `struct subsys_soc_restart_order` is the index
  of the group in the active table `restart_orders`.
* C `int` / `long` values are `Int`.  The difference of two `tv_sec` values is
  a 32-bit `long` and wraps (`to_long`); the entry counter `n` never leaves the
  range of `int`.  In `lowmem_shrink` the page counts are `Int` as well; what is
  modelled there is the conversion of an `int` to `size_t` in the comparisons
  with the thresholds, and the wrap-around of `jiffies`.
* Everything the code does to the outside world (mutex operations, callbacks,
  notifications, wake lock, `kfree`) is appended to a trace of `Event`s.
  A callback is an oracle: its return value may depend on the whole trace so
  far.
* `panic()` never returns: a run that panics ends in `Result.panicked` with the
  state and trace reached at that point.
* A function is run alone: `mutex_lock` on a mutex that is held waits for ever
  (`Result.blocked`).  The interleaving of several workers is modelled
  separately, as a step relation over their program points.
-/

namespace SSR

/-! ## Data model -/

/-- Modelled from the spec: `enum subsys_notif_type` of mach/subsystem_notif.h, a
header that is not among the sources; the four event kinds of a restart. -/
inductive subsys_notif_type
  | SUBSYS_BEFORE_SHUTDOWN
  | SUBSYS_AFTER_SHUTDOWN
  | SUBSYS_BEFORE_POWERUP
  | SUBSYS_AFTER_POWERUP
  deriving DecidableEq, Repr

/-- Address of a `struct subsys_data`. -/
abbrev SubsysPtr := Nat

/-- Pointer to a `struct subsys_soc_restart_order`: its index in `restart_orders`. -/
abbrev OrderPtr := Nat

/-- The mutexes of the file: the two of every subsystem, the two of every
restart-order group, and the globals `soc_order_reg_lock` and
`restart_log_mutex`. -/
inductive Mutex
  | subsys_shutdown_lock (p : SubsysPtr)
  | subsys_powerup_lock (p : SubsysPtr)
  | order_shutdown_lock (j : OrderPtr)
  | order_powerup_lock (j : OrderPtr)
  | soc_order_reg_lock
  | restart_log_mutex
  deriving DecidableEq, Repr

/-- What a run does to the outside world, in program order.  Callback events
carry the value the callback returned. -/
inductive Event
  | trylock (m : Mutex) (acquired : Bool)
  | lock (m : Mutex)
  | unlock (m : Mutex)
  | notif (notif_handle : Nat) (t : subsys_notif_type)
  | shutdown (p : SubsysPtr) (ret : Int)
  | ramdump (enable : Int) (p : SubsysPtr) (ret : Int)
  | powerup (p : SubsysPtr) (ret : Int)
  | wake_lock (subsys : SubsysPtr)
  | wake_unlock (subsys : SubsysPtr)
  | wake_lock_destroy (subsys : SubsysPtr)
  | kfree_work (subsys : SubsysPtr)
  deriving DecidableEq, Repr

/-- Modelled from the spec: `struct timeval` of linux/time.h, the timestamp of a
restart-log entry; only the seconds are read. -/
structure timeval where
  tv_sec : Int
  tv_usec : Int
  deriving DecidableEq, Repr

/-- The record `struct restart_log` (the `list` member is the position in
`restart_log_list`). -/
structure restart_log where
  time : timeval
  subsys : SubsysPtr
  deriving DecidableEq, Repr

/-- Modelled from the spec: `struct subsys_data` of mach/subsystem_restart.h, a
header that is not among the sources; the members are those the spec lists for a
subsystem, under the names the code uses for them.  A null `name` or a null
function pointer is `none`; a callback is an oracle on the trace so far.  The two
mutexes of the record are `Mutex.subsys_shutdown_lock p` and
`Mutex.subsys_powerup_lock p` for the record at address `p`. -/
structure subsys_data where
  name : Option String
  shutdown : Option (List Event → Int)
  powerup : Option (List Event → Int)
  ramdump : Option (Int → List Event → Int)
  crash_shutdown : Bool
  notif_handle : Nat
  restart_order : Option OrderPtr
  single_restart_list : List (Option SubsysPtr)

/-- The record `struct subsys_soc_restart_order`; its two mutexes are
`Mutex.order_shutdown_lock j` and `Mutex.order_powerup_lock j`. -/
structure subsys_soc_restart_order where
  subsystem_list : List String
  count : Nat
  subsys_ptrs : List (Option SubsysPtr)
  deriving DecidableEq, Repr

/-- The record `struct restart_wq_data`; the wake lock and the work item are identified by
the request. -/
structure restart_wq_data where
  subsys : SubsysPtr
  use_restart_order : Int
  deriving DecidableEq, Repr

/-- The globals of the file. -/
structure State where
  restart_level : Int
  enable_ramdumps : Int
  max_restarts : Int
  max_history_time : Int
  restart_log_list : List restart_log
  subsystem_list : List SubsysPtr
  restart_orders : List subsys_soc_restart_order
  mem : SubsysPtr → subsys_data
  held : List Mutex
  ssr_wq : List restart_wq_data
  mdm_is_in_restart : Int
  crashed_modem : Int

/-- Compile-time configuration and the constants of headers that are not part
of the sources. -/
structure Config where
  /-- True when both CONFIG_ARCH_APQ8064 and CONFIG_USB_EHCI_MSM_HSIC are defined. -/
  CONFIG_APQ8064_HSIC : Bool
  /-- True when CONFIG_QSC_MODEM is defined. -/
  CONFIG_QSC_MODEM : Bool
  /-- The bound of every name comparison (mach/subsystem_restart.h). -/
  SUBSYS_NAME_MAX_LENGTH : Nat
  /-- The three restart levels (mach/subsystem_restart.h). -/
  RESET_SOC : Int
  RESET_SUBSYS_COUPLED : Int
  RESET_SUBSYS_INDEPENDENT : Int
  /-- The external `subsys_notif_add_subsys`: the notification handle of a name. -/
  subsys_notif_add_subsys : String → Nat

/-- What do_epoch_check obtains from its environment: whether `kmalloc`
returned memory and, if so, what `do_gettimeofday` then reported. -/
structure EpochEnv where
  kmalloc_ok : Bool
  now : timeval
  deriving DecidableEq, Repr

/-- A run in progress: the globals and the events emitted so far. -/
structure Run where
  st : State
  trace : List Event

/-- How a call ends: it returned a value, it called `panic()`, it waits for a
mutex that nobody releases (the run is executed alone), or it called a null
function pointer.  Every outcome carries the state and trace reached. -/
inductive Result (α : Type)
  | returned (a : α) (r : Run)
  | panicked (r : Run)
  | blocked (r : Run)
  | fault (r : Run)

/-- The state and trace at the end of the run, whatever the outcome. -/
def Result.run {α : Type} : Result α → Run
  | .returned _ r => r
  | .panicked r => r
  | .blocked r => r
  | .fault r => r

/-- Sequencing: the continuation runs only if the first part returned. -/
def Result.bind {α β : Type} (x : Result α) (k : α → Run → Result β) : Result β :=
  match x with
  | .returned a r => k a r
  | .panicked r => .panicked r
  | .blocked r => .blocked r
  | .fault r => .fault r

/-- The run called `panic()`. -/
def Result.isPanicked {α : Type} : Result α → Bool
  | .panicked _ => true
  | _ => false

/-- The run came back to its caller. -/
def Result.isReturned {α : Type} : Result α → Bool
  | .returned _ _ => true
  | _ => false

/-- Append one event to the trace. -/
def Run.emit (r : Run) (e : Event) : Run :=
  { r with trace := r.trace ++ [e] }

/-! ## Mutexes -/

/-- The call `mutex_trylock(m)`: takes the mutex if it is free and says so. -/
def mutex_trylock (m : Mutex) (r : Run) : Bool × Run :=
  if m ∈ r.st.held then
    (false, r.emit (.trylock m false))
  else
    (true, ({ r with st := { r.st with held := m :: r.st.held } }).emit (.trylock m true))

/-- The call `mutex_lock(m)`: takes the mutex; the caller waits while it is held. -/
def mutex_lock (m : Mutex) (r : Run) : Result Unit :=
  if m ∈ r.st.held then
    .blocked r
  else
    .returned () (({ r with st := { r.st with held := m :: r.st.held } }).emit (.lock m))

/-- The call `mutex_unlock(m)`. -/
def mutex_unlock (m : Mutex) (r : Run) : Run :=
  ({ r with st := { r.st with held := r.st.held.erase m } }).emit (.unlock m)

/-! ## Crash-loop detector -/

/-- The value of an integer as a `long`, which has 32 bits on this ARM target: the
integer wrapped into the range from -2^31 to 2^31 - 1.  It is what a difference of
two `tv_sec` values, or of two `jiffies` values converted to `long`, evaluates
to. -/
def to_long (x : Int) : Int :=
  (x + 2 ^ 31) % 2 ^ 32 - 2 ^ 31

/-- The `list_for_each_entry_safe` loop of do_epoch_check over the entries still
to visit: an entry older than the window is unlinked, any other entry is kept
and counted, and the first entry kept becomes `time_first`.
`kept` are the surviving entries already visited, in list order.  The age
`curr_time->tv_sec - r_log->time.tv_sec` is a `long` and wraps. -/
def epoch_scan (curr_time : timeval) (max_history_time_check : Int) :
    List restart_log → List restart_log → Nat → Option timeval →
      List restart_log × Nat × Option timeval
  | [], kept, n, time_first => (kept, n, time_first)
  | r_log :: rest, kept, n, time_first =>
    if to_long (curr_time.tv_sec - r_log.time.tv_sec) > max_history_time_check then
      epoch_scan curr_time max_history_time_check rest kept n time_first
    else
      epoch_scan curr_time max_history_time_check rest (kept ++ [r_log]) (n + 1)
        (if n = 0 then some r_log.time else time_first)

/-- The function `do_epoch_check(subsys)`.  A panic happens with
`restart_log_mutex` still held.  The age of the first surviving entry is a `long`
and wraps, as in the loop. -/
def do_epoch_check (env : EpochEnv) (subsys : SubsysPtr) (r : Run) : Result Unit :=
  (mutex_lock .restart_log_mutex r).bind fun _ r =>
  let max_restarts_check := r.st.max_restarts
  let max_history_time_check := r.st.max_history_time
  if max_restarts_check = 0 then
    .returned () (mutex_unlock .restart_log_mutex r)
  else if env.kmalloc_ok = false then
    .returned () (mutex_unlock .restart_log_mutex r)
  else
    let r_log : restart_log := { time := env.now, subsys := subsys }
    let curr_time := r_log.time
    let scanned := epoch_scan curr_time max_history_time_check
      (r.st.restart_log_list ++ [r_log]) [] 0 none
    let r1 : Run := { r with st := { r.st with restart_log_list := scanned.1 } }
    match scanned.2.2 with
    | some time_first =>
      if (scanned.2.1 : Int) ≥ max_restarts_check ∧
          to_long (curr_time.tv_sec - time_first.tv_sec) < max_history_time_check then
        .panicked r1
      else
        .returned () (mutex_unlock .restart_log_mutex r1)
    | none => .returned () (mutex_unlock .restart_log_mutex r1)

/-- A sequence of crash-loop checks, each with its own subsystem and
environment; a check runs only if every earlier one returned. -/
def epoch_checks : List (SubsysPtr × EpochEnv) → Run → Result Unit
  | [], r => .returned () r
  | (subsys, env) :: rest, r =>
    (do_epoch_check env subsys r).bind fun _ r1 => epoch_checks rest r1

/-! ## Restart worker -/

/-- The loop `for (i = i0; i < i0 + n; i++) body(i)`; the second argument is the
number of iterations still to run. -/
def for_up (body : Nat → Run → Result Unit) : Nat → Nat → Run → Result Unit
  | _, 0, r => .returned () r
  | i, n + 1, r => (body i r).bind fun _ r1 => for_up body (i + 1) n r1

/-- The loop `for (i = n - 1; i >= 0; i--) body(i)`. -/
def for_down (body : Nat → Run → Result Unit) : Nat → Run → Result Unit
  | 0, r => .returned () r
  | n + 1, r => (body n r).bind fun _ r1 => for_down body n r1

/-- The read `restart_list[i]`; the arrays are zero-initialised statics, so a
slot never written is null. -/
def slot (restart_list : List (Option SubsysPtr)) (i : Nat) : Option SubsysPtr :=
  restart_list.getD i none

/-- A loop body under the test of `restart_list[i]`: a null slot is skipped
(`if (!restart_list[i]) continue;`), a member is worked on. -/
def on_slot (restart_list : List (Option SubsysPtr)) (member : SubsysPtr → Run → Result Unit)
    (i : Nat) (r : Run) : Result Unit :=
  match slot restart_list i with
  | none => .returned () r
  | some p => member p r

/-- The call `subsys_notif_queue_notification(restart_list[i]->notif_handle, notif_type)`. -/
def notify_member (notif_type : subsys_notif_type) (p : SubsysPtr) (r : Run) : Result Unit :=
  .returned () (r.emit (.notif (r.st.mem p).notif_handle notif_type))

/-- The function `_send_notification_to_order(restart_list, count, notif_type)`. -/
def _send_notification_to_order (restart_list : List (Option SubsysPtr)) (count : Nat)
    (notif_type : subsys_notif_type) (r : Run) : Result Unit :=
  for_up (on_slot restart_list (notify_member notif_type)) 0 count r

/-- The body of the shutdown loop for a member (lines 448-453). -/
def shutdown_member (p : SubsysPtr) (r : Run) : Result Unit :=
  match (r.st.mem p).shutdown with
  | none => .fault r
  | some shutdown =>
    let ret := shutdown r.trace
    if ret < 0 then .panicked (r.emit (.shutdown p ret))
    else .returned () (r.emit (.shutdown p ret))

/-- The body of the ramdump loop for a member (lines 466-470); a negative return
is only logged. -/
def ramdump_member (p : SubsysPtr) (r : Run) : Result Unit :=
  match (r.st.mem p).ramdump with
  | none => .returned () r
  | some ramdump =>
    .returned () (r.emit (.ramdump r.st.enable_ramdumps p
      (ramdump r.st.enable_ramdumps r.trace)))

/-- The body of the powerup loop for a member (lines 482-487). -/
def powerup_member (p : SubsysPtr) (r : Run) : Result Unit :=
  match (r.st.mem p).powerup with
  | none => .fault r
  | some powerup =>
    let ret := powerup r.trace
    if ret < 0 then .panicked (r.emit (.powerup p ret))
    else .returned () (r.emit (.powerup p ret))

/-- The name EXTERNAL_MODEM. -/
def EXTERNAL_MODEM : String := "external_modem"

/-- The body of the loops that set `mdm_is_in_restart` for a member (lines
431-434 and 503-506); `strcmp` on a null name is a null dereference. -/
def mdm_member (v : Int) (p : SubsysPtr) (r : Run) : Result Unit :=
  match (r.st.mem p).name with
  | none => .fault r
  | some name =>
    if name = EXTERNAL_MODEM then
      .returned () { r with st := { r.st with mdm_is_in_restart := v } }
    else .returned () r

/-- The loops that set `mdm_is_in_restart`, compiled in only for the APQ8064
HSIC configuration. -/
def mdm_mark (cfg : Config) (restart_list : List (Option SubsysPtr)) (count : Nat)
    (v : Int) (r : Run) : Result Unit :=
  if cfg.CONFIG_APQ8064_HSIC then for_up (on_slot restart_list (mdm_member v)) 0 count r
  else .returned () r

/-- The locals `restart_list`, `restart_list_count`, `powerup_lock` and
`shutdown_lock` of the worker: the restart unit. -/
structure restart_unit where
  restart_list : List (Option SubsysPtr)
  restart_list_count : Nat
  powerup_lock : Mutex
  shutdown_lock : Mutex
  deriving DecidableEq, Repr

/-- Lines 392-405 of the worker: the restart unit of a request.  A group pointer
that is not in the active table reads as a group without members. -/
def resolve_unit (r_work : restart_wq_data) (s : State) : restart_unit :=
  let subsys := r_work.subsys
  let soc_restart_order : Option OrderPtr :=
    if r_work.use_restart_order ≠ 0 then (s.mem subsys).restart_order else none
  match soc_restart_order with
  | none =>
    { restart_list := (s.mem subsys).single_restart_list
      restart_list_count := 1
      powerup_lock := .subsys_powerup_lock subsys
      shutdown_lock := .subsys_shutdown_lock subsys }
  | some j =>
    { restart_list := (s.restart_orders.getD j ⟨[], 0, []⟩).subsys_ptrs
      restart_list_count := (s.restart_orders.getD j ⟨[], 0, []⟩).count
      powerup_lock := .order_powerup_lock j
      shutdown_lock := .order_shutdown_lock j }

/-- The label `out:` of the worker (lines 520-523). -/
def wq_out (r_work : restart_wq_data) (r : Run) : Result Unit :=
  .returned () (((r.emit (.wake_unlock r_work.subsys)).emit
    (.wake_lock_destroy r_work.subsys)).emit (.kfree_work r_work.subsys))

/-- Lines 418-518 of the worker: what runs once both locks of the unit are held. -/
def wq_sequence (cfg : Config) (env : EpochEnv) (r_work : restart_wq_data)
    (u : restart_unit) (r : Run) : Result Unit :=
  (do_epoch_check env r_work.subsys r).bind fun _ r =>
  (mutex_lock .soc_order_reg_lock r).bind fun _ r =>
  (mdm_mark cfg u.restart_list u.restart_list_count 1 r).bind fun _ r =>
  (_send_notification_to_order u.restart_list u.restart_list_count
    .SUBSYS_BEFORE_SHUTDOWN r).bind fun _ r =>
  (for_up (on_slot u.restart_list shutdown_member) 0 u.restart_list_count r).bind fun _ r =>
  (_send_notification_to_order u.restart_list u.restart_list_count
    .SUBSYS_AFTER_SHUTDOWN r).bind fun _ r =>
  (for_up (on_slot u.restart_list ramdump_member) 0 u.restart_list_count
    (mutex_unlock u.shutdown_lock r)).bind fun _ r =>
  (_send_notification_to_order u.restart_list u.restart_list_count
    .SUBSYS_BEFORE_POWERUP r).bind fun _ r =>
  (for_down (on_slot u.restart_list powerup_member) u.restart_list_count r).bind fun _ r =>
  (_send_notification_to_order u.restart_list u.restart_list_count
    .SUBSYS_AFTER_POWERUP r).bind fun _ r =>
  (mdm_mark cfg u.restart_list u.restart_list_count 0 r).bind fun _ r =>
  let r1 : Run :=
    if cfg.CONFIG_QSC_MODEM then { r with st := { r.st with crashed_modem := 0 } } else r
  wq_out r_work (mutex_unlock .soc_order_reg_lock (mutex_unlock u.powerup_lock r1))

/-- The function `subsystem_restart_wq_func(work)`. -/
def subsystem_restart_wq_func (cfg : Config) (env : EpochEnv) (r_work : restart_wq_data)
    (r : Run) : Result Unit :=
  let u := resolve_unit r_work r.st
  match mutex_trylock u.shutdown_lock r with
  | (false, r1) => wq_out r_work r1
  | (true, r1) =>
    match mutex_trylock u.powerup_lock r1 with
    | (false, r2) => .panicked r2
    | (true, r2) => wq_sequence cfg env r_work u r2

/-- The function `__subsystem_restart(subsys)`; `kzalloc_ok` and `queue_rc` are
what `kzalloc` and `queue_work` answer.  The work item is zero-filled, so
`use_restart_order` is 0 unless it is set. -/
def __subsystem_restart (cfg : Config) (kzalloc_ok : Bool) (queue_rc : Int)
    (subsys : SubsysPtr) (r : Run) : Result Unit :=
  if kzalloc_ok = false then .panicked r
  else
    let data : restart_wq_data :=
      { subsys := subsys
        use_restart_order :=
          if r.st.restart_level ≠ cfg.RESET_SUBSYS_INDEPENDENT then 1 else 0 }
    let r1 := r.emit (.wake_lock subsys)
    let r2 : Run := { r1 with st := { r1.st with ssr_wq := r1.st.ssr_wq ++ [data] } }
    if queue_rc < 0 then .panicked r2 else .returned () r2

/-! ## Registry and restart-order table -/

/-- The test `!strncmp(a, b, n)` on names without embedded NUL. -/
def strncmp_eq (a b : String) (n : Nat) : Bool :=
  a.data.take n == b.data.take n

/-- The inner loop of `_update_restart_order` over the names of one group, from
index `i`: the first index whose name matches. -/
def find_name (cfg : Config) (name : String) : List String → Nat → Option Nat
  | [], _ => none
  | entry :: rest, i =>
    if strncmp_eq entry name cfg.SUBSYS_NAME_MAX_LENGTH then some i
    else find_name cfg name rest (i + 1)

/-- The outer loop of `_update_restart_order` over the groups from index `j`: the
first group with a matching name, and the index of that name. -/
def find_order (cfg : Config) (name : String) :
    List subsys_soc_restart_order → Nat → Option (OrderPtr × Nat)
  | [], _ => none
  | order :: rest, j =>
    match find_name cfg name (order.subsystem_list.take order.count) 0 with
    | some i => some (j, i)
    | none => find_order cfg name rest (j + 1)

/-- The function `_update_restart_order(subsys)`; the argument is `none` for a
null pointer. -/
def _update_restart_order (cfg : Config) (subsys : Option SubsysPtr) (r : Run) :
    Result (Option OrderPtr) :=
  match subsys with
  | none => .returned none r
  | some p =>
    match (r.st.mem p).name with
    | none => .returned none r
    | some name =>
      (mutex_lock .soc_order_reg_lock r).bind fun _ r1 =>
      match find_order cfg name r1.st.restart_orders 0 with
      | some (j, i) =>
        let orders := r1.st.restart_orders.modify
          (fun o => { o with subsys_ptrs := o.subsys_ptrs.set i (some p) }) j
        .returned (some j)
          (mutex_unlock .soc_order_reg_lock
            { r1 with st := { r1.st with restart_orders := orders } })
      | none => .returned none (mutex_unlock .soc_order_reg_lock r1)

/-- Modelled from the spec: the InvalidArgument error code, `EINVAL` of
linux/errno.h. -/
def EINVAL : Int := 22

/-- The function `ssr_register_subsystem(subsys)`; `mutex_init` leaves the two
mutexes of the subsystem free. -/
def ssr_register_subsystem (cfg : Config) (subsys : Option SubsysPtr) (r : Run) :
    Result Int :=
  match subsys with
  | none => .returned (-EINVAL) r
  | some p =>
    match (r.st.mem p).name with
    | none => .returned (-EINVAL) r
    | some name =>
      if (r.st.mem p).powerup.isNone ∨ (r.st.mem p).shutdown.isNone then
        .returned (-EINVAL) r
      else
        let handle := cfg.subsys_notif_add_subsys name
        let r1 : Run := { r with st := { r.st with
          mem := Function.update r.st.mem p { r.st.mem p with notif_handle := handle } } }
        (_update_restart_order cfg (some p) r1).bind fun order r2 =>
        let d := r2.st.mem p
        let d1 : subsys_data :=
          { d with restart_order := order, single_restart_list := [some p] }
        .returned 0 { r2 with st := { r2.st with
          mem := Function.update r2.st.mem p d1
          held := (r2.st.held.erase (.subsys_shutdown_lock p)).erase (.subsys_powerup_lock p)
          subsystem_list := p :: r2.st.subsystem_list } }

/-- The name list `_order_8x60_all`. -/
def _order_8x60_all : List String := ["external_modem", "modem", "lpass"]

/-- The name list `_order_8x60_modems`. -/
def _order_8x60_modems : List String := ["external_modem", "modem"]

/-- The name list `order_8960`. -/
def order_8960 : List String := ["modem", "lpass"]

/-- The name list `order_8960_sglte`. -/
def order_8960_sglte : List String := ["external_modem", "modem"]

/-- The name list `order_8064_dsda`. -/
def order_8064_dsda : List String := ["external_modem", "qsc_modem"]

/-- A statically initialised group: `count = ARRAY_SIZE(order)` and
`subsys_ptrs = {[ARRAY_SIZE(order)] = NULL}`, an array of `count + 1` nulls. -/
def static_restart_order (order : List String) : subsys_soc_restart_order :=
  { subsystem_list := order
    count := order.length
    subsys_ptrs := List.replicate (order.length + 1) none }

/-- The table `orders_8x60_all`. -/
def orders_8x60_all : List subsys_soc_restart_order :=
  [static_restart_order _order_8x60_all]

/-- The table `orders_8x60_modems`. -/
def orders_8x60_modems : List subsys_soc_restart_order :=
  [static_restart_order _order_8x60_modems]

/-- The table `restart_orders_8960`. -/
def restart_orders_8960 : List subsys_soc_restart_order :=
  [static_restart_order order_8960]

/-- The table `restart_orders_8960_sglte`. -/
def restart_orders_8960_sglte : List subsys_soc_restart_order :=
  [static_restart_order order_8960_sglte]

/-- The table `restart_orders_8064_dsda`. -/
def restart_orders_8064_dsda : List subsys_soc_restart_order :=
  [static_restart_order order_8064_dsda]

/-! ## Restart level and boot-time initialisation -/

/-- What the restart-level code and the boot-time initialisation ask of the build
and of the board: two compile-time switches, the answers of the external queries
(mach/board_htc.h, mach/socinfo.h, qsc_dsda.h, which are not among the sources) and
whether `alloc_workqueue` returned a queue. -/
structure Board where
  /-- True when CONFIG_MSM_SSR_INDEPENDENT is defined. -/
  CONFIG_MSM_SSR_INDEPENDENT : Bool
  /-- True when CONFIG_ARCH_DUMMY is defined. -/
  CONFIG_ARCH_DUMMY : Bool
  /-- The answer of `board_mfg_mode()` is non-zero. -/
  board_mfg_mode : Bool
  /-- The bit KERNEL_FLAG_ENABLE_SSR_MODEM of `get_kernel_flag()` is set. -/
  kernel_flag_enable_ssr_modem : Bool
  /-- The bit RADIO_FLAG_USB_UPLOAD of `get_radio_flag()` is set. -/
  radio_flag_usb_upload : Bool
  is_qsc_dsda : Bool
  cpu_is_msm8x60 : Bool
  cpu_is_msm8960 : Bool
  cpu_is_msm8930 : Bool
  cpu_is_msm8930aa : Bool
  cpu_is_msm9615 : Bool
  cpu_is_apq8064 : Bool
  cpu_is_msm8627 : Bool
  socinfo_get_platform_subtype : Nat
  PLATFORM_SUBTYPE_SGLTE : Nat
  PLATFORM_SUBTYPE_DSDA : Nat
  machine_is_m7_evm : Bool
  alloc_workqueue_ok : Bool

/-- Modelled from the spec: what `param_set_int(val, kp)` of kernel/params.c, which
is not among the sources, makes of the text written to the parameter: either the
text parses as an int `v`, or it does not and the error `ret` is reported. -/
inductive written_value
  | parses (v : Int)
  | rejected (ret : Int)
  deriving DecidableEq, Repr

/-- Modelled from the spec: `param_set_int(val, kp)` for `kp->arg = &restart_level`:
a text that parses is stored in the variable and 0 is returned; a text that does
not parse leaves the variable as it is and the error is returned. -/
def param_set_int (val : written_value) (s : State) : Int × State :=
  match val with
  | .parses v => (0, { s with restart_level := v })
  | .rejected ret => (ret, s)

/-- The function `restart_level_set(val, kp)`, the setter of the module parameter
`restart_level`. -/
def restart_level_set (cfg : Config) (board : Board) (val : written_value) (s : State) :
    Int × State :=
  let old_val := s.restart_level
  if board.cpu_is_msm9615 then (-EINVAL, s)
  else
    match param_set_int val s with
    | (ret, s1) =>
      if ret ≠ 0 then (ret, s1)
      else
        let s2 : State :=
          if s1.restart_level = cfg.RESET_SUBSYS_INDEPENDENT ∧ board.is_qsc_dsda = true then
            { s1 with restart_level := cfg.RESET_SUBSYS_COUPLED }
          else s1
        if s2.restart_level = cfg.RESET_SOC ∨ s2.restart_level = cfg.RESET_SUBSYS_COUPLED ∨
            s2.restart_level = cfg.RESET_SUBSYS_INDEPENDENT then
          (0, s2)
        else
          (-EINVAL, { s2 with restart_level := old_val })

/-- The function `subsystem_update_restart_level_for_crc()`. -/
def subsystem_update_restart_level_for_crc (cfg : Config) (board : Board) (s : State) : State :=
  if board.CONFIG_MSM_SSR_INDEPENDENT then s
  else if board.board_mfg_mode = true ∨ board.kernel_flag_enable_ssr_modem = true then
    { s with restart_level := cfg.RESET_SOC }
  else if board.is_qsc_dsda then
    { s with restart_level := cfg.RESET_SUBSYS_COUPLED }
  else
    { s with restart_level := cfg.RESET_SUBSYS_INDEPENDENT }

/-- The loop `for (i = 0; i < n; i++) { mutex_init(powerup_lock); mutex_init(shutdown_lock); }`
over the groups of the active table: the two mutexes of each group are left
free. -/
def init_order_locks : Nat → State → State
  | 0, s => s
  | n + 1, s =>
    let s1 := init_order_locks n s
    { s1 with held := (s1.held.erase (.order_powerup_lock n)).erase (.order_shutdown_lock n) }

/-- The function `ssr_init_soc_restart_orders()`: the choice of the active table.
A null `restart_orders` is the empty table.  The registration of the panic
notifier is not part of the state, and neither are the mutexes of
`orders_8x60_modems`, a table that is never made active. -/
def ssr_init_soc_restart_orders (board : Board) (s : State) : Int × State :=
  let s1 : State :=
    if board.cpu_is_msm8x60 then
      init_order_locks orders_8x60_all.length { s with restart_orders := orders_8x60_all }
    else s
  let s2 : State :=
    if board.cpu_is_msm8960 = true ∨ board.cpu_is_msm8930 = true ∨
        board.cpu_is_msm8930aa = true ∨ board.cpu_is_msm9615 = true ∨
        board.cpu_is_apq8064 = true ∨ board.cpu_is_msm8627 = true then
      let orders :=
        if board.socinfo_get_platform_subtype = board.PLATFORM_SUBTYPE_SGLTE then
          restart_orders_8960_sglte
        else if board.socinfo_get_platform_subtype = board.PLATFORM_SUBTYPE_DSDA then
          restart_orders_8064_dsda
        else restart_orders_8960
      let orders :=
        if board.CONFIG_ARCH_DUMMY = true ∧ board.machine_is_m7_evm = false then
          restart_orders_8064_dsda
        else orders
      init_order_locks orders.length { s1 with restart_orders := orders }
    else s1
  if s2.restart_orders = [] then (-EINVAL, s2) else (0, s2)

/-- The function `subsys_restart_init()`, run once at boot. -/
def subsys_restart_init (cfg : Config) (board : Board) (r : Run) : Result Int :=
  let level : Int :=
    if board.CONFIG_MSM_SSR_INDEPENDENT then
      if board.board_mfg_mode = true ∨ board.kernel_flag_enable_ssr_modem = true then
        cfg.RESET_SOC
      else if board.is_qsc_dsda then cfg.RESET_SUBSYS_COUPLED
      else cfg.RESET_SUBSYS_INDEPENDENT
    else
      if board.board_mfg_mode = false ∧ board.kernel_flag_enable_ssr_modem = true then
        if board.is_qsc_dsda then cfg.RESET_SUBSYS_COUPLED
        else cfg.RESET_SUBSYS_INDEPENDENT
      else cfg.RESET_SOC
  let s1 : State := { r.st with restart_level := level }
  let s2 : State := if board.radio_flag_usb_upload then { s1 with enable_ramdumps := 1 } else s1
  if board.alloc_workqueue_ok = false then .panicked { r with st := s2 }
  else
    let s3 : State := { s2 with ssr_wq := [] }
    let s4 : State := if cfg.CONFIG_QSC_MODEM then { s3 with crashed_modem := 0 } else s3
    match ssr_init_soc_restart_orders board s4 with
    | (ret, s5) => .returned ret { r with st := s5 }

/-! ## Restart requests -/

/-- What subsystem_restart obtains from its environment: the answer of the external
`ehci_hsic_is_2nd_enum_done()`, whether `kzalloc` returned memory for the work
item, and what `queue_work` returned. -/
structure RestartEnv where
  ehci_hsic_is_2nd_enum_done : Bool
  kzalloc_ok : Bool
  queue_rc : Int
  deriving DecidableEq, Repr

/-- The loop of `_find_subsystem` over the entries of `subsystem_list` still to
visit: the first record whose name matches.  A record with a null name makes
`strncmp` read through a null pointer. -/
def find_subsystem_scan (cfg : Config) (subsys_name : String) (r : Run) :
    List SubsysPtr → Result (Option SubsysPtr)
  | [] => .returned none r
  | subsys :: rest =>
    match (r.st.mem subsys).name with
    | none => .fault r
    | some name =>
      if strncmp_eq name subsys_name cfg.SUBSYS_NAME_MAX_LENGTH then .returned (some subsys) r
      else find_subsystem_scan cfg subsys_name r rest

/-- The function `_find_subsystem(subsys_name)`.  The scan runs under the spinlock
`subsystem_list_lock` with interrupts off, taken and released inside the
function on every path. -/
def _find_subsystem (cfg : Config) (subsys_name : String) (r : Run) :
    Result (Option SubsysPtr) :=
  find_subsystem_scan cfg subsys_name r r.st.subsystem_list

/-- The block of subsystem_restart under CONFIG_QSC_MODEM: `crashed_modem` records
which of the two modems was named. -/
def mark_crashed_modem (cfg : Config) (subsys_name : String) (r : Run) : Run :=
  if cfg.CONFIG_QSC_MODEM then
    if subsys_name = "external_modem" then { r with st := { r.st with crashed_modem := 1 } }
    else if subsys_name = "qsc_modem" then { r with st := { r.st with crashed_modem := 2 } }
    else r
  else r

/-- The function `subsystem_restart(subsys_name)`; the argument is `none` for a
null pointer.  The debug dump of the UART ring buffer and the message handed to
`set_restart_to_ramdump` before the panic on APQ8064 leave the globals of the file
alone. -/
def subsystem_restart (cfg : Config) (env : RestartEnv) (subsys_name : Option String)
    (r : Run) : Result Int :=
  match subsys_name with
  | none => .returned (-EINVAL) r
  | some subsys_name =>
    if cfg.CONFIG_APQ8064_HSIC = true ∧ subsys_name = EXTERNAL_MODEM ∧
        env.ehci_hsic_is_2nd_enum_done = false then
      .returned (-EINVAL) r
    else
      (_find_subsystem cfg subsys_name r).bind fun found r =>
      match found with
      | none => .returned (-EINVAL) r
      | some subsys =>
        let r1 := mark_crashed_modem cfg subsys_name r
        if r1.st.restart_level = cfg.RESET_SUBSYS_COUPLED ∨
            r1.st.restart_level = cfg.RESET_SUBSYS_INDEPENDENT then
          (__subsystem_restart cfg env.kzalloc_ok env.queue_rc subsys r1).bind fun _ r2 =>
          .returned 0 r2
        else if r1.st.restart_level = cfg.RESET_SOC then
          if subsys_name = "riva" then
            (__subsystem_restart cfg env.kzalloc_ok env.queue_rc subsys r1).bind fun _ r2 =>
            .returned 0 r2
          else .panicked r1
        else .panicked r1

/-! ## Low-memory killer (drivers/staging/android/lowmemorykiller.c) -/

/-- Modelled from the spec: a thread as lowmem_shrink reads it (`struct task_struct`
of linux/sched.h, a header that is not among the sources): whether its flag
TIF_MEMDIE is set, and `get_mm_rss(t->mm)`, the resident size in pages, `none`
when `t->mm` is null. -/
structure task_thread where
  TIF_MEMDIE : Bool
  mm_rss : Option Nat
  deriving DecidableEq, Repr

/-- Modelled from the spec: an entry of the process list (`for_each_process`): the
flag PF_KTHREAD of the group leader, the `oom_score_adj` and `oom_adj` of its
`signal`, and the threads of the group, leader first. -/
structure task_struct where
  pid : Nat
  PF_KTHREAD : Bool
  oom_score_adj : Int
  oom_adj : Int
  threads : List task_thread
  deriving DecidableEq, Repr

/-- The globals of lowmemorykiller.c, with the process list.  The arrays have six
elements; `scan_mutex` says whether the mutex is held. -/
structure LmkState where
  lowmem_adj : List Int
  lowmem_adj_size : Int
  lowmem_minfree : List Int
  lowmem_minfree_size : Int
  lowmem_fork_boost_minfree : List Nat
  minfree_tmp : List Nat
  lowmem_deathpending_timeout : Nat
  lowmem_fork_boost_timeout : Nat
  lowmem_fork_boost : Nat
  scan_mutex : Bool
  tasks : List task_struct
  deriving DecidableEq, Repr

/-- What lowmem_shrink reads from the kernel: `jiffies`, the constants HZ and
OOM_SCORE_ADJ_MAX (linux/oom.h), and the `global_page_state` counters. -/
structure LmkEnv where
  jiffies : Nat
  HZ : Nat
  OOM_SCORE_ADJ_MAX : Int
  NR_FREE_PAGES : Nat
  NR_FILE_PAGES : Nat
  NR_SHMEM : Nat
  NR_MLOCK : Nat
  NR_ACTIVE_ANON : Nat
  NR_ACTIVE_FILE : Nat
  NR_INACTIVE_ANON : Nat
  NR_INACTIVE_FILE : Nat
  deriving DecidableEq, Repr

/-- The value of an `int` converted to `size_t` (32 bits on this ARM target), as
the comparison of an `int` with a `size_t` does. -/
def to_size_t (x : Int) : Nat :=
  (x % 2 ^ 32).toNat

/-- Modelled from the spec: the macro `time_before_eq(a, b)` of linux/jiffies.h,
`(long)(a) - (long)(b) <= 0`. -/
def time_before_eq (a b : Nat) : Bool :=
  decide (to_long ((a : Int) - (b : Int)) ≤ 0)

/-- The function `test_task_flag(p, TIF_MEMDIE)`: whether a thread of the group has
the flag. -/
def test_task_flag (p : task_struct) : Bool :=
  p.threads.any fun t => t.TIF_MEMDIE

/-- Modelled from the spec: `find_lock_task_mm(tsk)` of mm/oom_kill.c: the first
thread of the group that has a memory map, as its number in the group and the
resident size of its map. -/
def find_lock_task_mm_from : List task_thread → Nat → Option (Nat × Nat)
  | [], _ => none
  | t :: rest, j =>
    match t.mm_rss with
    | some rss => some (j, rss)
    | none => find_lock_task_mm_from rest (j + 1)

/-- Modelled from the spec: `find_lock_task_mm(tsk)`. -/
def find_lock_task_mm (tsk : task_struct) : Option (Nat × Nat) :=
  find_lock_task_mm_from tsk.threads 0

/-- The loop of lines 164-165 that fills `minfree_tmp[i]` for
`i = i0, ..., i0 + n - 1`; the sum is a `size_t`. -/
def fill_minfree_tmp (lowmem_minfree : List Int) (lowmem_fork_boost_minfree : List Nat) :
    Nat → Nat → List Nat → List Nat
  | _, 0, minfree_tmp => minfree_tmp
  | i, n + 1, minfree_tmp =>
    fill_minfree_tmp lowmem_minfree lowmem_fork_boost_minfree (i + 1) n
      (minfree_tmp.set i
        ((to_size_t (lowmem_minfree.getD i 0) + lowmem_fork_boost_minfree.getD i 0) % 2 ^ 32))

/-- The loop of lines 176-183 over `i = i0, ..., i0 + n - 1`: the first index at
which both counts, compared as `size_t`, are below `min_array[i]` sets
`min_score_adj` and ends the loop. -/
def threshold_loop (lowmem_adj : List Int) (min_array : List Nat) (other_free other_file : Int) :
    Nat → Nat → Int → Int
  | _, 0, min_score_adj => min_score_adj
  | i, n + 1, min_score_adj =>
    if to_size_t other_free < min_array.getD i 0 ∧ to_size_t other_file < min_array.getD i 0 then
      lowmem_adj.getD i 0
    else
      threshold_loop lowmem_adj min_array other_free other_file (i + 1) n min_score_adj

/-- The locals `selected`, `selected_tasksize`, `selected_oom_score_adj` and
`selected_oom_adj`; the selected thread is named by the position of its process
in the process list and its number in the group. -/
structure Selection where
  selected : Option (Nat × Nat)
  selected_tasksize : Int
  selected_oom_score_adj : Int
  selected_oom_adj : Int
  deriving DecidableEq, Repr

/-- The loop `for_each_process(tsk)` of lines 203-247 over the processes still to
visit, `k` being the position of the first of them.  `none`: a task that is
already dying was met before the timeout (lines 210-218).  Resident sizes are
page counts, far below the range of `int`. -/
def select_loop (env : LmkEnv) (s : LmkState) (min_score_adj : Int) :
    List task_struct → Nat → Selection → Option Selection
  | [], _, sel => some sel
  | tsk :: rest, k, sel =>
    if tsk.PF_KTHREAD then select_loop env s min_score_adj rest (k + 1) sel
    else if time_before_eq env.jiffies s.lowmem_deathpending_timeout ∧
        test_task_flag tsk then none
    else
      match find_lock_task_mm tsk with
      | none => select_loop env s min_score_adj rest (k + 1) sel
      | some (j, rss) =>
        let oom_score_adj := tsk.oom_score_adj
        if oom_score_adj < min_score_adj then select_loop env s min_score_adj rest (k + 1) sel
        else
          let tasksize : Int := rss
          if tasksize ≤ 0 then select_loop env s min_score_adj rest (k + 1) sel
          else if sel.selected.isSome ∧ (oom_score_adj < sel.selected_oom_score_adj ∨
              (oom_score_adj = sel.selected_oom_score_adj ∧
                tasksize ≤ sel.selected_tasksize)) then
            select_loop env s min_score_adj rest (k + 1) sel
          else
            select_loop env s min_score_adj rest (k + 1)
              { selected := some (k, j), selected_tasksize := tasksize,
                selected_oom_score_adj := oom_score_adj, selected_oom_adj := tsk.oom_adj }

/-- What a call of lowmem_shrink does: the value returned, the globals it leaves,
the thread it sent SIGKILL to (process position and thread number), and whether
it dumped the memory information. -/
structure LmkResult where
  ret : Int
  st : LmkState
  killed : Option (Nat × Nat)
  dumped : Bool
  deriving DecidableEq, Repr

/-- The threshold `min_score_adj` of lines 156-183 and the globals after them. -/
def lowmem_threshold (env : LmkEnv) (s : LmkState) : Int × LmkState :=
  let array_size : Int := 6
  let other_free : Int := env.NR_FREE_PAGES
  let other_file : Int := (env.NR_FILE_PAGES : Int) - env.NR_SHMEM - env.NR_MLOCK
  let boost : Bool := decide (s.lowmem_fork_boost ≠ 0) &&
    time_before_eq env.jiffies s.lowmem_fork_boost_timeout
  let filled := fill_minfree_tmp s.lowmem_minfree s.lowmem_fork_boost_minfree
    0 s.lowmem_minfree_size.toNat s.minfree_tmp
  let s1 : LmkState := if boost then { s with minfree_tmp := filled } else s
  let min_array : List Nat :=
    if boost then s1.minfree_tmp else s.lowmem_minfree.map to_size_t
  let array_size := if s.lowmem_adj_size < array_size then s.lowmem_adj_size else array_size
  let array_size :=
    if s.lowmem_minfree_size < array_size then s.lowmem_minfree_size else array_size
  (threshold_loop s.lowmem_adj min_array other_free other_file 0 array_size.toNat
    (env.OOM_SCORE_ADJ_MAX + 1), s1)

/-- The call `set_tsk_thread_flag(selected, TIF_MEMDIE)`. -/
def set_memdie (tasks : List task_struct) (k j : Nat) : List task_struct :=
  tasks.modify (fun tsk =>
    { tsk with threads := tsk.threads.modify (fun t => { t with TIF_MEMDIE := true }) j }) k

/-- The function `lowmem_shrink(s, sc)`, `nr_to_scan` being `sc->nr_to_scan`. -/
def lowmem_shrink (env : LmkEnv) (nr_to_scan : Nat) (s : LmkState) : LmkResult :=
  if nr_to_scan > 0 ∧ s.scan_mutex = true then
    { ret := 0, st := s, killed := none, dumped := false }
  else
    let s0 : LmkState := if nr_to_scan > 0 then { s with scan_mutex := true } else s
    let min_score_adj := (lowmem_threshold env s0).1
    let s1 := (lowmem_threshold env s0).2
    let rem : Int := (env.NR_ACTIVE_ANON : Int) + env.NR_ACTIVE_FILE + env.NR_INACTIVE_ANON +
      env.NR_INACTIVE_FILE
    if nr_to_scan ≤ 0 ∨ min_score_adj = env.OOM_SCORE_ADJ_MAX + 1 then
      { ret := rem
        st := if nr_to_scan > 0 then { s1 with scan_mutex := false } else s1
        killed := none, dumped := false }
    else
      match select_loop env s1 min_score_adj s1.tasks 0
          { selected := none, selected_tasksize := 0,
            selected_oom_score_adj := min_score_adj, selected_oom_adj := 0 } with
      | none => { ret := 0, st := { s1 with scan_mutex := false }, killed := none,
                  dumped := false }
      | some sel =>
        match sel.selected with
        | some (k, j) =>
          { ret := rem - sel.selected_tasksize
            st := { s1 with
              lowmem_deathpending_timeout := (env.jiffies + env.HZ) % 2 ^ 32
              tasks := set_memdie s1.tasks k j
              scan_mutex := false }
            killed := some (k, j)
            dumped := decide (sel.selected_oom_adj < 7) }
        | none => { ret := rem, st := { s1 with scan_mutex := false }, killed := none,
                    dumped := false }

/-! ## The system of restart workers

Several instances of the worker run side by side on the work queue.  What they
share is the mutexes, so the interleaving is modelled at the grain of the mutex
operations of subsystem_restart_wq_func: a worker moves from one program point
to the next, and the code between two mutex operations is summarised by whether
it panics. -/

/-- The identity of a restart unit: a single subsystem, or a group of the table. -/
inductive UnitId
  | single (p : SubsysPtr)
  | group (j : OrderPtr)
  deriving DecidableEq, Repr

/-- The shutdown lock of a unit (lines 399 and 404). -/
def UnitId.shutdown_lock : UnitId → Mutex
  | .single p => .subsys_shutdown_lock p
  | .group j => .order_shutdown_lock j

/-- The powerup lock of a unit (lines 398 and 403). -/
def UnitId.powerup_lock : UnitId → Mutex
  | .single p => .subsys_powerup_lock p
  | .group j => .order_powerup_lock j

/-- The program points of subsystem_restart_wq_func at which another worker can be
observed: one before each mutex operation, and the end. -/
inductive Pc
  /-- Before `mutex_trylock(shutdown_lock)`, line 409. -/
  | at_trylock_shutdown
  /-- Before `mutex_trylock(powerup_lock)`, line 414. -/
  | at_trylock_powerup
  /-- Before `do_epoch_check`, line 418. -/
  | at_epoch_check
  /-- Before `mutex_lock(&soc_order_reg_lock)`, line 420. -/
  | at_lock_soc
  /-- In lines 422-457, before `mutex_unlock(shutdown_lock)`, line 459. -/
  | in_shutdown
  /-- In lines 462-513, before `mutex_unlock(powerup_lock)`, line 514. -/
  | in_powerup
  /-- Before `mutex_unlock(&soc_order_reg_lock)`, line 516. -/
  | at_unlock_soc
  /-- At the label `out:`, lines 520-523. -/
  | at_out
  /-- After the return. -/
  | finished
  deriving DecidableEq, Repr

/-- A running instance of the worker: its restart unit (fixed by lines 392-405) and
its program point. -/
structure Worker where
  unit : UnitId
  pc : Pc
  deriving DecidableEq, Repr

/-- The system of restart workers: the mutexes that are held, the workers, and
whether `panic()` has halted the system. -/
structure Sys where
  held : List Mutex
  workers : List Worker
  panicked : Bool
  deriving DecidableEq, Repr

/-- One step of a worker from its program point to the next, given the mutexes
held: the new set of held mutexes, the next program point, and whether the step
panicked.  `fails` is what the code between two mutex operations does: whether the
crash-loop check, a shutdown callback or a powerup callback makes it panic.
`none`: the step cannot be taken now (the worker waits in `mutex_lock`, or it has
finished). -/
def Worker.step (held : List Mutex) (w : Worker) (fails : Bool) :
    Option (List Mutex × Pc × Bool) :=
  match w.pc with
  | .at_trylock_shutdown =>
    if w.unit.shutdown_lock ∈ held then some (held, .at_out, false)
    else some (w.unit.shutdown_lock :: held, .at_trylock_powerup, false)
  | .at_trylock_powerup =>
    if w.unit.powerup_lock ∈ held then some (held, .at_trylock_powerup, true)
    else some (w.unit.powerup_lock :: held, .at_epoch_check, false)
  | .at_epoch_check =>
    if fails then some (held, .at_epoch_check, true) else some (held, .at_lock_soc, false)
  | .at_lock_soc =>
    if Mutex.soc_order_reg_lock ∈ held then none
    else some (.soc_order_reg_lock :: held, .in_shutdown, false)
  | .in_shutdown =>
    if fails then some (held, .in_shutdown, true)
    else some (held.erase w.unit.shutdown_lock, .in_powerup, false)
  | .in_powerup =>
    if fails then some (held, .in_powerup, true)
    else some (held.erase w.unit.powerup_lock, .at_unlock_soc, false)
  | .at_unlock_soc => some (held.erase .soc_order_reg_lock, .at_out, false)
  | .at_out => some (held, .finished, false)
  | .finished => none

/-- Worker number `i` takes its next step; nothing moves once the system has
panicked. -/
def Sys.step (s : Sys) (i : Nat) (fails : Bool) : Option Sys :=
  if s.panicked then none
  else
    match s.workers[i]? with
    | none => none
    | some w =>
      match w.step s.held fails with
      | none => none
      | some (held, pc, panicked) =>
        some { held := held, workers := s.workers.set i { w with pc := pc },
               panicked := panicked }

/-- A new request for the unit `u` is queued: a worker starts at the top of the
function. -/
def Sys.spawn (s : Sys) (u : UnitId) : Sys :=
  { s with workers := s.workers ++ [{ unit := u, pc := .at_trylock_shutdown }] }

/-- The states the system of workers can reach from the state with no worker and
every mutex free, by queueing requests and by steps of workers in any order. -/
inductive Reachable : Sys → Prop
  | init : Reachable { held := [], workers := [], panicked := false }
  | spawn (s : Sys) (u : UnitId) : Reachable s → s.panicked = false → Reachable (s.spawn u)
  | step (s s' : Sys) (i : Nat) (fails : Bool) :
      Reachable s → s.step i fails = some s' → Reachable s'

/-- The program points of _update_restart_order at which another thread can be
observed. -/
inductive RegPc
  /-- Before the tests of `subsys` and `subsys->name`, lines 278-282. -/
  | at_entry
  /-- Before `mutex_lock(&soc_order_reg_lock)`, line 284. -/
  | at_lock_soc
  /-- In the scan and the write of the order table, lines 285-291, before
  `mutex_unlock(&soc_order_reg_lock)`, line 292 or 297. -/
  | in_table
  /-- After the return. -/
  | finished
  deriving DecidableEq, Repr

/-- One step of a call of _update_restart_order from its program point to the next,
given the mutexes held; `null` is whether `subsys` or its name is null.  `none`:
the step cannot be taken now (the caller waits in `mutex_lock`, or it has
returned). -/
def RegPc.step (held : List Mutex) (pc : RegPc) (null : Bool) : Option (List Mutex × RegPc) :=
  match pc with
  | .at_entry => if null then some (held, .finished) else some (held, .at_lock_soc)
  | .at_lock_soc =>
    if Mutex.soc_order_reg_lock ∈ held then none
    else some (.soc_order_reg_lock :: held, .in_table)
  | .in_table => some (held.erase .soc_order_reg_lock, .finished)
  | .finished => none

/-- The system of restart workers together with the calls of
_update_restart_order (registrations) in progress. -/
structure RegSys where
  sys : Sys
  registrations : List RegPc
  deriving DecidableEq, Repr

/-- Worker number `i` takes its next step. -/
def RegSys.step_worker (s : RegSys) (i : Nat) (fails : Bool) : Option RegSys :=
  match s.sys.step i fails with
  | none => none
  | some sys' => some { s with sys := sys' }

/-- Registration number `k` takes its next step; nothing moves once the system has
panicked. -/
def RegSys.step_registration (s : RegSys) (k : Nat) (null : Bool) : Option RegSys :=
  if s.sys.panicked then none
  else
    match s.registrations[k]? with
    | none => none
    | some pc =>
      match pc.step s.sys.held null with
      | none => none
      | some (held, pc') =>
        some { sys := { s.sys with held := held }, registrations := s.registrations.set k pc' }

/-- The states the workers and the registrations can reach from the state with no
thread and every mutex free, by queueing requests, by starting registrations, and
by steps of workers and registrations in any order. -/
inductive RegReachable : RegSys → Prop
  | init : RegReachable { sys := { held := [], workers := [], panicked := false },
                          registrations := [] }
  | spawn (s : RegSys) (u : UnitId) : RegReachable s → s.sys.panicked = false →
      RegReachable { s with sys := s.sys.spawn u }
  | register (s : RegSys) : RegReachable s → s.sys.panicked = false →
      RegReachable { s with registrations := s.registrations ++ [.at_entry] }
  | step_worker (s s' : RegSys) (i : Nat) (fails : Bool) :
      RegReachable s → s.step_worker i fails = some s' → RegReachable s'
  | step_registration (s s' : RegSys) (k : Nat) (null : Bool) :
      RegReachable s → s.step_registration k null = some s' → RegReachable s'

/-! ## Vocabulary of the lemmas: members, traces, outcomes -/

/-- The non-null members among the slots `i, i+1, ..., i+n-1`, in that order. -/
def members_from (restart_list : List (Option SubsysPtr)) : Nat → Nat → List SubsysPtr
  | _, 0 => []
  | i, n + 1 =>
    match slot restart_list i with
    | none => members_from restart_list (i + 1) n
    | some p => p :: members_from restart_list (i + 1) n

/-- The registered (non-null) members of a restart unit, in list order. -/
def unit_members (u : restart_unit) : List SubsysPtr :=
  members_from u.restart_list 0 u.restart_list_count

/-- A member body run on a list of members, in order. -/
def for_list (member : SubsysPtr → Run → Result Unit) : List SubsysPtr → Run → Result Unit
  | [], r => .returned () r
  | p :: rest, r => (member p r).bind fun _ r1 => for_list member rest r1

/-- The notifications of one kind for the members `ms`, in order. -/
def notifs (s : State) (t : subsys_notif_type) (ms : List SubsysPtr) : List Event :=
  ms.map fun p => .notif (s.mem p).notif_handle t

/-- The events of callbacks of one kind, from the members called and the values
they returned. -/
def returns (mk : SubsysPtr → Int → Event) (pairs : List (SubsysPtr × Int)) : List Event :=
  pairs.map fun x => mk x.1 x.2

/-- The common shape of shutdown_member and powerup_member: call the callback
selected by `get`, record it with `mk`, panic on a negative return. -/
def call_member (get : subsys_data → Option (List Event → Int))
    (mk : SubsysPtr → Int → Event) (p : SubsysPtr) (r : Run) : Result Unit :=
  match get (r.st.mem p) with
  | none => .fault r
  | some f =>
    if f r.trace < 0 then .panicked (r.emit (mk p (f r.trace)))
    else .returned () (r.emit (mk p (f r.trace)))

/-- How a loop of fallible callbacks over the members `ms` can end, started in
state `s` with trace `tr`: every callback returned a non-negative value; or the
callbacks of the members before `p` returned non-negative values and that of `p`
a negative one, which is the last event before the panic; or `p` has no such
callback. -/
def CallLoop (get : subsys_data → Option (List Event → Int))
    (mk : SubsysPtr → Int → Event) (s : State) (ms : List SubsysPtr) (tr : List Event)
    (res : Result Unit) : Prop :=
  ∃ pairs : List (SubsysPtr × Int), (∀ x ∈ pairs, 0 ≤ x.2) ∧
    ((pairs.map Prod.fst = ms ∧ res = .returned () ⟨s, tr ++ returns mk pairs⟩) ∨
     (∃ p ret rest f, ms = pairs.map Prod.fst ++ p :: rest ∧ ret < 0 ∧
        get (s.mem p) = some f ∧ ret = f (tr ++ returns mk pairs) ∧
        res = .panicked ⟨s, tr ++ returns mk pairs ++ [mk p ret]⟩) ∨
     (∃ p rest, ms = pairs.map Prod.fst ++ p :: rest ∧ get (s.mem p) = none ∧
        res = .fault ⟨s, tr ++ returns mk pairs⟩))

/-- The members that provide a ramdump callback. -/
def ramdump_members (s : State) (ms : List SubsysPtr) : List SubsysPtr :=
  ms.filter fun p => (s.mem p).ramdump.isSome

/-- Whether the crash-loop check of `subsys` on the log and thresholds of `s`
panics (the check is run with every mutex free). -/
def epoch_fires (env : EpochEnv) (subsys : SubsysPtr) (s : State) : Bool :=
  (do_epoch_check env subsys ⟨{ s with held := [] }, []⟩).isPanicked

/-- The restart log that the crash-loop check of `subsys` on the log and
thresholds of `s` leaves. -/
def epoch_log (env : EpochEnv) (subsys : SubsysPtr) (s : State) : List restart_log :=
  (do_epoch_check env subsys ⟨{ s with held := [] }, []⟩).run.st.restart_log_list

/-- The events of the label `out:`. -/
def out_events (r_work : restart_wq_data) : List Event :=
  [.wake_unlock r_work.subsys, .wake_lock_destroy r_work.subsys, .kfree_work r_work.subsys]

/-- The globals a run of the worker can change, set in `s`. -/
def st_with (s : State) (held : List Mutex) (log : List restart_log) (mdm cm : Int) : State :=
  { s with held := held, restart_log_list := log, mdm_is_in_restart := mdm, crashed_modem := cm }

/-- The trace up to the start of the shutdown loop, after the trace `tr0` of admission. -/
def tr_before_shutdown (s : State) (u : restart_unit) (tr0 : List Event) : List Event :=
  tr0 ++ [.lock .restart_log_mutex, .unlock .restart_log_mutex] ++
    [.lock .soc_order_reg_lock] ++ notifs s .SUBSYS_BEFORE_SHUTDOWN (unit_members u)

/-- The trace up to the start of the powerup loop: `sd` and `rd` are the shutdown
and ramdump callbacks made, with the values they returned. -/
def tr_before_powerup (s : State) (u : restart_unit) (tr0 : List Event)
    (sd rd : List (SubsysPtr × Int)) : List Event :=
  tr_before_shutdown s u tr0 ++ returns .shutdown sd ++
    notifs s .SUBSYS_AFTER_SHUTDOWN (unit_members u) ++ [.unlock u.shutdown_lock] ++
    returns (.ramdump s.enable_ramdumps) rd ++
    notifs s .SUBSYS_BEFORE_POWERUP (unit_members u)

/-- The trace up to the end of the AFTER_POWERUP notifications. -/
def tr_after_powerup (s : State) (u : restart_unit) (tr0 : List Event)
    (sd rd pu : List (SubsysPtr × Int)) : List Event :=
  tr_before_powerup s u tr0 sd rd ++ returns .powerup pu ++
    notifs s .SUBSYS_AFTER_POWERUP (unit_members u)

/-- The trace of a completed sequence. -/
def tr_completed (s : State) (u : restart_unit) (r_work : restart_wq_data) (tr0 : List Event)
    (sd rd pu : List (SubsysPtr × Int)) : List Event :=
  tr_after_powerup s u tr0 sd rd pu ++
    [.unlock u.powerup_lock, .unlock .soc_order_reg_lock] ++ out_events r_work

/-- Every way lines 418-523 of the worker can end, started in state `s` with trace
`tr0`, with the exact trace of each. -/
inductive SeqOutcome (cfg : Config) (env : EpochEnv) (r_work : restart_wq_data)
    (u : restart_unit) (s : State) (tr0 : List Event) (res : Result Unit) : Prop
  | waiting_log
      (hlog : Mutex.restart_log_mutex ∈ s.held)
      (e : res = .blocked ⟨s, tr0⟩)
  | crash_loop
      (hlog : Mutex.restart_log_mutex ∉ s.held)
      (hfire : epoch_fires env r_work.subsys s = true)
      (e : res = .panicked ⟨st_with s (.restart_log_mutex :: s.held)
        (epoch_log env r_work.subsys s) s.mdm_is_in_restart s.crashed_modem,
        tr0 ++ [.lock .restart_log_mutex]⟩)
  | waiting
      (hlog : Mutex.restart_log_mutex ∉ s.held)
      (hfire : epoch_fires env r_work.subsys s = false)
      (hsoc : Mutex.soc_order_reg_lock ∈ s.held)
      (e : res = .blocked ⟨st_with s s.held (epoch_log env r_work.subsys s)
        s.mdm_is_in_restart s.crashed_modem,
        tr0 ++ [.lock .restart_log_mutex, .unlock .restart_log_mutex]⟩)
  | name_null (mdm : Int)
      (hlog : Mutex.restart_log_mutex ∉ s.held)
      (hfire : epoch_fires env r_work.subsys s = false)
      (hsoc : Mutex.soc_order_reg_lock ∉ s.held)
      (hcfg : cfg.CONFIG_APQ8064_HSIC = true)
      (hname : ∃ p ∈ unit_members u, (s.mem p).name = none)
      (e : res = .fault ⟨st_with s (.soc_order_reg_lock :: s.held)
        (epoch_log env r_work.subsys s) mdm s.crashed_modem,
        tr0 ++ [.lock .restart_log_mutex, .unlock .restart_log_mutex] ++
          [.lock .soc_order_reg_lock]⟩)
  | shutdown_failed (mdm : Int) (sd : List (SubsysPtr × Int)) (p : SubsysPtr) (ret : Int)
      (rest : List SubsysPtr) (f : List Event → Int)
      (hlog : Mutex.restart_log_mutex ∉ s.held)
      (hfire : epoch_fires env r_work.subsys s = false)
      (hsoc : Mutex.soc_order_reg_lock ∉ s.held)
      (hsd : ∀ x ∈ sd, 0 ≤ x.2)
      (hms : unit_members u = sd.map Prod.fst ++ p :: rest)
      (hret : ret < 0)
      (hf : (s.mem p).shutdown = some f)
      (hval : ret = f (tr_before_shutdown s u tr0 ++ returns .shutdown sd))
      (e : res = .panicked ⟨st_with s (.soc_order_reg_lock :: s.held)
        (epoch_log env r_work.subsys s) mdm s.crashed_modem,
        tr_before_shutdown s u tr0 ++ returns .shutdown sd ++ [.shutdown p ret]⟩)
  | shutdown_null (mdm : Int) (sd : List (SubsysPtr × Int)) (p : SubsysPtr)
      (rest : List SubsysPtr)
      (hlog : Mutex.restart_log_mutex ∉ s.held)
      (hfire : epoch_fires env r_work.subsys s = false)
      (hsoc : Mutex.soc_order_reg_lock ∉ s.held)
      (hsd : ∀ x ∈ sd, 0 ≤ x.2)
      (hms : unit_members u = sd.map Prod.fst ++ p :: rest)
      (hf : (s.mem p).shutdown = none)
      (e : res = .fault ⟨st_with s (.soc_order_reg_lock :: s.held)
        (epoch_log env r_work.subsys s) mdm s.crashed_modem,
        tr_before_shutdown s u tr0 ++ returns .shutdown sd⟩)
  | powerup_failed (mdm : Int) (sd rd pu : List (SubsysPtr × Int)) (p : SubsysPtr) (ret : Int)
      (rest : List SubsysPtr) (f : List Event → Int)
      (hlog : Mutex.restart_log_mutex ∉ s.held)
      (hfire : epoch_fires env r_work.subsys s = false)
      (hsoc : Mutex.soc_order_reg_lock ∉ s.held)
      (hsd : ∀ x ∈ sd, 0 ≤ x.2)
      (hsdm : sd.map Prod.fst = unit_members u)
      (hrdm : rd.map Prod.fst = ramdump_members s (unit_members u))
      (hpu : ∀ x ∈ pu, 0 ≤ x.2)
      (hms : (unit_members u).reverse = pu.map Prod.fst ++ p :: rest)
      (hret : ret < 0)
      (hf : (s.mem p).powerup = some f)
      (hval : ret = f (tr_before_powerup s u tr0 sd rd ++ returns .powerup pu))
      (e : res = .panicked ⟨st_with s ((Mutex.soc_order_reg_lock :: s.held).erase u.shutdown_lock)
        (epoch_log env r_work.subsys s) mdm s.crashed_modem,
        tr_before_powerup s u tr0 sd rd ++ returns .powerup pu ++ [.powerup p ret]⟩)
  | powerup_null (mdm : Int) (sd rd pu : List (SubsysPtr × Int)) (p : SubsysPtr)
      (rest : List SubsysPtr)
      (hlog : Mutex.restart_log_mutex ∉ s.held)
      (hfire : epoch_fires env r_work.subsys s = false)
      (hsoc : Mutex.soc_order_reg_lock ∉ s.held)
      (hsd : ∀ x ∈ sd, 0 ≤ x.2)
      (hsdm : sd.map Prod.fst = unit_members u)
      (hrdm : rd.map Prod.fst = ramdump_members s (unit_members u))
      (hpu : ∀ x ∈ pu, 0 ≤ x.2)
      (hms : (unit_members u).reverse = pu.map Prod.fst ++ p :: rest)
      (hf : (s.mem p).powerup = none)
      (e : res = .fault ⟨st_with s ((Mutex.soc_order_reg_lock :: s.held).erase u.shutdown_lock)
        (epoch_log env r_work.subsys s) mdm s.crashed_modem,
        tr_before_powerup s u tr0 sd rd ++ returns .powerup pu⟩)
  | name_null_late (mdm : Int) (sd rd pu : List (SubsysPtr × Int))
      (hlog : Mutex.restart_log_mutex ∉ s.held)
      (hfire : epoch_fires env r_work.subsys s = false)
      (hsoc : Mutex.soc_order_reg_lock ∉ s.held)
      (hsd : ∀ x ∈ sd, 0 ≤ x.2)
      (hsdm : sd.map Prod.fst = unit_members u)
      (hrdm : rd.map Prod.fst = ramdump_members s (unit_members u))
      (hpu : ∀ x ∈ pu, 0 ≤ x.2)
      (hpum : pu.map Prod.fst = (unit_members u).reverse)
      (hcfg : cfg.CONFIG_APQ8064_HSIC = true)
      (hname : ∃ p ∈ unit_members u, (s.mem p).name = none)
      (e : res = .fault ⟨st_with s ((Mutex.soc_order_reg_lock :: s.held).erase u.shutdown_lock)
        (epoch_log env r_work.subsys s) mdm s.crashed_modem,
        tr_after_powerup s u tr0 sd rd pu⟩)
  | completed (mdm : Int) (sd rd pu : List (SubsysPtr × Int))
      (hlog : Mutex.restart_log_mutex ∉ s.held)
      (hfire : epoch_fires env r_work.subsys s = false)
      (hsoc : Mutex.soc_order_reg_lock ∉ s.held)
      (hsd : ∀ x ∈ sd, 0 ≤ x.2)
      (hsdm : sd.map Prod.fst = unit_members u)
      (hrdm : rd.map Prod.fst = ramdump_members s (unit_members u))
      (hpu : ∀ x ∈ pu, 0 ≤ x.2)
      (hpum : pu.map Prod.fst = (unit_members u).reverse)
      (e : res = .returned () ⟨st_with s
          ((((Mutex.soc_order_reg_lock :: s.held).erase u.shutdown_lock).erase
            u.powerup_lock).erase .soc_order_reg_lock)
          (epoch_log env r_work.subsys s) mdm
          (if cfg.CONFIG_QSC_MODEM then 0 else s.crashed_modem),
        tr_completed s u r_work tr0 sd rd pu⟩)

/-- The state once both locks of the unit `u` are taken. -/
def st_admitted (s : State) (u : restart_unit) : State :=
  { s with held := u.powerup_lock :: u.shutdown_lock :: s.held }

/-- The trace of a successful admission. -/
def tr_admitted (u : restart_unit) : List Event :=
  [.trylock u.shutdown_lock true, .trylock u.powerup_lock true]

/-- Every way a run of the worker can end, started in state `s` with an empty
trace: dropped at admission, panic at the powerup lock, or admitted and then one
of the ends of the sequence. -/
inductive WqOutcome (cfg : Config) (env : EpochEnv) (r_work : restart_wq_data)
    (s : State) (res : Result Unit) : Prop
  | dropped
      (hsl : (resolve_unit r_work s).shutdown_lock ∈ s.held)
      (e : res = .returned ()
        ⟨s, .trylock (resolve_unit r_work s).shutdown_lock false :: out_events r_work⟩)
  | powerup_busy
      (hsl : (resolve_unit r_work s).shutdown_lock ∉ s.held)
      (hpl : (resolve_unit r_work s).powerup_lock ∈ s.held)
      (e : res = .panicked
        ⟨{ s with held := (resolve_unit r_work s).shutdown_lock :: s.held },
          [.trylock (resolve_unit r_work s).shutdown_lock true,
           .trylock (resolve_unit r_work s).powerup_lock false]⟩)
  | admitted
      (hsl : (resolve_unit r_work s).shutdown_lock ∉ s.held)
      (hpl : (resolve_unit r_work s).powerup_lock ∉ s.held)
      (h : SeqOutcome cfg env r_work (resolve_unit r_work s)
        (st_admitted s (resolve_unit r_work s)) (tr_admitted (resolve_unit r_work s)) res)

/-! ## States for examples -/

/-- A configuration for the examples: every optional code path compiled in. -/
def cfg0 : Config :=
  { CONFIG_APQ8064_HSIC := true
    CONFIG_QSC_MODEM := true
    SUBSYS_NAME_MAX_LENGTH := 40
    RESET_SOC := 1
    RESET_SUBSYS_COUPLED := 2
    RESET_SUBSYS_INDEPENDENT := 3
    subsys_notif_add_subsys := fun name => name.length }

/-- A record for a subsystem `name` whose callbacks return `sd`, `pu` and `rdv`. -/
def subsys_rec (name : String) (sd pu rdv : Int) : subsys_data :=
  { name := some name
    shutdown := some fun _ => sd
    powerup := some fun _ => pu
    ramdump := some fun _ _ => rdv
    crash_shutdown := false
    notif_handle := 0
    restart_order := none
    single_restart_list := [] }

/-- An all-null record. -/
def null_rec : subsys_data :=
  { name := none, shutdown := none, powerup := none, ramdump := none,
    crash_shutdown := false, notif_handle := 0, restart_order := none,
    single_restart_list := [] }

/-- Memory for the examples: external_modem at address 1, modem at 2, lpass at 3,
nothing elsewhere.  The shutdown and powerup callbacks of modem return `sd` and
`pu`, every other callback returns 0. -/
def demo_mem (sd pu : Int) : SubsysPtr → subsys_data := fun p =>
  if p = 1 then subsys_rec "external_modem" 0 0 0
  else if p = 2 then subsys_rec "modem" sd pu 0
  else if p = 3 then subsys_rec "lpass" 0 0 0
  else null_rec

/-- The state at boot on an msm8x60: table `orders_8x60_all`, nothing registered,
no mutex held, empty restart log. -/
def boot_state (mem : SubsysPtr → subsys_data)
    (restart_level max_restarts max_history_time : Int) : State :=
  { restart_level := restart_level
    enable_ramdumps := 0
    max_restarts := max_restarts
    max_history_time := max_history_time
    restart_log_list := []
    subsystem_list := []
    restart_orders := orders_8x60_all
    mem := mem
    held := []
    ssr_wq := []
    mdm_is_in_restart := 0
    crashed_modem := 0 }

/-- The boot state after modem, lpass and external_modem have registered, in that
order. -/
def registered_state (mem : SubsysPtr → subsys_data)
    (restart_level max_restarts max_history_time : Int) : State :=
  (((ssr_register_subsystem cfg0 (some 2)
      ⟨boot_state mem restart_level max_restarts max_history_time, []⟩).bind
    fun _ r => ssr_register_subsystem cfg0 (some 3) r).bind
    fun _ r => ssr_register_subsystem cfg0 (some 1) r).run.st

/-- A board for the examples: an APQ8064 with the dual-modem (QSC DSDA)
configuration, SSR enabled by the kernel flag. -/
def dsda_board : Board :=
  { CONFIG_MSM_SSR_INDEPENDENT := false
    CONFIG_ARCH_DUMMY := false
    board_mfg_mode := false
    kernel_flag_enable_ssr_modem := true
    radio_flag_usb_upload := false
    is_qsc_dsda := true
    cpu_is_msm8x60 := false
    cpu_is_msm8960 := false
    cpu_is_msm8930 := false
    cpu_is_msm8930aa := false
    cpu_is_msm9615 := false
    cpu_is_apq8064 := true
    cpu_is_msm8627 := false
    socinfo_get_platform_subtype := 3
    PLATFORM_SUBTYPE_SGLTE := 6
    PLATFORM_SUBTYPE_DSDA := 3
    machine_is_m7_evm := true
    alloc_workqueue_ok := true }

/-- Memory for the examples with two more records: riva at address 4 and, at
address 5, a subsystem whose name is the empty string. -/
def wide_mem : SubsysPtr → subsys_data := fun p =>
  if p = 4 then subsys_rec "riva" 0 0 0
  else if p = 5 then subsys_rec "" 0 0 0
  else demo_mem 0 0 p

/-- The boot state after modem, lpass, external_modem and riva have registered. -/
def riva_state (restart_level : Int) : State :=
  ((((ssr_register_subsystem cfg0 (some 2) ⟨boot_state wide_mem restart_level 0 3600, []⟩).bind
    fun _ r => ssr_register_subsystem cfg0 (some 3) r).bind
    fun _ r => ssr_register_subsystem cfg0 (some 1) r).bind
    fun _ r => ssr_register_subsystem cfg0 (some 4) r).run.st

/-- The state `riva_state` after the subsystem with the empty name has registered
too. -/
def empty_name_state (restart_level : Int) : State :=
  (ssr_register_subsystem cfg0 (some 5) ⟨riva_state restart_level, []⟩).run.st

/-- An environment in which everything succeeds. -/
def env_ok : RestartEnv :=
  { ehci_hsic_is_2nd_enum_done := true, kzalloc_ok := true, queue_rc := 1 }

/-- A table of two groups that both list modem, for the examples. -/
def two_groups : List subsys_soc_restart_order :=
  [static_restart_order order_8960, static_restart_order order_8960_sglte]

/-- The boot state with the table `two_groups` active. -/
def two_groups_state : State :=
  { boot_state (demo_mem 0 0) 2 0 3600 with restart_orders := two_groups }

/-- A boot state whose records have a name, a shutdown and a powerup callback and
nothing else. -/
def bare_state : State :=
  boot_state (fun _ => { subsys_rec "gss" 0 0 0 with ramdump := none }) 2 0 3600

/-! ## Vocabulary of the claims -/

/-- The run ended in `panic()` or in a call through a null function pointer. -/
def Result.isFatal {α : Type} : Result α → Bool
  | .panicked _ => true
  | .fault _ => true
  | _ => false

/-- The members whose shutdown callback was invoked, in order of invocation. -/
def shutdown_seq (tr : List Event) : List SubsysPtr :=
  tr.filterMap fun e => match e with
    | .shutdown p _ => some p
    | _ => none

/-- The members whose powerup callback was invoked, in order of invocation. -/
def powerup_seq (tr : List Event) : List SubsysPtr :=
  tr.filterMap fun e => match e with
    | .powerup p _ => some p
    | _ => none

/-- A notification or callback, without the value a callback returned. -/
inductive Call
  | notif (notif_handle : Nat) (t : subsys_notif_type)
  | shutdown (p : SubsysPtr)
  | ramdump (p : SubsysPtr)
  | powerup (p : SubsysPtr)
  deriving DecidableEq, Repr

/-- The notification or callback an event records, if it records one. -/
def Event.toCall : Event → Option Call
  | .notif h t => some (.notif h t)
  | .shutdown p _ => some (.shutdown p)
  | .ramdump _ p _ => some (.ramdump p)
  | .powerup p _ => some (.powerup p)
  | _ => none

/-- The notifications and callbacks of a trace, in order. -/
def calls (tr : List Event) : List Call :=
  tr.filterMap Event.toCall

/-- The notifications of kind `t` for the members `ms`, as calls. -/
def notif_calls (s : State) (t : subsys_notif_type) (ms : List SubsysPtr) : List Call :=
  ms.map fun p => .notif (s.mem p).notif_handle t

/-- The event sequence of a recovery of the members `ms`: BEFORE_SHUTDOWN for
each, the shutdowns in list order, AFTER_SHUTDOWN for each, the ramdumps of the
members that have one, BEFORE_POWERUP for each, the powerups in reverse list
order, AFTER_POWERUP for each. -/
def expected_calls (s : State) (ms : List SubsysPtr) : List Call :=
  notif_calls s .SUBSYS_BEFORE_SHUTDOWN ms ++ ms.map .shutdown ++
    notif_calls s .SUBSYS_AFTER_SHUTDOWN ms ++ (ramdump_members s ms).map .ramdump ++
    notif_calls s .SUBSYS_BEFORE_POWERUP ms ++ ms.reverse.map .powerup ++
    notif_calls s .SUBSYS_AFTER_POWERUP ms

/-- What ssr_register_subsystem requires of a record: a name, a shutdown and a
powerup callback. -/
def registered_member (s : State) (p : SubsysPtr) : Prop :=
  (s.mem p).name ≠ none ∧ (s.mem p).shutdown ≠ none ∧ (s.mem p).powerup ≠ none

/-- The shutdown and the powerup callback of `p` never return a negative value. -/
def callbacks_succeed (s : State) (p : SubsysPtr) : Prop :=
  (∀ f, (s.mem p).shutdown = some f → ∀ tr, 0 ≤ f tr) ∧
  (∀ f, (s.mem p).powerup = some f → ∀ tr, 0 ≤ f tr)

/-- The worker is past admission: it has taken the powerup lock of its unit (line
414) and has not yet released it (line 514). -/
def Pc.in_flight : Pc → Bool
  | .at_epoch_check => true
  | .at_lock_soc => true
  | .in_shutdown => true
  | .in_powerup => true
  | _ => false

/-- The invariant behind admission: a worker past admission holds the powerup lock
of its unit, and no two workers are past admission for the same unit. -/
def AdmissionInv (s : Sys) : Prop :=
  (∀ (i : Nat) (w : Worker), s.workers[i]? = some w → w.pc.in_flight = true →
    w.unit.powerup_lock ∈ s.held) ∧
  (∀ (i j : Nat) (wi wj : Worker), s.workers[i]? = some wi → s.workers[j]? = some wj →
    wi.pc.in_flight = true → wj.pc.in_flight = true → wi.unit = wj.unit → i = j)

/-- What an event of a run for the unit `u` may be: a trylock of one of the two
locks of the unit, a lock of one of the two global mutexes, an unlock of one of
these four, a notification or callback of a member of the unit, or an operation
on the wake lock and work item of the request. -/
def unit_event (s : State) (u : restart_unit) (r_work : restart_wq_data) : Event → Prop
  | .trylock m _ => m = u.shutdown_lock ∨ m = u.powerup_lock
  | .lock m => m = .soc_order_reg_lock ∨ m = .restart_log_mutex
  | .unlock m => m = u.shutdown_lock ∨ m = u.powerup_lock ∨ m = .soc_order_reg_lock ∨
      m = .restart_log_mutex
  | .notif handle _ => ∃ p ∈ unit_members u, handle = (s.mem p).notif_handle
  | .shutdown p _ => p ∈ unit_members u
  | .ramdump _ p _ => p ∈ unit_members u
  | .powerup p _ => p ∈ unit_members u
  | .wake_lock p => p = r_work.subsys
  | .wake_unlock p => p = r_work.subsys
  | .wake_lock_destroy p => p = r_work.subsys
  | .kfree_work p => p = r_work.subsys

/-- An event that concerns the subsystem `S` alone: a trylock of one of the two
locks of `S` itself, a lock of one of the two global mutexes, an unlock of one of
these four, a notification on the handle of `S`, a callback of `S`, or an
operation on the wake lock and work item of a request for `S`. -/
def Event.only_about (s : State) (S : SubsysPtr) : Event → Prop
  | .trylock m _ => m = .subsys_shutdown_lock S ∨ m = .subsys_powerup_lock S
  | .lock m => m = .soc_order_reg_lock ∨ m = .restart_log_mutex
  | .unlock m => m = .subsys_shutdown_lock S ∨ m = .subsys_powerup_lock S ∨
      m = .soc_order_reg_lock ∨ m = .restart_log_mutex
  | .notif handle _ => handle = (s.mem S).notif_handle
  | .shutdown p _ => p = S
  | .ramdump _ p _ => p = S
  | .powerup p _ => p = S
  | .wake_lock p => p = S
  | .wake_unlock p => p = S
  | .wake_lock_destroy p => p = S
  | .kfree_work p => p = S

/-- The restart-order group [external_modem, modem, lpass] of `orders_8x60_all` is
the active table and the subsystems `e`, `m` and `l` have registered under these
names: each fills its slot of the group and points to the group. -/
def group_8x60_registered (s : State) (e m l : SubsysPtr) : Prop :=
  s.restart_orders =
    [{ subsystem_list := _order_8x60_all, count := 3,
       subsys_ptrs := [some e, some m, some l, none] }] ∧
  (s.mem e).name = some "external_modem" ∧ (s.mem m).name = some "modem" ∧
  (s.mem l).name = some "lpass" ∧
  (s.mem e).restart_order = some 0 ∧ (s.mem m).restart_order = some 0 ∧
  (s.mem l).restart_order = some 0

/-- The entries of `log` inside the window at the time `T`: those whose age
`T - t`, as an integer, is at most `max_history_time`, in the order of `log`. -/
def in_window (T max_history_time : Int) (log : List restart_log) : List restart_log :=
  log.filter fun e => decide (T - e.time.tv_sec ≤ max_history_time)

/-- The entries of `log` that the scan at the time `T` keeps: those whose age, read
as a `long`, is at most `max_history_time`, in the order of `log`. -/
def in_window_long (T max_history_time : Int) (log : List restart_log) : List restart_log :=
  log.filter fun e => decide (to_long (T - e.time.tv_sec) ≤ max_history_time)

/-- The test of a crash loop on the surviving entries `W`, as the code evaluates it:
there is a first entry, the number of entries has reached `max_restarts` and the
age of the first entry, read as a `long`, is below `max_history_time`. -/
def crash_loop (T max_history_time max_restarts : Int) (W : List restart_log) : Prop :=
  (W.length : Int) ≥ max_restarts ∧
    ∃ first, W.head? = some first ∧ to_long (T - first.time.tv_sec) < max_history_time

/-- The log a check of `subsys` works on once its entry is appended and the old
entries are pruned. -/
def epoch_window (env : EpochEnv) (subsys : SubsysPtr) (s : State) : List restart_log :=
  in_window_long env.now.tv_sec s.max_history_time
    (s.restart_log_list ++ [⟨env.now, subsys⟩])

/-- The integer is a value of the type `long`. -/
def long_range (x : Int) : Prop :=
  -2 ^ 31 ≤ x ∧ x < 2 ^ 31

/-- The age `T - t` of every entry of `log` at the time `T` is a value of the type
`long`: the entries and the check are less than 2^31 seconds (68 years) apart. -/
def ages_in_range (T : Int) (log : List restart_log) : Prop :=
  ∀ e ∈ log, long_range (T - e.time.tv_sec)

/-- The timestamps of a log, in order. -/
def timestamps (log : List restart_log) : List timeval :=
  log.map fun e => e.time

/-- An operation that writes `restart_level` at run time: a write of the module
parameter, or a call of subsystem_update_restart_level_for_crc. -/
inductive level_op
  | set (board : Board) (val : written_value)
  | update_for_crc (board : Board)

/-- The board the operation sees. -/
def level_op.board : level_op → Board
  | .set board _ => board
  | .update_for_crc board => board

/-- The globals after the operation. -/
def level_op.apply (cfg : Config) : level_op → State → State
  | .set board val, s => (restart_level_set cfg board val s).2
  | .update_for_crc board, s => subsystem_update_restart_level_for_crc cfg board s

/-- The globals after a sequence of operations, in order. -/
def level_ops (cfg : Config) : List level_op → State → State
  | [], s => s
  | op :: rest, s => level_ops cfg rest (op.apply cfg s)

/-- The restart level is RESET_SOC or RESET_SUBSYS_COUPLED. -/
def level_soc_or_coupled (cfg : Config) (s : State) : Prop :=
  s.restart_level = cfg.RESET_SOC ∨ s.restart_level = cfg.RESET_SUBSYS_COUPLED

/-- The registered subsystem that `_find_subsystem` is to return: the first record
of the registry, in list order, whose name equals `subsys_name` on the first
SUBSYS_NAME_MAX_LENGTH characters. -/
def find_registered (cfg : Config) (s : State) (subsys_name : String) : Option SubsysPtr :=
  s.subsystem_list.find? fun p =>
    match (s.mem p).name with
    | some name => strncmp_eq name subsys_name cfg.SUBSYS_NAME_MAX_LENGTH
    | none => false

/-- Every record of the registry has a name, as ssr_register_subsystem requires
when it inserts one. -/
def registry_named (s : State) : Prop :=
  ∀ p ∈ s.subsystem_list, (s.mem p).name ≠ none

/-- The guard of subsystem_restart for APQ8064 with HSIC: a request for
external_modem before the second enumeration is done. -/
def hsic_refused (cfg : Config) (env : RestartEnv) (subsys_name : String) : Prop :=
  cfg.CONFIG_APQ8064_HSIC = true ∧ subsys_name = EXTERNAL_MODEM ∧
    env.ehci_hsic_is_2nd_enum_done = false

/-- The cases of the switch of subsystem_restart that call __subsystem_restart:
the levels RESET_SUBSYS_COUPLED and RESET_SUBSYS_INDEPENDENT, and the level
RESET_SOC for the name riva. -/
def queues_restart (cfg : Config) (s : State) (subsys_name : String) : Prop :=
  s.restart_level = cfg.RESET_SUBSYS_COUPLED ∨ s.restart_level = cfg.RESET_SUBSYS_INDEPENDENT ∨
    (s.restart_level = cfg.RESET_SOC ∧ subsys_name = "riva")

/-- The work item that __subsystem_restart builds for `subsys` at the restart level
of `s`. -/
def work_item (cfg : Config) (s : State) (subsys : SubsysPtr) : restart_wq_data :=
  { subsys := subsys
    use_restart_order := if s.restart_level ≠ cfg.RESET_SUBSYS_INDEPENDENT then 1 else 0 }

/-- The value a run returned, if it returned. -/
def Result.value {α : Type} : Result α → Option α
  | .returned a _ => some a
  | _ => none

/-- The group lists the name: one of its `count` names equals `name` on the first
SUBSYS_NAME_MAX_LENGTH characters. -/
def lists_name (cfg : Config) (name : String) (order : subsys_soc_restart_order) : Bool :=
  (order.subsystem_list.take order.count).any fun entry =>
    strncmp_eq entry name cfg.SUBSYS_NAME_MAX_LENGTH

/-- The first group of the table, in table order, that lists the name. -/
def first_group (cfg : Config) (name : String) (orders : List subsys_soc_restart_order) :
    Option OrderPtr :=
  orders.findIdx? (lists_name cfg name)

/-- The first slot of the group whose name equals `name` on the first
SUBSYS_NAME_MAX_LENGTH characters. -/
def first_slot (cfg : Config) (name : String) (order : subsys_soc_restart_order) : Option Nat :=
  (order.subsystem_list.take order.count).findIdx? fun entry =>
    strncmp_eq entry name cfg.SUBSYS_NAME_MAX_LENGTH

/-- The content of slot `i` of group `j` of a table; `none` when the table has no
such slot. -/
def slot_at (orders : List subsys_soc_restart_order) (j i : Nat) : Option (Option SubsysPtr) :=
  orders[j]?.bind fun o => o.subsys_ptrs[i]?

/-- The record is not fit for registration: the pointer is null, or the name, the
shutdown callback or the powerup callback is. -/
def record_incomplete (s : State) (subsys : Option SubsysPtr) : Prop :=
  subsys = none ∨ ∃ p, subsys = some p ∧
    ((s.mem p).name = none ∨ (s.mem p).shutdown = none ∨ (s.mem p).powerup = none)

/-- The table after `_update_restart_order` has resolved `p` into the slot it found. -/
def orders_with (orders : List subsys_soc_restart_order) (found : Option (OrderPtr × Nat))
    (p : SubsysPtr) : List subsys_soc_restart_order :=
  match found with
  | some (j, i) => orders.modify (fun o => { o with subsys_ptrs := o.subsys_ptrs.set i (some p) }) j
  | none => orders

/-- The number of times the trace takes the mutex `m`: successful trylocks and
locks. -/
def acquisitions (m : Mutex) (tr : List Event) : Nat :=
  tr.count (.trylock m true) + tr.count (.lock m)

/-- The number of times the trace releases the mutex `m`. -/
def releases (m : Mutex) (tr : List Event) : Nat :=
  tr.count (.unlock m)

/-- The ramdump callbacks invoked, in order of invocation: the first argument passed
(the value of `enable_ramdumps`) and the member. -/
def ramdump_seq (tr : List Event) : List (Int × SubsysPtr) :=
  tr.filterMap fun e => match e with
    | .ramdump en p _ => some (en, p)
    | _ => none

/-- The steps `(worker, fails)` taken one after the other. -/
def Sys.steps (s : Sys) : List (Nat × Bool) → Option Sys
  | [] => some s
  | (i, fails) :: rest =>
    match s.step i fails with
    | none => none
    | some s' => s'.steps rest

/-- The worker is between `mutex_lock(&soc_order_reg_lock)`, line 420, and
`mutex_unlock(&soc_order_reg_lock)`, line 516: the part of the function that sends
the notifications and invokes the callbacks. -/
def Pc.holds_soc : Pc → Bool
  | .in_shutdown => true
  | .in_powerup => true
  | .at_unlock_soc => true
  | _ => false

/-- The number of threads between acquiring and releasing `soc_order_reg_lock`. -/
def RegSys.soc_holders (s : RegSys) : Nat :=
  s.sys.workers.countP (fun w => w.pc.holds_soc) + s.registrations.count .in_table

/-- The invariant of `soc_order_reg_lock`: it is held as many times as there are
threads inside its critical sections, and at most once. -/
def SocInv (s : RegSys) : Prop :=
  s.sys.held.count .soc_order_reg_lock = s.soc_holders ∧
    s.sys.held.count .soc_order_reg_lock ≤ 1

/-- The event with the value a ramdump callback returned replaced by 0. -/
def Event.blind : Event → Event
  | .ramdump en p _ => .ramdump en p 0
  | e => e

/-- The trace with the value every ramdump callback returned replaced by 0. -/
def blind (tr : List Event) : List Event :=
  tr.map Event.blind

/-- The state in which every ramdump callback returns 0. -/
def zero_ramdumps (s : State) : State :=
  { s with mem := fun p => { s.mem p with ramdump := (s.mem p).ramdump.map fun _ _ _ => 0 } }

/-- The run seen with every ramdump callback returning 0. -/
def Run.blind (r : Run) : Run :=
  ⟨zero_ramdumps r.st, SSR.blind r.trace⟩

/-- The outcome seen with every ramdump callback returning 0. -/
def Result.blind : Result Unit → Result Unit
  | .returned a r => .returned a r.blind
  | .panicked r => .panicked r.blind
  | .blocked r => .blocked r.blind
  | .fault r => .fault r.blind

/-- The shutdown and powerup callbacks of the members `ms` do not look at the
values that ramdump callbacks returned. -/
def callbacks_blind (s : State) (ms : List SubsysPtr) : Prop :=
  ∀ p ∈ ms, ∀ f, ((s.mem p).shutdown = some f ∨ (s.mem p).powerup = some f) →
    ∀ tr, f (SSR.blind tr) = f tr

/-- Memory for the examples in which the ramdump callback of modem fails. -/
def failing_dump_mem : SubsysPtr → subsys_data := fun p =>
  if p = 2 then subsys_rec "modem" 0 0 (-1) else demo_mem 0 0 p

/-- A piece of the worker behaves in the same way on a run and on the run seen with
every ramdump callback returning 0, and it leaves the records as they are. -/
def Sim (mem0 : SubsysPtr → subsys_data) (f : Run → Result Unit) : Prop :=
  ∀ r : Run, r.st.mem = mem0 → (f r).run.st.mem = mem0 ∧ f r.blind = (f r).blind

/-- The kernel of the examples: HZ = 100, OOM_SCORE_ADJ_MAX = 1000, and the given
counts of free, file, shmem and mlocked pages; 4000 pages on the LRU lists. -/
def lmk_env (free file shmem mlock : Nat) : LmkEnv :=
  { jiffies := 5000, HZ := 100, OOM_SCORE_ADJ_MAX := 1000,
    NR_FREE_PAGES := free, NR_FILE_PAGES := file, NR_SHMEM := shmem, NR_MLOCK := mlock,
    NR_ACTIVE_ANON := 1000, NR_ACTIVE_FILE := 1000, NR_INACTIVE_ANON := 1000,
    NR_INACTIVE_FILE := 1000 }

/-- A process of one thread with a memory map of `rss` resident pages. -/
def lmk_proc (pid : Nat) (oom_score_adj : Int) (rss : Nat) : task_struct :=
  { pid := pid, PF_KTHREAD := false, oom_score_adj := oom_score_adj, oom_adj := 0,
    threads := [{ TIF_MEMDIE := false, mm_rss := some rss }] }

/-- The globals of the example of the file header: `adj = 0,8` and
`minfree = 1024,4096`, the fork boost switched off, with the processes `tasks`. -/
def lmk_doc_state (tasks : List task_struct) : LmkState :=
  { lowmem_adj := [0, 8, 6, 12, 0, 0], lowmem_adj_size := 2,
    lowmem_minfree := [1024, 4096, 4096, 16384, 0, 0], lowmem_minfree_size := 2,
    lowmem_fork_boost_minfree := [0, 0, 0, 5120, 6177, 6177],
    minfree_tmp := [0, 0, 0, 0, 0, 0],
    lowmem_deathpending_timeout := 0, lowmem_fork_boost_timeout := 0,
    lowmem_fork_boost := 0, scan_mutex := false, tasks := tasks }

/-- Processes for the examples: a kernel thread, then user processes. -/
def lmk_tasks : List task_struct :=
  [{ pid := 2, PF_KTHREAD := true, oom_score_adj := 0, oom_adj := 0,
     threads := [{ TIF_MEMDIE := false, mm_rss := none }] },
   lmk_proc 100 0 300, lmk_proc 101 10 50, lmk_proc 102 10 70, lmk_proc 103 10 70,
   lmk_proc 104 9 500]

/-- The process `tsk` is a candidate of the scan with threshold `min_score_adj`: it
is not a kernel thread, it has a memory map (found at its thread number `j`) of
`rss > 0` resident pages, and its `oom_score_adj` is at least the threshold. -/
def eligible (min_score_adj : Int) (tsk : task_struct) (j rss : Nat) : Prop :=
  tsk.PF_KTHREAD = false ∧ find_lock_task_mm tsk = some (j, rss) ∧
    min_score_adj ≤ tsk.oom_score_adj ∧ 0 < rss

/-- What the loop over the processes `L`, the first at position `k0`, does to the
selection `sel` when no task is dying: either it keeps `sel` and no candidate of
`L` beats it, or it ends on a candidate `tsk` of `L` that beats `sel` and every
candidate before it in `L`, and that no candidate after it beats (a candidate
beats another by a greater `oom_score_adj`, or by the same one and a greater
size). -/
def SelectSpec (env : LmkEnv) (s : LmkState) (m : Int) (L : List task_struct) (k0 : Nat)
    (sel : Selection) : Prop :=
  (select_loop env s m L k0 sel = some sel ∧
    ∀ tsk ∈ L, ∀ j rss, eligible m tsk j rss → sel.selected.isSome = true ∧
      (tsk.oom_score_adj < sel.selected_oom_score_adj ∨
        (tsk.oom_score_adj = sel.selected_oom_score_adj ∧
          (rss : Int) ≤ sel.selected_tasksize))) ∨
  (∃ pre tsk post j rss, L = pre ++ tsk :: post ∧ eligible m tsk j rss ∧
    select_loop env s m L k0 sel =
      some ⟨some (k0 + pre.length, j), rss, tsk.oom_score_adj, tsk.oom_adj⟩ ∧
    (∀ t ∈ pre, ∀ j' rss', eligible m t j' rss' →
      t.oom_score_adj < tsk.oom_score_adj ∨
        (t.oom_score_adj = tsk.oom_score_adj ∧ rss' < rss)) ∧
    (∀ t ∈ post, ∀ j' rss', eligible m t j' rss' →
      t.oom_score_adj < tsk.oom_score_adj ∨
        (t.oom_score_adj = tsk.oom_score_adj ∧ rss' ≤ rss)) ∧
    (sel.selected.isSome = true →
      sel.selected_oom_score_adj < tsk.oom_score_adj ∨
        (sel.selected_oom_score_adj = tsk.oom_score_adj ∧
          sel.selected_tasksize < (rss : Int))))

/-- No task is already dying: before the timeout `lowmem_deathpending_timeout`, no
process that is not a kernel thread has a thread with TIF_MEMDIE set. -/
def none_dying (env : LmkEnv) (s : LmkState) : Prop :=
  ∀ tsk ∈ s.tasks, tsk.PF_KTHREAD = false →
    ¬ (time_before_eq env.jiffies s.lowmem_deathpending_timeout = true ∧
      test_task_flag tsk = true)

/-- The count `other_file` of lowmem_shrink. -/
def other_file (env : LmkEnv) : Int :=
  (env.NR_FILE_PAGES : Int) - env.NR_SHMEM - env.NR_MLOCK

/-- Both the free-page count and the file-cache page count are below
`lowmem_minfree[i]`, as integers. -/
def below_minfree (env : LmkEnv) (s : LmkState) (i : Nat) : Prop :=
  (env.NR_FREE_PAGES : Int) < s.lowmem_minfree.getD i 0 ∧
    other_file env < s.lowmem_minfree.getD i 0

/-- The number of thresholds in use: the smallest of 6, `lowmem_adj_size` and
`lowmem_minfree_size`. -/
def lmk_array_size (s : LmkState) : Nat :=
  (min (min 6 s.lowmem_adj_size) s.lowmem_minfree_size).toNat

/-- The value `rem` of lowmem_shrink before a kill. -/
def lmk_rem (env : LmkEnv) : Int :=
  (env.NR_ACTIVE_ANON : Int) + env.NR_ACTIVE_FILE + env.NR_INACTIVE_ANON + env.NR_INACTIVE_FILE

/-! ## Lemmas on the loops and the worker -/

theorem bind_returned {α β : Type} (a : α) (r : Run) (k : α → Run → Result β) :
    (Result.returned a r).bind k = k a r := rfl

theorem for_up_on_slot (rl : List (Option SubsysPtr)) (member : SubsysPtr → Run → Result Unit) :
    ∀ (n i : Nat) (r : Run),
      for_up (on_slot rl member) i n r = for_list member (members_from rl i n) r := by
  intro n
  induction n with
  | zero => intro i r; rfl
  | succ n ih =>
    intro i r
    simp only [for_up, members_from, on_slot]
    cases h : slot rl i with
    | none => simp only [Result.bind]; exact ih (i + 1) r
    | some p =>
      simp only [for_list]
      congr 1
      funext _ r1
      exact ih (i + 1) r1

theorem members_from_succ (rl : List (Option SubsysPtr)) :
    ∀ (n i : Nat), members_from rl i (n + 1) =
      members_from rl i n ++ (slot rl (i + n)).toList := by
  intro n
  induction n with
  | zero =>
    intro i
    simp only [members_from, Nat.add_zero]
    cases slot rl i <;> simp
  | succ n ih =>
    intro i
    rw [members_from]
    have e : i + (n + 1) = (i + 1) + n := by omega
    cases h : slot rl i with
    | none =>
      simp only []
      rw [ih (i + 1), e]
      conv_rhs => rw [members_from]
      simp [h]
    | some p =>
      simp only []
      rw [ih (i + 1), e]
      conv_rhs => rw [members_from]
      simp [h]

theorem for_list_append (member : SubsysPtr → Run → Result Unit) :
    ∀ (xs ys : List SubsysPtr) (r : Run),
      for_list member (xs ++ ys) r =
        (for_list member xs r).bind fun _ r1 => for_list member ys r1 := by
  intro xs
  induction xs with
  | nil => intro ys r; rfl
  | cons x xs ih =>
    intro ys r
    simp only [List.cons_append, for_list]
    cases member x r with
    | returned a r1 => simp only [Result.bind]; exact ih ys r1
    | panicked r1 => rfl
    | blocked r1 => rfl
    | fault r1 => rfl

theorem for_down_on_slot (rl : List (Option SubsysPtr)) (member : SubsysPtr → Run → Result Unit) :
    ∀ (n : Nat) (r : Run),
      for_down (on_slot rl member) n r = for_list member (members_from rl 0 n).reverse r := by
  intro n
  induction n with
  | zero => intro r; rfl
  | succ n ih =>
    intro r
    rw [members_from_succ, List.reverse_append, for_list_append]
    simp only [for_down, on_slot, Nat.zero_add]
    cases h : slot rl n with
    | none =>
      simp only [Option.toList, List.reverse_nil, for_list, Result.bind]
      exact ih r
    | some p =>
      simp only [Option.toList, List.reverse_cons, List.reverse_nil, List.nil_append, for_list]
      cases member p r with
      | returned a r1 => simp only [Result.bind]; exact ih r1
      | panicked r1 => rfl
      | blocked r1 => rfl
      | fault r1 => rfl


theorem shutdown_member_eq : shutdown_member = call_member (fun d => d.shutdown) .shutdown := by
  funext p r
  simp only [shutdown_member, call_member]

theorem powerup_member_eq : powerup_member = call_member (fun d => d.powerup) .powerup := by
  funext p r
  simp only [powerup_member, call_member]

theorem for_list_notify (t : subsys_notif_type) :
    ∀ (ms : List SubsysPtr) (r : Run),
      for_list (notify_member t) ms r = .returned () ⟨r.st, r.trace ++ notifs r.st t ms⟩ := by
  intro ms
  induction ms with
  | nil => intro r; simp [for_list, notifs]
  | cons p ms ih =>
    intro r
    simp only [for_list, notify_member, Result.bind]
    rw [ih]
    simp [Run.emit, notifs]

theorem for_list_call (get : subsys_data → Option (List Event → Int))
    (mk : SubsysPtr → Int → Event) :
    ∀ (ms : List SubsysPtr) (r : Run),
      CallLoop get mk r.st ms r.trace (for_list (call_member get mk) ms r) := by
  intro ms
  induction ms with
  | nil =>
    intro r
    exact ⟨[], by simp, Or.inl ⟨rfl, by simp [for_list, returns]⟩⟩
  | cons p ms ih =>
    intro r
    simp only [for_list, call_member]
    cases hg : get (r.st.mem p) with
    | none =>
      exact ⟨[], by simp, Or.inr (Or.inr ⟨p, ms, by simp, hg, by simp [Result.bind, returns]⟩)⟩
    | some f =>
      simp only []
      by_cases hneg : f r.trace < 0
      · simp only [hneg, if_true, Result.bind]
        exact ⟨[], by simp, Or.inr (Or.inl ⟨p, f r.trace, ms, f, by simp, hneg, hg,
          by simp [returns], by simp [returns, Run.emit]⟩)⟩
      · simp only [hneg, if_false, Result.bind]
        obtain ⟨pairs, hpos, hcase⟩ := ih (r.emit (mk p (f r.trace)))
        refine ⟨(p, f r.trace) :: pairs, ?_, ?_⟩
        · intro x hx
          rcases List.mem_cons.mp hx with rfl | hx
          · exact Int.not_lt.mp hneg
          · exact hpos x hx
        · rcases hcase with ⟨h1, h2⟩ | ⟨q, ret, rest, g, h1, h2, h3, h4, h5⟩ | ⟨q, rest, h1, h2, h3⟩
          · left
            refine ⟨by simp [h1], ?_⟩
            rw [h2]; simp [Run.emit, returns]
          · right; left
            refine ⟨q, ret, rest, g, by simp [h1], h2, h3, ?_, ?_⟩
            · rw [h4]; simp [Run.emit, returns]
            · rw [h5]; simp [Run.emit, returns]
          · right; right
            refine ⟨q, rest, by simp [h1], h2, ?_⟩
            rw [h3]; simp [Run.emit, returns]

theorem for_list_ramdump :
    ∀ (ms : List SubsysPtr) (r : Run),
      ∃ pairs : List (SubsysPtr × Int), pairs.map Prod.fst = ramdump_members r.st ms ∧
        for_list ramdump_member ms r =
          .returned () ⟨r.st, r.trace ++ returns (Event.ramdump r.st.enable_ramdumps) pairs⟩ := by
  intro ms
  induction ms with
  | nil => intro r; exact ⟨[], by simp [ramdump_members], by simp [for_list, returns]⟩
  | cons p ms ih =>
    intro r
    simp only [for_list, ramdump_member]
    cases hg : (r.st.mem p).ramdump with
    | none =>
      simp only [Result.bind]
      obtain ⟨pairs, h1, h2⟩ := ih r
      exact ⟨pairs, by simp [ramdump_members, hg] at h1 ⊢; exact h1, h2⟩
    | some f =>
      simp only [Result.bind]
      obtain ⟨pairs, h1, h2⟩ := ih (r.emit (.ramdump r.st.enable_ramdumps p
        (f r.st.enable_ramdumps r.trace)))
      refine ⟨(p, f r.st.enable_ramdumps r.trace) :: pairs, ?_, ?_⟩
      · simp [ramdump_members, hg] at h1 ⊢; exact h1
      · rw [h2]; simp [Run.emit, returns]


theorem to_long_of_range (x : Int) (h : long_range x) : to_long x = x := by
  unfold long_range at h
  unfold to_long
  omega

theorem do_epoch_check_eq (env : EpochEnv) (subsys : SubsysPtr) (r : Run) :
    do_epoch_check env subsys r =
      if Mutex.restart_log_mutex ∈ r.st.held then .blocked r
      else if epoch_fires env subsys r.st then
        .panicked ⟨{ r.st with held := .restart_log_mutex :: r.st.held,
                               restart_log_list := epoch_log env subsys r.st },
          r.trace ++ [.lock .restart_log_mutex]⟩
      else
        .returned () ⟨{ r.st with restart_log_list := epoch_log env subsys r.st },
          r.trace ++ [.lock .restart_log_mutex, .unlock .restart_log_mutex]⟩ := by
  by_cases hl : Mutex.restart_log_mutex ∈ r.st.held
  · simp only [if_pos hl]
    unfold do_epoch_check mutex_lock
    simp only [if_pos hl]; rfl
  simp only [if_neg hl]
  unfold epoch_fires epoch_log do_epoch_check mutex_lock
  simp only [if_neg hl, List.not_mem_nil, if_false, bind_returned, Run.emit, mutex_unlock,
    List.erase_cons_head, List.nil_append, List.append_assoc, List.singleton_append]
  by_cases h0 : r.st.max_restarts = 0
  · simp only [if_pos h0]; rfl
  · by_cases h1 : env.kmalloc_ok = false
    · simp only [if_neg h0, if_pos h1]; rfl
    · simp only [if_neg h0, if_neg h1]
      cases h2 : (epoch_scan env.now r.st.max_history_time
          (r.st.restart_log_list ++ [{ time := env.now, subsys := subsys }]) [] 0 none).2.2 with
      | none => rfl
      | some tf =>
        simp only []
        by_cases hc : ((epoch_scan env.now r.st.max_history_time
            (r.st.restart_log_list ++ [{ time := env.now, subsys := subsys }]) [] 0 none).2.1 : Int)
              ≥ r.st.max_restarts ∧
                to_long (env.now.tv_sec - tf.tv_sec) < r.st.max_history_time
        · simp only [if_pos hc]; rfl
        · simp only [if_neg hc]; rfl

theorem for_list_mdm (v : Int) :
    ∀ (ms : List SubsysPtr) (r : Run),
      (∃ m, for_list (mdm_member v) ms r =
          .returned () ⟨{ r.st with mdm_is_in_restart := m }, r.trace⟩) ∨
      (∃ m, (∃ p ∈ ms, (r.st.mem p).name = none) ∧
        for_list (mdm_member v) ms r = .fault ⟨{ r.st with mdm_is_in_restart := m }, r.trace⟩) := by
  intro ms
  induction ms with
  | nil => intro r; exact Or.inl ⟨r.st.mdm_is_in_restart, rfl⟩
  | cons p ms ih =>
    intro r
    simp only [for_list, mdm_member]
    cases hn : (r.st.mem p).name with
    | none => exact Or.inr ⟨r.st.mdm_is_in_restart, ⟨p, by simp, hn⟩, rfl⟩
    | some name =>
      simp only []
      by_cases he : name = EXTERNAL_MODEM
      · simp only [he, if_true, Result.bind]
        rcases ih { r with st := { r.st with mdm_is_in_restart := v } } with
          ⟨m, h⟩ | ⟨m, ⟨q, hq, hqn⟩, h⟩
        · exact Or.inl ⟨m, h⟩
        · exact Or.inr ⟨m, ⟨q, by simp [hq], hqn⟩, h⟩
      · simp only [he, if_false, Result.bind]
        rcases ih r with ⟨m, h⟩ | ⟨m, ⟨q, hq, hqn⟩, h⟩
        · exact Or.inl ⟨m, h⟩
        · exact Or.inr ⟨m, ⟨q, by simp [hq], hqn⟩, h⟩

theorem mdm_mark_cases (cfg : Config) (rl : List (Option SubsysPtr)) (count : Nat) (v : Int)
    (r : Run) :
    (∃ m, mdm_mark cfg rl count v r =
        .returned () ⟨{ r.st with mdm_is_in_restart := m }, r.trace⟩) ∨
    (∃ m, (cfg.CONFIG_APQ8064_HSIC = true ∧
        ∃ p ∈ members_from rl 0 count, (r.st.mem p).name = none) ∧
      mdm_mark cfg rl count v r = .fault ⟨{ r.st with mdm_is_in_restart := m }, r.trace⟩) := by
  unfold mdm_mark
  by_cases hc : cfg.CONFIG_APQ8064_HSIC = true
  · simp only [hc, if_true, for_up_on_slot]
    rcases for_list_mdm v (members_from rl 0 count) r with ⟨m, h⟩ | ⟨m, hp, h⟩
    · exact Or.inl ⟨m, h⟩
    · exact Or.inr ⟨m, ⟨trivial, hp⟩, h⟩
  · simp only [hc]
    exact Or.inl ⟨r.st.mdm_is_in_restart, rfl⟩



theorem send_notification_eq (rl : List (Option SubsysPtr)) (count : Nat)
    (t : subsys_notif_type) (s : State) (tr : List Event) :
    _send_notification_to_order rl count t ⟨s, tr⟩ =
      .returned () ⟨s, tr ++ notifs s t (members_from rl 0 count)⟩ := by
  unfold _send_notification_to_order
  rw [for_up_on_slot, for_list_notify]

theorem shutdown_loop_cases (rl : List (Option SubsysPtr)) (count : Nat) (s : State)
    (tr : List Event) :
    CallLoop (fun d => d.shutdown) .shutdown s (members_from rl 0 count) tr
      (for_up (on_slot rl shutdown_member) 0 count ⟨s, tr⟩) := by
  rw [for_up_on_slot, shutdown_member_eq]
  exact for_list_call _ _ _ ⟨s, tr⟩

theorem powerup_loop_cases (rl : List (Option SubsysPtr)) (count : Nat) (s : State)
    (tr : List Event) :
    CallLoop (fun d => d.powerup) .powerup s (members_from rl 0 count).reverse tr
      (for_down (on_slot rl powerup_member) count ⟨s, tr⟩) := by
  rw [for_down_on_slot, powerup_member_eq]
  exact for_list_call _ _ _ ⟨s, tr⟩

theorem ramdump_loop_eq (rl : List (Option SubsysPtr)) (count : Nat) (s : State)
    (tr : List Event) :
    ∃ rd : List (SubsysPtr × Int),
      rd.map Prod.fst = ramdump_members s (members_from rl 0 count) ∧
      for_up (on_slot rl ramdump_member) 0 count ⟨s, tr⟩ =
        .returned () ⟨s, tr ++ returns (Event.ramdump s.enable_ramdumps) rd⟩ := by
  rw [for_up_on_slot]
  exact for_list_ramdump _ ⟨s, tr⟩

theorem wq_sequence_cases (cfg : Config) (env : EpochEnv) (r_work : restart_wq_data)
    (u : restart_unit) (s : State) (tr0 : List Event) :
    SeqOutcome cfg env r_work u s tr0 (wq_sequence cfg env r_work u ⟨s, tr0⟩) := by
  unfold wq_sequence
  by_cases hlog : Mutex.restart_log_mutex ∈ s.held
  · have h0 : do_epoch_check env r_work.subsys ⟨s, tr0⟩ = .blocked ⟨s, tr0⟩ := by
      rw [do_epoch_check_eq]; simp only [if_pos hlog]
    rw [h0]
    exact .waiting_log hlog rfl
  by_cases hfire : epoch_fires env r_work.subsys s = true
  · have h0 : do_epoch_check env r_work.subsys ⟨s, tr0⟩ =
        .panicked ⟨st_with s (.restart_log_mutex :: s.held) (epoch_log env r_work.subsys s)
          s.mdm_is_in_restart s.crashed_modem, tr0 ++ [.lock .restart_log_mutex]⟩ := by
      rw [do_epoch_check_eq]; simp only [if_neg hlog, hfire, if_true]; rfl
    rw [h0]
    exact .crash_loop hlog hfire rfl
  have hfire' : epoch_fires env r_work.subsys s = false := by simpa using hfire
  have h0 : do_epoch_check env r_work.subsys ⟨s, tr0⟩ =
      .returned () ⟨st_with s s.held (epoch_log env r_work.subsys s)
        s.mdm_is_in_restart s.crashed_modem,
        tr0 ++ [.lock .restart_log_mutex, .unlock .restart_log_mutex]⟩ := by
    rw [do_epoch_check_eq]
    simp only [if_neg hlog, hfire', Bool.false_eq_true, if_false]; rfl
  rw [h0]; simp only [bind_returned]
  by_cases hsoc : Mutex.soc_order_reg_lock ∈ s.held
  · have h1 : mutex_lock .soc_order_reg_lock ⟨st_with s s.held (epoch_log env r_work.subsys s)
        s.mdm_is_in_restart s.crashed_modem,
        tr0 ++ [.lock .restart_log_mutex, .unlock .restart_log_mutex]⟩ =
        .blocked ⟨st_with s s.held (epoch_log env r_work.subsys s)
          s.mdm_is_in_restart s.crashed_modem,
          tr0 ++ [.lock .restart_log_mutex, .unlock .restart_log_mutex]⟩ := by
      unfold mutex_lock; simp only [st_with, hsoc, if_true]
    rw [h1]
    exact .waiting hlog hfire' hsoc rfl
  have h1 : mutex_lock .soc_order_reg_lock ⟨st_with s s.held (epoch_log env r_work.subsys s)
      s.mdm_is_in_restart s.crashed_modem,
      tr0 ++ [.lock .restart_log_mutex, .unlock .restart_log_mutex]⟩ =
      .returned () ⟨st_with s (.soc_order_reg_lock :: s.held) (epoch_log env r_work.subsys s)
        s.mdm_is_in_restart s.crashed_modem,
        tr0 ++ [.lock .restart_log_mutex, .unlock .restart_log_mutex] ++
          [.lock .soc_order_reg_lock]⟩ := by
    unfold mutex_lock; simp only [st_with, hsoc, if_false]; rfl
  rw [h1]; simp only [bind_returned]
  rcases mdm_mark_cases cfg u.restart_list u.restart_list_count 1
    ⟨st_with s (.soc_order_reg_lock :: s.held) (epoch_log env r_work.subsys s)
      s.mdm_is_in_restart s.crashed_modem,
      tr0 ++ [.lock .restart_log_mutex, .unlock .restart_log_mutex] ++
        [.lock .soc_order_reg_lock]⟩
    with ⟨m1, h2⟩ | ⟨m1, ⟨hc, hn⟩, h2⟩
  swap
  · rw [h2]
    exact .name_null m1 hlog hfire' hsoc hc hn rfl
  rw [h2]; simp only [bind_returned]
  rw [send_notification_eq]; simp only [bind_returned]
  -- shutdown loop
  obtain ⟨sd, hsd, hcase⟩ := shutdown_loop_cases u.restart_list u.restart_list_count
    (st_with s (.soc_order_reg_lock :: s.held) (epoch_log env r_work.subsys s) m1
      s.crashed_modem) (tr_before_shutdown s u tr0)
  change SeqOutcome _ _ _ _ _ _ (Result.bind (for_up (on_slot u.restart_list shutdown_member) 0
    u.restart_list_count ⟨st_with s (.soc_order_reg_lock :: s.held)
      (epoch_log env r_work.subsys s) m1 s.crashed_modem, tr_before_shutdown s u tr0⟩) _)
  rcases hcase with ⟨hsdm, h3⟩ | ⟨p, ret, rest, f, hms, hret, hf, hval, h3⟩ | ⟨p, rest, hms, hf, h3⟩
  rotate_left
  · rw [h3]
    exact .shutdown_failed m1 sd p ret rest f hlog hfire' hsoc hsd hms hret hf hval rfl
  · rw [h3]
    exact .shutdown_null m1 sd p rest hlog hfire' hsoc hsd hms hf rfl
  rw [h3]; simp only [bind_returned]
  rw [send_notification_eq]; simp only [bind_returned]
  -- ramdump loop, shutdown_lock released
  obtain ⟨rd, hrdm, h4⟩ := ramdump_loop_eq u.restart_list u.restart_list_count
    (st_with s ((Mutex.soc_order_reg_lock :: s.held).erase u.shutdown_lock)
      (epoch_log env r_work.subsys s) m1 s.crashed_modem)
    (tr_before_shutdown s u tr0 ++ returns .shutdown sd ++
      notifs s .SUBSYS_AFTER_SHUTDOWN (unit_members u) ++ [.unlock u.shutdown_lock])
  change SeqOutcome _ _ _ _ _ _ (Result.bind (for_up (on_slot u.restart_list ramdump_member) 0
    u.restart_list_count ⟨st_with s ((Mutex.soc_order_reg_lock :: s.held).erase u.shutdown_lock)
      (epoch_log env r_work.subsys s) m1 s.crashed_modem,
    tr_before_shutdown s u tr0 ++ returns .shutdown sd ++
      notifs s .SUBSYS_AFTER_SHUTDOWN (unit_members u) ++ [.unlock u.shutdown_lock]⟩) _)
  rw [h4]; simp only [bind_returned]
  rw [send_notification_eq]; simp only [bind_returned]
  -- powerup loop
  obtain ⟨pu, hpu, hcase⟩ := powerup_loop_cases u.restart_list u.restart_list_count
    (st_with s ((Mutex.soc_order_reg_lock :: s.held).erase u.shutdown_lock)
      (epoch_log env r_work.subsys s) m1 s.crashed_modem) (tr_before_powerup s u tr0 sd rd)
  change SeqOutcome _ _ _ _ _ _ (Result.bind (for_down (on_slot u.restart_list powerup_member)
    u.restart_list_count ⟨st_with s ((Mutex.soc_order_reg_lock :: s.held).erase u.shutdown_lock)
      (epoch_log env r_work.subsys s) m1 s.crashed_modem, tr_before_powerup s u tr0 sd rd⟩) _)
  rcases hcase with ⟨hpum, h5⟩ | ⟨p, ret, rest, f, hms, hret, hf, hval, h5⟩ | ⟨p, rest, hms, hf, h5⟩
  rotate_left
  · rw [h5]
    exact .powerup_failed m1 sd rd pu p ret rest f hlog hfire' hsoc hsd hsdm hrdm hpu hms hret hf
      hval rfl
  · rw [h5]
    exact .powerup_null m1 sd rd pu p rest hlog hfire' hsoc hsd hsdm hrdm hpu hms hf rfl
  rw [h5]; simp only [bind_returned]
  rw [send_notification_eq]; simp only [bind_returned]
  -- the second mdm loop and the way out
  rcases mdm_mark_cases cfg u.restart_list u.restart_list_count 0
    ⟨st_with s ((Mutex.soc_order_reg_lock :: s.held).erase u.shutdown_lock)
      (epoch_log env r_work.subsys s) m1 s.crashed_modem, tr_after_powerup s u tr0 sd rd pu⟩
    with ⟨m2, h6⟩ | ⟨m2, ⟨hc, hn⟩, h6⟩
  swap
  · change SeqOutcome _ _ _ _ _ _ (Result.bind (mdm_mark cfg u.restart_list
      u.restart_list_count 0 ⟨st_with s ((Mutex.soc_order_reg_lock :: s.held).erase
        u.shutdown_lock) (epoch_log env r_work.subsys s) m1 s.crashed_modem,
      tr_after_powerup s u tr0 sd rd pu⟩) _)
    rw [h6]
    exact .name_null_late m2 sd rd pu hlog hfire' hsoc hsd hsdm hrdm hpu hpum hc hn rfl
  change SeqOutcome _ _ _ _ _ _ (Result.bind (mdm_mark cfg u.restart_list
    u.restart_list_count 0 ⟨st_with s ((Mutex.soc_order_reg_lock :: s.held).erase
      u.shutdown_lock) (epoch_log env r_work.subsys s) m1 s.crashed_modem,
    tr_after_powerup s u tr0 sd rd pu⟩) _)
  rw [h6]; simp only [bind_returned]
  refine .completed m2 sd rd pu hlog hfire' hsoc hsd hsdm hrdm hpu hpum ?_
  unfold wq_out mutex_unlock
  cases hq : cfg.CONFIG_QSC_MODEM <;>
    simp [tr_completed, out_events, Run.emit, st_with, List.append_assoc]


theorem resolve_unit_locks_ne (r_work : restart_wq_data) (s : State) :
    (resolve_unit r_work s).powerup_lock ≠ (resolve_unit r_work s).shutdown_lock := by
  unfold resolve_unit
  simp only []
  split <;> simp

theorem wq_func_cases (cfg : Config) (env : EpochEnv) (r_work : restart_wq_data) (s : State) :
    WqOutcome cfg env r_work s (subsystem_restart_wq_func cfg env r_work ⟨s, []⟩) := by
  unfold subsystem_restart_wq_func
  simp only []
  by_cases hsl : (resolve_unit r_work s).shutdown_lock ∈ s.held
  · have h : mutex_trylock (resolve_unit r_work s).shutdown_lock ⟨s, []⟩ =
        (false, ⟨s, [.trylock (resolve_unit r_work s).shutdown_lock false]⟩) := by
      unfold mutex_trylock; simp only [if_pos hsl]; rfl
    rw [h]
    exact .dropped hsl rfl
  have h : mutex_trylock (resolve_unit r_work s).shutdown_lock ⟨s, []⟩ =
      (true, ⟨{ s with held := (resolve_unit r_work s).shutdown_lock :: s.held },
        [.trylock (resolve_unit r_work s).shutdown_lock true]⟩) := by
    unfold mutex_trylock; simp only [if_neg hsl]; rfl
  rw [h]; simp only []
  have hne := resolve_unit_locks_ne r_work s
  by_cases hpl : (resolve_unit r_work s).powerup_lock ∈ s.held
  · have h2 : mutex_trylock (resolve_unit r_work s).powerup_lock
        ⟨{ s with held := (resolve_unit r_work s).shutdown_lock :: s.held },
          [.trylock (resolve_unit r_work s).shutdown_lock true]⟩ =
        (false, ⟨{ s with held := (resolve_unit r_work s).shutdown_lock :: s.held },
          [.trylock (resolve_unit r_work s).shutdown_lock true,
           .trylock (resolve_unit r_work s).powerup_lock false]⟩) := by
      unfold mutex_trylock
      have : (resolve_unit r_work s).powerup_lock ∈
          (resolve_unit r_work s).shutdown_lock :: s.held := List.mem_cons_of_mem _ hpl
      simp only [if_pos this]; rfl
    rw [h2]
    exact .powerup_busy hsl hpl rfl
  have h2 : mutex_trylock (resolve_unit r_work s).powerup_lock
      ⟨{ s with held := (resolve_unit r_work s).shutdown_lock :: s.held },
        [.trylock (resolve_unit r_work s).shutdown_lock true]⟩ =
      (true, ⟨st_admitted s (resolve_unit r_work s), tr_admitted (resolve_unit r_work s)⟩) := by
    unfold mutex_trylock
    have : (resolve_unit r_work s).powerup_lock ∉
        (resolve_unit r_work s).shutdown_lock :: s.held := by
      simp only [List.mem_cons, not_or]; exact ⟨hne, hpl⟩
    simp only [if_neg this]; rfl
  rw [h2]
  exact .admitted hsl hpl (wq_sequence_cases cfg env r_work _ _ _)

/-! ## The crash-loop detector and the shape of a run -/

theorem do_epoch_check_disabled (env : EpochEnv) (subsys : SubsysPtr) (r : Run)
    (h : r.st.max_restarts = 0) :
    do_epoch_check env subsys r = .blocked r ∨
      ∃ tr, do_epoch_check env subsys r = .returned () ⟨r.st, tr⟩ := by
  by_cases hl : Mutex.restart_log_mutex ∈ r.st.held
  · left
    unfold do_epoch_check mutex_lock
    simp only [if_pos hl]; rfl
  · right
    refine ⟨r.trace ++ [.lock .restart_log_mutex, .unlock .restart_log_mutex], ?_⟩
    unfold do_epoch_check mutex_lock
    simp only [if_neg hl, bind_returned, Run.emit, mutex_unlock]
    have h' : r.st.max_restarts = 0 := h
    simp only [if_pos h', List.erase_cons_head, List.append_assoc, List.singleton_append]

/-- Claim C9.  With `max_restarts = 0`, no sequence of crash-loop checks, at whatever
timestamps, for whatever subsystems and whether or not the allocation succeeds,
ever panics, and the globals, the restart log among them, are left as they
were: no entry is appended and none is pruned. -/
theorem epoch_checks_disabled (checks : List (SubsysPtr × EpochEnv)) (r : Run)
    (h : r.st.max_restarts = 0) :
    (epoch_checks checks r).isPanicked = false ∧
      (epoch_checks checks r).run.st = r.st ∧
      (epoch_checks checks r).run.st.restart_log_list = r.st.restart_log_list := by
  induction checks generalizing r with
  | nil => exact ⟨rfl, rfl, rfl⟩
  | cons c rest ih =>
    obtain ⟨subsys, env⟩ := c
    unfold epoch_checks
    rcases do_epoch_check_disabled env subsys r h with hb | ⟨tr, hr⟩
    · rw [hb]; exact ⟨rfl, rfl, rfl⟩
    · rw [hr, bind_returned]
      exact ih ⟨r.st, tr⟩ h

/-- Three checks within two seconds on the boot state with the detector disabled. -/
theorem epoch_checks_disabled_witness :
    (boot_state (demo_mem 0 0) 3 0 3600).max_restarts = 0 ∧
    (epoch_checks [(1, ⟨true, ⟨10, 0⟩⟩), (2, ⟨true, ⟨10, 0⟩⟩), (1, ⟨true, ⟨11, 0⟩⟩)]
        ⟨boot_state (demo_mem 0 0) 3 0 3600, []⟩).isPanicked = false ∧
      (epoch_checks [(1, ⟨true, ⟨10, 0⟩⟩), (2, ⟨true, ⟨10, 0⟩⟩), (1, ⟨true, ⟨11, 0⟩⟩)]
        ⟨boot_state (demo_mem 0 0) 3 0 3600, []⟩).run.st = boot_state (demo_mem 0 0) 3 0 3600 ∧
      (epoch_checks [(1, ⟨true, ⟨10, 0⟩⟩), (2, ⟨true, ⟨10, 0⟩⟩), (1, ⟨true, ⟨11, 0⟩⟩)]
        ⟨boot_state (demo_mem 0 0) 3 0 3600, []⟩).run.st.restart_log_list = [] :=
  ⟨rfl, epoch_checks_disabled _ ⟨boot_state (demo_mem 0 0) 3 0 3600, []⟩ rfl⟩

/-- Claim C10, counterexample.  With `max_restarts = 3`, `max_history_time = 60` and
an empty log, three checks at the seconds 0, 1 and 2: if the third gets no memory
from `kmalloc`, it returns instead of panicking, and likewise if the first or the
second got none (the log then holds too few entries). -/
theorem check_without_memory_returns :
    (epoch_checks [(2, ⟨true, ⟨0, 0⟩⟩), (2, ⟨true, ⟨1, 0⟩⟩), (2, ⟨false, ⟨2, 0⟩⟩)]
      ⟨boot_state (demo_mem 0 0) 3 3 60, []⟩).isReturned = true ∧
    (epoch_checks [(2, ⟨false, ⟨0, 0⟩⟩), (2, ⟨true, ⟨1, 0⟩⟩), (2, ⟨true, ⟨2, 0⟩⟩)]
      ⟨boot_state (demo_mem 0 0) 3 3 60, []⟩).isReturned = true ∧
    (epoch_checks [(2, ⟨true, ⟨0, 0⟩⟩), (2, ⟨false, ⟨1, 0⟩⟩), (2, ⟨true, ⟨2, 0⟩⟩)]
      ⟨boot_state (demo_mem 0 0) 3 3 60, []⟩).isReturned = true := by
  decide

/-- Claim C10, amended.  With `max_restarts = 3`, `max_history_time = 60`, an empty
log and `restart_log_mutex` free, three checks whose allocation succeeds, for any
subsystems, at seconds `t1 ≤ t2 ≤ t3` with `t3 - t1 < 60`: the first check
returns, the first two checks return, and the third panics. -/
theorem third_check_in_window_panics (s : State) (p1 p2 p3 : SubsysPtr) (t1 t2 t3 : timeval)
    (hmax : s.max_restarts = 3) (hwin : s.max_history_time = 60)
    (hlog : s.restart_log_list = []) (hfree : Mutex.restart_log_mutex ∉ s.held)
    (h12 : t1.tv_sec ≤ t2.tv_sec) (h23 : t2.tv_sec ≤ t3.tv_sec)
    (h13 : t3.tv_sec - t1.tv_sec < 60) :
    (epoch_checks [(p1, ⟨true, t1⟩)] ⟨s, []⟩).isReturned = true ∧
    (epoch_checks [(p1, ⟨true, t1⟩), (p2, ⟨true, t2⟩)] ⟨s, []⟩).isReturned = true ∧
    (epoch_checks [(p1, ⟨true, t1⟩), (p2, ⟨true, t2⟩), (p3, ⟨true, t3⟩)] ⟨s, []⟩).isPanicked
      = true := by
  have k0 : to_long 0 = 0 := rfl
  have k21 : to_long (t2.tv_sec - t1.tv_sec) = t2.tv_sec - t1.tv_sec :=
    to_long_of_range _ (by unfold long_range; omega)
  have k31 : to_long (t3.tv_sec - t1.tv_sec) = t3.tv_sec - t1.tv_sec :=
    to_long_of_range _ (by unfold long_range; omega)
  have k32 : to_long (t3.tv_sec - t2.tv_sec) = t3.tv_sec - t2.tv_sec :=
    to_long_of_range _ (by unfold long_range; omega)
  have n1 : ¬ (60 < t2.tv_sec - t1.tv_sec) := by omega
  have n3 : ¬ (60 < t3.tv_sec - t1.tv_sec) := by omega
  have n4 : ¬ (60 < t3.tv_sec - t2.tv_sec) := by omega
  have c1 : do_epoch_check ⟨true, t1⟩ p1 ⟨s, []⟩ =
      .returned () ⟨{ s with restart_log_list := [⟨t1, p1⟩] },
        [.lock .restart_log_mutex, .unlock .restart_log_mutex]⟩ := by
    unfold do_epoch_check mutex_lock
    simp [hfree, hmax, hwin, hlog, bind_returned, Run.emit, mutex_unlock, epoch_scan, k0]
  have c2 : do_epoch_check ⟨true, t2⟩ p2 ⟨{ s with restart_log_list := [⟨t1, p1⟩] },
        [.lock .restart_log_mutex, .unlock .restart_log_mutex]⟩ =
      .returned () ⟨{ s with restart_log_list := [⟨t1, p1⟩, ⟨t2, p2⟩] },
        [.lock .restart_log_mutex, .unlock .restart_log_mutex,
         .lock .restart_log_mutex, .unlock .restart_log_mutex]⟩ := by
    unfold do_epoch_check mutex_lock
    simp [hfree, hmax, hwin, bind_returned, Run.emit, mutex_unlock, epoch_scan, k0, k21, n1]
  have c3 : (do_epoch_check ⟨true, t3⟩ p3 ⟨{ s with restart_log_list := [⟨t1, p1⟩, ⟨t2, p2⟩] },
        [.lock .restart_log_mutex, .unlock .restart_log_mutex,
         .lock .restart_log_mutex, .unlock .restart_log_mutex]⟩).isPanicked = true := by
    unfold do_epoch_check mutex_lock
    simp [hfree, hmax, hwin, bind_returned, Run.emit, mutex_unlock, epoch_scan, k0, k31, k32,
      n3, n4, h13, Result.isPanicked]
  refine ⟨?_, ?_, ?_⟩
  · simp only [epoch_checks, c1, bind_returned, Result.isReturned]
  · simp only [epoch_checks, c1, c2, bind_returned, Result.isReturned]
  · simp only [epoch_checks, c1, c2, bind_returned]
    cases h : do_epoch_check ⟨true, t3⟩ p3 ⟨{ s with restart_log_list := [⟨t1, p1⟩, ⟨t2, p2⟩] },
        [.lock .restart_log_mutex, .unlock .restart_log_mutex,
         .lock .restart_log_mutex, .unlock .restart_log_mutex]⟩ with
    | panicked r => rfl
    | returned a r => rw [h] at c3; simp [Result.isPanicked] at c3
    | blocked r => rw [h] at c3; simp [Result.isPanicked] at c3
    | fault r => rw [h] at c3; simp [Result.isPanicked] at c3

/-- Checks at the seconds 100, 130 and 159 for three different subsystems: the third panics. -/
theorem third_check_in_window_panics_witness :
    (epoch_checks [(1, ⟨true, ⟨100, 0⟩⟩)] ⟨boot_state (demo_mem 0 0) 3 3 60, []⟩).isReturned = true ∧
    (epoch_checks [(1, ⟨true, ⟨100, 0⟩⟩), (2, ⟨true, ⟨130, 0⟩⟩)]
      ⟨boot_state (demo_mem 0 0) 3 3 60, []⟩).isReturned = true ∧
    (epoch_checks [(1, ⟨true, ⟨100, 0⟩⟩), (2, ⟨true, ⟨130, 0⟩⟩), (3, ⟨true, ⟨159, 0⟩⟩)]
      ⟨boot_state (demo_mem 0 0) 3 3 60, []⟩).isPanicked = true :=
  third_check_in_window_panics (boot_state (demo_mem 0 0) 3 3 60) 1 2 3 ⟨100, 0⟩ ⟨130, 0⟩ ⟨159, 0⟩
    rfl rfl rfl (by decide) (by decide) (by decide) (by decide)

theorem shutdown_seq_append (a b : List Event) :
    shutdown_seq (a ++ b) = shutdown_seq a ++ shutdown_seq b := by
  simp [shutdown_seq, List.filterMap_append]

theorem powerup_seq_append (a b : List Event) :
    powerup_seq (a ++ b) = powerup_seq a ++ powerup_seq b := by
  simp [powerup_seq, List.filterMap_append]

theorem shutdown_seq_notifs (s : State) (t : subsys_notif_type) (ms : List SubsysPtr) :
    shutdown_seq (notifs s t ms) = [] := by
  induction ms with
  | nil => rfl
  | cons p ms ih => simp [shutdown_seq, notifs, ih]

theorem powerup_seq_notifs (s : State) (t : subsys_notif_type) (ms : List SubsysPtr) :
    powerup_seq (notifs s t ms) = [] := by
  induction ms with
  | nil => rfl
  | cons p ms ih => simp [powerup_seq, notifs, ih]

theorem shutdown_seq_shutdown (sd : List (SubsysPtr × Int)) :
    shutdown_seq (returns .shutdown sd) = sd.map Prod.fst := by
  induction sd with
  | nil => rfl
  | cons x sd ih => simpa [shutdown_seq, returns] using ih

theorem powerup_seq_powerup (pu : List (SubsysPtr × Int)) :
    powerup_seq (returns .powerup pu) = pu.map Prod.fst := by
  induction pu with
  | nil => rfl
  | cons x pu ih => simpa [powerup_seq, returns] using ih

theorem shutdown_seq_powerup (pu : List (SubsysPtr × Int)) :
    shutdown_seq (returns .powerup pu) = [] := by
  induction pu with
  | nil => rfl
  | cons x pu ih => simp [shutdown_seq, returns, ih]

theorem powerup_seq_shutdown (sd : List (SubsysPtr × Int)) :
    powerup_seq (returns .shutdown sd) = [] := by
  induction sd with
  | nil => rfl
  | cons x sd ih => simp [powerup_seq, returns, ih]

theorem shutdown_seq_ramdump (en : Int) (rd : List (SubsysPtr × Int)) :
    shutdown_seq (returns (.ramdump en) rd) = [] := by
  induction rd with
  | nil => rfl
  | cons x rd ih => simp [shutdown_seq, returns, ih]

theorem powerup_seq_ramdump (en : Int) (rd : List (SubsysPtr × Int)) :
    powerup_seq (returns (.ramdump en) rd) = [] := by
  induction rd with
  | nil => rfl
  | cons x rd ih => simp [powerup_seq, returns, ih]

theorem shutdown_seq_completed (s : State) (u : restart_unit) (r_work : restart_wq_data)
    (sd rd pu : List (SubsysPtr × Int)) :
    shutdown_seq (tr_completed s u r_work (tr_admitted u) sd rd pu) = sd.map Prod.fst := by
  simp only [tr_completed, tr_after_powerup, tr_before_powerup, tr_before_shutdown,
    shutdown_seq_append, shutdown_seq_notifs, shutdown_seq_shutdown, shutdown_seq_powerup,
    shutdown_seq_ramdump]
  simp [shutdown_seq, tr_admitted, out_events]

theorem powerup_seq_completed (s : State) (u : restart_unit) (r_work : restart_wq_data)
    (sd rd pu : List (SubsysPtr × Int)) :
    powerup_seq (tr_completed s u r_work (tr_admitted u) sd rd pu) = pu.map Prod.fst := by
  simp only [tr_completed, tr_after_powerup, tr_before_powerup, tr_before_shutdown,
    powerup_seq_append, powerup_seq_notifs, powerup_seq_shutdown, powerup_seq_powerup,
    powerup_seq_ramdump]
  simp [powerup_seq, tr_admitted, out_events]

/-- Claim C1.  For every request (single subsystem or group of any size, null slots
included), every state and every behaviour of the callbacks: if the run of the
worker does not end fatally, the members whose powerup callback was invoked are,
in order, exactly the reverse of the members whose shutdown callback was
invoked. -/
theorem powerup_reverses_shutdown (cfg : Config) (env : EpochEnv) (r_work : restart_wq_data)
    (s : State)
    (h : (subsystem_restart_wq_func cfg env r_work ⟨s, []⟩).isFatal = false) :
    powerup_seq (subsystem_restart_wq_func cfg env r_work ⟨s, []⟩).run.trace =
      (shutdown_seq (subsystem_restart_wq_func cfg env r_work ⟨s, []⟩).run.trace).reverse := by
  rcases wq_func_cases cfg env r_work s with ⟨hsl, e⟩ | ⟨hsl, hpl, e⟩ | ⟨hsl, hpl, hseq⟩
  · rw [e]; simp [Result.run, powerup_seq, shutdown_seq, out_events]
  · rw [e] at h; simp [Result.isFatal] at h
  · cases hseq with
    | waiting_log hlog e => rw [e]; simp [Result.run, powerup_seq, shutdown_seq, tr_admitted]
    | crash_loop hlog hfire e => rw [e] at h; simp [Result.isFatal] at h
    | waiting hlog hfire hsoc e =>
      rw [e]; simp [Result.run, powerup_seq, shutdown_seq, tr_admitted]
    | name_null mdm hlog hfire hsoc hcfg hname e => rw [e] at h; simp [Result.isFatal] at h
    | shutdown_failed mdm sd p ret rest f hlog hfire hsoc hsd hms hret hf hval e =>
      rw [e] at h; simp [Result.isFatal] at h
    | shutdown_null mdm sd p rest hlog hfire hsoc hsd hms hf e =>
      rw [e] at h; simp [Result.isFatal] at h
    | powerup_failed mdm sd rd pu p ret rest f hlog hfire hsoc hsd hsdm hrdm hpu hms hret hf
        hval e =>
      rw [e] at h; simp [Result.isFatal] at h
    | powerup_null mdm sd rd pu p rest hlog hfire hsoc hsd hsdm hrdm hpu hms hf e =>
      rw [e] at h; simp [Result.isFatal] at h
    | name_null_late mdm sd rd pu hlog hfire hsoc hsd hsdm hrdm hpu hpum hcfg hname e =>
      rw [e] at h; simp [Result.isFatal] at h
    | completed mdm sd rd pu hlog hfire hsoc hsd hsdm hrdm hpu hpum e =>
      rw [e]
      simp only [Result.run]
      rw [shutdown_seq_completed, powerup_seq_completed, hpum, hsdm]

theorem calls_append (a b : List Event) : calls (a ++ b) = calls a ++ calls b := by
  simp [calls, List.filterMap_append]

theorem calls_notifs (s : State) (t : subsys_notif_type) (ms : List SubsysPtr) :
    calls (notifs s t ms) = notif_calls s t ms := by
  induction ms with
  | nil => rfl
  | cons p ms ih => simpa [calls, notifs, notif_calls, Event.toCall] using ih

theorem calls_shutdown (sd : List (SubsysPtr × Int)) :
    calls (returns .shutdown sd) = (sd.map Prod.fst).map .shutdown := by
  induction sd with
  | nil => rfl
  | cons x sd ih => simpa [calls, returns, Event.toCall] using ih

theorem calls_powerup (pu : List (SubsysPtr × Int)) :
    calls (returns .powerup pu) = (pu.map Prod.fst).map .powerup := by
  induction pu with
  | nil => rfl
  | cons x pu ih => simpa [calls, returns, Event.toCall] using ih

theorem calls_ramdump (en : Int) (rd : List (SubsysPtr × Int)) :
    calls (returns (.ramdump en) rd) = (rd.map Prod.fst).map .ramdump := by
  induction rd with
  | nil => rfl
  | cons x rd ih => simpa [calls, returns, Event.toCall] using ih

theorem calls_completed (s : State) (u : restart_unit) (r_work : restart_wq_data)
    (sd rd pu : List (SubsysPtr × Int)) :
    calls (tr_completed s u r_work (tr_admitted u) sd rd pu) =
      notif_calls s .SUBSYS_BEFORE_SHUTDOWN (unit_members u) ++
        (sd.map Prod.fst).map .shutdown ++
        notif_calls s .SUBSYS_AFTER_SHUTDOWN (unit_members u) ++
        (rd.map Prod.fst).map .ramdump ++
        notif_calls s .SUBSYS_BEFORE_POWERUP (unit_members u) ++
        (pu.map Prod.fst).map .powerup ++
        notif_calls s .SUBSYS_AFTER_POWERUP (unit_members u) := by
  simp only [tr_completed, tr_after_powerup, tr_before_powerup, tr_before_shutdown,
    calls_append, calls_notifs, calls_shutdown, calls_powerup, calls_ramdump]
  simp [calls, tr_admitted, out_events, Event.toCall]

theorem resolve_unit_locks_local (r_work : restart_wq_data) (s : State) :
    (resolve_unit r_work s).shutdown_lock ≠ .soc_order_reg_lock ∧
    (resolve_unit r_work s).shutdown_lock ≠ .restart_log_mutex ∧
    (resolve_unit r_work s).powerup_lock ≠ .soc_order_reg_lock ∧
    (resolve_unit r_work s).powerup_lock ≠ .restart_log_mutex := by
  unfold resolve_unit
  simp only []
  split <;> simp

/-- A run of the worker with the locks of the unit and the two global mutexes
free, the crash-loop detector silent and the callbacks of the registered members
never failing completes the sequence. -/
theorem nominal_run_completed (cfg : Config) (env : EpochEnv) (r_work : restart_wq_data)
    (s : State)
    (hsl : (resolve_unit r_work s).shutdown_lock ∉ s.held)
    (hpl : (resolve_unit r_work s).powerup_lock ∉ s.held)
    (hsoc : Mutex.soc_order_reg_lock ∉ s.held)
    (hlog : Mutex.restart_log_mutex ∉ s.held)
    (hfire : epoch_fires env r_work.subsys s = false)
    (hreg : ∀ p ∈ unit_members (resolve_unit r_work s), registered_member s p)
    (hok : ∀ p ∈ unit_members (resolve_unit r_work s), callbacks_succeed s p) :
    ∃ st' sd rd pu,
      sd.map Prod.fst = unit_members (resolve_unit r_work s) ∧
      rd.map Prod.fst = ramdump_members s (unit_members (resolve_unit r_work s)) ∧
      pu.map Prod.fst = (unit_members (resolve_unit r_work s)).reverse ∧
      subsystem_restart_wq_func cfg env r_work ⟨s, []⟩ =
        .returned () ⟨st', tr_completed (st_admitted s (resolve_unit r_work s))
          (resolve_unit r_work s) r_work (tr_admitted (resolve_unit r_work s)) sd rd pu⟩ := by
  obtain ⟨l1, l2, l3, l4⟩ := resolve_unit_locks_local r_work s
  have hsoc' : Mutex.soc_order_reg_lock ∉ (st_admitted s (resolve_unit r_work s)).held := by
    simp only [st_admitted, List.mem_cons, not_or]
    exact ⟨fun h => l3 h.symm, fun h => l1 h.symm, hsoc⟩
  have hlog' : Mutex.restart_log_mutex ∉ (st_admitted s (resolve_unit r_work s)).held := by
    simp only [st_admitted, List.mem_cons, not_or]
    exact ⟨fun h => l4 h.symm, fun h => l2 h.symm, hlog⟩
  have hfire' : epoch_fires env r_work.subsys (st_admitted s (resolve_unit r_work s)) = false :=
    hfire
  rcases wq_func_cases cfg env r_work s with ⟨hsl', _⟩ | ⟨_, hpl', _⟩ | ⟨_, _, hseq⟩
  · exact absurd hsl' hsl
  · exact absurd hpl' hpl
  · cases hseq with
    | waiting_log h e => exact absurd h hlog'
    | crash_loop _ h e => rw [hfire'] at h; cases h
    | waiting _ _ h e => exact absurd h hsoc'
    | name_null mdm _ _ _ hcfg hname e =>
      obtain ⟨p, hp, hn⟩ := hname
      exact absurd hn (hreg p hp).1
    | shutdown_failed mdm sd p ret rest f _ _ _ hsd hms hret hf hval e =>
      have hp : p ∈ unit_members (resolve_unit r_work s) := by rw [hms]; simp
      have := (hok p hp).1 f hf (tr_before_shutdown (st_admitted s (resolve_unit r_work s))
        (resolve_unit r_work s) (tr_admitted (resolve_unit r_work s)) ++ returns .shutdown sd)
      omega
    | shutdown_null mdm sd p rest _ _ _ hsd hms hf e =>
      have hp : p ∈ unit_members (resolve_unit r_work s) := by rw [hms]; simp
      exact absurd hf (hreg p hp).2.1
    | powerup_failed mdm sd rd pu p ret rest f _ _ _ hsd hsdm hrdm hpu hms hret hf hval e =>
      have hp : p ∈ unit_members (resolve_unit r_work s) := by
        rw [← List.mem_reverse, hms]; simp
      have := (hok p hp).2 f hf (tr_before_powerup (st_admitted s (resolve_unit r_work s))
        (resolve_unit r_work s) (tr_admitted (resolve_unit r_work s)) sd rd ++
        returns .powerup pu)
      omega
    | powerup_null mdm sd rd pu p rest _ _ _ hsd hsdm hrdm hpu hms hf e =>
      have hp : p ∈ unit_members (resolve_unit r_work s) := by
        rw [← List.mem_reverse, hms]; simp
      exact absurd hf (hreg p hp).2.2
    | name_null_late mdm sd rd pu _ _ _ hsd hsdm hrdm hpu hpum hcfg hname e =>
      obtain ⟨p, hp, hn⟩ := hname
      exact absurd hn (hreg p hp).1
    | completed mdm sd rd pu _ _ _ hsd hsdm hrdm hpu hpum e =>
      exact ⟨_, sd, rd, pu, hsdm, hrdm, hpum, e⟩

/-- Claim C2.  A run of the worker in which both locks of the unit are free, no
other thread holds one of the two global mutexes, the crash-loop detector does
not fire and the shutdown and powerup callbacks of the registered members
`m1..mk` never return a negative value returns, and its notifications and
callbacks are exactly: BEFORE_SHUTDOWN for `m1..mk`, shutdown of `m1..mk`,
AFTER_SHUTDOWN for `m1..mk`, the ramdumps of the members that have one,
BEFORE_POWERUP for `m1..mk`, powerup of `mk..m1`, AFTER_POWERUP for `m1..mk`. -/
theorem nominal_run_calls (cfg : Config) (env : EpochEnv) (r_work : restart_wq_data)
    (s : State)
    (hsl : (resolve_unit r_work s).shutdown_lock ∉ s.held)
    (hpl : (resolve_unit r_work s).powerup_lock ∉ s.held)
    (hsoc : Mutex.soc_order_reg_lock ∉ s.held)
    (hlog : Mutex.restart_log_mutex ∉ s.held)
    (hfire : epoch_fires env r_work.subsys s = false)
    (hreg : ∀ p ∈ unit_members (resolve_unit r_work s), registered_member s p)
    (hok : ∀ p ∈ unit_members (resolve_unit r_work s), callbacks_succeed s p) :
    ∃ r', subsystem_restart_wq_func cfg env r_work ⟨s, []⟩ = .returned () r' ∧
      calls r'.trace = expected_calls s (unit_members (resolve_unit r_work s)) := by
  obtain ⟨st', sd, rd, pu, hsdm, hrdm, hpum, e⟩ :=
    nominal_run_completed cfg env r_work s hsl hpl hsoc hlog hfire hreg hok
  refine ⟨_, e, ?_⟩
  simp only []
  rw [calls_completed, hsdm, hrdm, hpum]
  rfl

/-! ## Admission invariant of the system of workers -/

theorem powerup_lock_injective (u v : UnitId) (h : u.powerup_lock = v.powerup_lock) : u = v := by
  cases u <;> cases v <;> simp [UnitId.powerup_lock] at h <;> simp [h]

theorem powerup_lock_ne_shutdown (u v : UnitId) : u.powerup_lock ≠ v.shutdown_lock := by
  cases u <;> cases v <;> simp [UnitId.powerup_lock, UnitId.shutdown_lock]

theorem powerup_lock_ne_soc (u : UnitId) : u.powerup_lock ≠ .soc_order_reg_lock := by
  cases u <;> simp [UnitId.powerup_lock]

theorem admission_inv_init : AdmissionInv { held := [], workers := [], panicked := false } := by
  refine ⟨?_, ?_⟩
  · intro i w h; simp at h
  · intro i j wi wj h; simp at h

theorem admission_inv_spawn (s : Sys) (u : UnitId) (h : AdmissionInv s) :
    AdmissionInv (s.spawn u) := by
  obtain ⟨h1, h2⟩ := h
  have key : ∀ (i : Nat) (w : Worker), (s.spawn u).workers[i]? = some w →
      w.pc.in_flight = true → s.workers[i]? = some w := by
    intro i w hw hf
    simp only [Sys.spawn] at hw
    by_cases hi : i < s.workers.length
    · rw [List.getElem?_append_left hi] at hw; exact hw
    · rw [List.getElem?_append_right (by omega)] at hw
      cases hk : i - s.workers.length with
      | zero =>
        rw [hk] at hw
        simp at hw
        subst hw
        simp [Pc.in_flight] at hf
      | succ k => rw [hk] at hw; simp at hw
  refine ⟨?_, ?_⟩
  · intro i w hw hf
    exact h1 i w (key i w hw hf) hf
  · intro i j wi wj hi hj hfi hfj hu
    exact h2 i j wi wj (key i wi hi hfi) (key j wj hj hfj) hfi hfj hu

theorem admission_inv_update (s : Sys) (i : Nat) (w : Worker) (held : List Mutex) (pc : Pc)
    (panicked : Bool) (hw : s.workers[i]? = some w)
    (hkeep : ∀ (k : Nat) (wk : Worker), k ≠ i → s.workers[k]? = some wk →
      wk.pc.in_flight = true → wk.unit.powerup_lock ∈ held)
    (hnew : pc.in_flight = true → w.unit.powerup_lock ∈ held ∧
      ∀ (k : Nat) (wk : Worker), k ≠ i → s.workers[k]? = some wk →
        wk.pc.in_flight = true → wk.unit ≠ w.unit)
    (hinv : AdmissionInv s) :
    AdmissionInv { held := held, workers := s.workers.set i { w with pc := pc },
                   panicked := panicked } := by
  obtain ⟨_, h2⟩ := hinv
  have hlt : i < s.workers.length := by
    rcases Nat.lt_or_ge i s.workers.length with h | h
    · exact h
    · rw [List.getElem?_eq_none h] at hw; cases hw
  have look : ∀ (k : Nat) (wk : Worker),
      (s.workers.set i { w with pc := pc })[k]? = some wk →
      (k = i ∧ wk = { w with pc := pc }) ∨ (k ≠ i ∧ s.workers[k]? = some wk) := by
    intro k wk hk
    rw [List.getElem?_set] at hk
    by_cases e : i = k
    · left
      rw [if_pos e, if_pos hlt] at hk
      exact ⟨e.symm, (Option.some.inj hk).symm⟩
    · right
      rw [if_neg e] at hk
      exact ⟨fun h => e h.symm, hk⟩
  refine ⟨?_, ?_⟩
  · intro k wk hk hf
    rcases look k wk hk with ⟨_, rfl⟩ | ⟨hne, hold⟩
    · exact (hnew hf).1
    · exact hkeep k wk hne hold hf
  · intro k j wk wj hk hj hfk hfj hu
    rcases look k wk hk with ⟨rfl, rfl⟩ | ⟨hnek, holdk⟩ <;>
      rcases look j wj hj with ⟨rfl, rfl⟩ | ⟨hnej, holdj⟩
    · rfl
    · exact absurd hu.symm ((hnew hfk).2 j wj hnej holdj hfj)
    · exact absurd hu ((hnew hfj).2 k wk hnek holdk hfk)
    · exact h2 k j wk wj holdk holdj hfk hfj hu

theorem admission_inv_step (s s' : Sys) (i : Nat) (fails : Bool) (hinv : AdmissionInv s)
    (hstep : s.step i fails = some s') : AdmissionInv s' := by
  unfold Sys.step at hstep
  by_cases hp : s.panicked = true
  · simp [hp] at hstep
  simp only [hp, Bool.false_eq_true, if_false] at hstep
  cases hw : s.workers[i]? with
  | none => simp [hw] at hstep
  | some w =>
    simp only [hw] at hstep
    have h1 := hinv.1
    have h2 := hinv.2
    -- the other workers past admission keep their powerup lock when a mutex
    -- that is none of their powerup locks is released, or one is taken
    have keep_same : ∀ (k : Nat) (wk : Worker), k ≠ i → s.workers[k]? = some wk →
        wk.pc.in_flight = true → wk.unit.powerup_lock ∈ s.held :=
      fun k wk _ hk hf => h1 k wk hk hf
    have others : w.pc.in_flight = true → ∀ (k : Nat) (wk : Worker), k ≠ i →
        s.workers[k]? = some wk → wk.pc.in_flight = true → wk.unit ≠ w.unit :=
      fun hf k wk hne hk hfk hu => hne (h2 k i wk w hk hw hfk hf hu)
    cases hws : w.step s.held fails with
    | none => simp [hws] at hstep
    | some t =>
      obtain ⟨held', pc', pk⟩ := t
      simp only [hws, Option.some.injEq] at hstep
      subst hstep
      unfold Worker.step at hws
      cases hpc : w.pc with
      | at_trylock_shutdown =>
        simp only [hpc] at hws
        by_cases hc : w.unit.shutdown_lock ∈ s.held
        · simp only [if_pos hc, Option.some.injEq, Prod.mk.injEq] at hws
          obtain ⟨rfl, rfl, rfl⟩ := hws
          exact admission_inv_update s i w _ _ _ hw keep_same (by simp [Pc.in_flight]) hinv
        · simp only [if_neg hc, Option.some.injEq, Prod.mk.injEq] at hws
          obtain ⟨rfl, rfl, rfl⟩ := hws
          exact admission_inv_update s i w _ _ _ hw
            (fun k wk hne hk hf => List.mem_cons_of_mem _ (keep_same k wk hne hk hf))
            (by simp [Pc.in_flight]) hinv
      | at_trylock_powerup =>
        simp only [hpc] at hws
        by_cases hc : w.unit.powerup_lock ∈ s.held
        · simp only [if_pos hc, Option.some.injEq, Prod.mk.injEq] at hws
          obtain ⟨rfl, rfl, rfl⟩ := hws
          exact admission_inv_update s i w _ _ _ hw keep_same (by simp [Pc.in_flight]) hinv
        · simp only [if_neg hc, Option.some.injEq, Prod.mk.injEq] at hws
          obtain ⟨rfl, rfl, rfl⟩ := hws
          refine admission_inv_update s i w _ _ _ hw
            (fun k wk hne hk hf => List.mem_cons_of_mem _ (keep_same k wk hne hk hf))
            (fun _ => ⟨List.mem_cons_self _ _, ?_⟩) hinv
          intro k wk hne hk hfk hu
          exact hc (hu ▸ h1 k wk hk hfk)
      | at_epoch_check =>
        have hf : w.pc.in_flight = true := by rw [hpc]; rfl
        simp only [hpc] at hws
        by_cases hc : fails = true
        · simp only [if_pos hc, Option.some.injEq, Prod.mk.injEq] at hws
          obtain ⟨rfl, rfl, rfl⟩ := hws
          exact admission_inv_update s i w _ _ _ hw keep_same
            (fun _ => ⟨h1 i w hw hf, others hf⟩) hinv
        · simp only [if_neg hc, Option.some.injEq, Prod.mk.injEq] at hws
          obtain ⟨rfl, rfl, rfl⟩ := hws
          exact admission_inv_update s i w _ _ _ hw keep_same
            (fun _ => ⟨h1 i w hw hf, others hf⟩) hinv
      | at_lock_soc =>
        have hf : w.pc.in_flight = true := by rw [hpc]; rfl
        simp only [hpc] at hws
        by_cases hc : Mutex.soc_order_reg_lock ∈ s.held
        · simp [if_pos hc] at hws
        · simp only [if_neg hc, Option.some.injEq, Prod.mk.injEq] at hws
          obtain ⟨rfl, rfl, rfl⟩ := hws
          exact admission_inv_update s i w _ _ _ hw
            (fun k wk hne hk hfk => List.mem_cons_of_mem _ (keep_same k wk hne hk hfk))
            (fun _ => ⟨List.mem_cons_of_mem _ (h1 i w hw hf), others hf⟩) hinv
      | in_shutdown =>
        have hf : w.pc.in_flight = true := by rw [hpc]; rfl
        simp only [hpc] at hws
        by_cases hc : fails = true
        · simp only [if_pos hc, Option.some.injEq, Prod.mk.injEq] at hws
          obtain ⟨rfl, rfl, rfl⟩ := hws
          exact admission_inv_update s i w _ _ _ hw keep_same
            (fun _ => ⟨h1 i w hw hf, others hf⟩) hinv
        · simp only [if_neg hc, Option.some.injEq, Prod.mk.injEq] at hws
          obtain ⟨rfl, rfl, rfl⟩ := hws
          exact admission_inv_update s i w _ _ _ hw
            (fun k wk hne hk hfk =>
              (List.mem_erase_of_ne (powerup_lock_ne_shutdown _ _)).mpr
                (keep_same k wk hne hk hfk))
            (fun _ => ⟨(List.mem_erase_of_ne (powerup_lock_ne_shutdown _ _)).mpr
              (h1 i w hw hf), others hf⟩) hinv
      | in_powerup =>
        have hf : w.pc.in_flight = true := by rw [hpc]; rfl
        simp only [hpc] at hws
        by_cases hc : fails = true
        · simp only [if_pos hc, Option.some.injEq, Prod.mk.injEq] at hws
          obtain ⟨rfl, rfl, rfl⟩ := hws
          exact admission_inv_update s i w _ _ _ hw keep_same
            (fun _ => ⟨h1 i w hw hf, others hf⟩) hinv
        · simp only [if_neg hc, Option.some.injEq, Prod.mk.injEq] at hws
          obtain ⟨rfl, rfl, rfl⟩ := hws
          exact admission_inv_update s i w _ _ _ hw
            (fun k wk hne hk hfk =>
              (List.mem_erase_of_ne
                (fun e => others hf k wk hne hk hfk (powerup_lock_injective _ _ e))).mpr
                (keep_same k wk hne hk hfk))
            (by simp [Pc.in_flight]) hinv
      | at_unlock_soc =>
        simp only [hpc, Option.some.injEq, Prod.mk.injEq] at hws
        obtain ⟨rfl, rfl, rfl⟩ := hws
        exact admission_inv_update s i w _ _ _ hw
          (fun k wk hne hk hfk =>
            (List.mem_erase_of_ne (powerup_lock_ne_soc _)).mpr (keep_same k wk hne hk hfk))
          (by simp [Pc.in_flight]) hinv
      | at_out =>
        simp only [hpc, Option.some.injEq, Prod.mk.injEq] at hws
        obtain ⟨rfl, rfl, rfl⟩ := hws
        exact admission_inv_update s i w _ _ _ hw keep_same (by simp [Pc.in_flight]) hinv
      | finished =>
        simp [hpc] at hws

theorem reachable_admission_inv (s : Sys) (h : Reachable s) : AdmissionInv s := by
  induction h with
  | init => exact admission_inv_init
  | spawn s u _ _ ih => exact admission_inv_spawn s u ih
  | step s s' i fails _ hstep ih => exact admission_inv_step s s' i fails ih hstep

/-- Claim C5.  In every reachable state of the system of restart workers, a worker
that is past admission (it took the powerup lock of its unit at line 414 and has
not yet released it at line 514) holds that lock, and two workers that are both
past admission for the same restart unit are the same worker: at most one
sequence per unit is in flight. -/
theorem one_sequence_per_unit (s : Sys) (h : Reachable s) :
    (∀ (i : Nat) (w : Worker), s.workers[i]? = some w → w.pc.in_flight = true →
      w.unit.powerup_lock ∈ s.held) ∧
    (∀ (i j : Nat) (wi wj : Worker), s.workers[i]? = some wi → s.workers[j]? = some wj →
      wi.pc.in_flight = true → wj.pc.in_flight = true → wi.unit = wj.unit → i = j) :=
  reachable_admission_inv s h

/-! ## Dropped requests and failing callbacks -/

theorem mem_returns (mk : SubsysPtr → Int → Event) (pairs : List (SubsysPtr × Int)) (e : Event) :
    e ∈ returns mk pairs ↔ ∃ x ∈ pairs, mk x.1 x.2 = e := by
  simp [returns]

theorem mem_notifs (s : State) (t : subsys_notif_type) (ms : List SubsysPtr) (e : Event) :
    e ∈ notifs s t ms ↔ ∃ p ∈ ms, Event.notif (s.mem p).notif_handle t = e := by
  simp [notifs]

/-- Claim C6.  If the shutdown lock of the restart unit is held when the worker
runs, the worker returns with every global unchanged (no lock changes state, the
restart log gets no entry) and its whole trace is the failed trylock followed by
the release and destruction of the wake lock and the freeing of the work item:
no callback, no notification, no panic. -/
theorem busy_unit_request_dropped (cfg : Config) (env : EpochEnv) (r_work : restart_wq_data)
    (s : State) (h : (resolve_unit r_work s).shutdown_lock ∈ s.held) :
    subsystem_restart_wq_func cfg env r_work ⟨s, []⟩ =
      .returned () ⟨s, [.trylock (resolve_unit r_work s).shutdown_lock false,
        .wake_unlock r_work.subsys, .wake_lock_destroy r_work.subsys,
        .kfree_work r_work.subsys]⟩ := by
  rcases wq_func_cases cfg env r_work s with ⟨_, e⟩ | ⟨hsl, _, _⟩ | ⟨hsl, _, _⟩
  · exact e
  · exact absurd h hsl
  · exact absurd h hsl

/-- Claim C7.  If a powerup callback invoked by the worker returns a negative value,
the run ends in panic with that call as its last event: the members powered up
are an initial part of the powerup (reverse list) order ending with that member,
so no later member is powered up, and no AFTER_POWERUP notification is sent. -/
theorem powerup_failure_fatal (cfg : Config) (env : EpochEnv) (r_work : restart_wq_data)
    (s : State) (p : SubsysPtr) (ret : Int)
    (h : Event.powerup p ret ∈ (subsystem_restart_wq_func cfg env r_work ⟨s, []⟩).run.trace)
    (hneg : ret < 0) :
    (subsystem_restart_wq_func cfg env r_work ⟨s, []⟩).isPanicked = true ∧
    (subsystem_restart_wq_func cfg env r_work ⟨s, []⟩).run.trace.getLast? =
      some (.powerup p ret) ∧
    (∃ earlier later,
      (unit_members (resolve_unit r_work s)).reverse = earlier ++ p :: later ∧
      powerup_seq (subsystem_restart_wq_func cfg env r_work ⟨s, []⟩).run.trace =
        earlier ++ [p]) ∧
    (∀ handle, Event.notif handle .SUBSYS_AFTER_POWERUP ∉
      (subsystem_restart_wq_func cfg env r_work ⟨s, []⟩).run.trace) := by
  rcases wq_func_cases cfg env r_work s with ⟨_, e⟩ | ⟨_, _, e⟩ | ⟨_, _, hseq⟩
  · rw [e] at h; simp [Result.run, out_events] at h
  · rw [e] at h; simp [Result.run] at h
  · cases hseq with
    | waiting_log _ e => rw [e] at h; simp [Result.run, tr_admitted] at h
    | crash_loop _ _ e => rw [e] at h; simp [Result.run, tr_admitted] at h
    | waiting _ _ _ e => rw [e] at h; simp [Result.run, tr_admitted] at h
    | name_null mdm _ _ _ _ _ e => rw [e] at h; simp [Result.run, tr_admitted] at h
    | shutdown_failed mdm sd q r rest f _ _ _ hsd hms hret hf hval e =>
      rw [e] at h
      simp [Result.run, tr_admitted, tr_before_shutdown, mem_returns, mem_notifs] at h
    | shutdown_null mdm sd q rest _ _ _ hsd hms hf e =>
      rw [e] at h
      simp [Result.run, tr_admitted, tr_before_shutdown, mem_returns, mem_notifs] at h
    | powerup_failed mdm sd rd pu q r rest f _ _ _ hsd hsdm hrdm hpu hms hret hf hval e =>
      rw [e] at h ⊢
      simp only [Result.run, Result.isPanicked] at h ⊢
      have hq : (p, ret) ∈ pu ∨ (p = q ∧ ret = r) := by
        simpa [tr_admitted, tr_before_powerup, tr_before_shutdown, mem_returns, mem_notifs,
          eq_comm] using h
      rcases hq with hq | ⟨rfl, rfl⟩
      · have := hpu _ hq
        simp only at this
        omega
      · refine ⟨trivial, by simp, ⟨pu.map Prod.fst, rest, hms, ?_⟩, ?_⟩
        · simp only [tr_before_powerup, tr_before_shutdown, powerup_seq_append,
            powerup_seq_notifs, powerup_seq_shutdown, powerup_seq_powerup, powerup_seq_ramdump]
          simp [powerup_seq, tr_admitted]
        · intro handle
          simp [tr_admitted, tr_before_powerup, tr_before_shutdown, mem_returns, mem_notifs]
    | powerup_null mdm sd rd pu q rest _ _ _ hsd hsdm hrdm hpu hms hf e =>
      rw [e] at h
      have hq : (p, ret) ∈ pu := by
        simpa [Result.run, tr_admitted, tr_before_powerup, tr_before_shutdown, mem_returns,
          mem_notifs] using h
      have := hpu _ hq
      simp only at this
      omega
    | name_null_late mdm sd rd pu _ _ _ hsd hsdm hrdm hpu hpum _ _ e =>
      rw [e] at h
      have hq : (p, ret) ∈ pu := by
        simpa [Result.run, tr_admitted, tr_after_powerup, tr_before_powerup,
          tr_before_shutdown, mem_returns, mem_notifs] using h
      have := hpu _ hq
      simp only at this
      omega
    | completed mdm sd rd pu _ _ _ hsd hsdm hrdm hpu hpum e =>
      rw [e] at h
      have hq : (p, ret) ∈ pu := by
        simpa [Result.run, tr_admitted, tr_completed, tr_after_powerup, tr_before_powerup,
          tr_before_shutdown, mem_returns, mem_notifs, out_events] using h
      have := hpu _ hq
      simp only at this
      omega

/-- Claim C8.  For a shutdown callback invoked by the worker: if it returns a
negative value, the run ends in panic with that call as its last event, the
members shut down are an initial part of the list order ending with that member
(no later member is shut down), and there is no AFTER_SHUTDOWN notification, no
ramdump call, no BEFORE_POWERUP notification and no powerup call; if it returns
zero or a positive value, the run does not panic on it. -/
theorem shutdown_failure_fatal (cfg : Config) (env : EpochEnv) (r_work : restart_wq_data)
    (s : State) (p : SubsysPtr) (ret : Int)
    (h : Event.shutdown p ret ∈ (subsystem_restart_wq_func cfg env r_work ⟨s, []⟩).run.trace) :
    (ret < 0 →
      (subsystem_restart_wq_func cfg env r_work ⟨s, []⟩).isPanicked = true ∧
      (subsystem_restart_wq_func cfg env r_work ⟨s, []⟩).run.trace.getLast? =
        some (.shutdown p ret) ∧
      (∃ earlier later,
        unit_members (resolve_unit r_work s) = earlier ++ p :: later ∧
        shutdown_seq (subsystem_restart_wq_func cfg env r_work ⟨s, []⟩).run.trace =
          earlier ++ [p]) ∧
      (∀ handle, Event.notif handle .SUBSYS_AFTER_SHUTDOWN ∉
        (subsystem_restart_wq_func cfg env r_work ⟨s, []⟩).run.trace) ∧
      (∀ handle, Event.notif handle .SUBSYS_BEFORE_POWERUP ∉
        (subsystem_restart_wq_func cfg env r_work ⟨s, []⟩).run.trace) ∧
      (∀ en q r, Event.ramdump en q r ∉
        (subsystem_restart_wq_func cfg env r_work ⟨s, []⟩).run.trace) ∧
      (∀ q r, Event.powerup q r ∉
        (subsystem_restart_wq_func cfg env r_work ⟨s, []⟩).run.trace)) ∧
    (0 ≤ ret →
      ¬ ((subsystem_restart_wq_func cfg env r_work ⟨s, []⟩).isPanicked = true ∧
        (subsystem_restart_wq_func cfg env r_work ⟨s, []⟩).run.trace.getLast? =
          some (.shutdown p ret))) := by
  rcases wq_func_cases cfg env r_work s with ⟨_, e⟩ | ⟨_, _, e⟩ | ⟨_, _, hseq⟩
  · rw [e] at h; simp [Result.run, out_events] at h
  · rw [e] at h; simp [Result.run] at h
  · cases hseq with
    | waiting_log _ e => rw [e] at h; simp [Result.run, tr_admitted] at h
    | crash_loop _ _ e => rw [e] at h; simp [Result.run, tr_admitted] at h
    | waiting _ _ _ e => rw [e] at h; simp [Result.run, tr_admitted] at h
    | name_null mdm _ _ _ _ _ e => rw [e] at h; simp [Result.run, tr_admitted] at h
    | shutdown_failed mdm sd q r rest f _ _ _ hsd hms hret hf hval e =>
      rw [e] at h ⊢
      simp only [Result.run, Result.isPanicked] at h ⊢
      have hq : (p, ret) ∈ sd ∨ (p = q ∧ ret = r) := by
        simpa [tr_admitted, tr_before_shutdown, mem_returns, mem_notifs, eq_comm] using h
      rcases hq with hq | ⟨rfl, rfl⟩
      · have h0 := hsd _ hq
        simp only at h0
        refine ⟨fun hn => by omega, fun _ hc => ?_⟩
        have hl := hc.2
        simp at hl
        omega
      · refine ⟨fun _ => ⟨trivial, by simp, ⟨sd.map Prod.fst, rest, hms, ?_⟩, ?_, ?_, ?_, ?_⟩,
          fun h0 => by omega⟩
        · simp only [tr_before_shutdown, shutdown_seq_append, shutdown_seq_notifs,
            shutdown_seq_shutdown]
          simp [shutdown_seq, tr_admitted]
        · intro handle
          simp [tr_admitted, tr_before_shutdown, mem_returns, mem_notifs]
        · intro handle
          simp [tr_admitted, tr_before_shutdown, mem_returns, mem_notifs]
        · intro en a b
          simp [tr_admitted, tr_before_shutdown, mem_returns, mem_notifs]
        · intro a b
          simp [tr_admitted, tr_before_shutdown, mem_returns, mem_notifs]
    | shutdown_null mdm sd q rest _ _ _ hsd hms hf e =>
      rw [e] at h ⊢
      have hq : (p, ret) ∈ sd := by
        simpa [Result.run, tr_admitted, tr_before_shutdown, mem_returns, mem_notifs] using h
      have h0 := hsd _ hq
      simp only at h0
      exact ⟨fun hn => by omega, fun _ hc => by simp [Result.isPanicked] at hc⟩
    | powerup_failed mdm sd rd pu q r rest f _ _ _ hsd hsdm hrdm hpu hms hret hf hval e =>
      rw [e] at h ⊢
      have hq : (p, ret) ∈ sd := by
        simpa [Result.run, tr_admitted, tr_before_powerup, tr_before_shutdown, mem_returns,
          mem_notifs] using h
      have h0 := hsd _ hq
      simp only at h0
      exact ⟨fun hn => by omega, fun _ hc => by simp [Result.run] at hc⟩
    | powerup_null mdm sd rd pu q rest _ _ _ hsd hsdm hrdm hpu hms hf e =>
      rw [e] at h ⊢
      have hq : (p, ret) ∈ sd := by
        simpa [Result.run, tr_admitted, tr_before_powerup, tr_before_shutdown, mem_returns,
          mem_notifs] using h
      have h0 := hsd _ hq
      simp only at h0
      exact ⟨fun hn => by omega, fun _ hc => by simp [Result.isPanicked] at hc⟩
    | name_null_late mdm sd rd pu _ _ _ hsd hsdm hrdm hpu hpum _ _ e =>
      rw [e] at h ⊢
      have hq : (p, ret) ∈ sd := by
        simpa [Result.run, tr_admitted, tr_after_powerup, tr_before_powerup,
          tr_before_shutdown, mem_returns, mem_notifs] using h
      have h0 := hsd _ hq
      simp only at h0
      exact ⟨fun hn => by omega, fun _ hc => by simp [Result.isPanicked] at hc⟩
    | completed mdm sd rd pu _ _ _ hsd hsdm hrdm hpu hpum e =>
      rw [e] at h ⊢
      have hq : (p, ret) ∈ sd := by
        simpa [Result.run, tr_admitted, tr_completed, tr_after_powerup, tr_before_powerup,
          tr_before_shutdown, mem_returns, mem_notifs, out_events] using h
      have h0 := hsd _ hq
      simp only at h0
      exact ⟨fun hn => by omega, fun _ hc => by simp [Result.isPanicked] at hc⟩

/-! ## Frame of a run -/

theorem unit_event_notifs (s : State) (u : restart_unit) (r_work : restart_wq_data)
    (t : subsys_notif_type) :
    ∀ e ∈ notifs s t (unit_members u), unit_event s u r_work e := by
  intro e he
  obtain ⟨p, hp, rfl⟩ := (mem_notifs s t _ e).mp he
  exact ⟨p, hp, rfl⟩

theorem unit_event_shutdown (s : State) (u : restart_unit) (r_work : restart_wq_data)
    (sd : List (SubsysPtr × Int)) (h : ∀ x ∈ sd, x.1 ∈ unit_members u) :
    ∀ e ∈ returns .shutdown sd, unit_event s u r_work e := by
  intro e he
  obtain ⟨x, hx, rfl⟩ := (mem_returns _ _ e).mp he
  exact h x hx

theorem unit_event_powerup (s : State) (u : restart_unit) (r_work : restart_wq_data)
    (pu : List (SubsysPtr × Int)) (h : ∀ x ∈ pu, x.1 ∈ unit_members u) :
    ∀ e ∈ returns .powerup pu, unit_event s u r_work e := by
  intro e he
  obtain ⟨x, hx, rfl⟩ := (mem_returns _ _ e).mp he
  exact h x hx

theorem unit_event_ramdump (s : State) (u : restart_unit) (r_work : restart_wq_data)
    (en : Int) (rd : List (SubsysPtr × Int)) (h : ∀ x ∈ rd, x.1 ∈ unit_members u) :
    ∀ e ∈ returns (.ramdump en) rd, unit_event s u r_work e := by
  intro e he
  obtain ⟨x, hx, rfl⟩ := (mem_returns _ _ e).mp he
  exact h x hx

theorem fst_mem_of_map_eq (xs : List (SubsysPtr × Int)) (ms : List SubsysPtr)
    (h : xs.map Prod.fst = ms) : ∀ x ∈ xs, x.1 ∈ ms := by
  intro x hx
  rw [← h]
  exact List.mem_map_of_mem _ hx

theorem fst_mem_of_split (xs : List (SubsysPtr × Int)) (ms rest : List SubsysPtr)
    (p : SubsysPtr) (h : ms = xs.map Prod.fst ++ p :: rest) :
    (∀ x ∈ xs, x.1 ∈ ms) ∧ p ∈ ms := by
  refine ⟨fun x hx => ?_, ?_⟩
  · rw [h]; exact List.mem_append_left _ (List.mem_map_of_mem _ hx)
  · rw [h]; simp

theorem unit_event_before_shutdown (s : State) (u : restart_unit) (r_work : restart_wq_data) :
    ∀ e ∈ tr_before_shutdown s u (tr_admitted u), unit_event s u r_work e := by
  simp only [tr_before_shutdown, List.forall_mem_append]
  refine ⟨⟨⟨?_, ?_⟩, ?_⟩, unit_event_notifs s u r_work _⟩ <;>
    simp [tr_admitted, unit_event]

theorem unit_event_before_powerup (s : State) (u : restart_unit) (r_work : restart_wq_data)
    (sd rd : List (SubsysPtr × Int)) (hsd : ∀ x ∈ sd, x.1 ∈ unit_members u)
    (hrd : ∀ x ∈ rd, x.1 ∈ unit_members u) :
    ∀ e ∈ tr_before_powerup s u (tr_admitted u) sd rd, unit_event s u r_work e := by
  simp only [tr_before_powerup, List.forall_mem_append]
  refine ⟨⟨⟨⟨⟨unit_event_before_shutdown s u r_work, unit_event_shutdown s u r_work sd hsd⟩,
    unit_event_notifs s u r_work _⟩, ?_⟩, unit_event_ramdump s u r_work _ rd hrd⟩,
    unit_event_notifs s u r_work _⟩
  simp [unit_event]

theorem ramdump_members_sub (s : State) (ms : List SubsysPtr) (rd : List (SubsysPtr × Int))
    (h : rd.map Prod.fst = ramdump_members s ms) : ∀ x ∈ rd, x.1 ∈ ms := by
  intro x hx
  have := fst_mem_of_map_eq rd _ h x hx
  exact (List.mem_filter.mp this).1

/-- Every event of a run of the worker belongs to the restart unit of the
request: see `unit_event`. -/
theorem wq_trace_frame (cfg : Config) (env : EpochEnv) (r_work : restart_wq_data) (s : State) :
    ∀ e ∈ (subsystem_restart_wq_func cfg env r_work ⟨s, []⟩).run.trace,
      unit_event s (resolve_unit r_work s) r_work e := by
  rcases wq_func_cases cfg env r_work s with ⟨_, e⟩ | ⟨_, _, e⟩ | ⟨_, _, hseq⟩
  · rw [e]; simp [Result.run, out_events, unit_event]
  · rw [e]; simp [Result.run, unit_event]
  · have hb := unit_event_before_shutdown (st_admitted s (resolve_unit r_work s))
      (resolve_unit r_work s) r_work
    cases hseq with
    | waiting_log _ e => rw [e]; simp [Result.run, tr_admitted, unit_event]
    | crash_loop _ _ e => rw [e]; simp [Result.run, tr_admitted, unit_event]
    | waiting _ _ _ e => rw [e]; simp [Result.run, tr_admitted, unit_event]
    | name_null mdm _ _ _ _ _ e => rw [e]; simp [Result.run, tr_admitted, unit_event]
    | shutdown_failed mdm sd q r rest f _ _ _ hsd hms hret hf hval e =>
      rw [e]
      obtain ⟨h1, h2⟩ := fst_mem_of_split sd _ rest q hms
      simp only [Result.run, List.forall_mem_append]
      exact ⟨⟨hb, unit_event_shutdown _ _ r_work sd h1⟩, by simpa [unit_event] using h2⟩
    | shutdown_null mdm sd q rest _ _ _ hsd hms hf e =>
      rw [e]
      obtain ⟨h1, h2⟩ := fst_mem_of_split sd _ rest q hms
      simp only [Result.run, List.forall_mem_append]
      exact ⟨hb, unit_event_shutdown _ _ r_work sd h1⟩
    | powerup_failed mdm sd rd pu q r rest f _ _ _ hsd hsdm hrdm hpu hms hret hf hval e =>
      rw [e]
      obtain ⟨h1, h2⟩ := fst_mem_of_split pu _ rest q hms
      simp only [Result.run, List.forall_mem_append]
      exact ⟨⟨unit_event_before_powerup _ _ r_work sd rd (fst_mem_of_map_eq sd _ hsdm)
          (ramdump_members_sub _ _ rd hrdm),
        unit_event_powerup _ _ r_work pu (fun x hx => List.mem_reverse.mp (h1 x hx))⟩,
        by simpa [unit_event] using h2⟩
    | powerup_null mdm sd rd pu q rest _ _ _ hsd hsdm hrdm hpu hms hf e =>
      rw [e]
      obtain ⟨h1, h2⟩ := fst_mem_of_split pu _ rest q hms
      simp only [Result.run, List.forall_mem_append]
      exact ⟨unit_event_before_powerup _ _ r_work sd rd (fst_mem_of_map_eq sd _ hsdm)
          (ramdump_members_sub _ _ rd hrdm),
        unit_event_powerup _ _ r_work pu (fun x hx => List.mem_reverse.mp (h1 x hx))⟩
    | name_null_late mdm sd rd pu _ _ _ hsd hsdm hrdm hpu hpum _ _ e =>
      rw [e]
      simp only [Result.run, tr_after_powerup, List.forall_mem_append]
      exact ⟨⟨unit_event_before_powerup _ _ r_work sd rd (fst_mem_of_map_eq sd _ hsdm)
          (ramdump_members_sub _ _ rd hrdm),
        unit_event_powerup _ _ r_work pu
          (fun x hx => List.mem_reverse.mp (fst_mem_of_map_eq pu _ hpum x hx))⟩,
        unit_event_notifs _ _ r_work _⟩
    | completed mdm sd rd pu _ _ _ hsd hsdm hrdm hpu hpum e =>
      rw [e]
      simp only [Result.run, tr_completed, tr_after_powerup, List.forall_mem_append]
      refine ⟨⟨⟨⟨unit_event_before_powerup _ _ r_work sd rd (fst_mem_of_map_eq sd _ hsdm)
          (ramdump_members_sub _ _ rd hrdm),
        unit_event_powerup _ _ r_work pu
          (fun x hx => List.mem_reverse.mp (fst_mem_of_map_eq pu _ hpum x hx))⟩,
        unit_event_notifs _ _ r_work _⟩, ?_⟩, ?_⟩ <;>
      simp [out_events, unit_event]

/-! ## A restart of a single subsystem -/

/-- A mutex that is neither one of the two locks of the unit nor one of the two
global mutexes is held after a run of the worker exactly if it was held before. -/
theorem wq_held_frame (cfg : Config) (env : EpochEnv) (r_work : restart_wq_data) (s : State)
    (m : Mutex) (h1 : m ≠ (resolve_unit r_work s).shutdown_lock)
    (h2 : m ≠ (resolve_unit r_work s).powerup_lock)
    (h3 : m ≠ .soc_order_reg_lock) (h4 : m ≠ .restart_log_mutex) :
    m ∈ (subsystem_restart_wq_func cfg env r_work ⟨s, []⟩).run.st.held ↔ m ∈ s.held := by
  rcases wq_func_cases cfg env r_work s with ⟨_, e⟩ | ⟨_, _, e⟩ | ⟨_, _, hseq⟩
  · rw [e]; simp [Result.run]
  · rw [e]; simp [Result.run, h1]
  · cases hseq with
    | waiting_log _ e => rw [e]; simp [Result.run, st_admitted, h1, h2]
    | crash_loop _ _ e => rw [e]; simp [Result.run, st_with, st_admitted, h1, h2, h4]
    | waiting _ _ _ e => rw [e]; simp [Result.run, st_with, st_admitted, h1, h2]
    | name_null mdm _ _ _ _ _ e =>
      rw [e]; simp [Result.run, st_with, st_admitted, h1, h2, h3]
    | shutdown_failed mdm sd q r rest f _ _ _ hsd hms hret hf hval e =>
      rw [e]; simp [Result.run, st_with, st_admitted, h1, h2, h3]
    | shutdown_null mdm sd q rest _ _ _ hsd hms hf e =>
      rw [e]; simp [Result.run, st_with, st_admitted, h1, h2, h3]
    | powerup_failed mdm sd rd pu q r rest f _ _ _ hsd hsdm hrdm hpu hms hret hf hval e =>
      rw [e]; simp [Result.run, st_with, st_admitted, h1, h2, h3, List.mem_erase_of_ne]
    | powerup_null mdm sd rd pu q rest _ _ _ hsd hsdm hrdm hpu hms hf e =>
      rw [e]; simp [Result.run, st_with, st_admitted, h1, h2, h3, List.mem_erase_of_ne]
    | name_null_late mdm sd rd pu _ _ _ hsd hsdm hrdm hpu hpum _ _ e =>
      rw [e]; simp [Result.run, st_with, st_admitted, h1, h2, h3, List.mem_erase_of_ne]
    | completed mdm sd rd pu _ _ _ hsd hsdm hrdm hpu hpum e =>
      rw [e]; simp [Result.run, st_with, st_admitted, h1, h2, h3, List.mem_erase_of_ne]

/-- Claim C4.  Under RESET_SUBSYS_INDEPENDENT a request for a registered subsystem
`S` (its `single_restart_list` holds `S`, as ssr_register_subsystem leaves it)
queues a work item that does not use the restart order, and the run of the worker
on it, however it ends, concerns `S` alone: every callback is a callback of `S`,
every notification is on the handle of `S`, every trylock is on the shutdown or
powerup lock of `S` itself, and no lock of a group and no lock of another
subsystem changes state.  This holds whatever group `S` belongs to and whoever
else is registered. -/
theorem independent_restart_alone (cfg : Config) (env : EpochEnv) (s : State) (S : SubsysPtr)
    (queue_rc : Int)
    (hlevel : s.restart_level = cfg.RESET_SUBSYS_INDEPENDENT)
    (hreg : (s.mem S).single_restart_list = [some S])
    (hrc : 0 ≤ queue_rc) :
    ∃ r1, __subsystem_restart cfg true queue_rc S ⟨s, []⟩ = .returned () r1 ∧
      r1.st.ssr_wq = s.ssr_wq ++ [⟨S, 0⟩] ∧
      (∀ e ∈ (subsystem_restart_wq_func cfg env ⟨S, 0⟩ ⟨r1.st, []⟩).run.trace,
        e.only_about s S) ∧
      (∀ j, (Mutex.order_shutdown_lock j ∈
            (subsystem_restart_wq_func cfg env ⟨S, 0⟩ ⟨r1.st, []⟩).run.st.held ↔
          Mutex.order_shutdown_lock j ∈ s.held) ∧
        (Mutex.order_powerup_lock j ∈
            (subsystem_restart_wq_func cfg env ⟨S, 0⟩ ⟨r1.st, []⟩).run.st.held ↔
          Mutex.order_powerup_lock j ∈ s.held)) ∧
      (∀ q, q ≠ S →
        (Mutex.subsys_shutdown_lock q ∈
            (subsystem_restart_wq_func cfg env ⟨S, 0⟩ ⟨r1.st, []⟩).run.st.held ↔
          Mutex.subsys_shutdown_lock q ∈ s.held) ∧
        (Mutex.subsys_powerup_lock q ∈
            (subsystem_restart_wq_func cfg env ⟨S, 0⟩ ⟨r1.st, []⟩).run.st.held ↔
          Mutex.subsys_powerup_lock q ∈ s.held)) := by
  have hq : ¬ queue_rc < 0 := by omega
  refine ⟨⟨{ s with ssr_wq := s.ssr_wq ++ [⟨S, 0⟩] }, [.wake_lock S]⟩, ?_, rfl, ?_, ?_, ?_⟩
  · unfold __subsystem_restart
    simp [hlevel, hq, Run.emit]
  all_goals
    have hu : resolve_unit ⟨S, 0⟩ { s with ssr_wq := s.ssr_wq ++ [⟨S, 0⟩] } =
        { restart_list := [some S], restart_list_count := 1,
          powerup_lock := .subsys_powerup_lock S,
          shutdown_lock := .subsys_shutdown_lock S } := by
      simp [resolve_unit, hreg]
  · intro e he
    have hframe := wq_trace_frame cfg env ⟨S, 0⟩ { s with ssr_wq := s.ssr_wq ++ [⟨S, 0⟩] } e he
    rw [hu] at hframe
    cases e <;>
      simpa [unit_event, Event.only_about, unit_members, members_from, slot] using hframe
  · intro j
    constructor <;>
    · refine wq_held_frame cfg env ⟨S, 0⟩ { s with ssr_wq := s.ssr_wq ++ [⟨S, 0⟩] } _ ?_ ?_ ?_ ?_
        <;> simp [hu]
  · intro q hq
    constructor <;>
    · refine wq_held_frame cfg env ⟨S, 0⟩ { s with ssr_wq := s.ssr_wq ++ [⟨S, 0⟩] } _ ?_ ?_ ?_ ?_
        <;> simp [hu, hq]

/-! ## A restart of the whole group -/

/-- Whether the crash-loop check fires does not depend on the work queue. -/
theorem epoch_fires_ssr_wq (env : EpochEnv) (subsys : SubsysPtr) (s : State)
    (q : List restart_wq_data) :
    epoch_fires env subsys { s with ssr_wq := q } = epoch_fires env subsys s := by
  unfold epoch_fires do_epoch_check mutex_lock
  simp only [List.not_mem_nil, if_false, bind_returned, Run.emit, mutex_unlock]
  by_cases h0 : s.max_restarts = 0
  · simp only [if_pos h0]; rfl
  · by_cases h1 : env.kmalloc_ok = false
    · simp only [if_neg h0, if_pos h1]; rfl
    · simp only [if_neg h0, if_neg h1]
      cases h2 : (epoch_scan env.now s.max_history_time
          (s.restart_log_list ++ [{ time := env.now, subsys := subsys }]) [] 0 none).2.2 with
      | none => rfl
      | some tf =>
        simp only []
        by_cases hc : ((epoch_scan env.now s.max_history_time
            (s.restart_log_list ++ [{ time := env.now, subsys := subsys }]) [] 0 none).2.1 : Int)
              ≥ s.max_restarts ∧
                to_long (env.now.tv_sec - tf.tv_sec) < s.max_history_time
        · simp only [if_pos hc]; rfl
        · simp only [if_neg hc]; rfl

/-- Claim C3, counterexample.  The group [external_modem, modem, lpass] is active,
the three subsystems (at the addresses 1, 2 and 3) are registered, the level is
RESET_SUBSYS_COUPLED and a restart is requested through modem.  If the shutdown
lock of the group is held by a restart in flight, the worker returns without
invoking any callback.  If the powerup lock of the group is held, or the
crash-loop detector fires, it panics before any callback.  If the shutdown
callback of modem fails, it panics after shutting down external_modem and modem
and powers nothing up.  If the powerup callback of modem fails, it panics after
powering up lpass and modem and never powers up external_modem. -/
theorem coupled_restart_cut_short :
    group_8x60_registered (registered_state (demo_mem 0 0) 2 0 3600) 1 2 3 ∧
    (registered_state (demo_mem 0 0) 2 0 3600).restart_level = cfg0.RESET_SUBSYS_COUPLED ∧
    ((subsystem_restart_wq_func cfg0 ⟨true, ⟨0, 0⟩⟩ ⟨2, 1⟩
        ⟨{ registered_state (demo_mem 0 0) 2 0 3600 with held := [.order_shutdown_lock 0] },
          []⟩).isReturned = true ∧
      shutdown_seq (subsystem_restart_wq_func cfg0 ⟨true, ⟨0, 0⟩⟩ ⟨2, 1⟩
        ⟨{ registered_state (demo_mem 0 0) 2 0 3600 with held := [.order_shutdown_lock 0] },
          []⟩).run.trace = []) ∧
    ((subsystem_restart_wq_func cfg0 ⟨true, ⟨0, 0⟩⟩ ⟨2, 1⟩
        ⟨{ registered_state (demo_mem 0 0) 2 0 3600 with held := [.order_powerup_lock 0] },
          []⟩).isPanicked = true ∧
      shutdown_seq (subsystem_restart_wq_func cfg0 ⟨true, ⟨0, 0⟩⟩ ⟨2, 1⟩
        ⟨{ registered_state (demo_mem 0 0) 2 0 3600 with held := [.order_powerup_lock 0] },
          []⟩).run.trace = []) ∧
    ((subsystem_restart_wq_func cfg0 ⟨true, ⟨0, 0⟩⟩ ⟨2, 1⟩
        ⟨registered_state (demo_mem 0 0) 2 1 3600, []⟩).isPanicked = true ∧
      shutdown_seq (subsystem_restart_wq_func cfg0 ⟨true, ⟨0, 0⟩⟩ ⟨2, 1⟩
        ⟨registered_state (demo_mem 0 0) 2 1 3600, []⟩).run.trace = []) ∧
    ((subsystem_restart_wq_func cfg0 ⟨true, ⟨0, 0⟩⟩ ⟨2, 1⟩
        ⟨registered_state (demo_mem (-1) 0) 2 0 3600, []⟩).isPanicked = true ∧
      shutdown_seq (subsystem_restart_wq_func cfg0 ⟨true, ⟨0, 0⟩⟩ ⟨2, 1⟩
        ⟨registered_state (demo_mem (-1) 0) 2 0 3600, []⟩).run.trace = [1, 2] ∧
      powerup_seq (subsystem_restart_wq_func cfg0 ⟨true, ⟨0, 0⟩⟩ ⟨2, 1⟩
        ⟨registered_state (demo_mem (-1) 0) 2 0 3600, []⟩).run.trace = []) ∧
    ((subsystem_restart_wq_func cfg0 ⟨true, ⟨0, 0⟩⟩ ⟨2, 1⟩
        ⟨registered_state (demo_mem 0 (-1)) 2 0 3600, []⟩).isPanicked = true ∧
      powerup_seq (subsystem_restart_wq_func cfg0 ⟨true, ⟨0, 0⟩⟩ ⟨2, 1⟩
        ⟨registered_state (demo_mem 0 (-1)) 2 0 3600, []⟩).run.trace = [3, 2]) := by
  refine ⟨⟨?_, ?_, ?_, ?_, ?_, ?_, ?_⟩, ?_, ⟨?_, ?_⟩, ⟨?_, ?_⟩, ⟨?_, ?_⟩, ⟨?_, ?_, ?_⟩,
    ⟨?_, ?_⟩⟩ <;> decide

/-- Claim C3, amended.  With the group [external_modem, modem, lpass] active, the
three subsystems `e`, `m`, `l` registered and the level RESET_SUBSYS_COUPLED, a
request through any one of them queues a work item that uses the restart order;
if the two locks of the group and the two global mutexes are free, the crash-loop
detector does not fire and no shutdown or powerup callback of the three fails,
the worker returns having invoked shutdown on `e`, `m`, `l` in that order and
powerup on `l`, `m`, `e` in that order, whichever member was named. -/
theorem coupled_restart_whole_group (cfg : Config) (env : EpochEnv) (s : State)
    (e m l x : SubsysPtr) (queue_rc : Int)
    (hgroup : group_8x60_registered s e m l)
    (hlevel : s.restart_level = cfg.RESET_SUBSYS_COUPLED)
    (hlevels : cfg.RESET_SUBSYS_COUPLED ≠ cfg.RESET_SUBSYS_INDEPENDENT)
    (hx : x = e ∨ x = m ∨ x = l)
    (hrc : 0 ≤ queue_rc)
    (hsl : Mutex.order_shutdown_lock 0 ∉ s.held)
    (hpl : Mutex.order_powerup_lock 0 ∉ s.held)
    (hsoc : Mutex.soc_order_reg_lock ∉ s.held)
    (hlog : Mutex.restart_log_mutex ∉ s.held)
    (hfire : epoch_fires env x s = false)
    (hok : ∀ p, p = e ∨ p = m ∨ p = l → registered_member s p ∧ callbacks_succeed s p) :
    ∃ r1, __subsystem_restart cfg true queue_rc x ⟨s, []⟩ = .returned () r1 ∧
      r1.st.ssr_wq = s.ssr_wq ++ [⟨x, 1⟩] ∧
      ∃ r2, subsystem_restart_wq_func cfg env ⟨x, 1⟩ ⟨r1.st, []⟩ = .returned () r2 ∧
        shutdown_seq r2.trace = [e, m, l] ∧ powerup_seq r2.trace = [l, m, e] := by
  obtain ⟨horders, _, _, _, hre, hrm, hrl⟩ := hgroup
  have hq : ¬ queue_rc < 0 := by omega
  have hne : s.restart_level ≠ cfg.RESET_SUBSYS_INDEPENDENT := by rw [hlevel]; exact hlevels
  refine ⟨⟨{ s with ssr_wq := s.ssr_wq ++ [⟨x, 1⟩] }, [.wake_lock x]⟩, ?_, rfl, ?_⟩
  · unfold __subsystem_restart
    simp [hne, hq, Run.emit]
  have hxo : (s.mem x).restart_order = some 0 := by
    rcases hx with rfl | rfl | rfl <;> assumption
  have hu : resolve_unit ⟨x, 1⟩ { s with ssr_wq := s.ssr_wq ++ [⟨x, 1⟩] } =
      { restart_list := [some e, some m, some l, none], restart_list_count := 3,
        powerup_lock := .order_powerup_lock 0,
        shutdown_lock := .order_shutdown_lock 0 } := by
    simp [resolve_unit, hxo, horders]
  have hms : unit_members (resolve_unit ⟨x, 1⟩ { s with ssr_wq := s.ssr_wq ++ [⟨x, 1⟩] }) =
      [e, m, l] := by
    rw [hu]; rfl
  obtain ⟨st', sd, rd, pu, hsdm, hrdm, hpum, hrun⟩ :=
    nominal_run_completed cfg env ⟨x, 1⟩ { s with ssr_wq := s.ssr_wq ++ [⟨x, 1⟩] }
      (by rw [hu]; exact hsl) (by rw [hu]; exact hpl) hsoc hlog
      (by rw [epoch_fires_ssr_wq]; exact hfire)
      (by rw [hms]; intro p hp; exact (hok p (by simpa using hp)).1)
      (by rw [hms]; intro p hp; exact (hok p (by simpa using hp)).2)
  refine ⟨_, hrun, ?_, ?_⟩
  · simp only []
    rw [shutdown_seq_completed, hsdm, hms]
  · simp only []
    rw [powerup_seq_completed, hpum, hms]
    rfl

/-- A completed restart of the registered group, requested through modem. -/
theorem powerup_reverses_shutdown_witness :
    powerup_seq (subsystem_restart_wq_func cfg0 ⟨true, ⟨0, 0⟩⟩ ⟨2, 1⟩
        ⟨registered_state (demo_mem 0 0) 2 0 3600, []⟩).run.trace =
      (shutdown_seq (subsystem_restart_wq_func cfg0 ⟨true, ⟨0, 0⟩⟩ ⟨2, 1⟩
        ⟨registered_state (demo_mem 0 0) 2 0 3600, []⟩).run.trace).reverse :=
  powerup_reverses_shutdown cfg0 ⟨true, ⟨0, 0⟩⟩ ⟨2, 1⟩
    (registered_state (demo_mem 0 0) 2 0 3600) (by decide)

/-- A request through modem while the shutdown lock of its group is held. -/
theorem busy_unit_request_dropped_witness :
    subsystem_restart_wq_func cfg0 ⟨true, ⟨0, 0⟩⟩ ⟨2, 1⟩
      ⟨{ registered_state (demo_mem 0 0) 2 0 3600 with held := [.order_shutdown_lock 0] },
        []⟩ =
    .returned ()
      ⟨{ registered_state (demo_mem 0 0) 2 0 3600 with held := [.order_shutdown_lock 0] },
        [.trylock (.order_shutdown_lock 0) false, .wake_unlock 2, .wake_lock_destroy 2,
         .kfree_work 2]⟩ :=
  busy_unit_request_dropped cfg0 ⟨true, ⟨0, 0⟩⟩ ⟨2, 1⟩
    { registered_state (demo_mem 0 0) 2 0 3600 with held := [.order_shutdown_lock 0] }
    (by decide)

/-- The powerup callback of modem returns -1: lpass and modem are powered up, external_modem never. -/
theorem powerup_failure_fatal_witness :
    (subsystem_restart_wq_func cfg0 ⟨true, ⟨0, 0⟩⟩ ⟨2, 1⟩
      ⟨registered_state (demo_mem 0 (-1)) 2 0 3600, []⟩).isPanicked = true ∧
    powerup_seq (subsystem_restart_wq_func cfg0 ⟨true, ⟨0, 0⟩⟩ ⟨2, 1⟩
      ⟨registered_state (demo_mem 0 (-1)) 2 0 3600, []⟩).run.trace = [3, 2] :=
  ⟨(powerup_failure_fatal cfg0 ⟨true, ⟨0, 0⟩⟩ ⟨2, 1⟩
      (registered_state (demo_mem 0 (-1)) 2 0 3600) 2 (-1) (by decide) (by decide)).1,
    by decide⟩

/-- The shutdown callback of modem returns -1: external_modem and modem are shut down, lpass never. -/
theorem shutdown_failure_fatal_witness :
    (subsystem_restart_wq_func cfg0 ⟨true, ⟨0, 0⟩⟩ ⟨2, 1⟩
      ⟨registered_state (demo_mem (-1) 0) 2 0 3600, []⟩).isPanicked = true ∧
    shutdown_seq (subsystem_restart_wq_func cfg0 ⟨true, ⟨0, 0⟩⟩ ⟨2, 1⟩
      ⟨registered_state (demo_mem (-1) 0) 2 0 3600, []⟩).run.trace = [1, 2] :=
  ⟨((shutdown_failure_fatal cfg0 ⟨true, ⟨0, 0⟩⟩ ⟨2, 1⟩
      (registered_state (demo_mem (-1) 0) 2 0 3600) 2 (-1) (by decide)).1 (by decide)).1,
    by decide⟩

/-- In the memory of the examples with callbacks that return 0, the three
subsystems are registered members whose callbacks succeed. -/
theorem demo_members_ok (lvl : Int) (p : SubsysPtr) (hp : p = 1 ∨ p = 2 ∨ p = 3) :
    registered_member (registered_state (demo_mem 0 0) lvl 0 3600) p ∧
    callbacks_succeed (registered_state (demo_mem 0 0) lvl 0 3600) p := by
  rcases hp with rfl | rfl | rfl
  all_goals
    refine ⟨⟨fun h => ?_, fun h => ?_, fun h => ?_⟩, fun f hf tr => ?_, fun f hf tr => ?_⟩
  all_goals first
    | (cases h)
    | (have hf' : some (fun _ : List Event => (0 : Int)) = some f := hf
       cases hf'
       exact Int.le_refl 0)

/-- The registered group with every lock free and the detector disabled. -/
theorem nominal_run_calls_witness :
    ∃ r', subsystem_restart_wq_func cfg0 ⟨true, ⟨0, 0⟩⟩ ⟨2, 1⟩
        ⟨registered_state (demo_mem 0 0) 2 0 3600, []⟩ = .returned () r' ∧
      calls r'.trace = expected_calls (registered_state (demo_mem 0 0) 2 0 3600)
        (unit_members (resolve_unit ⟨2, 1⟩ (registered_state (demo_mem 0 0) 2 0 3600))) :=
  nominal_run_calls cfg0 ⟨true, ⟨0, 0⟩⟩ ⟨2, 1⟩ (registered_state (demo_mem 0 0) 2 0 3600)
    (by decide) (by decide) (by decide) (by decide) (by decide)
    (fun p hp => (demo_members_ok 2 p (by
      have hm : unit_members (resolve_unit ⟨2, 1⟩ (registered_state (demo_mem 0 0) 2 0 3600)) =
        [1, 2, 3] := by decide
      rw [hm] at hp
      simpa using hp)).1)
    (fun p hp => (demo_members_ok 2 p (by
      have hm : unit_members (resolve_unit ⟨2, 1⟩ (registered_state (demo_mem 0 0) 2 0 3600)) =
        [1, 2, 3] := by decide
      rw [hm] at hp
      simpa using hp)).2)

/-- A request through lpass: the whole group is shut down in list order and powered up in reverse. -/
theorem coupled_restart_whole_group_witness :
    ∃ r1, __subsystem_restart cfg0 true 1 3 ⟨registered_state (demo_mem 0 0) 2 0 3600, []⟩ =
        .returned () r1 ∧
      r1.st.ssr_wq = (registered_state (demo_mem 0 0) 2 0 3600).ssr_wq ++ [⟨3, 1⟩] ∧
      ∃ r2, subsystem_restart_wq_func cfg0 ⟨true, ⟨0, 0⟩⟩ ⟨3, 1⟩ ⟨r1.st, []⟩ = .returned () r2 ∧
        shutdown_seq r2.trace = [1, 2, 3] ∧ powerup_seq r2.trace = [3, 2, 1] :=
  coupled_restart_whole_group cfg0 ⟨true, ⟨0, 0⟩⟩ (registered_state (demo_mem 0 0) 2 0 3600)
    1 2 3 3 1
    ⟨by decide, by decide, by decide, by decide, by decide, by decide, by decide⟩
    (by decide) (by decide) (by decide) (by decide) (by decide) (by decide) (by decide)
    (by decide) (by decide) (fun p hp => demo_members_ok 2 p hp)

/-- A request for modem under RESET_SUBSYS_INDEPENDENT with the two others registered in its group. -/
theorem independent_restart_alone_witness :
    ∃ r1, __subsystem_restart cfg0 true 1 2 ⟨registered_state (demo_mem 0 0) 3 0 3600, []⟩ =
        .returned () r1 ∧
      r1.st.ssr_wq = (registered_state (demo_mem 0 0) 3 0 3600).ssr_wq ++ [⟨2, 0⟩] ∧
      (∀ e ∈ (subsystem_restart_wq_func cfg0 ⟨true, ⟨0, 0⟩⟩ ⟨2, 0⟩ ⟨r1.st, []⟩).run.trace,
        e.only_about (registered_state (demo_mem 0 0) 3 0 3600) 2) ∧
      (∀ j, (Mutex.order_shutdown_lock j ∈
            (subsystem_restart_wq_func cfg0 ⟨true, ⟨0, 0⟩⟩ ⟨2, 0⟩ ⟨r1.st, []⟩).run.st.held ↔
          Mutex.order_shutdown_lock j ∈ (registered_state (demo_mem 0 0) 3 0 3600).held) ∧
        (Mutex.order_powerup_lock j ∈
            (subsystem_restart_wq_func cfg0 ⟨true, ⟨0, 0⟩⟩ ⟨2, 0⟩ ⟨r1.st, []⟩).run.st.held ↔
          Mutex.order_powerup_lock j ∈ (registered_state (demo_mem 0 0) 3 0 3600).held)) ∧
      (∀ q, q ≠ 2 →
        (Mutex.subsys_shutdown_lock q ∈
            (subsystem_restart_wq_func cfg0 ⟨true, ⟨0, 0⟩⟩ ⟨2, 0⟩ ⟨r1.st, []⟩).run.st.held ↔
          Mutex.subsys_shutdown_lock q ∈ (registered_state (demo_mem 0 0) 3 0 3600).held) ∧
        (Mutex.subsys_powerup_lock q ∈
            (subsystem_restart_wq_func cfg0 ⟨true, ⟨0, 0⟩⟩ ⟨2, 0⟩ ⟨r1.st, []⟩).run.st.held ↔
          Mutex.subsys_powerup_lock q ∈ (registered_state (demo_mem 0 0) 3 0 3600).held)) :=
  independent_restart_alone cfg0 ⟨true, ⟨0, 0⟩⟩ (registered_state (demo_mem 0 0) 3 0 3600) 2 1
    (by decide) (by decide) (by decide)

/-- Claim C4, counterexample.  Under RESET_SUBSYS_INDEPENDENT, with modem registered
in the group [external_modem, modem, lpass] next to the two others, the worker
for a request for modem takes, besides the two locks of modem, the global
`soc_order_reg_lock` and `restart_log_mutex`. -/
theorem independent_restart_takes_global_locks :
    (registered_state (demo_mem 0 0) 3 0 3600).restart_level =
      cfg0.RESET_SUBSYS_INDEPENDENT ∧
    group_8x60_registered (registered_state (demo_mem 0 0) 3 0 3600) 1 2 3 ∧
    Event.lock .soc_order_reg_lock ∈
      (subsystem_restart_wq_func cfg0 ⟨true, ⟨0, 0⟩⟩ ⟨2, 0⟩
        ⟨registered_state (demo_mem 0 0) 3 0 3600, []⟩).run.trace ∧
    Event.lock .restart_log_mutex ∈
      (subsystem_restart_wq_func cfg0 ⟨true, ⟨0, 0⟩⟩ ⟨2, 0⟩
        ⟨registered_state (demo_mem 0 0) 3 0 3600, []⟩).run.trace := by
  refine ⟨by decide, ⟨?_, ?_, ?_, ?_, ?_, ?_, ?_⟩, by decide, by decide⟩ <;> decide

/-- A reachable state of the system of workers: two requests for group 0 and one
for the single subsystem 7 were queued; the first worker was admitted, the second
was dropped at the shutdown lock of the group, the third was admitted. -/
theorem demo_sys_reachable :
    Reachable { held := [.subsys_powerup_lock 7, .subsys_shutdown_lock 7,
                         .order_powerup_lock 0, .order_shutdown_lock 0],
                workers := [⟨.group 0, .at_epoch_check⟩, ⟨.group 0, .at_out⟩,
                            ⟨.single 7, .at_epoch_check⟩],
                panicked := false } :=
  .step
    { held := [.subsys_shutdown_lock 7, .order_powerup_lock 0, .order_shutdown_lock 0],
      workers := [⟨.group 0, .at_epoch_check⟩, ⟨.group 0, .at_out⟩,
                  ⟨.single 7, .at_trylock_powerup⟩],
      panicked := false } _ 2 false
    (.step
      { held := [.order_powerup_lock 0, .order_shutdown_lock 0],
        workers := [⟨.group 0, .at_epoch_check⟩, ⟨.group 0, .at_out⟩,
                    ⟨.single 7, .at_trylock_shutdown⟩],
        panicked := false } _ 2 false
      (.step
        { held := [.order_powerup_lock 0, .order_shutdown_lock 0],
          workers := [⟨.group 0, .at_epoch_check⟩, ⟨.group 0, .at_trylock_shutdown⟩,
                      ⟨.single 7, .at_trylock_shutdown⟩],
          panicked := false } _ 1 false
        (.step
          { held := [.order_shutdown_lock 0],
            workers := [⟨.group 0, .at_trylock_powerup⟩, ⟨.group 0, .at_trylock_shutdown⟩,
                        ⟨.single 7, .at_trylock_shutdown⟩],
            panicked := false } _ 0 false
          (.step
            { held := [],
              workers := [⟨.group 0, .at_trylock_shutdown⟩, ⟨.group 0, .at_trylock_shutdown⟩,
                          ⟨.single 7, .at_trylock_shutdown⟩],
              panicked := false } _ 0 false
            (.spawn _ (.single 7)
              (.spawn _ (.group 0) (.spawn _ (.group 0) .init rfl) rfl) rfl)
            (by decide))
          (by decide))
        (by decide))
      (by decide))
    (by decide)

/-- The invariant in a state with one worker in flight for group 0 and one for the single subsystem 7. -/
theorem one_sequence_per_unit_witness :
    (∀ (i : Nat) (w : Worker),
      [(⟨.group 0, .at_epoch_check⟩ : Worker), ⟨.group 0, .at_out⟩,
        ⟨.single 7, .at_epoch_check⟩][i]? = some w →
      w.pc.in_flight = true →
      w.unit.powerup_lock ∈ [Mutex.subsys_powerup_lock 7, .subsys_shutdown_lock 7,
        .order_powerup_lock 0, .order_shutdown_lock 0]) ∧
    (∀ (i j : Nat) (wi wj : Worker),
      [(⟨.group 0, .at_epoch_check⟩ : Worker), ⟨.group 0, .at_out⟩,
        ⟨.single 7, .at_epoch_check⟩][i]? = some wi →
      [(⟨.group 0, .at_epoch_check⟩ : Worker), ⟨.group 0, .at_out⟩,
        ⟨.single 7, .at_epoch_check⟩][j]? = some wj →
      wi.pc.in_flight = true → wj.pc.in_flight = true → wi.unit = wj.unit → i = j) :=
  one_sequence_per_unit _ demo_sys_reachable

/-! ## The window of the crash-loop detector -/

theorem in_window_cons_young (T mht : Int) (e : restart_log) (rest : List restart_log)
    (h : ¬ T - e.time.tv_sec > mht) :
    in_window T mht (e :: rest) = e :: in_window T mht rest := by
  unfold in_window
  exact List.filter_cons_of_pos (by simp only [decide_eq_true_eq]; omega)

theorem in_window_append (T mht : Int) (a b : List restart_log) :
    in_window T mht (a ++ b) = in_window T mht a ++ in_window T mht b := by
  unfold in_window
  exact List.filter_append _ _

theorem in_window_long_cons_old (T mht : Int) (e : restart_log) (rest : List restart_log)
    (h : to_long (T - e.time.tv_sec) > mht) :
    in_window_long T mht (e :: rest) = in_window_long T mht rest := by
  unfold in_window_long
  exact List.filter_cons_of_neg (by simp only [decide_eq_true_eq]; omega)

theorem in_window_long_cons_young (T mht : Int) (e : restart_log) (rest : List restart_log)
    (h : ¬ to_long (T - e.time.tv_sec) > mht) :
    in_window_long T mht (e :: rest) = e :: in_window_long T mht rest := by
  unfold in_window_long
  exact List.filter_cons_of_pos (by simp only [decide_eq_true_eq]; omega)

theorem in_window_long_append (T mht : Int) (a b : List restart_log) :
    in_window_long T mht (a ++ b) = in_window_long T mht a ++ in_window_long T mht b := by
  unfold in_window_long
  exact List.filter_append _ _

/-- When no age leaves the range of `long`, the scan keeps exactly the entries
inside the window. -/
theorem in_window_long_eq (T mht : Int) (log : List restart_log) (h : ages_in_range T log) :
    in_window_long T mht log = in_window T mht log := by
  unfold in_window_long in_window
  apply List.filter_congr
  intro e he
  rw [to_long_of_range _ (h e he)]

theorem ages_in_range_append (T : Int) (subsys : SubsysPtr) (now : timeval)
    (log : List restart_log) (h : ages_in_range T log) (hnow : now.tv_sec = T) :
    ages_in_range T (log ++ [⟨now, subsys⟩]) := by
  intro e he
  rcases List.mem_append.mp he with he | he
  · exact h e he
  · simp only [List.mem_singleton] at he
    subst he
    unfold long_range
    simp only [hnow]
    omega

theorem epoch_scan_eq (curr_time : timeval) (mht : Int) :
    ∀ (log kept : List restart_log) (n : Nat) (tf : Option timeval),
      epoch_scan curr_time mht log kept n tf =
        (kept ++ in_window_long curr_time.tv_sec mht log,
          n + (in_window_long curr_time.tv_sec mht log).length,
          match (in_window_long curr_time.tv_sec mht log).head? with
          | some first => if n = 0 then some first.time else tf
          | none => tf) := by
  intro log
  induction log with
  | nil => intro kept n tf; simp [epoch_scan, in_window_long]
  | cons e rest ih =>
    intro kept n tf
    by_cases h : to_long (curr_time.tv_sec - e.time.tv_sec) > mht
    · simp only [epoch_scan, if_pos h, ih, in_window_long_cons_old _ _ _ _ h]
    · simp only [epoch_scan, if_neg h, ih, in_window_long_cons_young _ _ _ _ h]
      simp only [List.append_assoc, List.singleton_append, List.length_cons, List.head?_cons]
      refine Prod.ext rfl (Prod.ext ?_ ?_)
      · simp only []; omega
      · simp only []
        cases (in_window_long curr_time.tv_sec mht rest).head? with
        | none => rfl
        | some f => simp

/-- The check of `subsys` panics or returns according to the crash-loop test on the
window, and in both cases leaves the window as the log. -/
theorem do_epoch_check_window (env : EpochEnv) (subsys : SubsysPtr) (r : Run)
    (hfree : Mutex.restart_log_mutex ∉ r.st.held) (hmax : r.st.max_restarts ≠ 0)
    (hk : env.kmalloc_ok = true) :
    (crash_loop env.now.tv_sec r.st.max_history_time r.st.max_restarts
        (epoch_window env subsys r.st) ∧
      do_epoch_check env subsys r =
        .panicked ⟨{ r.st with held := .restart_log_mutex :: r.st.held,
                               restart_log_list := epoch_window env subsys r.st },
          r.trace ++ [.lock .restart_log_mutex]⟩) ∨
    (¬ crash_loop env.now.tv_sec r.st.max_history_time r.st.max_restarts
        (epoch_window env subsys r.st) ∧
      do_epoch_check env subsys r =
        .returned () ⟨{ r.st with restart_log_list := epoch_window env subsys r.st },
          r.trace ++ [.lock .restart_log_mutex, .unlock .restart_log_mutex]⟩) := by
  have hk' : ¬ env.kmalloc_ok = false := by simp [hk]
  unfold do_epoch_check mutex_lock crash_loop epoch_window
  simp only [if_neg hfree, bind_returned, Run.emit, mutex_unlock, if_neg hmax, if_neg hk',
    epoch_scan_eq, List.nil_append, Nat.zero_add, List.erase_cons_head, List.append_assoc,
    List.singleton_append]
  cases hh : (in_window_long env.now.tv_sec r.st.max_history_time
      (r.st.restart_log_list ++ [⟨env.now, subsys⟩])).head? with
  | none =>
    right
    refine ⟨?_, rfl⟩
    rintro ⟨_, first, hf, _⟩
    exact Option.noConfusion hf
  | some first =>
    simp only [if_true]
    by_cases hc : ((in_window_long env.now.tv_sec r.st.max_history_time
        (r.st.restart_log_list ++ [⟨env.now, subsys⟩])).length : Int) ≥ r.st.max_restarts ∧
          to_long (env.now.tv_sec - first.time.tv_sec) < r.st.max_history_time
    · left
      refine ⟨⟨hc.1, first, rfl, hc.2⟩, ?_⟩
      simp only [if_pos hc]
    · right
      refine ⟨?_, ?_⟩
      · rintro ⟨h1, f, hf, h2⟩
        cases hf
        exact hc ⟨h1, h2⟩
      · simp only [if_neg hc]

theorem do_epoch_check_skipped (env : EpochEnv) (subsys : SubsysPtr) (r : Run)
    (hfree : Mutex.restart_log_mutex ∉ r.st.held)
    (h : r.st.max_restarts = 0 ∨ env.kmalloc_ok = false) :
    do_epoch_check env subsys r =
      .returned () ⟨r.st, r.trace ++ [.lock .restart_log_mutex, .unlock .restart_log_mutex]⟩ := by
  unfold do_epoch_check mutex_lock
  simp only [if_neg hfree, bind_returned, Run.emit, mutex_unlock, List.erase_cons_head,
    List.append_assoc, List.singleton_append]
  by_cases h0 : r.st.max_restarts = 0
  · simp only [if_pos h0]
  · rcases h with h | h
    · exact absurd h h0
    · simp only [if_neg h0, if_pos h]

theorem do_epoch_check_blocked (env : EpochEnv) (subsys : SubsysPtr) (r : Run)
    (hheld : Mutex.restart_log_mutex ∈ r.st.held) :
    do_epoch_check env subsys r = .blocked r := by
  unfold do_epoch_check mutex_lock
  simp only [if_pos hheld]; rfl

/-- An entry at least 70 seconds old, entry and check being values of `long`,
survives a scan with a window of 60 seconds exactly when its age has wrapped. -/
theorem spaced_entry_kept_iff (T t : Int) (hT : long_range T) (ht : long_range t)
    (h : t + 70 ≤ T) : ¬ to_long (T - t) > 60 ↔ 2 ^ 31 ≤ T - t := by
  unfold long_range at hT ht
  unfold to_long
  omega

/-- The log of a sequence of spaced checks: at most two entries, each a value of
`long` and at least 70 seconds before the next check, and two entries are at least
2^31 seconds apart. -/
theorem epoch_checks_spaced (checks : List (SubsysPtr × EpochEnv)) :
    ∀ (r : Run), r.st.max_restarts = 3 → r.st.max_history_time = 60 →
      Mutex.restart_log_mutex ∉ r.st.held →
      checks.Chain' (fun a b => b.2.now.tv_sec - a.2.now.tv_sec ≥ 70) →
      (∀ c ∈ checks, long_range c.2.now.tv_sec) →
      (∀ e ∈ r.st.restart_log_list, long_range e.time.tv_sec ∧
        ∀ c ∈ checks.head?, e.time.tv_sec + 70 ≤ c.2.now.tv_sec) →
      (r.st.restart_log_list = [] ∨ (∃ a, r.st.restart_log_list = [a]) ∨
        ∃ a b, r.st.restart_log_list = [a, b] ∧ 2 ^ 31 ≤ b.time.tv_sec - a.time.tv_sec) →
      (epoch_checks checks r).isReturned = true := by
  induction checks with
  | nil => intro r _ _ _ _ _ _ _; rfl
  | cons c rest ih =>
    intro r hmax hwin hfree hchain hlong hlog hshape
    obtain ⟨subsys, env⟩ := c
    rw [List.chain'_cons'] at hchain
    have hT : long_range env.now.tv_sec := hlong (subsys, env) (List.mem_cons_self _ _)
    have hlong' : ∀ c ∈ rest, long_range c.2.now.tv_sec :=
      fun c hc => hlong c (List.mem_cons_of_mem _ hc)
    have hnow : ∀ e ∈ r.st.restart_log_list, long_range e.time.tv_sec ∧
        e.time.tv_sec + 70 ≤ env.now.tv_sec :=
      fun e he => ⟨(hlog e he).1, (hlog e he).2 (subsys, env) (by simp)⟩
    unfold epoch_checks
    by_cases hk : env.kmalloc_ok = true
    · have hmax0 : r.st.max_restarts ≠ 0 := by rw [hmax]; decide
      have hnew : in_window_long env.now.tv_sec 60 [(⟨env.now, subsys⟩ : restart_log)] =
          [⟨env.now, subsys⟩] := by
        rw [in_window_long_cons_young _ _ _ _ (by
          simp only [Int.sub_self]
          decide)]
        rfl
      -- the window: the new entry, after at most one old entry whose age has wrapped
      have hw : epoch_window env subsys r.st = [⟨env.now, subsys⟩] ∨
          ∃ a, a ∈ r.st.restart_log_list ∧ 2 ^ 31 ≤ env.now.tv_sec - a.time.tv_sec ∧
            epoch_window env subsys r.st = [a, ⟨env.now, subsys⟩] := by
        unfold epoch_window
        rw [hwin, in_window_long_append, hnew]
        rcases hshape with h | ⟨a, h⟩ | ⟨a, b, h, hab⟩
        · left
          rw [h]
          rfl
        · rw [h]
          have ha := hnow a (by rw [h]; simp)
          have hiff := spaced_entry_kept_iff env.now.tv_sec a.time.tv_sec hT ha.1 ha.2
          by_cases hy : ¬ to_long (env.now.tv_sec - a.time.tv_sec) > 60
          · right
            refine ⟨a, by simp, hiff.mp hy, ?_⟩
            rw [in_window_long_cons_young _ _ _ _ hy]
            rfl
          · left
            rw [in_window_long_cons_old _ _ _ _ (by simpa using hy)]
            rfl
        · rw [h]
          have ha := hnow a (by rw [h]; simp)
          have hb := hnow b (by rw [h]; simp)
          have hiffa := spaced_entry_kept_iff env.now.tv_sec a.time.tv_sec hT ha.1 ha.2
          have hiffb := spaced_entry_kept_iff env.now.tv_sec b.time.tv_sec hT hb.1 hb.2
          have hya : ¬ to_long (env.now.tv_sec - a.time.tv_sec) > 60 := by
            rw [hiffa]
            omega
          have hyb : to_long (env.now.tv_sec - b.time.tv_sec) > 60 := by
            by_contra hc
            have := hiffb.mp hc
            unfold long_range at hT ha
            omega
          right
          refine ⟨a, by simp, hiffa.mp hya, ?_⟩
          rw [in_window_long_cons_young _ _ _ _ hya, in_window_long_cons_old _ _ _ _ hyb]
          rfl
      have hlen : ¬ crash_loop env.now.tv_sec r.st.max_history_time r.st.max_restarts
          (epoch_window env subsys r.st) := by
        rintro ⟨hc, _⟩
        rw [hmax] at hc
        rcases hw with hw | ⟨a, _, _, hw⟩ <;> rw [hw] at hc <;> simp at hc
      rcases do_epoch_check_window env subsys r hfree hmax0 hk with ⟨hc, _⟩ | ⟨_, hr⟩
      · exact absurd hc hlen
      · rw [hr, bind_returned]
        refine ih _ hmax hwin hfree hchain.2 hlong' ?_ ?_
        · intro e he
          have he' : e = ⟨env.now, subsys⟩ ∨ e ∈ r.st.restart_log_list := by
            rcases hw with hw | ⟨a, ha, _, hw⟩
            · left
              have : e ∈ [(⟨env.now, subsys⟩ : restart_log)] := hw ▸ he
              simpa using this
            · have : e ∈ [a, (⟨env.now, subsys⟩ : restart_log)] := hw ▸ he
              simp only [List.mem_cons, List.mem_singleton, List.not_mem_nil, or_false] at this
              rcases this with rfl | rfl
              · exact Or.inr ha
              · exact Or.inl rfl
          rcases he' with rfl | he'
          · refine ⟨hT, ?_⟩
            intro c hc
            have h1 := hchain.1 c hc
            simp only [] at h1 ⊢
            omega
          · refine ⟨(hnow e he').1, ?_⟩
            intro c hc
            have h1 := hchain.1 c hc
            have h2 := (hnow e he').2
            simp only [] at h1 ⊢
            omega
        · rcases hw with hw | ⟨a, _, hage, hw⟩
          · exact Or.inr (Or.inl ⟨_, hw⟩)
          · exact Or.inr (Or.inr ⟨a, _, hw, hage⟩)
    · have hk' : env.kmalloc_ok = false := by simpa using hk
      rw [do_epoch_check_skipped env subsys r hfree (Or.inr hk'), bind_returned]
      refine ih _ hmax hwin hfree hchain.2 hlong' ?_ hshape
      intro e he
      refine ⟨(hnow e he).1, ?_⟩
      intro c hc
      have h1 := hchain.1 c hc
      have h2 := (hnow e he).2
      simp only [] at h1 ⊢
      omega

/-- Claim C11.  With `max_restarts = 3`, `max_history_time = 60` and an empty restart
log, a sequence of crash-loop checks of any length, for any subsystems and whether
or not the allocations succeed, in which every check comes at least 70 seconds
after the one before it, never panics; and when `restart_log_mutex` is free at the
start, every check of the sequence returns.  The timestamps are values of the
type `long`, the type of `tv_sec`. -/
theorem spaced_checks_never_fire (checks : List (SubsysPtr × EpochEnv)) (s : State)
    (tr : List Event) (hmax : s.max_restarts = 3) (hwin : s.max_history_time = 60)
    (hlog : s.restart_log_list = [])
    (hapart : checks.Chain' (fun a b => b.2.now.tv_sec - a.2.now.tv_sec ≥ 70))
    (hlong : ∀ c ∈ checks, long_range c.2.now.tv_sec) :
    (epoch_checks checks ⟨s, tr⟩).isPanicked = false ∧
      (Mutex.restart_log_mutex ∉ s.held → (epoch_checks checks ⟨s, tr⟩).isReturned = true) := by
  have hret : Mutex.restart_log_mutex ∉ s.held →
      (epoch_checks checks ⟨s, tr⟩).isReturned = true := fun hfree =>
    epoch_checks_spaced checks ⟨s, tr⟩ hmax hwin hfree hapart hlong (by
      intro e he
      rw [show (⟨s, tr⟩ : Run).st.restart_log_list = [] from hlog] at he
      cases he) (Or.inl hlog)
  refine ⟨?_, hret⟩
  by_cases hfree : Mutex.restart_log_mutex ∈ s.held
  · cases checks with
    | nil => rfl
    | cons c rest =>
      obtain ⟨subsys, env⟩ := c
      unfold epoch_checks
      rw [do_epoch_check_blocked env subsys ⟨s, tr⟩ hfree]
      rfl
  · have h := hret hfree
    cases hres : epoch_checks checks ⟨s, tr⟩ with
    | panicked r => rw [hres] at h; cases h
    | returned a r => rfl
    | blocked r => rfl
    | fault r => rfl

/-- Checks at the seconds 0, 70, 140, 215 and 1000, the third without memory. -/
theorem spaced_checks_never_fire_witness :
    (epoch_checks [(1, ⟨true, ⟨0, 0⟩⟩), (2, ⟨true, ⟨70, 0⟩⟩), (2, ⟨false, ⟨140, 0⟩⟩),
        (2, ⟨true, ⟨215, 0⟩⟩), (3, ⟨true, ⟨1000, 0⟩⟩)]
      ⟨boot_state (demo_mem 0 0) 3 3 60, []⟩).isPanicked = false ∧
    (Mutex.restart_log_mutex ∉ (boot_state (demo_mem 0 0) 3 3 60).held →
      (epoch_checks [(1, ⟨true, ⟨0, 0⟩⟩), (2, ⟨true, ⟨70, 0⟩⟩), (2, ⟨false, ⟨140, 0⟩⟩),
          (2, ⟨true, ⟨215, 0⟩⟩), (3, ⟨true, ⟨1000, 0⟩⟩)]
        ⟨boot_state (demo_mem 0 0) 3 3 60, []⟩).isReturned = true) :=
  spaced_checks_never_fire _ (boot_state (demo_mem 0 0) 3 3 60) [] rfl rfl rfl (by simp)
    (by simp [long_range])

/-- Claim C12, counterexample.  With `max_restarts = 2`, `max_history_time = 60` and
a log whose only entry is of the second -2^31, a check at the second 1 panics: the
age 1 + 2^31 of the old entry does not fit a `long` and reads as 1 - 2^31, so the
entry survives the pruning and is the first of two surviving entries.  Yet `T`
minus its timestamp is not below 60, and only one entry, the new one, has an age
of at most 60. -/
theorem wrapped_age_fires :
    (do_epoch_check ⟨true, ⟨1, 0⟩⟩ 2
      ⟨{ boot_state (demo_mem 0 0) 3 2 60 with
          restart_log_list := [⟨⟨-2147483648, 0⟩, 1⟩] }, []⟩).isPanicked = true ∧
    (do_epoch_check ⟨true, ⟨1, 0⟩⟩ 2
      ⟨{ boot_state (demo_mem 0 0) 3 2 60 with
          restart_log_list := [⟨⟨-2147483648, 0⟩, 1⟩] }, []⟩).run.st.restart_log_list =
      [⟨⟨-2147483648, 0⟩, 1⟩, ⟨⟨1, 0⟩, 2⟩] ∧
    ¬ ((1 : Int) - (-2147483648) < 60) ∧
    in_window 1 60 ([⟨⟨-2147483648, 0⟩, 1⟩] ++ [⟨⟨1, 0⟩, 2⟩]) = [⟨⟨1, 0⟩, 2⟩] := by
  decide

/-- Claim C12, amended.  For a non-zero `max_restarts`, a `max_history_time ≥ 0` and
any restart log whose entries have, at the time `T`, an age within the range of
`long`, a crash-loop check at the time `T` whose allocation succeeds (run with
`restart_log_mutex` free) keeps its own entry among the survivors of the pruning,
and it panics if and only if the number of surviving entries is at least
`max_restarts` and `T` minus the timestamp of the first surviving entry, in log
order, is strictly less than `max_history_time`. -/
theorem epoch_check_fires_iff (s : State) (subsys : SubsysPtr) (T : timeval) (tr : List Event)
    (hmax : s.max_restarts ≠ 0) (hwin : 0 ≤ s.max_history_time)
    (hfree : Mutex.restart_log_mutex ∉ s.held)
    (hrange : ages_in_range T.tv_sec s.restart_log_list) :
    (⟨T, subsys⟩ : restart_log) ∈
        in_window T.tv_sec s.max_history_time (s.restart_log_list ++ [⟨T, subsys⟩]) ∧
    (do_epoch_check ⟨true, T⟩ subsys ⟨s, tr⟩).run.st.restart_log_list =
      in_window T.tv_sec s.max_history_time (s.restart_log_list ++ [⟨T, subsys⟩]) ∧
    ((do_epoch_check ⟨true, T⟩ subsys ⟨s, tr⟩).isPanicked = true ↔
      ((in_window T.tv_sec s.max_history_time
          (s.restart_log_list ++ [⟨T, subsys⟩])).length : Int) ≥ s.max_restarts ∧
        ∃ first, (in_window T.tv_sec s.max_history_time
            (s.restart_log_list ++ [⟨T, subsys⟩])).head? = some first ∧
          T.tv_sec - first.time.tv_sec < s.max_history_time) := by
  have hr2 := ages_in_range_append T.tv_sec subsys T s.restart_log_list hrange rfl
  have hw : epoch_window ⟨true, T⟩ subsys s =
      in_window T.tv_sec s.max_history_time (s.restart_log_list ++ [⟨T, subsys⟩]) :=
    in_window_long_eq _ _ _ hr2
  have hage : ∀ first, (in_window T.tv_sec s.max_history_time
      (s.restart_log_list ++ [⟨T, subsys⟩])).head? = some first →
      to_long (T.tv_sec - first.time.tv_sec) = T.tv_sec - first.time.tv_sec := by
    intro first hf
    have hm : first ∈ in_window T.tv_sec s.max_history_time
        (s.restart_log_list ++ [⟨T, subsys⟩]) := List.mem_of_mem_head? hf
    unfold in_window at hm
    exact to_long_of_range _ (hr2 first (List.mem_filter.mp hm).1)
  refine ⟨?_, ?_, ?_⟩
  · rw [in_window_append, in_window_cons_young _ _ _ _ (by simp only []; omega)]
    simp
  · rcases do_epoch_check_window ⟨true, T⟩ subsys ⟨s, tr⟩ hfree hmax rfl with
      ⟨_, hr⟩ | ⟨_, hr⟩ <;> rw [hr] <;> exact hw
  · rcases do_epoch_check_window ⟨true, T⟩ subsys ⟨s, tr⟩ hfree hmax rfl with ⟨hc, hr⟩ | ⟨hc, hr⟩
    · rw [hr]
      refine ⟨fun _ => ?_, fun _ => rfl⟩
      unfold crash_loop at hc
      simp only [] at hc
      rw [hw] at hc
      obtain ⟨h1, first, hf, h2⟩ := hc
      exact ⟨h1, first, hf, (hage first hf) ▸ h2⟩
    · rw [hr]
      refine ⟨fun h => (by cases h), fun h => ?_⟩
      exfalso
      apply hc
      unfold crash_loop
      simp only []
      rw [hw]
      obtain ⟨h1, first, hf, h2⟩ := h
      exact ⟨h1, first, hf, (hage first hf).symm ▸ h2⟩

/-- Two entries of an hour-long window and a threshold of 2: the check panics. -/
theorem epoch_check_fires_iff_witness :
    (⟨⟨130, 0⟩, 2⟩ : restart_log) ∈ in_window 130 3600 ([⟨⟨100, 0⟩, 1⟩] ++ [⟨⟨130, 0⟩, 2⟩]) ∧
    (do_epoch_check ⟨true, ⟨130, 0⟩⟩ 2
        ⟨{ boot_state (demo_mem 0 0) 3 2 3600 with restart_log_list := [⟨⟨100, 0⟩, 1⟩] },
          []⟩).run.st.restart_log_list =
      in_window 130 3600 ([⟨⟨100, 0⟩, 1⟩] ++ [⟨⟨130, 0⟩, 2⟩]) ∧
    ((do_epoch_check ⟨true, ⟨130, 0⟩⟩ 2
        ⟨{ boot_state (demo_mem 0 0) 3 2 3600 with restart_log_list := [⟨⟨100, 0⟩, 1⟩] },
          []⟩).isPanicked = true ↔
      ((in_window 130 3600 ([⟨⟨100, 0⟩, 1⟩] ++ [⟨⟨130, 0⟩, 2⟩])).length : Int) ≥ 2 ∧
        ∃ first, (in_window 130 3600 ([⟨⟨100, 0⟩, 1⟩] ++ [⟨⟨130, 0⟩, 2⟩])).head? = some first ∧
          130 - first.time.tv_sec < 3600) :=
  epoch_check_fires_iff
    { boot_state (demo_mem 0 0) 3 2 3600 with restart_log_list := [⟨⟨100, 0⟩, 1⟩] }
    2 ⟨130, 0⟩ [] (by decide) (by decide) (by decide) (by simp [ages_in_range, long_range])

/-- Claim C13, counterexample.  With `max_history_time = 60` and a log whose only
entry is of the second -2^31, a check at the second 1 whose allocation succeeds
leaves both entries in the log, although the age `T - t = 1 + 2^31` of the old one
is above 60: that age does not fit a `long` and reads as negative. -/
theorem wrapped_age_survives :
    (do_epoch_check ⟨true, ⟨1, 0⟩⟩ 2
      ⟨{ boot_state (demo_mem 0 0) 3 5 60 with
          restart_log_list := [⟨⟨-2147483648, 0⟩, 1⟩] }, []⟩).run.st.restart_log_list =
      [⟨⟨-2147483648, 0⟩, 1⟩, ⟨⟨1, 0⟩, 2⟩] ∧
    (1 : Int) - (-2147483648) > 60 ∧
    ([⟨⟨-2147483648, 0⟩, 1⟩, ⟨⟨1, 0⟩, 2⟩] : List restart_log).filter
        (fun e => decide ((1 : Int) - e.time.tv_sec ≤ 60)) = [⟨⟨1, 0⟩, 2⟩] := by
  decide

/-- Claim C13, amended.  A crash-loop check at the time `T` with a non-zero
`max_restarts` that appends an entry (the allocation succeeds, `restart_log_mutex`
free), on a log whose entries have an age `T - t` within the range of `long`,
leaves as the log exactly the entries of the old log followed by the new entry
whose age `T - t` is at most `max_history_time`, in their original order, whether
the check then panics or returns: every entry older than the window is gone and
every entry inside it is kept. -/
theorem epoch_check_prunes (s : State) (subsys : SubsysPtr) (env : EpochEnv) (tr : List Event)
    (hmax : s.max_restarts ≠ 0) (hk : env.kmalloc_ok = true)
    (hfree : Mutex.restart_log_mutex ∉ s.held)
    (hrange : ages_in_range env.now.tv_sec s.restart_log_list) :
    (do_epoch_check env subsys ⟨s, tr⟩).run.st.restart_log_list =
        (s.restart_log_list ++ [(⟨env.now, subsys⟩ : restart_log)]).filter
          (fun e => decide (env.now.tv_sec - e.time.tv_sec ≤ s.max_history_time)) ∧
    (do_epoch_check env subsys ⟨s, tr⟩).run.st.restart_log_list.Sublist
        (s.restart_log_list ++ [(⟨env.now, subsys⟩ : restart_log)]) ∧
    (∀ e ∈ s.restart_log_list ++ [(⟨env.now, subsys⟩ : restart_log)],
      env.now.tv_sec - e.time.tv_sec > s.max_history_time →
        e ∉ (do_epoch_check env subsys ⟨s, tr⟩).run.st.restart_log_list) ∧
    (∀ e ∈ s.restart_log_list ++ [(⟨env.now, subsys⟩ : restart_log)],
      env.now.tv_sec - e.time.tv_sec ≤ s.max_history_time →
        e ∈ (do_epoch_check env subsys ⟨s, tr⟩).run.st.restart_log_list) := by
  have hr2 := ages_in_range_append env.now.tv_sec subsys env.now s.restart_log_list hrange rfl
  have hw : epoch_window env subsys s =
      in_window env.now.tv_sec s.max_history_time (s.restart_log_list ++ [⟨env.now, subsys⟩]) :=
    in_window_long_eq _ _ _ hr2
  have hlog : (do_epoch_check env subsys ⟨s, tr⟩).run.st.restart_log_list =
      (s.restart_log_list ++ [(⟨env.now, subsys⟩ : restart_log)]).filter
        (fun e => decide (env.now.tv_sec - e.time.tv_sec ≤ s.max_history_time)) := by
    rcases do_epoch_check_window env subsys ⟨s, tr⟩ hfree hmax hk with ⟨_, hr⟩ | ⟨_, hr⟩ <;>
      rw [hr] <;> exact hw
  rw [hlog]
  refine ⟨rfl, List.filter_sublist _, ?_, ?_⟩
  · intro e _ hold hmem
    have := (List.mem_filter.mp hmem).2
    simp only [decide_eq_true_eq] at this
    omega
  · intro e he hyoung
    exact List.mem_filter.mpr ⟨he, by simpa using hyoung⟩

/-- A log with entries at the seconds 10, 50 and 100 and a check at the second 110
with a window of 60 seconds: the entry of the second 10 goes, the others stay. -/
theorem epoch_check_prunes_witness :
    (do_epoch_check ⟨true, ⟨110, 0⟩⟩ 3
        ⟨{ boot_state (demo_mem 0 0) 3 5 60 with
            restart_log_list := [⟨⟨10, 0⟩, 1⟩, ⟨⟨50, 0⟩, 2⟩, ⟨⟨100, 0⟩, 1⟩] }, []⟩).run.st.restart_log_list
      = [⟨⟨50, 0⟩, 2⟩, ⟨⟨100, 0⟩, 1⟩, ⟨⟨110, 0⟩, 3⟩] :=
  (epoch_check_prunes
    { boot_state (demo_mem 0 0) 3 5 60 with
        restart_log_list := [⟨⟨10, 0⟩, 1⟩, ⟨⟨50, 0⟩, 2⟩, ⟨⟨100, 0⟩, 1⟩] }
    3 ⟨true, ⟨110, 0⟩⟩ [] (by decide) rfl (by decide)
    (by simp [ages_in_range, long_range])).1.trans (by decide)

theorem timestamps_in_window_long (T mht : Int) (log : List restart_log) :
    timestamps (in_window_long T mht log) =
      (timestamps log).filter (fun t => decide (to_long (T - t.tv_sec) ≤ mht)) := by
  unfold timestamps in_window_long
  rw [List.filter_map]
  rfl

theorem timestamps_epoch_window (env : EpochEnv) (p p' : SubsysPtr) (s s' : State)
    (hwin : s.max_history_time = s'.max_history_time)
    (htimes : timestamps s.restart_log_list = timestamps s'.restart_log_list) :
    timestamps (epoch_window env p s) = timestamps (epoch_window env p' s') := by
  unfold epoch_window
  rw [timestamps_in_window_long, timestamps_in_window_long, hwin]
  congr 1
  unfold timestamps at htimes ⊢
  rw [List.map_append, List.map_append, htimes]
  rfl

theorem crash_loop_timestamps (T mht maxr : Int) (W W' : List restart_log)
    (h : timestamps W = timestamps W') : crash_loop T mht maxr W → crash_loop T mht maxr W' := by
  rintro ⟨hlen, first, hhead, hage⟩
  have hl : W.length = W'.length := by
    have := congrArg List.length h
    simpa [timestamps] using this
  cases W with
  | nil => cases hhead
  | cons a rest =>
    cases W' with
    | nil => cases hl
    | cons b rest' =>
      simp only [List.head?_cons, Option.some.injEq] at hhead
      subst hhead
      have hab : a.time = b.time := by
        simp only [timestamps, List.map_cons, List.cons.injEq] at h
        exact h.1
      refine ⟨by rw [← hl]; exact hlen, b, rfl, ?_⟩
      rw [← hab]; exact hage

/-- Claim C14.  The crash-loop check reads the timestamps only: for two logs with
the same timestamps in the same order, whatever subsystems their entries refer
to, the same thresholds and the same environment, the checks of two subsystems
`p` and `p'` have the same outcome: one panics exactly when the other does, one
returns exactly when the other does, and the timestamps that survive in the two
logs are the same. -/
theorem epoch_check_ignores_subsystems (env : EpochEnv) (p p' : SubsysPtr) (r r' : Run)
    (hmax : r.st.max_restarts = r'.st.max_restarts)
    (hwin : r.st.max_history_time = r'.st.max_history_time)
    (hheld : Mutex.restart_log_mutex ∈ r.st.held ↔ Mutex.restart_log_mutex ∈ r'.st.held)
    (htimes : timestamps r.st.restart_log_list = timestamps r'.st.restart_log_list) :
    (do_epoch_check env p r).isPanicked = (do_epoch_check env p' r').isPanicked ∧
    (do_epoch_check env p r).isReturned = (do_epoch_check env p' r').isReturned ∧
    timestamps (do_epoch_check env p r).run.st.restart_log_list =
      timestamps (do_epoch_check env p' r').run.st.restart_log_list := by
  by_cases hl : Mutex.restart_log_mutex ∈ r.st.held
  · rw [do_epoch_check_blocked env p r hl, do_epoch_check_blocked env p' r' (hheld.mp hl)]
    exact ⟨rfl, rfl, htimes⟩
  have hl' : Mutex.restart_log_mutex ∉ r'.st.held := fun h => hl (hheld.mpr h)
  by_cases hs : r.st.max_restarts = 0 ∨ env.kmalloc_ok = false
  · have hs' : r'.st.max_restarts = 0 ∨ env.kmalloc_ok = false := by rw [← hmax]; exact hs
    rw [do_epoch_check_skipped env p r hl hs, do_epoch_check_skipped env p' r' hl' hs']
    exact ⟨rfl, rfl, htimes⟩
  have h0 : r.st.max_restarts ≠ 0 := fun h => hs (Or.inl h)
  have hk : env.kmalloc_ok = true := by
    cases hke : env.kmalloc_ok with
    | true => rfl
    | false => exact absurd (Or.inr hke) hs
  have h0' : r'.st.max_restarts ≠ 0 := by rw [← hmax]; exact h0
  have hW := timestamps_epoch_window env p p' r.st r'.st hwin htimes
  rcases do_epoch_check_window env p r hl h0 hk with ⟨hc, hr⟩ | ⟨hc, hr⟩ <;>
    rcases do_epoch_check_window env p' r' hl' h0' hk with ⟨hc', hr'⟩ | ⟨hc', hr'⟩
  · rw [hr, hr']; exact ⟨rfl, rfl, hW⟩
  · exfalso
    apply hc'
    rw [← hmax, ← hwin]
    exact crash_loop_timestamps _ _ _ _ _ hW hc
  · exfalso
    apply hc
    rw [hmax, hwin]
    exact crash_loop_timestamps _ _ _ _ _ hW.symm hc'
  · rw [hr, hr']; exact ⟨rfl, rfl, hW⟩

/-- Two logs with the timestamps 100 and 130, one about the subsystems 1 and 2, the
other about the subsystem 3 alone, and a third restart at the second 159: both
checks panic. -/
theorem epoch_check_ignores_subsystems_witness :
    (do_epoch_check ⟨true, ⟨159, 0⟩⟩ 1
        ⟨{ boot_state (demo_mem 0 0) 3 3 60 with
            restart_log_list := [⟨⟨100, 0⟩, 1⟩, ⟨⟨130, 0⟩, 2⟩] }, []⟩).isPanicked = true ∧
    (do_epoch_check ⟨true, ⟨159, 0⟩⟩ 3
        ⟨{ boot_state (demo_mem 0 0) 3 3 60 with
            restart_log_list := [⟨⟨100, 0⟩, 3⟩, ⟨⟨130, 0⟩, 3⟩] }, []⟩).isPanicked = true :=
  have h := epoch_check_ignores_subsystems ⟨true, ⟨159, 0⟩⟩ 1 3
    ⟨{ boot_state (demo_mem 0 0) 3 3 60 with
        restart_log_list := [⟨⟨100, 0⟩, 1⟩, ⟨⟨130, 0⟩, 2⟩] }, []⟩
    ⟨{ boot_state (demo_mem 0 0) 3 3 60 with
        restart_log_list := [⟨⟨100, 0⟩, 3⟩, ⟨⟨130, 0⟩, 3⟩] }, []⟩
    rfl rfl (by decide) (by decide)
  ⟨by decide, h.1 ▸ (by decide)⟩

/-! ## The restart level -/

theorem restart_level_set_rejected (cfg : Config) (board : Board) (s : State) (ret : Int)
    (h : ret < 0) :
    (restart_level_set cfg board (.rejected ret) s).1 < 0 ∧
      (restart_level_set cfg board (.rejected ret) s).2 = s := by
  have h0 : ret ≠ 0 := by omega
  unfold restart_level_set param_set_int
  by_cases h9 : board.cpu_is_msm9615 = true
  · simp only [if_pos h9]
    exact ⟨by decide, trivial⟩
  · simp only [if_neg h9, if_pos h0]
    exact ⟨h, trivial⟩

theorem restart_level_set_invalid (cfg : Config) (board : Board) (s : State) (v : Int)
    (h1 : v ≠ cfg.RESET_SOC) (h2 : v ≠ cfg.RESET_SUBSYS_COUPLED)
    (h3 : v ≠ cfg.RESET_SUBSYS_INDEPENDENT) :
    restart_level_set cfg board (.parses v) s = (-EINVAL, s) := by
  unfold restart_level_set param_set_int
  by_cases h9 : board.cpu_is_msm9615 = true
  · simp only [if_pos h9]
  · have hi : ¬ (v = cfg.RESET_SUBSYS_INDEPENDENT ∧ board.is_qsc_dsda = true) := fun h => h3 h.1
    have hv : ¬ (v = cfg.RESET_SOC ∨ v = cfg.RESET_SUBSYS_COUPLED ∨
        v = cfg.RESET_SUBSYS_INDEPENDENT) := by
      rintro (h | h | h)
      · exact h1 h
      · exact h2 h
      · exact h3 h
    simp only [if_neg h9, ne_eq, not_true_eq_false, if_false, if_neg hi, if_neg hv]

/-- Claim C15.  Whatever the restart level before the call, a write of an integer
that is none of RESET_SOC, RESET_SUBSYS_COUPLED and RESET_SUBSYS_INDEPENDENT, or of
a text that `param_set_int` rejects with an error, makes restart_level_set return
an error (a negative value, `-EINVAL` for an integer that is no level), and the
globals, the restart level among them, are after the call what they were before
it. -/
theorem invalid_level_rejected (cfg : Config) (board : Board) (s : State) (val : written_value)
    (h : (∃ v, val = .parses v ∧ v ≠ cfg.RESET_SOC ∧ v ≠ cfg.RESET_SUBSYS_COUPLED ∧
            v ≠ cfg.RESET_SUBSYS_INDEPENDENT) ∨
         (∃ ret, val = .rejected ret ∧ ret < 0)) :
    (restart_level_set cfg board val s).1 < 0 ∧
      (restart_level_set cfg board val s).2.restart_level = s.restart_level ∧
      (restart_level_set cfg board val s).2 = s ∧
      (∀ v, val = .parses v → (restart_level_set cfg board val s).1 = -EINVAL) := by
  rcases h with ⟨v, rfl, h1, h2, h3⟩ | ⟨ret, rfl, hret⟩
  · rw [restart_level_set_invalid cfg board s v h1 h2 h3]
    refine ⟨?_, rfl, rfl, fun _ _ => rfl⟩
    show -EINVAL < 0
    decide
  · obtain ⟨ha, hb⟩ := restart_level_set_rejected cfg board s ret hret
    refine ⟨ha, by rw [hb], hb, ?_⟩
    intro v hv
    cases hv

/-- A write of 7, and a write of a text that does not parse, at the level 2. -/
theorem invalid_level_rejected_witness :
    restart_level_set cfg0 dsda_board (.parses 7) (boot_state (demo_mem 0 0) 2 0 3600) =
        (-22, boot_state (demo_mem 0 0) 2 0 3600) ∧
    (restart_level_set cfg0 dsda_board (.rejected (-22))
        (boot_state (demo_mem 0 0) 2 0 3600)).2.restart_level = 2 :=
  ⟨Prod.ext
      ((invalid_level_rejected cfg0 dsda_board (boot_state (demo_mem 0 0) 2 0 3600) (.parses 7)
        (Or.inl ⟨7, rfl, by decide, by decide, by decide⟩)).2.2.2 7 rfl)
      (invalid_level_rejected cfg0 dsda_board (boot_state (demo_mem 0 0) 2 0 3600) (.parses 7)
        (Or.inl ⟨7, rfl, by decide, by decide, by decide⟩)).2.2.1,
    (invalid_level_rejected cfg0 dsda_board (boot_state (demo_mem 0 0) 2 0 3600) (.rejected (-22))
      (Or.inr ⟨-22, rfl, by decide⟩)).2.1⟩

theorem init_order_locks_level (n : Nat) (s : State) :
    (init_order_locks n s).restart_level = s.restart_level := by
  induction n with
  | zero => rfl
  | succ n ih => simp only [init_order_locks]; exact ih

theorem ssr_init_soc_restart_orders_level (board : Board) (s : State) :
    (ssr_init_soc_restart_orders board s).2.restart_level = s.restart_level := by
  unfold ssr_init_soc_restart_orders
  simp only []
  split_ifs <;> simp only [init_order_locks_level]

theorem subsys_restart_init_level (cfg : Config) (board : Board) (r : Run)
    (hd : board.is_qsc_dsda = true) :
    level_soc_or_coupled cfg (subsys_restart_init cfg board r).run.st := by
  have key : (subsys_restart_init cfg board r).run.st.restart_level = cfg.RESET_SOC ∨
      (subsys_restart_init cfg board r).run.st.restart_level = cfg.RESET_SUBSYS_COUPLED := by
    unfold subsys_restart_init
    simp only [hd, if_true]
    by_cases ha : board.alloc_workqueue_ok = false
    · simp only [if_pos ha, Result.run]
      by_cases hu : board.radio_flag_usb_upload = true <;>
        by_cases hc : board.CONFIG_MSM_SSR_INDEPENDENT = true <;>
        by_cases h1 : board.board_mfg_mode = true ∨ board.kernel_flag_enable_ssr_modem = true <;>
        by_cases h2 : board.board_mfg_mode = false ∧ board.kernel_flag_enable_ssr_modem = true <;>
        simp [hu, hc, h1, h2]
    · simp only [if_neg ha, Result.run, ssr_init_soc_restart_orders_level]
      by_cases hu : board.radio_flag_usb_upload = true <;>
        by_cases hq : cfg.CONFIG_QSC_MODEM = true <;>
        by_cases hc : board.CONFIG_MSM_SSR_INDEPENDENT = true <;>
        by_cases h1 : board.board_mfg_mode = true ∨ board.kernel_flag_enable_ssr_modem = true <;>
        by_cases h2 : board.board_mfg_mode = false ∧ board.kernel_flag_enable_ssr_modem = true <;>
        simp [hu, hq, hc, h1, h2]
  exact key

theorem update_for_crc_level (cfg : Config) (board : Board) (s : State)
    (hd : board.is_qsc_dsda = true) :
    level_soc_or_coupled cfg (subsystem_update_restart_level_for_crc cfg board s) ∨
      (board.CONFIG_MSM_SSR_INDEPENDENT = true ∧
        subsystem_update_restart_level_for_crc cfg board s = s) := by
  unfold subsystem_update_restart_level_for_crc level_soc_or_coupled
  by_cases hc : board.CONFIG_MSM_SSR_INDEPENDENT = true
  · right; rw [if_pos hc]; exact ⟨hc, rfl⟩
  · left
    by_cases h1 : board.board_mfg_mode = true ∨ board.kernel_flag_enable_ssr_modem = true
    · rw [if_neg hc, if_pos h1]; exact Or.inl rfl
    · rw [if_neg hc, if_neg h1, if_pos hd]; exact Or.inr rfl

theorem restart_level_set_independent (cfg : Config) (board : Board) (s : State)
    (hd : board.is_qsc_dsda = true) :
    restart_level_set cfg board (.parses cfg.RESET_SUBSYS_INDEPENDENT) s =
      if board.cpu_is_msm9615 = true then (-EINVAL, s)
      else (0, { s with restart_level := cfg.RESET_SUBSYS_COUPLED }) := by
  unfold restart_level_set param_set_int
  by_cases h9 : board.cpu_is_msm9615 = true
  · simp only [if_pos h9]
  · simp only [if_neg h9, ne_eq, not_true_eq_false, if_false, hd, and_self, if_true,
      true_or, or_true]

theorem restart_level_set_keeps (cfg : Config) (board : Board) (val : written_value) (s : State)
    (hsoc : cfg.RESET_SUBSYS_INDEPENDENT ≠ cfg.RESET_SOC)
    (hcoupled : cfg.RESET_SUBSYS_INDEPENDENT ≠ cfg.RESET_SUBSYS_COUPLED)
    (hd : board.is_qsc_dsda = true) (h : level_soc_or_coupled cfg s) :
    level_soc_or_coupled cfg (restart_level_set cfg board val s).2 := by
  have hne : s.restart_level ≠ cfg.RESET_SUBSYS_INDEPENDENT := by
    rcases h with h | h <;> rw [h]
    · exact fun e => hsoc e.symm
    · exact fun e => hcoupled e.symm
  by_cases h9 : board.cpu_is_msm9615 = true
  · unfold restart_level_set
    simp only [if_pos h9]; exact h
  cases val with
  | rejected ret =>
    by_cases h0 : ret ≠ 0
    · unfold restart_level_set param_set_int
      simp only [if_neg h9, if_pos h0]; exact h
    · have hvalid : s.restart_level = cfg.RESET_SOC ∨ s.restart_level = cfg.RESET_SUBSYS_COUPLED ∨
          s.restart_level = cfg.RESET_SUBSYS_INDEPENDENT := by
        rcases h with h | h
        · exact Or.inl h
        · exact Or.inr (Or.inl h)
      have hi : ¬ (s.restart_level = cfg.RESET_SUBSYS_INDEPENDENT ∧ board.is_qsc_dsda = true) :=
        fun e => hne e.1
      unfold restart_level_set param_set_int
      simp only [if_neg h9, if_neg h0, if_neg hi, if_pos hvalid]; exact h
  | parses v =>
    by_cases hv : v = cfg.RESET_SUBSYS_INDEPENDENT
    · subst hv
      rw [restart_level_set_independent cfg board s hd, if_neg h9]
      exact Or.inr rfl
    · by_cases hvalid : v = cfg.RESET_SOC ∨ v = cfg.RESET_SUBSYS_COUPLED
      · have hi : ¬ (v = cfg.RESET_SUBSYS_INDEPENDENT ∧ board.is_qsc_dsda = true) :=
          fun e => hv e.1
        have hvalid3 : v = cfg.RESET_SOC ∨ v = cfg.RESET_SUBSYS_COUPLED ∨
            v = cfg.RESET_SUBSYS_INDEPENDENT := by
          rcases hvalid with h | h
          · exact Or.inl h
          · exact Or.inr (Or.inl h)
        unfold restart_level_set param_set_int
        simp only [if_neg h9, ne_eq, not_true_eq_false, if_false, if_neg hi, if_pos hvalid3]
        exact hvalid
      · rw [restart_level_set_invalid cfg board s v (fun e => hvalid (Or.inl e))
          (fun e => hvalid (Or.inr e)) hv]
        exact h

theorem level_ops_keep (cfg : Config)
    (hsoc : cfg.RESET_SUBSYS_INDEPENDENT ≠ cfg.RESET_SOC)
    (hcoupled : cfg.RESET_SUBSYS_INDEPENDENT ≠ cfg.RESET_SUBSYS_COUPLED)
    (ops : List level_op) :
    ∀ (s : State), (∀ op ∈ ops, op.board.is_qsc_dsda = true) → level_soc_or_coupled cfg s →
      level_soc_or_coupled cfg (level_ops cfg ops s) := by
  induction ops with
  | nil => intro s _ h; exact h
  | cons op rest ih =>
    intro s hd h
    unfold level_ops
    refine ih _ (fun o ho => hd o (List.mem_cons_of_mem _ ho)) ?_
    have hop := hd op (List.mem_cons_self _ _)
    cases op with
    | set board val => exact restart_level_set_keeps cfg board val s hsoc hcoupled hop h
    | update_for_crc board =>
      rcases update_for_crc_level cfg board s hop with hl | ⟨_, he⟩
      · exact hl
      · show level_soc_or_coupled cfg (subsystem_update_restart_level_for_crc cfg board s)
        rw [he]; exact h

theorem restart_level_set_keeps_ne (cfg : Config) (board : Board) (val : written_value)
    (s : State)
    (hcoupled : cfg.RESET_SUBSYS_INDEPENDENT ≠ cfg.RESET_SUBSYS_COUPLED)
    (hd : board.is_qsc_dsda = true) (h : s.restart_level ≠ cfg.RESET_SUBSYS_INDEPENDENT) :
    (restart_level_set cfg board val s).2.restart_level ≠ cfg.RESET_SUBSYS_INDEPENDENT := by
  by_cases h9 : board.cpu_is_msm9615 = true
  · unfold restart_level_set
    simp only [if_pos h9]; exact h
  cases val with
  | rejected ret =>
    have hi : ¬ (s.restart_level = cfg.RESET_SUBSYS_INDEPENDENT ∧ board.is_qsc_dsda = true) :=
      fun e => h e.1
    unfold restart_level_set param_set_int
    simp only [if_neg h9, if_neg hi]
    split_ifs <;> exact h
  | parses v =>
    by_cases hv : v = cfg.RESET_SUBSYS_INDEPENDENT
    · subst hv
      rw [restart_level_set_independent cfg board s hd, if_neg h9]
      exact fun e => hcoupled e.symm
    · by_cases hvalid : v = cfg.RESET_SOC ∨ v = cfg.RESET_SUBSYS_COUPLED
      · have he : restart_level_set cfg board (.parses v) s =
            (0, { s with restart_level := v }) := by
          have hi : ¬ (v = cfg.RESET_SUBSYS_INDEPENDENT ∧ board.is_qsc_dsda = true) :=
            fun e => hv e.1
          have hvalid3 : v = cfg.RESET_SOC ∨ v = cfg.RESET_SUBSYS_COUPLED ∨
              v = cfg.RESET_SUBSYS_INDEPENDENT := by
            rcases hvalid with h | h
            · exact Or.inl h
            · exact Or.inr (Or.inl h)
          unfold restart_level_set param_set_int
          simp only [if_neg h9, ne_eq, not_true_eq_false, if_false, if_neg hi, if_pos hvalid3]
        rw [he]
        exact hv
      · rw [restart_level_set_invalid cfg board s v (fun e => hvalid (Or.inl e))
          (fun e => hvalid (Or.inr e)) hv]
        exact h

theorem level_ops_keep_ne (cfg : Config)
    (hsoc : cfg.RESET_SUBSYS_INDEPENDENT ≠ cfg.RESET_SOC)
    (hcoupled : cfg.RESET_SUBSYS_INDEPENDENT ≠ cfg.RESET_SUBSYS_COUPLED)
    (ops : List level_op) :
    ∀ (s : State), (∀ op ∈ ops, op.board.is_qsc_dsda = true) →
      s.restart_level ≠ cfg.RESET_SUBSYS_INDEPENDENT →
      (level_ops cfg ops s).restart_level ≠ cfg.RESET_SUBSYS_INDEPENDENT := by
  induction ops with
  | nil => intro s _ h; exact h
  | cons op rest ih =>
    intro s hd h
    unfold level_ops
    refine ih _ (fun o ho => hd o (List.mem_cons_of_mem _ ho)) ?_
    have hop := hd op (List.mem_cons_self _ _)
    cases op with
    | set board val => exact restart_level_set_keeps_ne cfg board val s hcoupled hop h
    | update_for_crc board =>
      rcases update_for_crc_level cfg board s hop with hl | ⟨_, he⟩
      · show (subsystem_update_restart_level_for_crc cfg board s).restart_level ≠ _
        rcases hl with hl | hl <;> rw [hl]
        · exact fun e => hsoc e.symm
        · exact fun e => hcoupled e.symm
      · show (subsystem_update_restart_level_for_crc cfg board s).restart_level ≠ _
        rw [he]; exact h

/-- Claim C16, counterexample.  On a board that reports the dual-modem
configuration and an msm9615 CPU, a write of RESET_SUBSYS_INDEPENDENT at the level
RESET_SOC is refused like every write: the call returns `-EINVAL` and the level
stays RESET_SOC, it is not left at RESET_SUBSYS_COUPLED.  And in a build with
CONFIG_MSM_SSR_INDEPENDENT, subsystem_update_restart_level_for_crc assigns nothing:
called at the level 0 of the zero-initialised variable, it leaves 0, which is
neither RESET_SOC nor RESET_SUBSYS_COUPLED. -/
theorem independent_write_refused_on_msm9615 :
    ({ dsda_board with cpu_is_msm9615 := true } : Board).is_qsc_dsda = true ∧
    restart_level_set cfg0 { dsda_board with cpu_is_msm9615 := true }
        (.parses cfg0.RESET_SUBSYS_INDEPENDENT)
        (boot_state (demo_mem 0 0) cfg0.RESET_SOC 0 3600) =
      (-EINVAL, boot_state (demo_mem 0 0) cfg0.RESET_SOC 0 3600) ∧
    (restart_level_set cfg0 { dsda_board with cpu_is_msm9615 := true }
        (.parses cfg0.RESET_SUBSYS_INDEPENDENT)
        (boot_state (demo_mem 0 0) cfg0.RESET_SOC 0 3600)).2.restart_level ≠
      cfg0.RESET_SUBSYS_COUPLED ∧
    ({ dsda_board with CONFIG_MSM_SSR_INDEPENDENT := true } : Board).is_qsc_dsda = true ∧
    (subsystem_update_restart_level_for_crc cfg0
        { dsda_board with CONFIG_MSM_SSR_INDEPENDENT := true }
        (boot_state (demo_mem 0 0) 0 0 3600)).restart_level = 0 ∧
    (0 : Int) ≠ cfg0.RESET_SOC ∧ (0 : Int) ≠ cfg0.RESET_SUBSYS_COUPLED := by
  refine ⟨rfl, rfl, by decide, rfl, rfl, by decide, by decide⟩

/-- Claim C16, amended.  With the three levels distinct and the dual-modem (QSC
DSDA) configuration active: the level that subsys_restart_init selects at boot is
RESET_SOC or RESET_SUBSYS_COUPLED; subsystem_update_restart_level_for_crc selects
RESET_SOC or RESET_SUBSYS_COUPLED, or, in a build with CONFIG_MSM_SSR_INDEPENDENT,
leaves the globals as they are; a write of RESET_SUBSYS_INDEPENDENT through
restart_level_set returns 0 and leaves the level at RESET_SUBSYS_COUPLED, or, on an
msm9615 CPU, returns `-EINVAL` and leaves the globals as they are; after boot and
any sequence of writes and updates the level is RESET_SOC or RESET_SUBSYS_COUPLED,
so it is never RESET_SUBSYS_INDEPENDENT; and from any state, the one before boot
included, whose level is not RESET_SUBSYS_INDEPENDENT, no sequence of writes and
updates makes it so. -/
theorem dsda_level_never_independent (cfg : Config)
    (hsoc : cfg.RESET_SUBSYS_INDEPENDENT ≠ cfg.RESET_SOC)
    (hcoupled : cfg.RESET_SUBSYS_INDEPENDENT ≠ cfg.RESET_SUBSYS_COUPLED) :
    (∀ (board : Board) (r : Run), board.is_qsc_dsda = true →
      (subsys_restart_init cfg board r).run.st.restart_level = cfg.RESET_SOC ∨
      (subsys_restart_init cfg board r).run.st.restart_level = cfg.RESET_SUBSYS_COUPLED) ∧
    (∀ (board : Board) (s : State), board.is_qsc_dsda = true →
      ((subsystem_update_restart_level_for_crc cfg board s).restart_level = cfg.RESET_SOC ∨
       (subsystem_update_restart_level_for_crc cfg board s).restart_level =
          cfg.RESET_SUBSYS_COUPLED) ∨
      (board.CONFIG_MSM_SSR_INDEPENDENT = true ∧
        subsystem_update_restart_level_for_crc cfg board s = s)) ∧
    (∀ (board : Board) (s : State), board.is_qsc_dsda = true →
      restart_level_set cfg board (.parses cfg.RESET_SUBSYS_INDEPENDENT) s =
        if board.cpu_is_msm9615 = true then (-EINVAL, s)
        else (0, { s with restart_level := cfg.RESET_SUBSYS_COUPLED })) ∧
    (∀ (board : Board) (r : Run) (ops : List level_op), board.is_qsc_dsda = true →
      (∀ op ∈ ops, op.board.is_qsc_dsda = true) →
      ((level_ops cfg ops (subsys_restart_init cfg board r).run.st).restart_level =
          cfg.RESET_SOC ∨
        (level_ops cfg ops (subsys_restart_init cfg board r).run.st).restart_level =
          cfg.RESET_SUBSYS_COUPLED) ∧
      (level_ops cfg ops (subsys_restart_init cfg board r).run.st).restart_level ≠
        cfg.RESET_SUBSYS_INDEPENDENT) ∧
    (∀ (s : State) (ops : List level_op), s.restart_level ≠ cfg.RESET_SUBSYS_INDEPENDENT →
      (∀ op ∈ ops, op.board.is_qsc_dsda = true) →
      (level_ops cfg ops s).restart_level ≠ cfg.RESET_SUBSYS_INDEPENDENT) := by
  refine ⟨fun board r hd => subsys_restart_init_level cfg board r hd,
    fun board s hd => update_for_crc_level cfg board s hd,
    fun board s hd => restart_level_set_independent cfg board s hd, ?_,
    fun s ops hs hops => level_ops_keep_ne cfg hsoc hcoupled ops s hops hs⟩
  intro board r ops hd hops
  have h := level_ops_keep cfg hsoc hcoupled ops _ hops (subsys_restart_init_level cfg board r hd)
  refine ⟨h, ?_⟩
  rcases h with h | h <;> rw [h]
  · exact fun e => hsoc e.symm
  · exact fun e => hcoupled e.symm

/-- On the dual-modem board, after boot, a write of RESET_SUBSYS_INDEPENDENT, a write
of RESET_SOC, a write of 7, an update and another write of
RESET_SUBSYS_INDEPENDENT, the level is RESET_SUBSYS_COUPLED. -/
theorem dsda_level_never_independent_witness :
    cfg0.RESET_SUBSYS_INDEPENDENT ≠ cfg0.RESET_SOC ∧
    cfg0.RESET_SUBSYS_INDEPENDENT ≠ cfg0.RESET_SUBSYS_COUPLED ∧
    (level_ops cfg0
        [.set dsda_board (.parses 3), .set dsda_board (.parses 1), .set dsda_board (.parses 7),
         .update_for_crc dsda_board, .set dsda_board (.parses 3)]
        (subsys_restart_init cfg0 dsda_board
          ⟨boot_state (demo_mem 0 0) 0 0 3600, []⟩).run.st).restart_level = 2 ∧
    (level_ops cfg0
        [.set dsda_board (.parses 3), .set dsda_board (.parses 1), .set dsda_board (.parses 7),
         .update_for_crc dsda_board, .set dsda_board (.parses 3)]
        (subsys_restart_init cfg0 dsda_board
          ⟨boot_state (demo_mem 0 0) 0 0 3600, []⟩).run.st).restart_level ≠
      cfg0.RESET_SUBSYS_INDEPENDENT :=
  ⟨by decide, by decide, by decide,
    ((dsda_level_never_independent cfg0 (by decide) (by decide)).2.2.2.1 dsda_board
      ⟨boot_state (demo_mem 0 0) 0 0 3600, []⟩
      [.set dsda_board (.parses 3), .set dsda_board (.parses 1), .set dsda_board (.parses 7),
       .update_for_crc dsda_board, .set dsda_board (.parses 3)]
      rfl (by decide)).2⟩

/-! ## Restart requests -/

theorem find_subsystem_scan_eq (cfg : Config) (subsys_name : String) (r : Run) :
    ∀ (l : List SubsysPtr), (∀ p ∈ l, (r.st.mem p).name ≠ none) →
      find_subsystem_scan cfg subsys_name r l =
        .returned (l.find? fun p =>
          match (r.st.mem p).name with
          | some name => strncmp_eq name subsys_name cfg.SUBSYS_NAME_MAX_LENGTH
          | none => false) r := by
  intro l
  induction l with
  | nil => intro _; rfl
  | cons p rest ih =>
    intro h
    have hp := h p (List.mem_cons_self _ _)
    cases hn : (r.st.mem p).name with
    | none => exact absurd hn hp
    | some name =>
      by_cases hm : strncmp_eq name subsys_name cfg.SUBSYS_NAME_MAX_LENGTH = true
      · simp [find_subsystem_scan, hn, hm]
      · have hm' : strncmp_eq name subsys_name cfg.SUBSYS_NAME_MAX_LENGTH = false := by
          simpa using hm
        have ih' := ih (fun q hq => h q (List.mem_cons_of_mem _ hq))
        simp [find_subsystem_scan, hn, hm', ih']

theorem find_subsystem_eq (cfg : Config) (subsys_name : String) (s : State) (tr : List Event)
    (hreg : registry_named s) :
    _find_subsystem cfg subsys_name ⟨s, tr⟩ =
      .returned (find_registered cfg s subsys_name) ⟨s, tr⟩ :=
  find_subsystem_scan_eq cfg subsys_name ⟨s, tr⟩ s.subsystem_list hreg

theorem mark_crashed_modem_frame (cfg : Config) (subsys_name : String) (r : Run) :
    (mark_crashed_modem cfg subsys_name r).st.restart_level = r.st.restart_level ∧
    (mark_crashed_modem cfg subsys_name r).st.ssr_wq = r.st.ssr_wq ∧
    (mark_crashed_modem cfg subsys_name r).trace = r.trace := by
  unfold mark_crashed_modem
  split_ifs <;> exact ⟨rfl, rfl, rfl⟩

theorem subsystem_restart_refused (cfg : Config) (env : RestartEnv) (subsys_name : String)
    (r : Run) (h : hsic_refused cfg env subsys_name) :
    subsystem_restart cfg env (some subsys_name) r = .returned (-EINVAL) r := by
  have h' : cfg.CONFIG_APQ8064_HSIC = true ∧ subsys_name = EXTERNAL_MODEM ∧
      env.ehci_hsic_is_2nd_enum_done = false := h
  unfold subsystem_restart
  simp only []
  rw [if_pos h']

theorem subsystem_restart_unknown (cfg : Config) (env : RestartEnv) (subsys_name : String)
    (s : State) (tr : List Event) (hreg : registry_named s)
    (h : find_registered cfg s subsys_name = none) :
    subsystem_restart cfg env (some subsys_name) ⟨s, tr⟩ = .returned (-EINVAL) ⟨s, tr⟩ := by
  by_cases hr : hsic_refused cfg env subsys_name
  · exact subsystem_restart_refused cfg env subsys_name _ hr
  · have hr' : ¬ (cfg.CONFIG_APQ8064_HSIC = true ∧ subsys_name = EXTERNAL_MODEM ∧
        env.ehci_hsic_is_2nd_enum_done = false) := hr
    unfold subsystem_restart
    simp only []
    rw [if_neg hr', find_subsystem_eq cfg subsys_name s tr hreg, bind_returned, h]

theorem subsystem_restart_found (cfg : Config) (env : RestartEnv) (subsys_name : String)
    (s : State) (tr : List Event) (p : SubsysPtr) (hreg : registry_named s)
    (hr : ¬ hsic_refused cfg env subsys_name)
    (h : find_registered cfg s subsys_name = some p) :
    subsystem_restart cfg env (some subsys_name) ⟨s, tr⟩ =
      if (mark_crashed_modem cfg subsys_name ⟨s, tr⟩).st.restart_level =
            cfg.RESET_SUBSYS_COUPLED ∨
          (mark_crashed_modem cfg subsys_name ⟨s, tr⟩).st.restart_level =
            cfg.RESET_SUBSYS_INDEPENDENT then
        (__subsystem_restart cfg env.kzalloc_ok env.queue_rc p
          (mark_crashed_modem cfg subsys_name ⟨s, tr⟩)).bind fun _ r2 => .returned 0 r2
      else if (mark_crashed_modem cfg subsys_name ⟨s, tr⟩).st.restart_level = cfg.RESET_SOC then
        if subsys_name = "riva" then
          (__subsystem_restart cfg env.kzalloc_ok env.queue_rc p
            (mark_crashed_modem cfg subsys_name ⟨s, tr⟩)).bind fun _ r2 => .returned 0 r2
        else .panicked (mark_crashed_modem cfg subsys_name ⟨s, tr⟩)
      else .panicked (mark_crashed_modem cfg subsys_name ⟨s, tr⟩) := by
  have hr' : ¬ (cfg.CONFIG_APQ8064_HSIC = true ∧ subsys_name = EXTERNAL_MODEM ∧
      env.ehci_hsic_is_2nd_enum_done = false) := hr
  unfold subsystem_restart
  simp only []
  rw [if_neg hr', find_subsystem_eq cfg subsys_name s tr hreg, bind_returned, h]

theorem subsystem_restart_queues (cfg : Config) (env : RestartEnv) (subsys_name : String)
    (s : State) (tr : List Event) (p : SubsysPtr) (hreg : registry_named s)
    (hr : ¬ hsic_refused cfg env subsys_name)
    (h : find_registered cfg s subsys_name = some p)
    (hq : queues_restart cfg s subsys_name) :
    subsystem_restart cfg env (some subsys_name) ⟨s, tr⟩ =
      (__subsystem_restart cfg env.kzalloc_ok env.queue_rc p
        (mark_crashed_modem cfg subsys_name ⟨s, tr⟩)).bind fun _ r2 => .returned 0 r2 := by
  rw [subsystem_restart_found cfg env subsys_name s tr p hreg hr h,
    (mark_crashed_modem_frame cfg subsys_name ⟨s, tr⟩).1]
  by_cases h1 : s.restart_level = cfg.RESET_SUBSYS_COUPLED ∨
      s.restart_level = cfg.RESET_SUBSYS_INDEPENDENT
  · rw [if_pos h1]
  · rw [if_neg h1]
    rcases hq with hq | hq | ⟨hq, hn⟩
    · exact absurd (Or.inl hq) h1
    · exact absurd (Or.inr hq) h1
    · rw [if_pos hq, if_pos hn]

theorem subsystem_restart_resets (cfg : Config) (env : RestartEnv) (subsys_name : String)
    (s : State) (tr : List Event) (p : SubsysPtr) (hreg : registry_named s)
    (hr : ¬ hsic_refused cfg env subsys_name)
    (h : find_registered cfg s subsys_name = some p)
    (hq : ¬ queues_restart cfg s subsys_name) :
    subsystem_restart cfg env (some subsys_name) ⟨s, tr⟩ =
      .panicked (mark_crashed_modem cfg subsys_name ⟨s, tr⟩) := by
  rw [subsystem_restart_found cfg env subsys_name s tr p hreg hr h,
    (mark_crashed_modem_frame cfg subsys_name ⟨s, tr⟩).1]
  have h1 : ¬ (s.restart_level = cfg.RESET_SUBSYS_COUPLED ∨
      s.restart_level = cfg.RESET_SUBSYS_INDEPENDENT) := by
    rintro (h1 | h1)
    · exact hq (Or.inl h1)
    · exact hq (Or.inr (Or.inl h1))
  rw [if_neg h1]
  by_cases h2 : s.restart_level = cfg.RESET_SOC
  · rw [if_pos h2]
    have h3 : ¬ subsys_name = "riva" := fun h3 => hq (Or.inr (Or.inr ⟨h2, h3⟩))
    rw [if_neg h3]
  · rw [if_neg h2]

theorem subsystem_restart_work (cfg : Config) (kzalloc_ok : Bool) (queue_rc : Int)
    (p : SubsysPtr) (r : Run) :
    (__subsystem_restart cfg kzalloc_ok queue_rc p r).bind (fun _ r2 => .returned (0 : Int) r2) =
      if kzalloc_ok = false then .panicked r
      else if queue_rc < 0 then
        .panicked ⟨{ r.st with ssr_wq := r.st.ssr_wq ++ [work_item cfg r.st p] },
          r.trace ++ [.wake_lock p]⟩
      else
        .returned 0 ⟨{ r.st with ssr_wq := r.st.ssr_wq ++ [work_item cfg r.st p] },
          r.trace ++ [.wake_lock p]⟩ := by
  unfold __subsystem_restart work_item
  by_cases hk : kzalloc_ok = false
  · rw [if_pos hk, if_pos hk]; rfl
  · rw [if_neg hk, if_neg hk]
    by_cases hq : queue_rc < 0
    · simp only [Run.emit, if_pos hq]; rfl
    · simp only [Run.emit, if_neg hq]; rfl

theorem find_registered_none (cfg : Config) (s : State) (subsys_name : String) :
    find_registered cfg s subsys_name = none ↔
      ∀ p ∈ s.subsystem_list, ∀ name, (s.mem p).name = some name →
        strncmp_eq name subsys_name cfg.SUBSYS_NAME_MAX_LENGTH = false := by
  unfold find_registered
  rw [List.find?_eq_none]
  constructor
  · intro h p hp name hn
    have := h p hp
    rw [hn] at this
    simpa using this
  · intro h p hp
    cases hn : (s.mem p).name with
    | none => simp
    | some name => simp [h p hp name hn]

/-- Claim C17, counterexample.  With modem, lpass, external_modem and riva
registered: under RESET_SOC a request for the registered modem panics instead of
returning 0, and so does a request under a level that is none of the three; on
APQ8064 with HSIC a request for the registered external_modem before the second
enumeration is done returns `-EINVAL`; a request whose work item cannot be
allocated, or cannot be queued, panics; and once a subsystem has registered under
the empty name, a request for the empty name returns 0. -/
theorem restart_request_not_always_accepted :
    find_registered cfg0 (riva_state cfg0.RESET_SOC) "modem" = some 2 ∧
    (subsystem_restart cfg0 env_ok (some "modem")
      ⟨riva_state cfg0.RESET_SOC, []⟩).isPanicked = true ∧
    (subsystem_restart cfg0 env_ok (some "modem") ⟨riva_state 0, []⟩).isPanicked = true ∧
    find_registered cfg0 (riva_state cfg0.RESET_SUBSYS_COUPLED) "external_modem" = some 1 ∧
    (subsystem_restart cfg0 { env_ok with ehci_hsic_is_2nd_enum_done := false }
      (some "external_modem") ⟨riva_state cfg0.RESET_SUBSYS_COUPLED, []⟩).value =
        some (-EINVAL) ∧
    (subsystem_restart cfg0 { env_ok with kzalloc_ok := false } (some "modem")
      ⟨riva_state cfg0.RESET_SUBSYS_COUPLED, []⟩).isPanicked = true ∧
    (subsystem_restart cfg0 { env_ok with queue_rc := -1 } (some "modem")
      ⟨riva_state cfg0.RESET_SUBSYS_COUPLED, []⟩).isPanicked = true ∧
    find_registered cfg0 (empty_name_state cfg0.RESET_SUBSYS_COUPLED) "" = some 5 ∧
    (subsystem_restart cfg0 env_ok (some "")
      ⟨empty_name_state cfg0.RESET_SUBSYS_COUPLED, []⟩).value = some 0 := by
  decide

/-- Claim C17, amended.  With every record of the registry named: subsystem_restart
returns `-EINVAL`, leaving globals and trace as they are, for a null name, for a name
that no registered subsystem has on its first SUBSYS_NAME_MAX_LENGTH characters
(the only ground on which an empty name is refused), and, on APQ8064 with HSIC, for
external_modem before the second enumeration is done.  For any other name, found
as the record `p`: when the level is RESET_SUBSYS_COUPLED or
RESET_SUBSYS_INDEPENDENT, or RESET_SOC with the name riva, and the work item is
allocated and queued, it returns 0 with the work item appended to the queue and
the wake lock taken, no callback having run; when the level or name is another,
or the work item cannot be allocated or queued, it panics. -/
theorem restart_request_outcome (cfg : Config) (env : RestartEnv) (s : State) (tr : List Event)
    (hreg : registry_named s) :
    subsystem_restart cfg env none ⟨s, tr⟩ = .returned (-EINVAL) ⟨s, tr⟩ ∧
    (∀ name, (find_registered cfg s name = none ↔
      ∀ p ∈ s.subsystem_list, ∀ n, (s.mem p).name = some n →
        strncmp_eq n name cfg.SUBSYS_NAME_MAX_LENGTH = false)) ∧
    (∀ name, hsic_refused cfg env name ∨ find_registered cfg s name = none →
      subsystem_restart cfg env (some name) ⟨s, tr⟩ = .returned (-EINVAL) ⟨s, tr⟩) ∧
    (∀ name p, ¬ hsic_refused cfg env name → find_registered cfg s name = some p →
      (queues_restart cfg s name → env.kzalloc_ok = true → 0 ≤ env.queue_rc →
        subsystem_restart cfg env (some name) ⟨s, tr⟩ =
          .returned 0
            ⟨{ (mark_crashed_modem cfg name ⟨s, tr⟩).st with
                ssr_wq := s.ssr_wq ++ [work_item cfg s p] },
              tr ++ [.wake_lock p]⟩) ∧
      (¬ queues_restart cfg s name ∨ env.kzalloc_ok = false ∨ env.queue_rc < 0 →
        (subsystem_restart cfg env (some name) ⟨s, tr⟩).isPanicked = true)) := by
  refine ⟨rfl, fun name => find_registered_none cfg s name, ?_, ?_⟩
  · rintro name (h | h)
    · exact subsystem_restart_refused cfg env name _ h
    · exact subsystem_restart_unknown cfg env name s tr hreg h
  · intro name p hr hfind
    obtain ⟨hl, hw, ht⟩ := mark_crashed_modem_frame cfg name ⟨s, tr⟩
    constructor
    · intro hq hk hrc
      rw [subsystem_restart_queues cfg env name s tr p hreg hr hfind hq, subsystem_restart_work,
        if_neg (by simp [hk]), if_neg (by omega)]
      simp only [hw, ht, work_item, hl]
    · intro h
      by_cases hq : queues_restart cfg s name
      · rw [subsystem_restart_queues cfg env name s tr p hreg hr hfind hq, subsystem_restart_work]
        rcases h with h | h | h
        · exact absurd hq h
        · rw [if_pos h]; rfl
        · by_cases hk : env.kzalloc_ok = false
          · rw [if_pos hk]; rfl
          · rw [if_neg hk, if_pos h]; rfl
      · rw [subsystem_restart_resets cfg env name s tr p hreg hr hfind hq]; rfl

/-- A request for lpass at the level RESET_SUBSYS_COUPLED is queued, and a request
for a name that nobody registered is refused. -/
theorem restart_request_outcome_witness :
    registry_named (riva_state 2) ∧
    subsystem_restart cfg0 env_ok (some "lpass") ⟨riva_state 2, []⟩ =
      .returned 0
        ⟨{ (mark_crashed_modem cfg0 "lpass" ⟨riva_state 2, []⟩).st with
            ssr_wq := (riva_state 2).ssr_wq ++ [work_item cfg0 (riva_state 2) 3] },
          [] ++ [.wake_lock 3]⟩ ∧
    work_item cfg0 (riva_state 2) 3 = ⟨3, 1⟩ ∧
    subsystem_restart cfg0 env_ok (some "gss") ⟨riva_state 2, []⟩ =
      .returned (-EINVAL) ⟨riva_state 2, []⟩ :=
  ⟨by unfold registry_named; decide,
    ((restart_request_outcome cfg0 env_ok (riva_state 2) []
        (by unfold registry_named; decide)).2.2.2 "lpass" 3
      (fun h => absurd h.2.1 (by decide)) (by decide)).1 (Or.inl (by decide)) rfl (by decide),
    by decide,
    (restart_request_outcome cfg0 env_ok (riva_state 2) []
        (by unfold registry_named; decide)).2.2.1 "gss" (Or.inr (by decide))⟩

/-- Claim C18, counterexample.  Under RESET_SOC, with external_modem and riva
registered: on APQ8064 with HSIC a request for external_modem before the second
enumeration is done returns `-EINVAL` and does not panic, although the name is not
riva; and a request for riva whose work item cannot be allocated panics with
nothing queued, as does one whose work item cannot be queued, instead of
returning 0. -/
theorem soc_level_request_exceptions :
    (riva_state cfg0.RESET_SOC).restart_level = cfg0.RESET_SOC ∧
    find_registered cfg0 (riva_state cfg0.RESET_SOC) "external_modem" = some 1 ∧
    (subsystem_restart cfg0 { env_ok with ehci_hsic_is_2nd_enum_done := false }
      (some "external_modem") ⟨riva_state cfg0.RESET_SOC, []⟩).value = some (-EINVAL) ∧
    (subsystem_restart cfg0 { env_ok with ehci_hsic_is_2nd_enum_done := false }
      (some "external_modem") ⟨riva_state cfg0.RESET_SOC, []⟩).isPanicked = false ∧
    find_registered cfg0 (riva_state cfg0.RESET_SOC) "riva" = some 4 ∧
    (subsystem_restart cfg0 { env_ok with kzalloc_ok := false } (some "riva")
      ⟨riva_state cfg0.RESET_SOC, []⟩).isPanicked = true ∧
    (subsystem_restart cfg0 { env_ok with kzalloc_ok := false } (some "riva")
      ⟨riva_state cfg0.RESET_SOC, []⟩).run.st.ssr_wq = [] ∧
    (subsystem_restart cfg0 { env_ok with queue_rc := -1 } (some "riva")
      ⟨riva_state cfg0.RESET_SOC, []⟩).isPanicked = true := by
  decide

theorem mark_crashed_modem_riva (cfg : Config) (r : Run) :
    mark_crashed_modem cfg "riva" r = r := by
  have h1 : ¬ ("riva" = "external_modem") := by decide
  have h2 : ¬ ("riva" = "qsc_modem") := by decide
  unfold mark_crashed_modem
  rw [if_neg h1, if_neg h2]
  split_ifs <;> rfl

/-- Claim C18, amended.  Under the level RESET_SOC (distinct from the two other
levels), with every record of the registry named, a request for a name found in
the registry as the record `p`: on APQ8064 with HSIC, for external_modem before the
second enumeration is done, returns `-EINVAL` with globals and trace as they were.
Otherwise, for a name other than riva it panics with the work queue and the
trace as they were: nothing is queued and no callback runs; for riva, when the
work item is allocated and queued, it returns 0 with the work item for the group
of `p` appended to the queue and only the wake lock taken; and it panics exactly
when the name is not riva or the work item cannot be allocated or queued. -/
theorem soc_level_request (cfg : Config) (env : RestartEnv) (s : State) (tr : List Event)
    (name : String) (p : SubsysPtr) (hreg : registry_named s)
    (hlevel : s.restart_level = cfg.RESET_SOC)
    (hcoupled : cfg.RESET_SOC ≠ cfg.RESET_SUBSYS_COUPLED)
    (hindep : cfg.RESET_SOC ≠ cfg.RESET_SUBSYS_INDEPENDENT)
    (hfind : find_registered cfg s name = some p) :
    (hsic_refused cfg env name →
      subsystem_restart cfg env (some name) ⟨s, tr⟩ = .returned (-EINVAL) ⟨s, tr⟩) ∧
    (¬ hsic_refused cfg env name →
      (name ≠ "riva" →
        subsystem_restart cfg env (some name) ⟨s, tr⟩ =
            .panicked (mark_crashed_modem cfg name ⟨s, tr⟩) ∧
          (mark_crashed_modem cfg name ⟨s, tr⟩).st.ssr_wq = s.ssr_wq ∧
          (mark_crashed_modem cfg name ⟨s, tr⟩).trace = tr) ∧
      (name = "riva" → env.kzalloc_ok = true → 0 ≤ env.queue_rc →
        subsystem_restart cfg env (some name) ⟨s, tr⟩ =
          .returned 0 ⟨{ s with ssr_wq := s.ssr_wq ++ [⟨p, 1⟩] }, tr ++ [.wake_lock p]⟩) ∧
      ((subsystem_restart cfg env (some name) ⟨s, tr⟩).isPanicked = true ↔
        name ≠ "riva" ∨ env.kzalloc_ok = false ∨ env.queue_rc < 0)) := by
  have hq : queues_restart cfg s name ↔ name = "riva" := by
    unfold queues_restart
    rw [hlevel]
    constructor
    · rintro (h | h | ⟨_, h⟩)
      · exact absurd h hcoupled
      · exact absurd h hindep
      · exact h
    · intro h; exact Or.inr (Or.inr ⟨rfl, h⟩)
  have hwork : work_item cfg s p = ⟨p, 1⟩ := by
    unfold work_item
    rw [hlevel, if_pos hindep]
  refine ⟨fun h => subsystem_restart_refused cfg env name _ h, fun hr => ⟨?_, ?_, ?_⟩⟩
  · intro hn
    have hq' : ¬ queues_restart cfg s name := fun h => hn (hq.mp h)
    obtain ⟨_, hw, ht⟩ := mark_crashed_modem_frame cfg name ⟨s, tr⟩
    exact ⟨subsystem_restart_resets cfg env name s tr p hreg hr hfind hq', hw, ht⟩
  · intro hn hk hrc
    rw [subsystem_restart_queues cfg env name s tr p hreg hr hfind (hq.mpr hn),
      subsystem_restart_work, if_neg (by simp [hk]), if_neg (by omega), hn,
      mark_crashed_modem_riva, hwork]
  · by_cases hn : name = "riva"
    · rw [subsystem_restart_queues cfg env name s tr p hreg hr hfind (hq.mpr hn),
        subsystem_restart_work]
      by_cases hk : env.kzalloc_ok = false
      · rw [if_pos hk]
        exact ⟨fun _ => Or.inr (Or.inl hk), fun _ => rfl⟩
      · rw [if_neg hk]
        by_cases hrc : env.queue_rc < 0
        · rw [if_pos hrc]
          exact ⟨fun _ => Or.inr (Or.inr hrc), fun _ => rfl⟩
        · rw [if_neg hrc]
          constructor
          · intro h; cases h
          · rintro (h | h | h)
            · exact absurd hn h
            · exact absurd h hk
            · exact absurd h hrc
    · have hq' : ¬ queues_restart cfg s name := fun h => hn (hq.mp h)
      rw [subsystem_restart_resets cfg env name s tr p hreg hr hfind hq']
      exact ⟨fun _ => Or.inl hn, fun _ => rfl⟩

/-- Under RESET_SOC a request for modem panics with nothing queued and no event, and
a request for riva is queued. -/
theorem soc_level_request_witness :
    registry_named (riva_state 1) ∧ (riva_state 1).restart_level = cfg0.RESET_SOC ∧
    find_registered cfg0 (riva_state 1) "modem" = some 2 ∧
    (subsystem_restart cfg0 env_ok (some "modem") ⟨riva_state 1, []⟩ =
        .panicked (mark_crashed_modem cfg0 "modem" ⟨riva_state 1, []⟩) ∧
      (mark_crashed_modem cfg0 "modem" ⟨riva_state 1, []⟩).st.ssr_wq = (riva_state 1).ssr_wq ∧
      (mark_crashed_modem cfg0 "modem" ⟨riva_state 1, []⟩).trace = []) :=
  ⟨by unfold registry_named; decide, by decide, by decide,
    ((soc_level_request cfg0 env_ok (riva_state 1) [] "modem" 2
        (by unfold registry_named; decide) (by decide) (by decide) (by decide) (by decide)).2
      (fun h => absurd h.2.1 (by decide))).1 (by decide)⟩

/-! ## Registration -/

theorem find_name_eq (cfg : Config) (name : String) :
    ∀ (l : List String) (k : Nat),
      find_name cfg name l k =
        l.findIdx? (fun entry => strncmp_eq entry name cfg.SUBSYS_NAME_MAX_LENGTH) k := by
  intro l
  induction l with
  | nil => intro k; rfl
  | cons e rest ih =>
    intro k
    simp only [find_name, List.findIdx?_cons, ih]

theorem first_slot_none (cfg : Config) (name : String) (o : subsys_soc_restart_order) :
    first_slot cfg name o = none ↔ lists_name cfg name o = false := by
  unfold first_slot lists_name
  rw [List.findIdx?_eq_none_iff, List.any_eq_false]
  constructor
  · intro h x hx; simp [h x hx]
  · intro h x hx; simpa using h x hx

theorem find_order_eq (cfg : Config) (name : String) :
    ∀ (orders : List subsys_soc_restart_order) (k : Nat),
      find_order cfg name orders k =
        match orders.findIdx? (lists_name cfg name) with
        | none => none
        | some m =>
          match orders[m]? with
          | none => none
          | some o => (first_slot cfg name o).map fun i => (k + m, i) := by
  intro orders
  induction orders with
  | nil => intro k; rfl
  | cons o rest ih =>
    intro k
    cases hs : first_slot cfg name o with
    | some i =>
      have hl : lists_name cfg name o = true := by
        cases hl : lists_name cfg name o with
        | true => rfl
        | false => rw [(first_slot_none cfg name o).mpr hl] at hs; cases hs
      have hf : find_name cfg name (o.subsystem_list.take o.count) 0 = some i := by
        rw [find_name_eq]; exact hs
      simp only [find_order, hf, List.findIdx?_cons, hl, if_true, List.getElem?_cons_zero, hs,
        Option.map_some', Nat.add_zero]
    | none =>
      have hl : lists_name cfg name o = false := (first_slot_none cfg name o).mp hs
      have hf : find_name cfg name (o.subsystem_list.take o.count) 0 = none := by
        rw [find_name_eq]; exact hs
      simp only [find_order, hf, List.findIdx?_cons, hl, ih, Bool.false_eq_true, if_false,
        List.findIdx?_start_succ, Nat.zero_add]
      cases hfi : List.findIdx? (lists_name cfg name) rest with
      | none => rfl
      | some m =>
        simp only [Option.map_some', List.getElem?_cons_succ]
        cases hg : rest[m]? with
        | none => rfl
        | some o' =>
          simp only []
          cases first_slot cfg name o' with
          | none => rfl
          | some i =>
            simp only [Option.map_some', Option.some.injEq, Prod.mk.injEq, and_true]
            exact Nat.add_right_comm k 1 m ▸ rfl

theorem update_restart_order_eq (cfg : Config) (p : SubsysPtr) (r : Run) (name : String)
    (hn : (r.st.mem p).name = some name) (hfree : Mutex.soc_order_reg_lock ∉ r.st.held) :
    _update_restart_order cfg (some p) r =
      .returned ((find_order cfg name r.st.restart_orders 0).map Prod.fst)
        ⟨{ r.st with restart_orders :=
            orders_with r.st.restart_orders (find_order cfg name r.st.restart_orders 0) p },
          r.trace ++ [.lock .soc_order_reg_lock, .unlock .soc_order_reg_lock]⟩ := by
  unfold _update_restart_order mutex_lock orders_with
  simp only [hn, if_neg hfree, bind_returned, Run.emit, mutex_unlock, List.erase_cons_head,
    List.append_assoc, List.singleton_append]
  cases hf : find_order cfg name r.st.restart_orders 0 with
  | none => rfl
  | some ji => obtain ⟨j, i⟩ := ji; rfl

theorem update_restart_order_blocked (cfg : Config) (p : SubsysPtr) (r : Run) (name : String)
    (hn : (r.st.mem p).name = some name) (hheld : Mutex.soc_order_reg_lock ∈ r.st.held) :
    _update_restart_order cfg (some p) r = .blocked r := by
  unfold _update_restart_order mutex_lock
  simp only [hn, if_pos hheld]
  rfl

theorem register_incomplete (cfg : Config) (subsys : Option SubsysPtr) (r : Run)
    (h : record_incomplete r.st subsys) :
    ssr_register_subsystem cfg subsys r = .returned (-EINVAL) r := by
  rcases h with rfl | ⟨p, rfl, h⟩
  · rfl
  · unfold ssr_register_subsystem
    cases hn : (r.st.mem p).name with
    | none => simp only [hn]
    | some name =>
      have hc : (r.st.mem p).powerup.isNone = true ∨ (r.st.mem p).shutdown.isNone = true := by
        rcases h with h | h | h
        · rw [hn] at h; cases h
        · right; rw [h]; rfl
        · left; rw [h]; rfl
      simp only [hn, if_pos hc]

theorem register_complete (cfg : Config) (p : SubsysPtr) (r : Run)
    (h : ¬ record_incomplete r.st (some p)) :
    ∃ name, (r.st.mem p).name = some name ∧
      (Mutex.soc_order_reg_lock ∈ r.st.held →
        (ssr_register_subsystem cfg (some p) r).isReturned = false) ∧
      (Mutex.soc_order_reg_lock ∉ r.st.held →
        ∃ r', ssr_register_subsystem cfg (some p) r = .returned 0 r' ∧
          r'.st.restart_orders =
            orders_with r.st.restart_orders (find_order cfg name r.st.restart_orders 0) p ∧
          (r'.st.mem p).restart_order =
            (find_order cfg name r.st.restart_orders 0).map Prod.fst ∧
          r'.st.subsystem_list = p :: r.st.subsystem_list ∧
          (∀ q, (r'.st.mem q).name = (r.st.mem q).name)) := by
  cases hn : (r.st.mem p).name with
  | none => exact absurd (Or.inr ⟨p, rfl, Or.inl hn⟩) h
  | some name =>
    have hc : ¬ ((r.st.mem p).powerup.isNone = true ∨ (r.st.mem p).shutdown.isNone = true) := by
      rintro (hc | hc)
      · exact h (Or.inr ⟨p, rfl, Or.inr (Or.inr (Option.isNone_iff_eq_none.mp hc))⟩)
      · exact h (Or.inr ⟨p, rfl, Or.inr (Or.inl (Option.isNone_iff_eq_none.mp hc))⟩)
    refine ⟨name, rfl, ?_, ?_⟩
    · intro hheld
      unfold ssr_register_subsystem
      simp only [hn, if_neg hc]
      rw [update_restart_order_blocked cfg p _ name]
      · rfl
      · simp
      · exact hheld
    · intro hfree
      unfold ssr_register_subsystem
      simp only [hn, if_neg hc]
      rw [update_restart_order_eq cfg p _ name]
      · rw [bind_returned]
        refine ⟨_, rfl, rfl, ?_, rfl, ?_⟩
        · simp
        · intro q
          by_cases hq : q = p
          · subst hq; simp [hn]
          · simp [Function.update_noteq hq]
      · simp
      · exact hfree

theorem first_group_none (cfg : Config) (name : String)
    (orders : List subsys_soc_restart_order) (h : first_group cfg name orders = none) :
    find_order cfg name orders 0 = none := by
  unfold first_group at h
  rw [find_order_eq, h]

theorem first_group_some (cfg : Config) (name : String)
    (orders : List subsys_soc_restart_order) (j : Nat) (h : first_group cfg name orders = some j) :
    ∃ o i, orders[j]? = some o ∧ first_slot cfg name o = some i ∧ i < o.count ∧
      find_order cfg name orders 0 = some (j, i) := by
  unfold first_group at h
  obtain ⟨hlt, hp, _⟩ := List.findIdx?_eq_some_iff_getElem.mp h
  have ho : orders[j]? = some orders[j] := List.getElem?_eq_getElem hlt
  cases hs : first_slot cfg name orders[j] with
  | none =>
    rw [(first_slot_none cfg name orders[j]).mp hs] at hp
    cases hp
  | some i =>
    refine ⟨orders[j], i, ho, hs, ?_, ?_⟩
    · unfold first_slot at hs
      obtain ⟨hi, _, _⟩ := List.findIdx?_eq_some_iff_getElem.mp hs
      rw [List.length_take] at hi
      omega
    · rw [find_order_eq, h]
      simp only [ho, hs, Option.map_some', Nat.zero_add]

theorem slot_at_orders_with (orders : List subsys_soc_restart_order) (j i : Nat) (p : SubsysPtr)
    (o : subsys_soc_restart_order) (ho : orders[j]? = some o) (hi : i < o.subsys_ptrs.length)
    (j' i' : Nat) :
    slot_at (orders_with orders (some (j, i)) p) j' i' =
      if j' = j ∧ i' = i then some (some p) else slot_at orders j' i' := by
  unfold slot_at orders_with
  simp only [List.getElem?_modify]
  by_cases hj : j = j'
  · subst hj
    simp only [ho, Option.map_eq_map, Option.map_some', if_true, Option.some_bind,
      List.getElem?_set, true_and]
    by_cases hii : i = i'
    · subst hii; simp [hi]
    · have hii' : ¬ i' = i := fun e => hii e.symm
      simp [hii, hii']
  · have hj' : ¬ j' = j := fun e => hj e.symm
    simp only [if_neg hj, hj', false_and, if_false]
    cases orders[j']? with
    | none => rfl
    | some o' => rfl

theorem orders_with_names (orders : List subsys_soc_restart_order)
    (found : Option (OrderPtr × Nat)) (p : SubsysPtr) :
    (orders_with orders found p).map (fun o => (o.subsystem_list, o.count)) =
      orders.map (fun o => (o.subsystem_list, o.count)) := by
  unfold orders_with
  cases found with
  | none => rfl
  | some ji =>
    obtain ⟨j, i⟩ := ji
    simp only []
    apply List.ext_getElem?
    intro n
    simp only [List.getElem?_map, List.getElem?_modify]
    cases orders[n]? with
    | none => rfl
    | some o => by_cases hn : j = n <;> simp [hn]

/-- Registration keeps the registry named: ssr_register_subsystem inserts only a
record that has a name and changes no name. -/
theorem registry_named_register (cfg : Config) (subsys : Option SubsysPtr) (r : Run)
    (h : registry_named r.st) :
    registry_named (ssr_register_subsystem cfg subsys r).run.st := by
  by_cases hinc : record_incomplete r.st subsys
  · rw [register_incomplete cfg subsys r hinc]; exact h
  cases subsys with
  | none => exact absurd (Or.inl rfl) hinc
  | some p =>
    obtain ⟨name, hn, _, hfree⟩ := register_complete cfg p r hinc
    by_cases hl : Mutex.soc_order_reg_lock ∈ r.st.held
    · have hc : ¬ ((r.st.mem p).powerup.isNone = true ∨ (r.st.mem p).shutdown.isNone = true) := by
        rintro (hc | hc)
        · exact hinc (Or.inr ⟨p, rfl, Or.inr (Or.inr (Option.isNone_iff_eq_none.mp hc))⟩)
        · exact hinc (Or.inr ⟨p, rfl, Or.inr (Or.inl (Option.isNone_iff_eq_none.mp hc))⟩)
      unfold ssr_register_subsystem
      simp only [hn, if_neg hc]
      rw [update_restart_order_blocked cfg p _ name]
      · intro q hq
        have hq' := h q hq
        simp only [Result.bind, Result.run]
        by_cases hqp : q = p
        · subst hqp; simp
        · simpa [Function.update_noteq hqp] using hq'
      · simp
      · exact hl
    · obtain ⟨r', hr', _, _, hlist, hnames⟩ := hfree hl
      rw [hr']
      intro q hq
      simp only [Result.run] at hq ⊢
      rw [hnames q]
      rw [hlist] at hq
      rcases List.mem_cons.mp hq with rfl | hq
      · rw [hn]; exact fun e => Option.noConfusion e
      · exact h q hq

/-- Claim C19.  The call ssr_register_subsystem returns `-EINVAL` if and only if the
pointer to the record is null or the name, the shutdown callback or the powerup
callback of the record is null; the ramdump and crash_shutdown callbacks are not
looked at.  When it returns `-EINVAL` the run ends in the state it started in:
registry list, restart-order table and records are what they were, and no event
was emitted.  A record with the three members present is registered with the
return value 0 when `soc_order_reg_lock` is free. -/
theorem register_invalid_iff (cfg : Config) (subsys : Option SubsysPtr) (r : Run) :
    ((ssr_register_subsystem cfg subsys r).value = some (-EINVAL) ↔
      subsys = none ∨ ∃ p, subsys = some p ∧
        ((r.st.mem p).name = none ∨ (r.st.mem p).shutdown = none ∨
          (r.st.mem p).powerup = none)) ∧
    ((ssr_register_subsystem cfg subsys r).value = some (-EINVAL) →
      ssr_register_subsystem cfg subsys r = .returned (-EINVAL) r) ∧
    (∀ p, subsys = some p → (r.st.mem p).name ≠ none → (r.st.mem p).shutdown ≠ none →
      (r.st.mem p).powerup ≠ none → Mutex.soc_order_reg_lock ∉ r.st.held →
      (ssr_register_subsystem cfg subsys r).value = some 0) := by
  have hiff : (ssr_register_subsystem cfg subsys r).value = some (-EINVAL) ↔
      record_incomplete r.st subsys := by
    constructor
    · intro hv
      by_cases hinc : record_incomplete r.st subsys
      · exact hinc
      · exfalso
        cases subsys with
        | none => exact hinc (Or.inl rfl)
        | some p =>
          obtain ⟨name, _, hheld, hfree⟩ := register_complete cfg p r hinc
          by_cases hl : Mutex.soc_order_reg_lock ∈ r.st.held
          · have := hheld hl
            cases hres : ssr_register_subsystem cfg (some p) r with
            | returned a r' => rw [hres] at this; cases this
            | panicked r' => rw [hres] at hv; cases hv
            | blocked r' => rw [hres] at hv; cases hv
            | fault r' => rw [hres] at hv; cases hv
          · obtain ⟨r', hr', _⟩ := hfree hl
            rw [hr'] at hv
            simp only [Result.value, Option.some.injEq] at hv
            exact absurd hv (by decide)
    · intro hinc
      rw [register_incomplete cfg subsys r hinc]
      rfl
  refine ⟨hiff, fun hv => register_incomplete cfg subsys r (hiff.mp hv), ?_⟩
  intro p hp hn hsd hpu hfree
  subst hp
  have hinc : ¬ record_incomplete r.st (some p) := by
    rintro (h | ⟨q, hq, h⟩)
    · cases h
    · cases hq
      rcases h with h | h | h
      · exact hn h
      · exact hsd h
      · exact hpu h
  obtain ⟨name, _, _, hfree'⟩ := register_complete cfg p r hinc
  obtain ⟨r', hr', _⟩ := hfree' hfree
  rw [hr']
  rfl

/-- Claim C20.  On a table whose groups have a slot for each of their `count` names,
a registration of `p` that succeeds (returns 0) leaves in the `restart_order` of
`p` the first group, in table order, that lists the name of `p` on the first
SUBSYS_NAME_MAX_LENGTH characters, or null if no group lists it; in that group the
first slot whose name matches now holds `p`, every other slot of every group holds
what it held, and names and counts of the groups are what they were.  A name
listed by two groups is thus resolved into the first of them only. -/
theorem registration_resolves_first_group (cfg : Config) (p : SubsysPtr) (r r' : Run)
    (hslots : ∀ o ∈ r.st.restart_orders, o.count ≤ o.subsys_ptrs.length)
    (h : ssr_register_subsystem cfg (some p) r = .returned 0 r') :
    ∃ name, (r.st.mem p).name = some name ∧
      (r'.st.mem p).restart_order = first_group cfg name r.st.restart_orders ∧
      (first_group cfg name r.st.restart_orders = none →
        r'.st.restart_orders = r.st.restart_orders) ∧
      (∀ j, first_group cfg name r.st.restart_orders = some j →
        ∃ o i, r.st.restart_orders[j]? = some o ∧ first_slot cfg name o = some i ∧
          ∀ j' i', slot_at r'.st.restart_orders j' i' =
            if j' = j ∧ i' = i then some (some p) else slot_at r.st.restart_orders j' i') ∧
      r'.st.restart_orders.map (fun o => (o.subsystem_list, o.count)) =
        r.st.restart_orders.map (fun o => (o.subsystem_list, o.count)) := by
  have hinc : ¬ record_incomplete r.st (some p) := by
    intro hinc
    rw [register_incomplete cfg (some p) r hinc] at h
    injection h with hv _
    exact absurd hv (by decide)
  obtain ⟨name, hn, hheld, hfree⟩ := register_complete cfg p r hinc
  have hl : Mutex.soc_order_reg_lock ∉ r.st.held := by
    intro hl
    have := hheld hl
    rw [h] at this
    cases this
  obtain ⟨r'', hr'', horders, hro, _, _⟩ := hfree hl
  rw [h] at hr''
  injection hr'' with _ hrr
  subst hrr
  refine ⟨name, hn, ?_, ?_, ?_, ?_⟩
  · rw [hro]
    cases hg : first_group cfg name r.st.restart_orders with
    | none => rw [first_group_none cfg name _ hg]; rfl
    | some j =>
      obtain ⟨o, i, _, _, _, hf⟩ := first_group_some cfg name _ j hg
      rw [hf]; rfl
  · intro hg
    rw [horders, first_group_none cfg name _ hg]
    rfl
  · intro j hg
    obtain ⟨o, i, ho, hs, hi, hf⟩ := first_group_some cfg name _ j hg
    refine ⟨o, i, ho, hs, ?_⟩
    intro j' i'
    rw [horders, hf]
    exact slot_at_orders_with _ j i p o ho
      (Nat.lt_of_lt_of_le hi (hslots o (List.getElem?_mem ho))) j' i'
  · rw [horders]
    exact orders_with_names _ _ _

/-- An all-null record is refused with the state untouched; a record without
ramdump and crash_shutdown callbacks is registered. -/
theorem register_invalid_iff_witness :
    ssr_register_subsystem cfg0 (some 9) ⟨boot_state (demo_mem 0 0) 2 0 3600, []⟩ =
      .returned (-EINVAL) ⟨boot_state (demo_mem 0 0) 2 0 3600, []⟩ ∧
    (bare_state.mem 7).ramdump = none ∧ (bare_state.mem 7).crash_shutdown = false ∧
    (ssr_register_subsystem cfg0 (some 7) ⟨bare_state, []⟩).value = some 0 :=
  ⟨(register_invalid_iff cfg0 (some 9) ⟨boot_state (demo_mem 0 0) 2 0 3600, []⟩).2.1
      ((register_invalid_iff cfg0 (some 9) ⟨boot_state (demo_mem 0 0) 2 0 3600, []⟩).1.mpr
        (Or.inr ⟨9, rfl, Or.inl rfl⟩)),
    rfl, rfl,
    (register_invalid_iff cfg0 (some 7) ⟨bare_state, []⟩).2.2 7 rfl
      (fun h => Option.noConfusion h) (fun h => Option.noConfusion h)
      (fun h => Option.noConfusion h) (by decide)⟩

/-- On a table of two groups that both list modem, the registration of modem fills
slot 0 of group 0 and leaves group 1 alone. -/
theorem registration_resolves_first_group_witness :
    (∀ o ∈ two_groups_state.restart_orders, o.count ≤ o.subsys_ptrs.length) ∧
    ssr_register_subsystem cfg0 (some 2) ⟨two_groups_state, []⟩ =
      .returned 0 (ssr_register_subsystem cfg0 (some 2) ⟨two_groups_state, []⟩).run ∧
    first_group cfg0 "modem" two_groups = some 0 ∧
    lists_name cfg0 "modem" (static_restart_order order_8960_sglte) = true ∧
    (∃ name, (two_groups_state.mem 2).name = some name ∧
      ((ssr_register_subsystem cfg0 (some 2) ⟨two_groups_state, []⟩).run.st.mem 2).restart_order =
        first_group cfg0 name two_groups_state.restart_orders ∧
      (first_group cfg0 name two_groups_state.restart_orders = none →
        (ssr_register_subsystem cfg0 (some 2) ⟨two_groups_state, []⟩).run.st.restart_orders =
          two_groups_state.restart_orders) ∧
      (∀ j, first_group cfg0 name two_groups_state.restart_orders = some j →
        ∃ o i, two_groups_state.restart_orders[j]? = some o ∧ first_slot cfg0 name o = some i ∧
          ∀ j' i',
            slot_at (ssr_register_subsystem cfg0 (some 2)
                ⟨two_groups_state, []⟩).run.st.restart_orders j' i' =
              if j' = j ∧ i' = i then some (some 2)
              else slot_at two_groups_state.restart_orders j' i') ∧
      (ssr_register_subsystem cfg0 (some 2) ⟨two_groups_state, []⟩).run.st.restart_orders.map
          (fun o => (o.subsystem_list, o.count)) =
        two_groups_state.restart_orders.map (fun o => (o.subsystem_list, o.count))) :=
  ⟨by decide, rfl, by decide, by decide,
    registration_resolves_first_group cfg0 2 ⟨two_groups_state, []⟩
      (ssr_register_subsystem cfg0 (some 2) ⟨two_groups_state, []⟩).run (by decide) rfl⟩

/-! ## Lookup in the registry -/

theorem strncmp_eq_exact (a b : String) (n : Nat) (h : a.length < n ∨ b.length < n) :
    strncmp_eq a b n = true ↔ a = b := by
  unfold strncmp_eq
  constructor
  · intro he
    have he' : a.data.take n = b.data.take n := by simpa using he
    have hlen := congrArg List.length he'
    simp only [List.length_take] at hlen
    have ha : a.data.length = a.length := rfl
    have hb : b.data.length = b.length := rfl
    have h1 : a.data.length ≤ n := by omega
    have h2 : b.data.length ≤ n := by omega
    rw [List.take_of_length_le h1, List.take_of_length_le h2] at he'
    exact String.ext he'
  · intro he
    subst he
    simp

theorem find_registered_some (cfg : Config) (s : State) (q : String) (p : SubsysPtr)
    (h : find_registered cfg s q = some p) :
    p ∈ s.subsystem_list ∧
      ∃ name, (s.mem p).name = some name ∧
        strncmp_eq name q cfg.SUBSYS_NAME_MAX_LENGTH = true := by
  unfold find_registered at h
  refine ⟨List.mem_of_find?_eq_some h, ?_⟩
  have hp := List.find?_some h
  cases hn : (s.mem p).name with
  | none => rw [hn] at hp; cases hp
  | some name => rw [hn] at hp; exact ⟨name, rfl, hp⟩

/-- Claim C21.  For a registry whose records all have a name (as registration leaves
it) and any query `q`, `_find_subsystem` returns, with globals and trace as they
were: a record of the registry whose name equals `q` on the first
SUBSYS_NAME_MAX_LENGTH characters if there is one (the first in list order), and
null exactly if there is none.  When the registered name or the query is shorter
than SUBSYS_NAME_MAX_LENGTH the names match exactly if they are equal, so a query
that is a proper part or a proper extension of a registered name finds
nothing. -/
theorem find_subsystem_exact (cfg : Config) (q : String) (s : State) (tr : List Event)
    (hreg : registry_named s) :
    (∃ found, _find_subsystem cfg q ⟨s, tr⟩ = .returned found ⟨s, tr⟩ ∧
      (∀ p, found = some p → p ∈ s.subsystem_list ∧
        ∃ name, (s.mem p).name = some name ∧
          strncmp_eq name q cfg.SUBSYS_NAME_MAX_LENGTH = true) ∧
      (found = none ↔ ∀ p ∈ s.subsystem_list, ∀ name, (s.mem p).name = some name →
        strncmp_eq name q cfg.SUBSYS_NAME_MAX_LENGTH = false)) ∧
    (∀ name : String,
      name.length < cfg.SUBSYS_NAME_MAX_LENGTH ∨ q.length < cfg.SUBSYS_NAME_MAX_LENGTH →
      (strncmp_eq name q cfg.SUBSYS_NAME_MAX_LENGTH = true ↔ name = q)) ∧
    ((∀ p ∈ s.subsystem_list, ∀ name, (s.mem p).name = some name →
        name.length < cfg.SUBSYS_NAME_MAX_LENGTH ∧ name ≠ q) →
      _find_subsystem cfg q ⟨s, tr⟩ = .returned none ⟨s, tr⟩) := by
  refine ⟨⟨find_registered cfg s q, find_subsystem_eq cfg q s tr hreg,
    fun p hp => find_registered_some cfg s q p hp, find_registered_none cfg s q⟩,
    fun name h => strncmp_eq_exact name q _ h, ?_⟩
  intro h
  rw [find_subsystem_eq cfg q s tr hreg]
  congr 1
  rw [find_registered_none]
  intro p hp name hn
  obtain ⟨hlen, hne⟩ := h p hp name hn
  cases hm : strncmp_eq name q cfg.SUBSYS_NAME_MAX_LENGTH with
  | false => rfl
  | true => exact absurd ((strncmp_eq_exact name q _ (Or.inl hlen)).mp hm) hne

/-- With modem, lpass, external_modem and riva registered: the query modem finds the
record of modem, and the queries mode and modems, a proper part and a proper
extension of that name, find nothing. -/
theorem find_subsystem_exact_witness :
    registry_named (riva_state 2) ∧
    (∃ found, _find_subsystem cfg0 "modem" ⟨riva_state 2, []⟩ =
        .returned found ⟨riva_state 2, []⟩ ∧
      (∀ p, found = some p → p ∈ (riva_state 2).subsystem_list ∧
        ∃ name, ((riva_state 2).mem p).name = some name ∧
          strncmp_eq name "modem" cfg0.SUBSYS_NAME_MAX_LENGTH = true) ∧
      (found = none ↔ ∀ p ∈ (riva_state 2).subsystem_list, ∀ name,
        ((riva_state 2).mem p).name = some name →
        strncmp_eq name "modem" cfg0.SUBSYS_NAME_MAX_LENGTH = false)) ∧
    (_find_subsystem cfg0 "modem" ⟨riva_state 2, []⟩).value = some (some 2) ∧
    (_find_subsystem cfg0 "mode" ⟨riva_state 2, []⟩).value = some none ∧
    (_find_subsystem cfg0 "modems" ⟨riva_state 2, []⟩).value = some none :=
  ⟨by unfold registry_named; decide,
    (find_subsystem_exact cfg0 "modem" (riva_state 2) []
      (by unfold registry_named; decide)).1,
    by decide, by decide, by decide⟩

/-! ## The locks of a run -/

theorem count_notifs (s : State) (t : subsys_notif_type) (ms : List SubsysPtr) (e : Event)
    (h : ∀ handle t', e ≠ .notif handle t') : (notifs s t ms).count e = 0 := by
  rw [List.count_eq_zero]
  intro hmem
  obtain ⟨p, _, hp⟩ := (mem_notifs s t ms e).mp hmem
  exact h _ _ hp.symm

theorem count_returns (mk : SubsysPtr → Int → Event) (pairs : List (SubsysPtr × Int))
    (e : Event) (h : ∀ p ret, e ≠ mk p ret) : (returns mk pairs).count e = 0 := by
  rw [List.count_eq_zero]
  intro hmem
  obtain ⟨x, _, hx⟩ := (mem_returns mk pairs e).mp hmem
  exact h _ _ hx.symm

/-- Claim C24.  If the shutdown lock of the restart unit is free and its powerup
lock is held when the worker runs, the worker takes the shutdown lock, fails to
take the powerup lock and panics there: the whole trace is the two trylocks, so
neither `restart_log_mutex` nor the restart log is touched, and no notification
and no callback is issued; of the globals only the held shutdown lock differs. -/
theorem powerup_lock_busy_fatal (cfg : Config) (env : EpochEnv) (r_work : restart_wq_data)
    (s : State) (hsl : (resolve_unit r_work s).shutdown_lock ∉ s.held)
    (hpl : (resolve_unit r_work s).powerup_lock ∈ s.held) :
    subsystem_restart_wq_func cfg env r_work ⟨s, []⟩ =
        .panicked ⟨{ s with held := (resolve_unit r_work s).shutdown_lock :: s.held },
          [.trylock (resolve_unit r_work s).shutdown_lock true,
           .trylock (resolve_unit r_work s).powerup_lock false]⟩ ∧
    (subsystem_restart_wq_func cfg env r_work ⟨s, []⟩).run.st.restart_log_list =
      s.restart_log_list ∧
    calls (subsystem_restart_wq_func cfg env r_work ⟨s, []⟩).run.trace = [] := by
  rcases wq_func_cases cfg env r_work s with ⟨hsl', _⟩ | ⟨_, _, e⟩ | ⟨_, hpl', _⟩
  · exact absurd hsl' hsl
  · rw [e]
    exact ⟨rfl, rfl, rfl⟩
  · exact absurd hpl hpl'

/-- A request through modem while the powerup lock of its group is held. -/
theorem powerup_lock_busy_fatal_witness :
    subsystem_restart_wq_func cfg0 ⟨true, ⟨0, 0⟩⟩ ⟨2, 1⟩
        ⟨{ registered_state (demo_mem 0 0) 2 3 60 with held := [.order_powerup_lock 0] }, []⟩ =
      .panicked
        ⟨{ registered_state (demo_mem 0 0) 2 3 60 with
            held := [.order_shutdown_lock 0, .order_powerup_lock 0] },
          [.trylock (.order_shutdown_lock 0) true, .trylock (.order_powerup_lock 0) false]⟩ :=
  (powerup_lock_busy_fatal cfg0 ⟨true, ⟨0, 0⟩⟩ ⟨2, 1⟩
    { registered_state (demo_mem 0 0) 2 3 60 with held := [.order_powerup_lock 0] }
    (by decide) (by decide)).1

theorem acquisitions_completed (s : State) (u : restart_unit) (r_work : restart_wq_data)
    (sd rd pu : List (SubsysPtr × Int)) (m : Mutex)
    (h1 : u.powerup_lock ≠ u.shutdown_lock) (h2 : u.shutdown_lock ≠ .soc_order_reg_lock)
    (h3 : u.shutdown_lock ≠ .restart_log_mutex) (h4 : u.powerup_lock ≠ .soc_order_reg_lock)
    (h5 : u.powerup_lock ≠ .restart_log_mutex) :
    acquisitions m (tr_completed s u r_work (tr_admitted u) sd rd pu) =
        releases m (tr_completed s u r_work (tr_admitted u) sd rd pu) ∧
      releases m (tr_completed s u r_work (tr_admitted u) sd rd pu) ≤ 1 ∧
      (releases m (tr_completed s u r_work (tr_admitted u) sd rd pu) = 1 ↔
        m = u.shutdown_lock ∨ m = u.powerup_lock ∨ m = .soc_order_reg_lock ∨
          m = .restart_log_mutex) := by
  have hn : ∀ (t : subsys_notif_type) (e : Event), (∀ handle t', e ≠ .notif handle t') →
      (notifs s t (unit_members u)).count e = 0 :=
    fun t e h => count_notifs s t _ e h
  have key : acquisitions m (tr_completed s u r_work (tr_admitted u) sd rd pu) =
        (if m = u.shutdown_lock then 1 else 0) + (if m = u.powerup_lock then 1 else 0) +
          (if m = .restart_log_mutex then 1 else 0) + (if m = .soc_order_reg_lock then 1 else 0) ∧
      releases m (tr_completed s u r_work (tr_admitted u) sd rd pu) =
        (if m = u.shutdown_lock then 1 else 0) + (if m = u.powerup_lock then 1 else 0) +
          (if m = .restart_log_mutex then 1 else 0) +
          (if m = .soc_order_reg_lock then 1 else 0) := by
    unfold acquisitions releases tr_completed tr_after_powerup tr_before_powerup
      tr_before_shutdown tr_admitted out_events
    simp only [List.count_append, hn, count_returns, ne_eq, not_false_eq_true, reduceCtorEq,
      implies_true, List.count_cons, List.count_nil, beq_iff_eq, Event.trylock.injEq,
      Event.lock.injEq, Event.unlock.injEq, and_true, and_false, if_false, Nat.zero_add,
      Nat.add_zero]
    have e1 : (u.powerup_lock = m) = (m = u.powerup_lock) := propext eq_comm
    have e2 : (u.shutdown_lock = m) = (m = u.shutdown_lock) := propext eq_comm
    have e3 : (Mutex.restart_log_mutex = m) = (m = .restart_log_mutex) := propext eq_comm
    have e4 : (Mutex.soc_order_reg_lock = m) = (m = .soc_order_reg_lock) := propext eq_comm
    simp only [e1, e2, e3, e4]
    constructor <;> split_ifs <;> rfl
  rw [key.1, key.2]
  refine ⟨rfl, ?_, ?_⟩
  · by_cases a : m = u.shutdown_lock
    · subst a
      simp [h1.symm, h2, h3]
    · by_cases b : m = u.powerup_lock
      · subst b
        simp [h1, h4, h5]
      · simp only [if_neg a, if_neg b]
        split_ifs with c d
        · subst c
          cases d
        · decide
        · decide
        · decide
  · by_cases a : m = u.shutdown_lock
    · subst a
      simp [h1.symm, h2, h3]
    · by_cases b : m = u.powerup_lock
      · subst b
        simp [h1, h4, h5]
      · simp only [if_neg a, if_neg b, false_or]
        split_ifs with c d
        · subst c
          cases d
        · simp [c]
        · simp [*]
        · simp [*]

theorem erase_admitted (held : List Mutex) (sl pl : Mutex) (h1 : pl ≠ sl)
    (h2 : sl ≠ .soc_order_reg_lock) (h4 : pl ≠ .soc_order_reg_lock) :
    (((Mutex.soc_order_reg_lock :: pl :: sl :: held).erase sl).erase pl).erase
      .soc_order_reg_lock = held := by
  have a : (Mutex.soc_order_reg_lock :: pl :: sl :: held).erase sl =
      .soc_order_reg_lock :: pl :: held := by
    rw [List.erase_cons_tail (by simpa using h2.symm), List.erase_cons_tail (by simpa using h1),
      List.erase_cons_head]
  have b : (Mutex.soc_order_reg_lock :: pl :: held).erase pl = .soc_order_reg_lock :: held := by
    rw [List.erase_cons_tail (by simpa using h4.symm), List.erase_cons_head]
  rw [a, b, List.erase_cons_head]

/-- Claim C26.  A run of the worker that returns, whether the request was dropped
at admission or the sequence completed, ends with the three events of the label
`out:` (wake lock released and destroyed, work item freed), leaves the set of held
mutexes exactly as on entry, and for every mutex the number of acquisitions in
its trace equals the number of releases and is at most one: each lock the run
took is released exactly once and no lock it did not take is released. -/
theorem returning_run_restores_locks (cfg : Config) (env : EpochEnv) (r_work : restart_wq_data)
    (s : State)
    (hret : (subsystem_restart_wq_func cfg env r_work ⟨s, []⟩).isReturned = true) :
    (∃ pre, (subsystem_restart_wq_func cfg env r_work ⟨s, []⟩).run.trace =
        pre ++ [.wake_unlock r_work.subsys, .wake_lock_destroy r_work.subsys,
          .kfree_work r_work.subsys]) ∧
    (subsystem_restart_wq_func cfg env r_work ⟨s, []⟩).run.st.held = s.held ∧
    ∀ m : Mutex,
      acquisitions m (subsystem_restart_wq_func cfg env r_work ⟨s, []⟩).run.trace =
        releases m (subsystem_restart_wq_func cfg env r_work ⟨s, []⟩).run.trace ∧
      releases m (subsystem_restart_wq_func cfg env r_work ⟨s, []⟩).run.trace ≤ 1 := by
  have hne := resolve_unit_locks_ne r_work s
  obtain ⟨l1, l2, l3, l4⟩ := resolve_unit_locks_local r_work s
  rcases wq_func_cases cfg env r_work s with ⟨_, e⟩ | ⟨_, _, e⟩ | ⟨_, _, hseq⟩
  · rw [e]
    refine ⟨⟨[.trylock (resolve_unit r_work s).shutdown_lock false], rfl⟩, rfl, ?_⟩
    intro m
    simp [Result.run, acquisitions, releases, out_events]
  · rw [e] at hret; cases hret
  · cases hseq with
    | waiting_log _ e => rw [e] at hret; cases hret
    | crash_loop _ _ e => rw [e] at hret; cases hret
    | waiting _ _ _ e => rw [e] at hret; cases hret
    | name_null mdm _ _ _ _ _ e => rw [e] at hret; cases hret
    | shutdown_failed mdm sd q r rest f _ _ _ hsd hms hret' hf hval e =>
      rw [e] at hret; cases hret
    | shutdown_null mdm sd q rest _ _ _ hsd hms hf e => rw [e] at hret; cases hret
    | powerup_failed mdm sd rd pu q r rest f _ _ _ hsd hsdm hrdm hpu hms hret' hf hval e =>
      rw [e] at hret; cases hret
    | powerup_null mdm sd rd pu q rest _ _ _ hsd hsdm hrdm hpu hms hf e =>
      rw [e] at hret; cases hret
    | name_null_late mdm sd rd pu _ _ _ hsd hsdm hrdm hpu hpum _ _ e =>
      rw [e] at hret; cases hret
    | completed mdm sd rd pu _ _ _ hsd hsdm hrdm hpu hpum e =>
      rw [e]
      refine ⟨⟨_, rfl⟩, ?_, ?_⟩
      · exact erase_admitted s.held _ _ hne l1 l3
      · intro m
        have h := acquisitions_completed (st_admitted s (resolve_unit r_work s))
          (resolve_unit r_work s) r_work sd rd pu m hne l1 l2 l3 l4
        exact ⟨h.1, h.2.1⟩

/-- A completed restart of the group of modem and a request dropped at admission. -/
theorem returning_run_restores_locks_witness :
    ((subsystem_restart_wq_func cfg0 ⟨true, ⟨0, 0⟩⟩ ⟨2, 1⟩
        ⟨registered_state (demo_mem 0 0) 2 3 60, []⟩).isReturned = true ∧
      (subsystem_restart_wq_func cfg0 ⟨true, ⟨0, 0⟩⟩ ⟨2, 1⟩
        ⟨registered_state (demo_mem 0 0) 2 3 60, []⟩).run.st.held = [] ∧
      acquisitions (.order_shutdown_lock 0) (subsystem_restart_wq_func cfg0 ⟨true, ⟨0, 0⟩⟩ ⟨2, 1⟩
        ⟨registered_state (demo_mem 0 0) 2 3 60, []⟩).run.trace = 1) ∧
    ((subsystem_restart_wq_func cfg0 ⟨true, ⟨0, 0⟩⟩ ⟨2, 1⟩
        ⟨{ registered_state (demo_mem 0 0) 2 3 60 with held := [.order_shutdown_lock 0] },
          []⟩).isReturned = true ∧
      (subsystem_restart_wq_func cfg0 ⟨true, ⟨0, 0⟩⟩ ⟨2, 1⟩
        ⟨{ registered_state (demo_mem 0 0) 2 3 60 with held := [.order_shutdown_lock 0] },
          []⟩).run.st.held = [.order_shutdown_lock 0] ∧
      acquisitions (.order_shutdown_lock 0) (subsystem_restart_wq_func cfg0 ⟨true, ⟨0, 0⟩⟩ ⟨2, 1⟩
        ⟨{ registered_state (demo_mem 0 0) 2 3 60 with held := [.order_shutdown_lock 0] },
          []⟩).run.trace = 0) :=
  ⟨⟨by decide,
    (returning_run_restores_locks cfg0 ⟨true, ⟨0, 0⟩⟩ ⟨2, 1⟩
      (registered_state (demo_mem 0 0) 2 3 60) (by decide)).2.1, by decide⟩,
   ⟨by decide,
    (returning_run_restores_locks cfg0 ⟨true, ⟨0, 0⟩⟩ ⟨2, 1⟩
      { registered_state (demo_mem 0 0) 2 3 60 with held := [.order_shutdown_lock 0] }
      (by decide)).2.1, by decide⟩⟩

/-! ## The ramdump phase and the first check -/

theorem ramdump_seq_append (a b : List Event) :
    ramdump_seq (a ++ b) = ramdump_seq a ++ ramdump_seq b := by
  simp [ramdump_seq, List.filterMap_append]

theorem ramdump_seq_notifs (s : State) (t : subsys_notif_type) (ms : List SubsysPtr) :
    ramdump_seq (notifs s t ms) = [] := by
  induction ms with
  | nil => rfl
  | cons p ms ih => simp [ramdump_seq, notifs]

theorem ramdump_seq_shutdown (pairs : List (SubsysPtr × Int)) :
    ramdump_seq (returns .shutdown pairs) = [] := by
  induction pairs with
  | nil => rfl
  | cons p ms ih => simp [ramdump_seq, returns]

theorem ramdump_seq_powerup (pairs : List (SubsysPtr × Int)) :
    ramdump_seq (returns .powerup pairs) = [] := by
  induction pairs with
  | nil => rfl
  | cons p ms ih => simp [ramdump_seq, returns]

theorem ramdump_seq_ramdump (en : Int) (pairs : List (SubsysPtr × Int)) :
    ramdump_seq (returns (.ramdump en) pairs) = (pairs.map Prod.fst).map fun p => (en, p) := by
  induction pairs with
  | nil => rfl
  | cons p ms ih =>
    simp only [ramdump_seq, returns] at ih
    simp [ramdump_seq, returns, ih]

theorem ramdump_seq_before_shutdown (s : State) (u : restart_unit) :
    ramdump_seq (tr_before_shutdown s u (tr_admitted u)) = [] := by
  unfold tr_before_shutdown tr_admitted
  simp only [ramdump_seq_append, ramdump_seq_notifs]
  rfl

theorem ramdump_seq_before_powerup (s : State) (u : restart_unit)
    (sd rd : List (SubsysPtr × Int)) :
    ramdump_seq (tr_before_powerup s u (tr_admitted u) sd rd) =
      (rd.map Prod.fst).map fun p => (s.enable_ramdumps, p) := by
  unfold tr_before_powerup
  simp only [ramdump_seq_append, ramdump_seq_notifs, ramdump_seq_before_shutdown,
    ramdump_seq_shutdown, ramdump_seq_ramdump]
  simp [ramdump_seq]

theorem unlock_not_mem_before_shutdown (s : State) (u : restart_unit) (m : Mutex)
    (h : m ≠ .restart_log_mutex) :
    Event.unlock m ∉ tr_before_shutdown s u (tr_admitted u) := by
  unfold tr_before_shutdown tr_admitted
  simp [mem_notifs, h]

/-- Claim C23, counterexample.  With `enable_ramdumps = 0` a restart of the group
of modem invokes the ramdump callback of its three members, passing them 0. -/
theorem ramdump_called_when_disabled :
    (registered_state (demo_mem 0 0) 2 0 60).enable_ramdumps = 0 ∧
    ramdump_seq (subsystem_restart_wq_func cfg0 ⟨true, ⟨0, 0⟩⟩ ⟨2, 1⟩
      ⟨registered_state (demo_mem 0 0) 2 0 60, []⟩).run.trace = [(0, 1), (0, 2), (0, 3)] := by
  decide

/-- Claim C23, amended.  The ramdump phase is not gated by `enable_ramdumps`; the
flag is the first argument of every ramdump callback.  Whatever its value, a run
of the worker that reaches the ramdump phase (it has released the shutdown lock
of the unit) has invoked the ramdump callback of exactly those registered members
that provide one, once each in list order, and a run that ends before the phase
has invoked none; a run that was admitted and returns has reached the phase. -/
theorem ramdump_phase_not_gated (cfg : Config) (env : EpochEnv) (r_work : restart_wq_data)
    (s : State) :
    (Event.unlock (resolve_unit r_work s).shutdown_lock ∈
        (subsystem_restart_wq_func cfg env r_work ⟨s, []⟩).run.trace →
      ramdump_seq (subsystem_restart_wq_func cfg env r_work ⟨s, []⟩).run.trace =
        (ramdump_members s (unit_members (resolve_unit r_work s))).map
          fun p => (s.enable_ramdumps, p)) ∧
    (Event.unlock (resolve_unit r_work s).shutdown_lock ∉
        (subsystem_restart_wq_func cfg env r_work ⟨s, []⟩).run.trace →
      ramdump_seq (subsystem_restart_wq_func cfg env r_work ⟨s, []⟩).run.trace = []) ∧
    ((resolve_unit r_work s).shutdown_lock ∉ s.held →
      (subsystem_restart_wq_func cfg env r_work ⟨s, []⟩).isReturned = true →
      Event.unlock (resolve_unit r_work s).shutdown_lock ∈
        (subsystem_restart_wq_func cfg env r_work ⟨s, []⟩).run.trace) := by
  obtain ⟨l1, l2, l3, l4⟩ := resolve_unit_locks_local r_work s
  have hb := ramdump_seq_before_shutdown (st_admitted s (resolve_unit r_work s))
    (resolve_unit r_work s)
  have hp := ramdump_seq_before_powerup (st_admitted s (resolve_unit r_work s))
    (resolve_unit r_work s)
  have hu := unlock_not_mem_before_shutdown (st_admitted s (resolve_unit r_work s))
    (resolve_unit r_work s) _ l2
  have hin : ∀ sd rd, Event.unlock (resolve_unit r_work s).shutdown_lock ∈
      tr_before_powerup (st_admitted s (resolve_unit r_work s)) (resolve_unit r_work s)
        (tr_admitted (resolve_unit r_work s)) sd rd := by
    intro sd rd
    unfold tr_before_powerup
    simp
  rcases wq_func_cases cfg env r_work s with ⟨hsl, e⟩ | ⟨_, _, e⟩ | ⟨_, _, hseq⟩
  · rw [e]
    refine ⟨?_, fun _ => rfl, fun h => absurd hsl h⟩
    intro h
    simp [Result.run, out_events] at h
  · rw [e]
    refine ⟨?_, fun _ => rfl, fun _ h => by cases h⟩
    intro h
    simp [Result.run] at h
  · cases hseq with
    | waiting_log _ e =>
      rw [e]
      refine ⟨?_, fun _ => rfl, fun _ h => by cases h⟩
      intro h
      simp [Result.run, tr_admitted] at h
    | crash_loop _ _ e =>
      rw [e]
      refine ⟨?_, fun _ => rfl, fun _ h => by cases h⟩
      intro h
      simp [Result.run, tr_admitted] at h
    | waiting _ _ _ e =>
      rw [e]
      refine ⟨?_, fun _ => rfl, fun _ h => by cases h⟩
      intro h
      simp [Result.run, tr_admitted, l2] at h
    | name_null mdm _ _ _ _ _ e =>
      rw [e]
      refine ⟨?_, fun _ => rfl, fun _ h => by cases h⟩
      intro h
      simp [Result.run, tr_admitted, l2] at h
    | shutdown_failed mdm sd q r rest f _ _ _ hsd hms hret' hf hval e =>
      rw [e]
      refine ⟨?_, fun _ => ?_, fun _ h => by cases h⟩
      · intro h
        simp only [Result.run, List.mem_append, List.mem_singleton, reduceCtorEq, or_false,
          mem_returns] at h
        rcases h with h | ⟨x, _, hx⟩
        · exact absurd h hu
        · cases hx
      · simp only [Result.run, ramdump_seq_append, hb, ramdump_seq_shutdown]
        rfl
    | shutdown_null mdm sd q rest _ _ _ hsd hms hf e =>
      rw [e]
      refine ⟨?_, fun _ => ?_, fun _ h => by cases h⟩
      · intro h
        simp only [Result.run, List.mem_append, mem_returns] at h
        rcases h with h | ⟨x, _, hx⟩
        · exact absurd h hu
        · cases hx
      · simp only [Result.run, ramdump_seq_append, hb, ramdump_seq_shutdown]
        rfl
    | powerup_failed mdm sd rd pu q r rest f _ _ _ hsd hsdm hrdm hpu hms hret' hf hval e =>
      rw [e]
      refine ⟨fun _ => ?_, fun h => ?_, fun _ h => by cases h⟩
      · simp only [Result.run, ramdump_seq_append, hp, ramdump_seq_powerup, hrdm]
        simp [ramdump_seq, ramdump_members, st_admitted]
      · exact absurd (by simp [Result.run, hin]) h
    | powerup_null mdm sd rd pu q rest _ _ _ hsd hsdm hrdm hpu hms hf e =>
      rw [e]
      refine ⟨fun _ => ?_, fun h => ?_, fun _ h => by cases h⟩
      · simp only [Result.run, ramdump_seq_append, hp, ramdump_seq_powerup, hrdm]
        simp [ramdump_members, st_admitted]
      · exact absurd (by simp [Result.run, hin]) h
    | name_null_late mdm sd rd pu _ _ _ hsd hsdm hrdm hpu hpum _ _ e =>
      rw [e]
      refine ⟨fun _ => ?_, fun h => ?_, fun _ h => by cases h⟩
      · unfold tr_after_powerup
        simp only [Result.run, ramdump_seq_append, hp, ramdump_seq_powerup, hrdm,
          ramdump_seq_notifs]
        simp [ramdump_members, st_admitted]
      · exact absurd (by simp [Result.run, tr_after_powerup, hin]) h
    | completed mdm sd rd pu _ _ _ hsd hsdm hrdm hpu hpum e =>
      rw [e]
      have hmem : Event.unlock (resolve_unit r_work s).shutdown_lock ∈
          tr_completed (st_admitted s (resolve_unit r_work s)) (resolve_unit r_work s) r_work
            (tr_admitted (resolve_unit r_work s)) sd rd pu := by
        simp [tr_completed, tr_after_powerup, hin]
      refine ⟨fun _ => ?_, fun h => absurd hmem h, fun _ _ => hmem⟩
      unfold tr_completed tr_after_powerup
      simp only [Result.run, ramdump_seq_append, hp, ramdump_seq_powerup, hrdm,
        ramdump_seq_notifs]
      simp [ramdump_seq, out_events, ramdump_members, st_admitted]

/-- With `enable_ramdumps = 0` and with `enable_ramdumps = 1`, a completed restart
of the group of modem calls the three ramdump callbacks. -/
theorem ramdump_phase_not_gated_witness :
    ramdump_seq (subsystem_restart_wq_func cfg0 ⟨true, ⟨0, 0⟩⟩ ⟨2, 1⟩
        ⟨registered_state (demo_mem 0 0) 2 0 60, []⟩).run.trace =
      (ramdump_members (registered_state (demo_mem 0 0) 2 0 60)
        (unit_members (resolve_unit ⟨2, 1⟩ (registered_state (demo_mem 0 0) 2 0 60)))).map
          (fun p => ((0 : Int), p)) ∧
    ramdump_seq (subsystem_restart_wq_func cfg0 ⟨true, ⟨0, 0⟩⟩ ⟨2, 1⟩
        ⟨{ registered_state (demo_mem 0 0) 2 0 60 with enable_ramdumps := 1 }, []⟩).run.trace =
      [(1, 1), (1, 2), (1, 3)] ∧
    ramdump_seq (subsystem_restart_wq_func cfg0 ⟨true, ⟨0, 0⟩⟩ ⟨2, 1⟩
        ⟨{ registered_state (demo_mem (-1) 0) 2 0 60 with enable_ramdumps := 1 },
          []⟩).run.trace = [] :=
  ⟨(ramdump_phase_not_gated cfg0 ⟨true, ⟨0, 0⟩⟩ ⟨2, 1⟩
      (registered_state (demo_mem 0 0) 2 0 60)).1 (by decide),
   by decide,
   (ramdump_phase_not_gated cfg0 ⟨true, ⟨0, 0⟩⟩ ⟨2, 1⟩
      { registered_state (demo_mem (-1) 0) 2 0 60 with enable_ramdumps := 1 }).2.1
      (by decide)⟩

/-- Claim C29, counterexample.  With `max_restarts = 1` and `max_history_time = 60`:
a check whose allocation fails returns; and so does a check at the second 60 on a
log whose only entry is of the second 0, an entry that survives the pruning (its
age is not above 60) without being younger than 60.  The same holds with
`max_restarts = -1`.  And a check at the second -2^31 + 50 on a log whose only
entry is of the second 2^31 - 10 (the clock has wrapped, 60 seconds have passed)
returns, although `T` minus the timestamp of that entry is below 60: the age
reads as the `long` 60. -/
theorem first_check_not_always_fatal :
    (do_epoch_check ⟨false, ⟨0, 0⟩⟩ 2 ⟨boot_state (demo_mem 0 0) 3 1 60, []⟩).isReturned = true ∧
    (do_epoch_check ⟨true, ⟨60, 0⟩⟩ 2
      ⟨{ boot_state (demo_mem 0 0) 3 1 60 with restart_log_list := [⟨⟨0, 0⟩, 2⟩] },
        []⟩).isReturned = true ∧
    (do_epoch_check ⟨true, ⟨60, 0⟩⟩ 2
      ⟨{ boot_state (demo_mem 0 0) 3 (-1) 60 with restart_log_list := [⟨⟨0, 0⟩, 2⟩] },
        []⟩).isReturned = true ∧
    (do_epoch_check ⟨true, ⟨-2147483598, 0⟩⟩ 2
      ⟨{ boot_state (demo_mem 0 0) 3 1 60 with restart_log_list := [⟨⟨2147483638, 0⟩, 2⟩] },
        []⟩).isReturned = true ∧
    (-2147483598 : Int) - 2147483638 < 60 := by
  decide

/-- Claim C29, amended.  If `max_restarts` is 1 or negative and
`max_history_time > 0`, then for every timestamp and every restart log whose
entries have an age within the range of `long`, a crash-loop check whose
allocation succeeds (run with `restart_log_mutex` free) keeps the entry just
appended, counts at least one entry, has the count at or above the threshold, and
panics if and only if the first surviving entry is younger than
`max_history_time`; whenever the log was empty it panics, holding
`restart_log_mutex`, with the new entry as the log. -/
theorem first_check_fatal (s : State) (subsys : SubsysPtr) (T : timeval) (tr : List Event)
    (hmax : s.max_restarts = 1 ∨ s.max_restarts < 0) (hwin : 0 < s.max_history_time)
    (hfree : Mutex.restart_log_mutex ∉ s.held)
    (hrange : ages_in_range T.tv_sec s.restart_log_list) :
    (do_epoch_check ⟨true, T⟩ subsys ⟨s, tr⟩).run.st.restart_log_list =
      in_window T.tv_sec s.max_history_time (s.restart_log_list ++ [⟨T, subsys⟩]) ∧
    (⟨T, subsys⟩ : restart_log) ∈
      in_window T.tv_sec s.max_history_time (s.restart_log_list ++ [⟨T, subsys⟩]) ∧
    1 ≤ (in_window T.tv_sec s.max_history_time (s.restart_log_list ++ [⟨T, subsys⟩])).length ∧
    ((in_window T.tv_sec s.max_history_time
      (s.restart_log_list ++ [⟨T, subsys⟩])).length : Int) ≥ s.max_restarts ∧
    ((do_epoch_check ⟨true, T⟩ subsys ⟨s, tr⟩).isPanicked = true ↔
      ∃ first, (in_window T.tv_sec s.max_history_time
          (s.restart_log_list ++ [⟨T, subsys⟩])).head? = some first ∧
        T.tv_sec - first.time.tv_sec < s.max_history_time) ∧
    (s.restart_log_list = [] →
      do_epoch_check ⟨true, T⟩ subsys ⟨s, tr⟩ =
        .panicked ⟨{ s with held := .restart_log_mutex :: s.held,
                            restart_log_list := [⟨T, subsys⟩] },
          tr ++ [.lock .restart_log_mutex]⟩) := by
  have hne : s.max_restarts ≠ 0 := by omega
  have hr2 := ages_in_range_append T.tv_sec subsys T s.restart_log_list hrange rfl
  have hw : epoch_window ⟨true, T⟩ subsys s =
      in_window T.tv_sec s.max_history_time (s.restart_log_list ++ [⟨T, subsys⟩]) :=
    in_window_long_eq _ _ _ hr2
  have hmem : (⟨T, subsys⟩ : restart_log) ∈
      in_window T.tv_sec s.max_history_time (s.restart_log_list ++ [⟨T, subsys⟩]) := by
    rw [in_window_append, in_window_cons_young _ _ _ _ (by simp only []; omega)]
    simp
  have hlen : 1 ≤ (in_window T.tv_sec s.max_history_time
      (s.restart_log_list ++ [⟨T, subsys⟩])).length := List.length_pos_of_mem hmem
  have hcnt : ((in_window T.tv_sec s.max_history_time
      (s.restart_log_list ++ [⟨T, subsys⟩])).length : Int) ≥ s.max_restarts := by omega
  have hage : ∀ first, (in_window T.tv_sec s.max_history_time
      (s.restart_log_list ++ [⟨T, subsys⟩])).head? = some first →
      to_long (T.tv_sec - first.time.tv_sec) = T.tv_sec - first.time.tv_sec := by
    intro first hf
    have hm : first ∈ in_window T.tv_sec s.max_history_time
        (s.restart_log_list ++ [⟨T, subsys⟩]) := List.mem_of_mem_head? hf
    unfold in_window at hm
    exact to_long_of_range _ (hr2 first (List.mem_filter.mp hm).1)
  have hcases := do_epoch_check_window ⟨true, T⟩ subsys ⟨s, tr⟩ hfree hne rfl
  unfold crash_loop at hcases
  simp only [] at hcases
  rw [hw] at hcases
  have hiff : (do_epoch_check ⟨true, T⟩ subsys ⟨s, tr⟩).isPanicked = true ↔
      ∃ first, (in_window T.tv_sec s.max_history_time
          (s.restart_log_list ++ [⟨T, subsys⟩])).head? = some first ∧
        T.tv_sec - first.time.tv_sec < s.max_history_time := by
    rcases hcases with ⟨hc, hr⟩ | ⟨hc, hr⟩
    · rw [hr]
      obtain ⟨_, first, hf, h2⟩ := hc
      exact ⟨fun _ => ⟨first, hf, (hage first hf) ▸ h2⟩, fun _ => rfl⟩
    · rw [hr]
      refine ⟨fun h => (by cases h), fun h => ?_⟩
      obtain ⟨first, hf, h2⟩ := h
      exact absurd ⟨hcnt, first, hf, (hage first hf).symm ▸ h2⟩ hc
  have hres : (do_epoch_check ⟨true, T⟩ subsys ⟨s, tr⟩).run.st.restart_log_list =
      in_window T.tv_sec s.max_history_time (s.restart_log_list ++ [⟨T, subsys⟩]) := by
    rcases hcases with ⟨_, hr⟩ | ⟨_, hr⟩ <;> rw [hr] <;> rfl
  refine ⟨hres, hmem, hlen, hcnt, hiff, ?_⟩
  intro hlog
  have hw1 : in_window T.tv_sec s.max_history_time (s.restart_log_list ++ [⟨T, subsys⟩]) =
      [⟨T, subsys⟩] := by
    rw [hlog, List.nil_append, in_window_cons_young _ _ _ _ (by simp only []; omega)]
    rfl
  rcases hcases with ⟨_, hr⟩ | ⟨hc, _⟩
  · rw [hr, hw1]
  · exfalso
    apply hc
    refine ⟨hcnt, ⟨T, subsys⟩, by rw [hw1]; rfl, ?_⟩
    have h0 : to_long (T.tv_sec - T.tv_sec) = 0 := by
      rw [Int.sub_self]
      rfl
    simp only [h0]
    exact hwin

/-- The first check on an empty log with `max_restarts = 1` and with
`max_restarts = -5`. -/
theorem first_check_fatal_witness :
    (do_epoch_check ⟨true, ⟨100, 0⟩⟩ 2 ⟨boot_state (demo_mem 0 0) 3 1 60, []⟩).isPanicked = true ∧
    (do_epoch_check ⟨true, ⟨100, 0⟩⟩ 2 ⟨boot_state (demo_mem 0 0) 3 (-5) 60, []⟩ =
      .panicked ⟨{ boot_state (demo_mem 0 0) 3 (-5) 60 with
          held := .restart_log_mutex :: (boot_state (demo_mem 0 0) 3 (-5) 60).held,
          restart_log_list := [⟨⟨100, 0⟩, 2⟩] },
        [] ++ [.lock .restart_log_mutex]⟩) :=
  ⟨by decide,
   (first_check_fatal (boot_state (demo_mem 0 0) 3 (-5) 60) 2 ⟨100, 0⟩ []
      (Or.inr (by decide)) (by decide) (by decide)
      (by simp [ages_in_range, boot_state])).2.2.2.2.2 rfl⟩

/-! ## The global lock of the sequences -/

theorem countP_set_of_getElem? {α : Type} (p : α → Bool) :
    ∀ (l : List α) (i : Nat) (a b : α), l[i]? = some a →
      (l.set i b).countP p + (if p a then 1 else 0) = l.countP p + (if p b then 1 else 0) := by
  intro l
  induction l with
  | nil => intro i a b h; simp at h
  | cons x l ih =>
    intro i a b h
    cases i with
    | zero =>
      simp only [List.getElem?_cons_zero, Option.some.injEq] at h
      subst h
      simp only [List.set_cons_zero, List.countP_cons]
      omega
    | succ i =>
      simp only [List.getElem?_cons_succ] at h
      have := ih i a b h
      simp only [List.set_cons_succ, List.countP_cons]
      omega

theorem countP_le_one_unique {α : Type} (p : α → Bool) :
    ∀ (l : List α), l.countP p ≤ 1 → ∀ (i j : Nat) (a b : α), l[i]? = some a →
      l[j]? = some b → p a = true → p b = true → i = j := by
  intro l
  induction l with
  | nil => intro _ i j a b h; simp at h
  | cons x l ih =>
    intro hc i j a b hi hj pa pb
    rw [List.countP_cons] at hc
    have hz : p x = true → ∀ (k : Nat) (c : α), l[k]? = some c → p c = true → False := by
      intro px k c hk pc
      rw [if_pos px] at hc
      have h0 : l.countP p = 0 := by omega
      rw [List.countP_eq_zero] at h0
      exact h0 c (List.getElem?_mem hk) pc
    cases i with
    | zero =>
      simp only [List.getElem?_cons_zero, Option.some.injEq] at hi
      cases j with
      | zero => rfl
      | succ j =>
        simp only [List.getElem?_cons_succ] at hj
        exact (hz (hi ▸ pa) j b hj pb).elim
    | succ i =>
      simp only [List.getElem?_cons_succ] at hi
      cases j with
      | zero =>
        simp only [List.getElem?_cons_zero, Option.some.injEq] at hj
        exact (hz (hj ▸ pb) i a hi pa).elim
      | succ j =>
        simp only [List.getElem?_cons_succ] at hj
        have := ih (by omega) i j a b hi hj pa pb
        omega

theorem countP_pos_of_getElem? {α : Type} (p : α → Bool) (l : List α) (i : Nat) (a : α)
    (h : l[i]? = some a) (pa : p a = true) : 1 ≤ l.countP p :=
  List.countP_pos_iff.mpr ⟨a, List.getElem?_mem h, pa⟩

theorem unit_locks_ne_soc (u : UnitId) :
    Mutex.soc_order_reg_lock ≠ u.shutdown_lock ∧ Mutex.soc_order_reg_lock ≠ u.powerup_lock := by
  cases u <;> simp [UnitId.shutdown_lock, UnitId.powerup_lock]

theorem soc_inv_init : SocInv ⟨⟨[], [], false⟩, []⟩ := by
  simp [SocInv, RegSys.soc_holders]

theorem soc_inv_spawn (s : RegSys) (u : UnitId) (h : SocInv s) :
    SocInv { s with sys := s.sys.spawn u } := by
  unfold SocInv RegSys.soc_holders Sys.spawn at *
  simp only [List.countP_append, List.countP_cons, List.countP_nil, Pc.holds_soc]
  simpa using h

theorem soc_inv_register (s : RegSys) (h : SocInv s) :
    SocInv { s with registrations := s.registrations ++ [.at_entry] } := by
  unfold SocInv RegSys.soc_holders at *
  simp only [List.count_append, List.count_cons, List.count_nil]
  simpa using h

theorem worker_step_soc (held : List Mutex) (w : Worker) (fails : Bool)
    (held' : List Mutex) (pc' : Pc) (p : Bool)
    (h : w.step held fails = some (held', pc', p))
    (hpos : w.pc.holds_soc = true → 1 ≤ held.count .soc_order_reg_lock)
    (hle : held.count .soc_order_reg_lock ≤ 1) :
    held'.count .soc_order_reg_lock + (if w.pc.holds_soc = true then 1 else 0) =
        held.count .soc_order_reg_lock + (if pc'.holds_soc = true then 1 else 0) ∧
      held'.count .soc_order_reg_lock ≤ 1 := by
  obtain ⟨n1, n2⟩ := unit_locks_ne_soc w.unit
  rcases w with ⟨u, pc⟩
  cases pc <;> simp only [Worker.step] at h
  · by_cases c : u.shutdown_lock ∈ held
    · simp only [if_pos c, Option.some.injEq, Prod.mk.injEq] at h
      obtain ⟨rfl, rfl, rfl⟩ := h
      simp [Pc.holds_soc, hle]
    · simp only [if_neg c, Option.some.injEq, Prod.mk.injEq] at h
      obtain ⟨rfl, rfl, rfl⟩ := h
      simp [Pc.holds_soc, hle, List.count_cons_of_ne n1]
  · by_cases c : u.powerup_lock ∈ held
    · simp only [if_pos c, Option.some.injEq, Prod.mk.injEq] at h
      obtain ⟨rfl, rfl, rfl⟩ := h
      simp [Pc.holds_soc, hle]
    · simp only [if_neg c, Option.some.injEq, Prod.mk.injEq] at h
      obtain ⟨rfl, rfl, rfl⟩ := h
      simp [Pc.holds_soc, hle, List.count_cons_of_ne n2]
  · cases fails
    · simp only [Bool.false_eq_true, if_false, Option.some.injEq, Prod.mk.injEq] at h
      obtain ⟨rfl, rfl, rfl⟩ := h
      simp [Pc.holds_soc, hle]
    · simp only [if_true, Option.some.injEq, Prod.mk.injEq] at h
      obtain ⟨rfl, rfl, rfl⟩ := h
      simp [Pc.holds_soc, hle]
  · by_cases c : Mutex.soc_order_reg_lock ∈ held
    · simp only [if_pos c] at h
      cases h
    · simp only [if_neg c, Option.some.injEq, Prod.mk.injEq] at h
      obtain ⟨rfl, rfl, rfl⟩ := h
      have h0 : held.count .soc_order_reg_lock = 0 := List.count_eq_zero.mpr c
      simp [Pc.holds_soc, h0]
  · cases fails
    · simp only [Bool.false_eq_true, if_false, Option.some.injEq, Prod.mk.injEq] at h
      obtain ⟨rfl, rfl, rfl⟩ := h
      simp [Pc.holds_soc, hle, List.count_erase_of_ne n1]
    · simp only [if_true, Option.some.injEq, Prod.mk.injEq] at h
      obtain ⟨rfl, rfl, rfl⟩ := h
      simp [Pc.holds_soc, hle]
  · cases fails
    · simp only [Bool.false_eq_true, if_false, Option.some.injEq, Prod.mk.injEq] at h
      obtain ⟨rfl, rfl, rfl⟩ := h
      simp [Pc.holds_soc, hle, List.count_erase_of_ne n2]
    · simp only [if_true, Option.some.injEq, Prod.mk.injEq] at h
      obtain ⟨rfl, rfl, rfl⟩ := h
      simp [Pc.holds_soc, hle]
  · simp only [Option.some.injEq, Prod.mk.injEq] at h
    obtain ⟨rfl, rfl, rfl⟩ := h
    have := hpos rfl
    simp only [List.count_erase_self, Pc.holds_soc, if_true, Bool.false_eq_true, if_false]
    omega
  · simp only [Option.some.injEq, Prod.mk.injEq] at h
    obtain ⟨rfl, rfl, rfl⟩ := h
    simp [Pc.holds_soc, hle]
  · cases h

theorem reg_step_soc (held : List Mutex) (pc : RegPc) (null : Bool)
    (held' : List Mutex) (pc' : RegPc)
    (h : pc.step held null = some (held', pc'))
    (hpos : pc = .in_table → 1 ≤ held.count .soc_order_reg_lock)
    (hle : held.count .soc_order_reg_lock ≤ 1) :
    held'.count .soc_order_reg_lock + (if (pc == RegPc.in_table) = true then 1 else 0) =
        held.count .soc_order_reg_lock + (if (pc' == RegPc.in_table) = true then 1 else 0) ∧
      held'.count .soc_order_reg_lock ≤ 1 := by
  cases pc <;> simp only [RegPc.step] at h
  · cases null
    · simp only [Bool.false_eq_true, if_false, Option.some.injEq, Prod.mk.injEq] at h
      obtain ⟨rfl, rfl⟩ := h
      simp [hle]
    · simp only [if_true, Option.some.injEq, Prod.mk.injEq] at h
      obtain ⟨rfl, rfl⟩ := h
      simp [hle]
  · by_cases c : Mutex.soc_order_reg_lock ∈ held
    · simp only [if_pos c] at h
      cases h
    · simp only [if_neg c, Option.some.injEq, Prod.mk.injEq] at h
      obtain ⟨rfl, rfl⟩ := h
      have h0 : held.count .soc_order_reg_lock = 0 := List.count_eq_zero.mpr c
      simp [h0]
  · simp only [Option.some.injEq, Prod.mk.injEq] at h
    obtain ⟨rfl, rfl⟩ := h
    have := hpos rfl
    simp only [List.count_erase_self, beq_self_eq_true, if_true]
    have e : (RegPc.finished == RegPc.in_table) = false := by decide
    simp only [e, Bool.false_eq_true, if_false]
    omega
  · cases h

theorem soc_inv_step_worker (s s' : RegSys) (i : Nat) (fails : Bool) (hinv : SocInv s)
    (hstep : s.step_worker i fails = some s') : SocInv s' := by
  unfold RegSys.step_worker Sys.step at hstep
  by_cases hp : s.sys.panicked = true
  · simp [hp] at hstep
  simp only [hp, Bool.false_eq_true, if_false] at hstep
  cases hw : s.sys.workers[i]? with
  | none => simp [hw] at hstep
  | some w =>
    simp only [hw] at hstep
    cases hws : w.step s.sys.held fails with
    | none => simp [hws] at hstep
    | some t =>
      obtain ⟨held', pc', p⟩ := t
      simp only [hws, Option.some.injEq] at hstep
      subst hstep
      obtain ⟨h1, h2⟩ := hinv
      unfold RegSys.soc_holders at h1
      have hset := countP_set_of_getElem? (fun w : Worker => w.pc.holds_soc)
        s.sys.workers i w { w with pc := pc' } hw
      have hpos : w.pc.holds_soc = true → 1 ≤ s.sys.held.count .soc_order_reg_lock := by
        intro h
        have := countP_pos_of_getElem? (fun w : Worker => w.pc.holds_soc) _ i w hw h
        omega
      obtain ⟨k1, k2⟩ := worker_step_soc s.sys.held w fails held' pc' p hws hpos h2
      simp only [] at hset
      refine ⟨?_, k2⟩
      simp only [RegSys.soc_holders]
      omega

theorem soc_inv_step_registration (s s' : RegSys) (k : Nat) (null : Bool) (hinv : SocInv s)
    (hstep : s.step_registration k null = some s') : SocInv s' := by
  unfold RegSys.step_registration at hstep
  by_cases hp : s.sys.panicked = true
  · simp [hp] at hstep
  simp only [hp, Bool.false_eq_true, if_false] at hstep
  cases hw : s.registrations[k]? with
  | none => simp [hw] at hstep
  | some pc =>
    simp only [hw] at hstep
    cases hws : pc.step s.sys.held null with
    | none => simp [hws] at hstep
    | some t =>
      obtain ⟨held', pc'⟩ := t
      simp only [hws, Option.some.injEq] at hstep
      subst hstep
      obtain ⟨h1, h2⟩ := hinv
      unfold RegSys.soc_holders at h1
      have hset : (s.registrations.set k pc').count .in_table +
            (if (pc == RegPc.in_table) = true then 1 else 0) =
          s.registrations.count .in_table +
            (if (pc' == RegPc.in_table) = true then 1 else 0) :=
        countP_set_of_getElem? (fun q : RegPc => q == RegPc.in_table)
          s.registrations k pc pc' hw
      have hpos : pc = .in_table → 1 ≤ s.sys.held.count .soc_order_reg_lock := by
        intro h
        have : 1 ≤ s.registrations.count .in_table :=
          countP_pos_of_getElem? (fun q : RegPc => q == RegPc.in_table) _ k pc hw
            (by subst h; rfl)
        omega
      obtain ⟨k1, k2⟩ := reg_step_soc s.sys.held pc null held' pc' hws hpos h2
      refine ⟨?_, k2⟩
      simp only [RegSys.soc_holders]
      omega

theorem reachable_soc_inv (s : RegSys) (h : RegReachable s) : SocInv s := by
  induction h with
  | init => exact soc_inv_init
  | spawn s u _ _ ih => exact soc_inv_spawn s u ih
  | register s _ _ ih => exact soc_inv_register s ih
  | step_worker s s' i fails _ hstep ih => exact soc_inv_step_worker s s' i fails ih hstep
  | step_registration s s' k null _ hstep ih =>
    exact soc_inv_step_registration s s' k null ih hstep

/-- Claim C28.  In every reachable state of the system of restart workers and
registrations, at most one thread is between acquiring and releasing
`soc_order_reg_lock`: two workers that hold it, whatever their restart units, are
the same worker (the notifications and callbacks, which a worker issues only
while it holds the lock, are never issued by two workers at once), no
registration is inside the order table while a worker is in its sequence, the
lock is held while a worker is in its sequence, and then a registration or another
worker that is about to take the lock cannot move.  A call of
_update_restart_order entered while the lock is held changes nothing. -/
theorem soc_lock_serialises (s : RegSys) (h : RegReachable s) :
    s.soc_holders ≤ 1 ∧
    (∀ (i j : Nat) (wi wj : Worker), s.sys.workers[i]? = some wi →
      s.sys.workers[j]? = some wj → wi.pc.holds_soc = true → wj.pc.holds_soc = true → i = j) ∧
    (∀ (i : Nat) (wi : Worker), s.sys.workers[i]? = some wi → wi.pc.holds_soc = true →
      Mutex.soc_order_reg_lock ∈ s.sys.held ∧
      (∀ k : Nat, s.registrations[k]? ≠ some .in_table) ∧
      (∀ (k : Nat) (null : Bool), s.registrations[k]? = some .at_lock_soc →
        s.step_registration k null = none) ∧
      (∀ (j : Nat) (wj : Worker) (fails : Bool), s.sys.workers[j]? = some wj →
        wj.pc = .at_lock_soc → s.step_worker j fails = none) ∧
      (∀ (cfg : Config) (subsys : Option SubsysPtr) (st : State) (tr : List Event),
        Mutex.soc_order_reg_lock ∈ st.held →
        (_update_restart_order cfg subsys ⟨st, tr⟩).run.st.restart_orders =
          st.restart_orders)) := by
  obtain ⟨h1, h2⟩ := reachable_soc_inv s h
  have hle : s.soc_holders ≤ 1 := by omega
  refine ⟨hle, ?_, ?_⟩
  · intro i j wi wj hi hj pi pj
    unfold RegSys.soc_holders at hle
    exact countP_le_one_unique (fun w : Worker => w.pc.holds_soc) s.sys.workers (by omega)
      i j wi wj hi hj pi pj
  · intro i wi hi pi
    have hw := countP_pos_of_getElem? (fun w : Worker => w.pc.holds_soc) _ i wi hi pi
    have hheld : Mutex.soc_order_reg_lock ∈ s.sys.held := by
      rw [← List.one_le_count_iff]
      unfold RegSys.soc_holders at h1
      omega
    refine ⟨hheld, ?_, ?_, ?_, ?_⟩
    · intro k hk
      have : 1 ≤ s.registrations.count .in_table :=
        countP_pos_of_getElem? (fun q : RegPc => q == RegPc.in_table) _ k _ hk rfl
      unfold RegSys.soc_holders at hle
      omega
    · intro k null hk
      unfold RegSys.step_registration
      simp only [hk, RegPc.step, if_pos hheld]
      split <;> rfl
    · intro j wj fails hj hpc
      unfold RegSys.step_worker Sys.step
      rcases wj with ⟨u, pc⟩
      simp only [] at hpc
      subst hpc
      simp only [hj, Worker.step, if_pos hheld, ite_self]
    · intro cfg subsys st tr hst
      unfold _update_restart_order
      cases subsys with
      | none => rfl
      | some p =>
        simp only []
        cases (st.mem p).name with
        | none => rfl
        | some name =>
          simp only [mutex_lock, if_pos hst]
          rfl

/-- A state in which the worker of group 0 is in its shutdown phase and a
registration waits for the lock. -/
theorem soc_lock_serialises_witness :
    RegSys.soc_holders
      ⟨⟨[.soc_order_reg_lock, .order_powerup_lock 0, .order_shutdown_lock 0],
        [⟨.group 0, .in_shutdown⟩], false⟩, [.at_lock_soc]⟩ ≤ 1 :=
  (soc_lock_serialises
    ⟨⟨[.soc_order_reg_lock, .order_powerup_lock 0, .order_shutdown_lock 0],
      [⟨.group 0, .in_shutdown⟩], false⟩, [.at_lock_soc]⟩
    (.step_registration ⟨⟨[.soc_order_reg_lock, .order_powerup_lock 0, .order_shutdown_lock 0],
        [⟨.group 0, .in_shutdown⟩], false⟩, [.at_entry]⟩ _ 0 false
      (.step_worker ⟨⟨[.order_powerup_lock 0, .order_shutdown_lock 0],
          [⟨.group 0, .at_lock_soc⟩], false⟩, [.at_entry]⟩ _ 0 false
        (.step_worker ⟨⟨[.order_powerup_lock 0, .order_shutdown_lock 0],
            [⟨.group 0, .at_epoch_check⟩], false⟩, [.at_entry]⟩ _ 0 false
          (.step_worker ⟨⟨[.order_shutdown_lock 0],
              [⟨.group 0, .at_trylock_powerup⟩], false⟩, [.at_entry]⟩ _ 0 false
            (.step_worker ⟨⟨[], [⟨.group 0, .at_trylock_shutdown⟩], false⟩, [.at_entry]⟩ _ 0 false
              (.register ⟨⟨[], [⟨.group 0, .at_trylock_shutdown⟩], false⟩, []⟩
                (.spawn ⟨⟨[], [], false⟩, []⟩ (.group 0) .init rfl) rfl)
              (by decide))
            (by decide))
          (by decide))
        (by decide))
      (by decide))).1

/-- Claim C25, counterexample.  The worker of group 0 runs until it has released
the shutdown lock of the group and its powerup is pending; a new request for group
0 is queued; its worker takes the shutdown lock (it is not dropped), and its next
step, the trylock of the powerup lock, panics.  The same on the worker function: run in
a state where the powerup lock of the group of modem is held and its shutdown
lock is free, it panics. -/
theorem request_during_powerup_panics :
    (Sys.spawn ⟨[], [], false⟩ (.group 0)).steps
        [(0, false), (0, false), (0, false), (0, false), (0, false)] =
      some ⟨[.soc_order_reg_lock, .order_powerup_lock 0], [⟨.group 0, .in_powerup⟩], false⟩ ∧
    (Sys.spawn ⟨[.soc_order_reg_lock, .order_powerup_lock 0], [⟨.group 0, .in_powerup⟩], false⟩
        (.group 0)).steps [(1, false)] =
      some ⟨[.order_shutdown_lock 0, .soc_order_reg_lock, .order_powerup_lock 0],
        [⟨.group 0, .in_powerup⟩, ⟨.group 0, .at_trylock_powerup⟩], false⟩ ∧
    (Sys.spawn ⟨[.soc_order_reg_lock, .order_powerup_lock 0], [⟨.group 0, .in_powerup⟩], false⟩
        (.group 0)).steps [(1, false), (1, false)] =
      some ⟨[.order_shutdown_lock 0, .soc_order_reg_lock, .order_powerup_lock 0],
        [⟨.group 0, .in_powerup⟩, ⟨.group 0, .at_trylock_powerup⟩], true⟩ ∧
    (subsystem_restart_wq_func cfg0 ⟨true, ⟨0, 0⟩⟩ ⟨2, 1⟩
      ⟨{ registered_state (demo_mem 0 0) 2 0 60 with
          held := [.soc_order_reg_lock, .order_powerup_lock 0] }, []⟩).isPanicked = true := by
  decide

/-- Claim C25, amended.  Once a recovery sequence for the unit U has released the
shutdown lock of U and its powerup is still pending (its worker is before the
release of the powerup lock, the shutdown lock is free), a new restart request for
U is not dropped as a duplicate: its worker takes the shutdown lock of U; but
its next step finds the powerup lock of U held and panics. -/
theorem request_during_powerup_fatal (s : Sys) (h : Reachable s) (i : Nat) (w : Worker)
    (f1 f2 : Bool) (hp : s.panicked = false) (hw : s.workers[i]? = some w)
    (hpc : w.pc = .in_powerup) (hfree : w.unit.shutdown_lock ∉ s.held) :
    (s.spawn w.unit).step s.workers.length f1 =
      some ⟨w.unit.shutdown_lock :: s.held,
        s.workers ++ [⟨w.unit, .at_trylock_powerup⟩], false⟩ ∧
    Sys.step ⟨w.unit.shutdown_lock :: s.held,
        s.workers ++ [⟨w.unit, .at_trylock_powerup⟩], false⟩ s.workers.length f2 =
      some ⟨w.unit.shutdown_lock :: s.held,
        s.workers ++ [⟨w.unit, .at_trylock_powerup⟩], true⟩ := by
  have hpl : w.unit.powerup_lock ∈ s.held :=
    (reachable_admission_inv s h).1 i w hw (by rw [hpc]; rfl)
  have hset : ∀ (a b : Worker), (s.workers ++ [a]).set s.workers.length b = s.workers ++ [b] := by
    intro a b
    rw [List.set_append_right _ _ (Nat.le_refl _)]
    simp
  constructor
  · unfold Sys.step Sys.spawn
    simp only [hp, Bool.false_eq_true, if_false, List.getElem?_concat_length, Worker.step,
      if_neg hfree, hset]
  · unfold Sys.step
    have hpl' : w.unit.powerup_lock ∈ w.unit.shutdown_lock :: s.held :=
      List.mem_cons_of_mem _ hpl
    simp only [Bool.false_eq_true, if_false, List.getElem?_concat_length, Worker.step,
      if_pos hpl', hset]

/-- The state of the counterexample: the worker of group 0 has its powerup pending
when a second request for group 0 arrives. -/
theorem request_during_powerup_fatal_witness :
    (Sys.spawn ⟨[.soc_order_reg_lock, .order_powerup_lock 0], [⟨.group 0, .in_powerup⟩], false⟩
        (.group 0)).step 1 false =
      some ⟨[.order_shutdown_lock 0, .soc_order_reg_lock, .order_powerup_lock 0],
        [⟨.group 0, .in_powerup⟩, ⟨.group 0, .at_trylock_powerup⟩], false⟩ ∧
    Sys.step ⟨[.order_shutdown_lock 0, .soc_order_reg_lock, .order_powerup_lock 0],
        [⟨.group 0, .in_powerup⟩, ⟨.group 0, .at_trylock_powerup⟩], false⟩ 1 false =
      some ⟨[.order_shutdown_lock 0, .soc_order_reg_lock, .order_powerup_lock 0],
        [⟨.group 0, .in_powerup⟩, ⟨.group 0, .at_trylock_powerup⟩], true⟩ :=
  request_during_powerup_fatal
    ⟨[.soc_order_reg_lock, .order_powerup_lock 0], [⟨.group 0, .in_powerup⟩], false⟩
    (.step ⟨[.soc_order_reg_lock, .order_powerup_lock 0, .order_shutdown_lock 0],
        [⟨.group 0, .in_shutdown⟩], false⟩ _ 0 false
      (.step ⟨[.order_powerup_lock 0, .order_shutdown_lock 0],
          [⟨.group 0, .at_lock_soc⟩], false⟩ _ 0 false
        (.step ⟨[.order_powerup_lock 0, .order_shutdown_lock 0],
            [⟨.group 0, .at_epoch_check⟩], false⟩ _ 0 false
          (.step ⟨[.order_shutdown_lock 0], [⟨.group 0, .at_trylock_powerup⟩], false⟩ _ 0 false
            (.step ⟨[], [⟨.group 0, .at_trylock_shutdown⟩], false⟩ _ 0 false
              (.spawn ⟨[], [], false⟩ (.group 0) .init rfl)
              (by decide))
            (by decide))
          (by decide))
        (by decide))
      (by decide))
    0 ⟨.group 0, .in_powerup⟩ false false rfl rfl rfl (by decide)

/-! ## The values of the ramdump callbacks -/

theorem sim_bind (mem0 : SubsysPtr → subsys_data) (f k : Run → Result Unit)
    (hf : Sim mem0 f) (hk : Sim mem0 k) :
    Sim mem0 (fun r => (f r).bind fun _ r1 => k r1) := by
  intro r hr
  obtain ⟨h1, h2⟩ := hf r hr
  simp only []
  rw [h2]
  cases hfr : f r with
  | returned a r1 =>
    rw [hfr] at h1
    exact hk r1 h1
  | panicked r1 => rw [hfr] at h1; exact ⟨h1, rfl⟩
  | blocked r1 => rw [hfr] at h1; exact ⟨h1, rfl⟩
  | fault r1 => rw [hfr] at h1; exact ⟨h1, rfl⟩

theorem sim_for_list (mem0 : SubsysPtr → subsys_data) (member : SubsysPtr → Run → Result Unit) :
    ∀ ms : List SubsysPtr, (∀ p ∈ ms, Sim mem0 (member p)) → Sim mem0 (for_list member ms) := by
  intro ms
  induction ms with
  | nil => intro _ r hr; exact ⟨hr, rfl⟩
  | cons p ms ih =>
    intro h
    exact sim_bind mem0 (member p) (for_list member ms) (h p (List.mem_cons_self _ _))
      (ih fun q hq => h q (List.mem_cons_of_mem _ hq))

theorem sim_comp (mem0 : SubsysPtr → subsys_data) (f : Run → Result Unit) (g : Run → Run)
    (hf : Sim mem0 f) (hg : ∀ r : Run, (g r).st.mem = r.st.mem ∧ g r.blind = (g r).blind) :
    Sim mem0 (fun r => f (g r)) := by
  intro r hr
  simp only []
  rw [(hg r).2]
  exact hf (g r) ((hg r).1.trans hr)

theorem mutex_unlock_blind (m : Mutex) (r : Run) :
    (mutex_unlock m r).st.mem = r.st.mem ∧ mutex_unlock m r.blind = (mutex_unlock m r).blind := by
  refine ⟨rfl, ?_⟩
  simp [mutex_unlock, Run.blind, Run.emit, zero_ramdumps, blind, Event.blind]

theorem sim_mutex_lock (mem0 : SubsysPtr → subsys_data) (m : Mutex) :
    Sim mem0 (mutex_lock m) := by
  intro r hr
  unfold mutex_lock
  by_cases h : m ∈ r.st.held
  · have h' : m ∈ r.blind.st.held := h
    rw [if_pos h, if_pos h']
    exact ⟨hr, rfl⟩
  · have h' : m ∉ r.blind.st.held := h
    rw [if_neg h, if_neg h']
    refine ⟨hr, ?_⟩
    simp [Result.blind, Run.blind, Run.emit, zero_ramdumps, blind, Event.blind]

theorem epoch_mem (env : EpochEnv) (subsys : SubsysPtr) (s : State)
    (g : SubsysPtr → subsys_data) :
    epoch_fires env subsys { s with mem := g } = epoch_fires env subsys s ∧
    epoch_log env subsys { s with mem := g } = epoch_log env subsys s := by
  unfold epoch_fires epoch_log do_epoch_check mutex_lock
  simp only [List.not_mem_nil, if_false, bind_returned, Run.emit, mutex_unlock]
  by_cases h0 : s.max_restarts = 0
  · simp only [if_pos h0]
    exact ⟨rfl, rfl⟩
  · by_cases h1 : env.kmalloc_ok = false
    · simp only [if_neg h0, if_pos h1]
      exact ⟨rfl, rfl⟩
    · simp only [if_neg h0, if_neg h1]
      cases h2 : (epoch_scan env.now s.max_history_time
          (s.restart_log_list ++ [{ time := env.now, subsys := subsys }]) [] 0 none).2.2 with
      | none => exact ⟨rfl, rfl⟩
      | some tf =>
        simp only []
        by_cases hc : ((epoch_scan env.now s.max_history_time
            (s.restart_log_list ++ [{ time := env.now, subsys := subsys }]) [] 0 none).2.1 : Int)
              ≥ s.max_restarts ∧
                to_long (env.now.tv_sec - tf.tv_sec) < s.max_history_time
        · simp only [if_pos hc]
          exact ⟨rfl, rfl⟩
        · simp only [if_neg hc]
          exact ⟨rfl, rfl⟩

theorem sim_do_epoch_check (mem0 : SubsysPtr → subsys_data) (env : EpochEnv)
    (subsys : SubsysPtr) : Sim mem0 (do_epoch_check env subsys) := by
  intro r hr
  rw [do_epoch_check_eq, do_epoch_check_eq]
  have e1 : epoch_fires env subsys r.blind.st = epoch_fires env subsys r.st :=
    (epoch_mem env subsys r.st _).1
  have e2 : epoch_log env subsys r.blind.st = epoch_log env subsys r.st :=
    (epoch_mem env subsys r.st _).2
  have e3 : r.blind.st.held = r.st.held := rfl
  rw [e1, e2, e3]
  by_cases h : Mutex.restart_log_mutex ∈ r.st.held
  · simp only [if_pos h]
    exact ⟨hr, rfl⟩
  · simp only [if_neg h]
    cases epoch_fires env subsys r.st
    · simp only [Bool.false_eq_true, if_false]
      refine ⟨hr, ?_⟩
      simp [Result.blind, Run.blind, zero_ramdumps, blind, Event.blind]
    · simp only [if_true]
      refine ⟨hr, ?_⟩
      simp [Result.blind, Run.blind, zero_ramdumps, blind, Event.blind]

theorem sim_notify_member (mem0 : SubsysPtr → subsys_data) (t : subsys_notif_type)
    (p : SubsysPtr) : Sim mem0 (notify_member t p) := by
  intro r hr
  refine ⟨hr, ?_⟩
  simp [notify_member, Result.blind, Run.blind, Run.emit, zero_ramdumps, blind, Event.blind]

theorem sim_shutdown_member (mem0 : SubsysPtr → subsys_data) (p : SubsysPtr)
    (h : ∀ f, (mem0 p).shutdown = some f → ∀ tr, f (blind tr) = f tr) :
    Sim mem0 (shutdown_member p) := by
  intro r hr
  unfold shutdown_member
  have e : (r.blind.st.mem p).shutdown = (r.st.mem p).shutdown := rfl
  rw [e]
  cases hf : (r.st.mem p).shutdown with
  | none => exact ⟨hr, rfl⟩
  | some f =>
    have hb : f r.blind.trace = f r.trace := h f (by rw [← hr]; exact hf) r.trace
    simp only [hb]
    by_cases c : f r.trace < 0
    · simp only [if_pos c]
      refine ⟨hr, ?_⟩
      simp [Result.blind, Run.blind, Run.emit, zero_ramdumps, blind, Event.blind]
    · simp only [if_neg c]
      refine ⟨hr, ?_⟩
      simp [Result.blind, Run.blind, Run.emit, zero_ramdumps, blind, Event.blind]

theorem sim_powerup_member (mem0 : SubsysPtr → subsys_data) (p : SubsysPtr)
    (h : ∀ f, (mem0 p).powerup = some f → ∀ tr, f (blind tr) = f tr) :
    Sim mem0 (powerup_member p) := by
  intro r hr
  unfold powerup_member
  have e : (r.blind.st.mem p).powerup = (r.st.mem p).powerup := rfl
  rw [e]
  cases hf : (r.st.mem p).powerup with
  | none => exact ⟨hr, rfl⟩
  | some f =>
    have hb : f r.blind.trace = f r.trace := h f (by rw [← hr]; exact hf) r.trace
    simp only [hb]
    by_cases c : f r.trace < 0
    · simp only [if_pos c]
      refine ⟨hr, ?_⟩
      simp [Result.blind, Run.blind, Run.emit, zero_ramdumps, blind, Event.blind]
    · simp only [if_neg c]
      refine ⟨hr, ?_⟩
      simp [Result.blind, Run.blind, Run.emit, zero_ramdumps, blind, Event.blind]

theorem sim_ramdump_member (mem0 : SubsysPtr → subsys_data) (p : SubsysPtr) :
    Sim mem0 (ramdump_member p) := by
  intro r hr
  unfold ramdump_member
  have e : (r.blind.st.mem p).ramdump = (r.st.mem p).ramdump.map fun _ _ _ => 0 := rfl
  rw [e]
  cases hf : (r.st.mem p).ramdump with
  | none => exact ⟨hr, rfl⟩
  | some f =>
    refine ⟨hr, ?_⟩
    simp [Result.blind, Run.blind, Run.emit, zero_ramdumps, blind, Event.blind]

theorem sim_mdm_member (mem0 : SubsysPtr → subsys_data) (v : Int) (p : SubsysPtr) :
    Sim mem0 (mdm_member v p) := by
  intro r hr
  unfold mdm_member
  have e : (r.blind.st.mem p).name = (r.st.mem p).name := rfl
  rw [e]
  cases hf : (r.st.mem p).name with
  | none => exact ⟨hr, rfl⟩
  | some name =>
    simp only []
    by_cases c : name = EXTERNAL_MODEM
    · simp only [if_pos c]
      exact ⟨hr, rfl⟩
    · simp only [if_neg c]
      exact ⟨hr, rfl⟩

theorem sim_mdm_mark (mem0 : SubsysPtr → subsys_data) (cfg : Config)
    (rl : List (Option SubsysPtr)) (count : Nat) (v : Int) :
    Sim mem0 (mdm_mark cfg rl count v) := by
  intro r hr
  unfold mdm_mark
  cases cfg.CONFIG_APQ8064_HSIC
  · simp only [Bool.false_eq_true, if_false]
    exact ⟨hr, rfl⟩
  · simp only [if_true, for_up_on_slot]
    exact sim_for_list mem0 (mdm_member v) _ (fun p _ => sim_mdm_member mem0 v p) r hr

theorem sim_send_notification (mem0 : SubsysPtr → subsys_data)
    (rl : List (Option SubsysPtr)) (count : Nat) (t : subsys_notif_type) :
    Sim mem0 (_send_notification_to_order rl count t) := by
  intro r hr
  unfold _send_notification_to_order
  simp only [for_up_on_slot]
  exact sim_for_list mem0 (notify_member t) _ (fun p _ => sim_notify_member mem0 t p) r hr

theorem sim_tail (mem0 : SubsysPtr → subsys_data) (cfg : Config) (r_work : restart_wq_data)
    (pl : Mutex) :
    Sim mem0 (fun r =>
      wq_out r_work (mutex_unlock .soc_order_reg_lock (mutex_unlock pl
        (if cfg.CONFIG_QSC_MODEM then { r with st := { r.st with crashed_modem := 0 } }
          else r)))) := by
  intro r hr
  simp only []
  cases cfg.CONFIG_QSC_MODEM
  · simp only [Bool.false_eq_true, if_false]
    refine ⟨hr, ?_⟩
    simp [wq_out, mutex_unlock, Result.blind, Run.blind, Run.emit, zero_ramdumps, blind,
      Event.blind]
  · simp only [if_true]
    refine ⟨hr, ?_⟩
    simp [wq_out, mutex_unlock, Result.blind, Run.blind, Run.emit, zero_ramdumps, blind,
      Event.blind]

theorem sim_wq_sequence (mem0 : SubsysPtr → subsys_data) (cfg : Config) (env : EpochEnv)
    (r_work : restart_wq_data) (u : restart_unit)
    (hsd : ∀ p ∈ unit_members u, ∀ f, (mem0 p).shutdown = some f → ∀ tr, f (blind tr) = f tr)
    (hpu : ∀ p ∈ unit_members u, ∀ f, (mem0 p).powerup = some f → ∀ tr, f (blind tr) = f tr) :
    Sim mem0 (wq_sequence cfg env r_work u) := by
  have hpu' : ∀ p ∈ (unit_members u).reverse, ∀ f, (mem0 p).powerup = some f →
      ∀ tr, f (blind tr) = f tr := fun p hp => hpu p (List.mem_reverse.mp hp)
  unfold wq_sequence
  refine sim_bind mem0 _ _ (sim_do_epoch_check mem0 env _) ?_
  refine sim_bind mem0 _ _ (sim_mutex_lock mem0 _) ?_
  refine sim_bind mem0 _ _ (sim_mdm_mark mem0 cfg _ _ _) ?_
  refine sim_bind mem0 _ _ (sim_send_notification mem0 _ _ _) ?_
  refine sim_bind mem0 _ _ ?_ ?_
  · intro r hr
    rw [for_up_on_slot, for_up_on_slot]
    exact sim_for_list mem0 shutdown_member _
      (fun p hp => sim_shutdown_member mem0 p (hsd p hp)) r hr
  refine sim_bind mem0 _ _ (sim_send_notification mem0 _ _ _) ?_
  refine sim_bind mem0 _ _ ?_ ?_
  · refine sim_comp mem0 _ _ ?_ (mutex_unlock_blind _)
    intro r hr
    rw [for_up_on_slot, for_up_on_slot]
    exact sim_for_list mem0 ramdump_member _ (fun p _ => sim_ramdump_member mem0 p) r hr
  refine sim_bind mem0 _ _ (sim_send_notification mem0 _ _ _) ?_
  refine sim_bind mem0 _ _ ?_ ?_
  · intro r hr
    rw [for_down_on_slot, for_down_on_slot]
    exact sim_for_list mem0 powerup_member _
      (fun p hp => sim_powerup_member mem0 p (hpu' p hp)) r hr
  refine sim_bind mem0 _ _ (sim_send_notification mem0 _ _ _) ?_
  refine sim_bind mem0 _ _ (sim_mdm_mark mem0 cfg _ _ _) ?_
  exact sim_tail mem0 cfg r_work _

theorem wq_func_blind (cfg : Config) (env : EpochEnv) (r_work : restart_wq_data) (s : State)
    (hcb : callbacks_blind s (unit_members (resolve_unit r_work s))) :
    subsystem_restart_wq_func cfg env r_work ⟨zero_ramdumps s, []⟩ =
      (subsystem_restart_wq_func cfg env r_work ⟨s, []⟩).blind := by
  have hu : resolve_unit r_work (zero_ramdumps s) = resolve_unit r_work s := rfl
  unfold subsystem_restart_wq_func
  simp only [hu]
  unfold mutex_trylock
  have e1 : (zero_ramdumps s).held = s.held := rfl
  simp only [e1]
  by_cases hsl : (resolve_unit r_work s).shutdown_lock ∈ s.held
  · simp only [if_pos hsl]
    simp [wq_out, Result.blind, Run.blind, Run.emit, blind, Event.blind]
  · simp only [if_neg hsl]
    by_cases hpl : (resolve_unit r_work s).powerup_lock ∈
        (resolve_unit r_work s).shutdown_lock :: s.held
    · simp only [Run.emit, if_pos hpl]
      simp [Result.blind, Run.blind, blind, Event.blind, zero_ramdumps]
    · simp only [Run.emit, if_neg hpl]
      have h := (sim_wq_sequence s.mem cfg env r_work (resolve_unit r_work s)
        (fun p hp f hf => hcb p hp f (Or.inl hf))
        (fun p hp f hf => hcb p hp f (Or.inr hf))
        ⟨{ s with held := (resolve_unit r_work s).powerup_lock ::
              (resolve_unit r_work s).shutdown_lock :: s.held },
          [] ++ [.trylock (resolve_unit r_work s).shutdown_lock true] ++
            [.trylock (resolve_unit r_work s).powerup_lock true]⟩ rfl).2
      exact h

theorem calls_blind (tr : List Event) : calls (blind tr) = calls tr := by
  unfold calls blind
  rw [List.filterMap_map]
  congr 1
  funext e
  cases e <;> rfl

/-- Claim C22.  For every restart unit and every choice of ramdump callbacks,
whatever they return, the run of the worker ends in the same way (returned,
panicked, faulted or waiting) as the run from the state in which every ramdump
callback returns 0, its trace is the trace of that run up to the values recorded
for the ramdump callbacks (so the same notifications, shutdown and powerup
calls with the same results, in the same order), and it leaves the same mutexes
held and the same restart log; the shutdown and powerup callbacks are taken not to
look at the values ramdump callbacks returned. -/
theorem ramdump_results_ignored (cfg : Config) (env : EpochEnv) (r_work : restart_wq_data)
    (s : State) (hcb : callbacks_blind s (unit_members (resolve_unit r_work s))) :
    (subsystem_restart_wq_func cfg env r_work ⟨s, []⟩).isReturned =
      (subsystem_restart_wq_func cfg env r_work ⟨zero_ramdumps s, []⟩).isReturned ∧
    (subsystem_restart_wq_func cfg env r_work ⟨s, []⟩).isFatal =
      (subsystem_restart_wq_func cfg env r_work ⟨zero_ramdumps s, []⟩).isFatal ∧
    (subsystem_restart_wq_func cfg env r_work ⟨s, []⟩).isPanicked =
      (subsystem_restart_wq_func cfg env r_work ⟨zero_ramdumps s, []⟩).isPanicked ∧
    blind (subsystem_restart_wq_func cfg env r_work ⟨s, []⟩).run.trace =
      (subsystem_restart_wq_func cfg env r_work ⟨zero_ramdumps s, []⟩).run.trace ∧
    calls (subsystem_restart_wq_func cfg env r_work ⟨s, []⟩).run.trace =
      calls (subsystem_restart_wq_func cfg env r_work ⟨zero_ramdumps s, []⟩).run.trace ∧
    (subsystem_restart_wq_func cfg env r_work ⟨s, []⟩).run.st.held =
      (subsystem_restart_wq_func cfg env r_work ⟨zero_ramdumps s, []⟩).run.st.held ∧
    (subsystem_restart_wq_func cfg env r_work ⟨s, []⟩).run.st.restart_log_list =
      (subsystem_restart_wq_func cfg env r_work ⟨zero_ramdumps s, []⟩).run.st.restart_log_list := by
  rw [wq_func_blind cfg env r_work s hcb]
  cases subsystem_restart_wq_func cfg env r_work ⟨s, []⟩ with
  | returned a r => exact ⟨rfl, rfl, rfl, rfl, (calls_blind _).symm, rfl, rfl⟩
  | panicked r => exact ⟨rfl, rfl, rfl, rfl, (calls_blind _).symm, rfl, rfl⟩
  | blocked r => exact ⟨rfl, rfl, rfl, rfl, (calls_blind _).symm, rfl, rfl⟩
  | fault r => exact ⟨rfl, rfl, rfl, rfl, (calls_blind _).symm, rfl, rfl⟩

theorem callbacks_blind_failing_dump :
    callbacks_blind (registered_state failing_dump_mem 2 0 60)
      (unit_members (resolve_unit ⟨2, 1⟩ (registered_state failing_dump_mem 2 0 60))) := by
  have hm : unit_members (resolve_unit ⟨2, 1⟩ (registered_state failing_dump_mem 2 0 60)) =
      [1, 2, 3] := by decide
  rw [hm]
  intro p hp f hf tr
  simp only [List.mem_cons, List.mem_singleton, List.not_mem_nil, or_false] at hp
  rcases hp with rfl | rfl | rfl
  · rcases hf with hf | hf <;> · cases hf; rfl
  · rcases hf with hf | hf <;> · cases hf; rfl
  · rcases hf with hf | hf <;> · cases hf; rfl

/-- The ramdump callback of modem returns -1: the restart of the group completes,
with the trace of the run in which it returns 0 up to that value. -/
theorem ramdump_results_ignored_witness :
    (subsystem_restart_wq_func cfg0 ⟨true, ⟨0, 0⟩⟩ ⟨2, 1⟩
      ⟨registered_state failing_dump_mem 2 0 60, []⟩).isReturned = true ∧
    Event.ramdump 0 2 (-1) ∈ (subsystem_restart_wq_func cfg0 ⟨true, ⟨0, 0⟩⟩ ⟨2, 1⟩
      ⟨registered_state failing_dump_mem 2 0 60, []⟩).run.trace ∧
    blind (subsystem_restart_wq_func cfg0 ⟨true, ⟨0, 0⟩⟩ ⟨2, 1⟩
        ⟨registered_state failing_dump_mem 2 0 60, []⟩).run.trace =
      (subsystem_restart_wq_func cfg0 ⟨true, ⟨0, 0⟩⟩ ⟨2, 1⟩
        ⟨zero_ramdumps (registered_state failing_dump_mem 2 0 60), []⟩).run.trace :=
  ⟨by decide, by decide,
   (ramdump_results_ignored cfg0 ⟨true, ⟨0, 0⟩⟩ ⟨2, 1⟩ (registered_state failing_dump_mem 2 0 60)
      callbacks_blind_failing_dump).2.2.2.1⟩

/-! ## The low-memory killer -/

theorem threshold_loop_spec (adj : List Int) (min_array : List Nat) (f g : Int) (d : Int) :
    ∀ (n i0 : Nat),
      (∀ i, i0 ≤ i → i < i0 + n →
        (to_size_t f < min_array.getD i 0 ∧ to_size_t g < min_array.getD i 0) →
        (∀ j, i0 ≤ j → j < i →
          ¬ (to_size_t f < min_array.getD j 0 ∧ to_size_t g < min_array.getD j 0)) →
        threshold_loop adj min_array f g i0 n d = adj.getD i 0) ∧
      ((∀ i, i0 ≤ i → i < i0 + n →
          ¬ (to_size_t f < min_array.getD i 0 ∧ to_size_t g < min_array.getD i 0)) →
        threshold_loop adj min_array f g i0 n d = d) := by
  intro n
  induction n with
  | zero =>
    intro i0
    refine ⟨?_, fun _ => rfl⟩
    intro i h1 h2
    omega
  | succ n ih =>
    intro i0
    obtain ⟨ih1, ih2⟩ := ih (i0 + 1)
    constructor
    · intro i h1 h2 hp hfirst
      by_cases c : to_size_t f < min_array.getD i0 0 ∧ to_size_t g < min_array.getD i0 0
      · have : i = i0 := by
          by_contra hne
          exact hfirst i0 (Nat.le_refl _) (by omega) c
        subst this
        simp only [threshold_loop, if_pos c]
      · simp only [threshold_loop, if_neg c]
        have hi : i0 + 1 ≤ i := by
          rcases Nat.eq_or_lt_of_le h1 with h | h
          · subst h; exact absurd hp c
          · exact h
        exact ih1 i hi (by omega) hp (fun j hj1 hj2 => hfirst j (by omega) hj2)
    · intro hnone
      have c := hnone i0 (Nat.le_refl _) (by omega)
      simp only [threshold_loop, if_neg c]
      exact ih2 (fun i h1 h2 => hnone i (by omega) (by omega))

theorem getD_map_to_size_t : ∀ (l : List Int) (i : Nat),
    (l.map to_size_t).getD i 0 = to_size_t (l.getD i 0) := by
  intro l
  induction l with
  | nil => intro i; rfl
  | cons x l ih =>
    intro i
    cases i with
    | zero => rfl
    | succ i => simpa using ih i

theorem to_size_t_of_range (x : Int) (h0 : 0 ≤ x) (h1 : x < 2 ^ 32) : (to_size_t x : Int) = x := by
  unfold to_size_t
  rw [Int.toNat_of_nonneg (Int.emod_nonneg _ (by decide))]
  exact Int.emod_eq_of_lt h0 h1

theorem size_t_lt_iff (x y : Int) (hx0 : 0 ≤ x) (hx1 : x < 2 ^ 32) (hy0 : 0 ≤ y)
    (hy1 : y < 2 ^ 32) : to_size_t x < to_size_t y ↔ x < y := by
  have a := to_size_t_of_range x hx0 hx1
  have b := to_size_t_of_range y hy0 hy1
  omega

theorem lowmem_threshold_no_boost (env : LmkEnv) (s : LmkState)
    (hboost : s.lowmem_fork_boost = 0 ∨
      time_before_eq env.jiffies s.lowmem_fork_boost_timeout = false) :
    lowmem_threshold env s =
      (threshold_loop s.lowmem_adj (s.lowmem_minfree.map to_size_t) env.NR_FREE_PAGES
        (other_file env) 0 (lmk_array_size s) (env.OOM_SCORE_ADJ_MAX + 1), s) := by
  have hb : (decide (s.lowmem_fork_boost ≠ 0) &&
      time_before_eq env.jiffies s.lowmem_fork_boost_timeout) = false := by
    rcases hboost with h | h
    · simp [h]
    · simp [h]
  have hsz : (if s.lowmem_minfree_size < (if s.lowmem_adj_size < 6 then s.lowmem_adj_size else 6)
      then s.lowmem_minfree_size
      else (if s.lowmem_adj_size < 6 then s.lowmem_adj_size else 6)).toNat = lmk_array_size s := by
    unfold lmk_array_size
    congr 1
    split_ifs <;> omega
  unfold lowmem_threshold
  simp only [hb, Bool.false_eq_true, if_false, hsz]
  rfl

/-- With the fork boost inactive, a file-cache count that is not negative and
thresholds in the range of `size_t`, the threshold follows the table: it is
`lowmem_adj[i]` for the first index `i` in use at which both counts are below
`lowmem_minfree[i]`, and without such an index it is OOM_SCORE_ADJ_MAX + 1 and no
call of lowmem_shrink kills anything. -/
theorem lowmem_threshold_table (env : LmkEnv) (s : LmkState)
    (hboost : s.lowmem_fork_boost = 0 ∨
      time_before_eq env.jiffies s.lowmem_fork_boost_timeout = false)
    (hfile : env.NR_SHMEM + env.NR_MLOCK ≤ env.NR_FILE_PAGES)
    (hrange : env.NR_FREE_PAGES < 2 ^ 32 ∧ env.NR_FILE_PAGES < 2 ^ 32)
    (hmin : ∀ x ∈ s.lowmem_minfree, 0 ≤ x ∧ x < 2 ^ 32) :
    (∀ i, i < lmk_array_size s → below_minfree env s i →
      (∀ j, j < i → ¬ below_minfree env s j) →
      (lowmem_threshold env s).1 = s.lowmem_adj.getD i 0) ∧
    ((∀ i, i < lmk_array_size s → ¬ below_minfree env s i) →
      (lowmem_threshold env s).1 = env.OOM_SCORE_ADJ_MAX + 1 ∧
      ∀ nr_to_scan, (lowmem_shrink env nr_to_scan s).killed = none) := by
  have hm : ∀ i, 0 ≤ s.lowmem_minfree.getD i 0 ∧ s.lowmem_minfree.getD i 0 < 2 ^ 32 := by
    intro i
    rw [List.getD_eq_getElem?_getD]
    cases h : s.lowmem_minfree[i]? with
    | none => simp
    | some x => exact hmin x (List.getElem?_mem h)
  have hof : 0 ≤ other_file env ∧ other_file env < 2 ^ 32 := by
    unfold other_file
    omega
  have hfr : (0 : Int) ≤ env.NR_FREE_PAGES ∧ (env.NR_FREE_PAGES : Int) < 2 ^ 32 := by omega
  have hiff : ∀ i, (to_size_t env.NR_FREE_PAGES < (s.lowmem_minfree.map to_size_t).getD i 0 ∧
      to_size_t (other_file env) < (s.lowmem_minfree.map to_size_t).getD i 0) ↔
      below_minfree env s i := by
    intro i
    unfold below_minfree
    rw [getD_map_to_size_t, size_t_lt_iff _ _ hfr.1 hfr.2 (hm i).1 (hm i).2,
      size_t_lt_iff _ _ hof.1 hof.2 (hm i).1 (hm i).2]
  obtain ⟨k1, k2⟩ := threshold_loop_spec s.lowmem_adj (s.lowmem_minfree.map to_size_t)
    env.NR_FREE_PAGES (other_file env) (env.OOM_SCORE_ADJ_MAX + 1) (lmk_array_size s) 0
  rw [lowmem_threshold_no_boost env s hboost]
  constructor
  · intro i hi hb hfirst
    exact k1 i (Nat.zero_le _) (by omega) ((hiff i).mpr hb)
      (fun j _ hj hc => hfirst j hj ((hiff j).mp hc))
  · intro hnone
    have e := k2 (fun i _ hi hc => hnone i (by omega) ((hiff i).mp hc))
    refine ⟨e, ?_⟩
    intro nr
    have e0 : ∀ b, (lowmem_threshold env { s with scan_mutex := b }).1 =
        (lowmem_threshold env s).1 := by
      intro b
      rw [lowmem_threshold_no_boost env s hboost,
        lowmem_threshold_no_boost env { s with scan_mutex := b } hboost]
      rfl
    have e1 : (lowmem_threshold env s).1 = env.OOM_SCORE_ADJ_MAX + 1 := by
      rw [lowmem_threshold_no_boost env s hboost]
      exact e
    unfold lowmem_shrink
    by_cases c : nr > 0 ∧ s.scan_mutex = true
    · simp only [if_pos c]
    · simp only [if_neg c]
      by_cases hn : nr > 0
      · simp only [if_pos hn, e0, e1, or_true, if_true]
      · simp only [if_neg hn, e1, or_true, if_true]

theorem lowmem_threshold_table_witness :
    (lowmem_threshold (lmk_env 2000 10 0 0) (lmk_doc_state lmk_tasks)).1 = 8 :=
  (lowmem_threshold_table (lmk_env 2000 10 0 0) (lmk_doc_state lmk_tasks) (Or.inl rfl)
    (by decide) (by decide) (by decide)).1 1 (by decide)
    (by unfold below_minfree other_file; decide)
    (by
      intro j hj
      have h0 : j = 0 := by omega
      subst h0
      unfold below_minfree other_file
      decide)

/-- Claim C27, the code at an input where it leaves the table.  With `adj = 0,8`,
`minfree = 1024,4096` and the fork boost off, 100 free pages and a file-cache
count of 10 - 0 - 15 = -5 pages (more mlocked pages than file pages): both counts
are below 1024, yet the threshold stays at OOM_SCORE_ADJ_MAX + 1 and nothing is
killed, because the counts are compared with the thresholds as `size_t`.  With
the non-negative count 10 - 0 - 0 the threshold is `adj[0] = 0` and a process
is killed. -/
theorem negative_file_count_never_kills :
    below_minfree (lmk_env 100 10 0 15) (lmk_doc_state lmk_tasks) 0 ∧
    other_file (lmk_env 100 10 0 15) = -5 ∧
    (lowmem_threshold (lmk_env 100 10 0 15) (lmk_doc_state lmk_tasks)).1 = 1000 + 1 ∧
    (lowmem_shrink (lmk_env 100 10 0 15) 1 (lmk_doc_state lmk_tasks)).killed = none ∧
    (lowmem_shrink (lmk_env 100 10 0 15) 1 (lmk_doc_state lmk_tasks)).ret = 4000 ∧
    (lowmem_threshold (lmk_env 100 10 0 0) (lmk_doc_state lmk_tasks)).1 = 0 ∧
    (lowmem_shrink (lmk_env 100 10 0 0) 1 (lmk_doc_state lmk_tasks)).killed = some (3, 0) := by
  refine ⟨?_, ?_, ?_, ?_, ?_, ?_, ?_⟩
  · unfold below_minfree other_file; decide
  · decide
  · decide
  · decide
  · decide
  · decide
  · decide

theorem lowmem_threshold_frame (env : LmkEnv) (s : LmkState) :
    (lowmem_threshold env s).2.tasks = s.tasks ∧
    (lowmem_threshold env s).2.lowmem_deathpending_timeout = s.lowmem_deathpending_timeout ∧
    (lowmem_threshold env s).2.scan_mutex = s.scan_mutex := by
  unfold lowmem_threshold
  simp only []
  split_ifs <;> exact ⟨rfl, rfl, rfl⟩

theorem lowmem_threshold_mutex (env : LmkEnv) (s : LmkState) (b : Bool) :
    (lowmem_threshold env { s with scan_mutex := b }).1 = (lowmem_threshold env s).1 := by
  unfold lowmem_threshold
  simp only []
  split_ifs <;> rfl

theorem select_loop_spec (env : LmkEnv) (s : LmkState) (m : Int) :
    ∀ (L : List task_struct) (k0 : Nat) (sel : Selection),
      (∀ tsk ∈ L, tsk.PF_KTHREAD = false →
        ¬ (time_before_eq env.jiffies s.lowmem_deathpending_timeout = true ∧
          test_task_flag tsk = true)) →
      SelectSpec env s m L k0 sel := by
  intro L
  induction L with
  | nil =>
    intro k0 sel _
    left
    exact ⟨rfl, fun tsk h => by simp at h⟩
  | cons tsk rest ih =>
    intro k0 sel hnd
    have hnd' : ∀ t ∈ rest, t.PF_KTHREAD = false →
        ¬ (time_before_eq env.jiffies s.lowmem_deathpending_timeout = true ∧
          test_task_flag t = true) := fun t ht => hnd t (List.mem_cons_of_mem _ ht)
    -- the process is passed over without being a candidate
    have skip : select_loop env s m (tsk :: rest) k0 sel = select_loop env s m rest (k0 + 1) sel →
        (∀ j rss, ¬ eligible m tsk j rss) → SelectSpec env s m (tsk :: rest) k0 sel := by
      intro hs hne
      rcases ih (k0 + 1) sel hnd' with ⟨h1, h2⟩ | ⟨pre, t, post, j, rss, hL, he, hr, hpre, hpost, hsel⟩
      · left
        refine ⟨hs.trans h1, ?_⟩
        intro t ht j rss he
        rcases List.mem_cons.mp ht with rfl | ht
        · exact absurd he (hne j rss)
        · exact h2 t ht j rss he
      · right
        refine ⟨tsk :: pre, t, post, j, rss, by rw [hL]; rfl, he, ?_, ?_, hpost, hsel⟩
        · rw [hs, hr]
          simp only [List.length_cons]
          rw [Nat.add_assoc, Nat.add_comm 1]
        · intro t' ht' j' rss' he'
          rcases List.mem_cons.mp ht' with rfl | ht'
          · exact absurd he' (hne j' rss')
          · exact hpre t' ht' j' rss' he'
    by_cases hk : tsk.PF_KTHREAD = true
    · refine skip (by simp only [select_loop, hk, if_true]) ?_
      intro j rss he
      rw [he.1] at hk
      cases hk
    have hk' : tsk.PF_KTHREAD = false := by simpa using hk
    have hd := hnd tsk (List.mem_cons_self _ _) hk'
    cases hf : find_lock_task_mm tsk with
    | none =>
      refine skip (by simp only [select_loop, hk, Bool.false_eq_true, if_false, if_neg hd, hf]) ?_
      intro j rss he
      rw [he.2.1] at hf
      cases hf
    | some jr =>
      obtain ⟨j, rss⟩ := jr
      by_cases hm : tsk.oom_score_adj < m
      · refine skip (by simp only [select_loop, hk, Bool.false_eq_true, if_false, if_neg hd, hf,
          if_pos hm]) ?_
        intro j' rss' he
        have := he.2.2.1
        omega
      by_cases hz : (rss : Int) ≤ 0
      · refine skip (by simp only [select_loop, hk, Bool.false_eq_true, if_false, if_neg hd, hf,
          if_neg hm, if_pos hz]) ?_
        intro j' rss' he
        have h1 := he.2.1
        rw [hf] at h1
        simp only [Option.some.injEq, Prod.mk.injEq] at h1
        have := he.2.2.2
        omega
      have helig : eligible m tsk j rss := ⟨hk', hf, by omega, by omega⟩
      have huniq : ∀ j' rss', eligible m tsk j' rss' → rss' = rss := by
        intro j' rss' he
        have h1 := he.2.1
        rw [hf] at h1
        simp only [Option.some.injEq, Prod.mk.injEq] at h1
        exact h1.2.symm
      by_cases hc : sel.selected.isSome = true ∧
          (tsk.oom_score_adj < sel.selected_oom_score_adj ∨
            (tsk.oom_score_adj = sel.selected_oom_score_adj ∧
              (rss : Int) ≤ sel.selected_tasksize))
      · -- a candidate that does not beat the selected one
        have hs : select_loop env s m (tsk :: rest) k0 sel =
            select_loop env s m rest (k0 + 1) sel := by
          simp only [select_loop, hk, Bool.false_eq_true, if_false, if_neg hd, hf, if_neg hm,
            if_neg hz, if_pos hc]
        rcases ih (k0 + 1) sel hnd' with
          ⟨h1, h2⟩ | ⟨pre, t, post, j1, rss1, hL, he, hr, hpre, hpost, hsel⟩
        · left
          refine ⟨hs.trans h1, ?_⟩
          intro t ht j' rss' he
          rcases List.mem_cons.mp ht with rfl | ht
          · have := huniq j' rss' he
            subst this
            exact hc
          · exact h2 t ht j' rss' he
        · right
          refine ⟨tsk :: pre, t, post, j1, rss1, by rw [hL]; rfl, he, ?_, ?_, hpost, hsel⟩
          · rw [hs, hr]
            simp only [List.length_cons]
            rw [Nat.add_assoc, Nat.add_comm 1]
          · intro t' ht' j' rss' he'
            rcases List.mem_cons.mp ht' with rfl | ht'
            · have := huniq j' rss' he'
              subst this
              have hb := hsel hc.1
              have hc2 := hc.2
              omega
            · exact hpre t' ht' j' rss' he'
      · -- a candidate that becomes the selected one
        have hs : select_loop env s m (tsk :: rest) k0 sel =
            select_loop env s m rest (k0 + 1)
              ⟨some (k0, j), rss, tsk.oom_score_adj, tsk.oom_adj⟩ := by
          simp only [select_loop, hk, Bool.false_eq_true, if_false, if_neg hd, hf, if_neg hm,
            if_neg hz, if_neg hc]
        have hbeat : sel.selected.isSome = true →
            sel.selected_oom_score_adj < tsk.oom_score_adj ∨
              (sel.selected_oom_score_adj = tsk.oom_score_adj ∧
                sel.selected_tasksize < (rss : Int)) := by
          intro hsome
          have hc' : ¬ (tsk.oom_score_adj < sel.selected_oom_score_adj ∨
              (tsk.oom_score_adj = sel.selected_oom_score_adj ∧
                (rss : Int) ≤ sel.selected_tasksize)) := fun h => hc ⟨hsome, h⟩
          omega
        rcases ih (k0 + 1) ⟨some (k0, j), rss, tsk.oom_score_adj, tsk.oom_adj⟩ hnd' with
          ⟨h1, h2⟩ | ⟨pre, t, post, j1, rss1, hL, he, hr, hpre, hpost, hsel⟩
        · right
          refine ⟨[], tsk, rest, j, rss, rfl, helig, ?_, ?_, ?_, hbeat⟩
          · rw [hs, h1]
            rfl
          · intro t ht
            simp at ht
          · intro t ht j' rss' he
            have := (h2 t ht j' rss' he).2
            simp only [] at this
            omega
        · right
          have hb := hsel rfl
          simp only [] at hb
          refine ⟨tsk :: pre, t, post, j1, rss1, by rw [hL]; rfl, he, ?_, ?_, hpost, ?_⟩
          · rw [hs, hr]
            simp only [List.length_cons]
            rw [Nat.add_assoc, Nat.add_comm 1]
          · intro t' ht' j' rss' he'
            rcases List.mem_cons.mp ht' with rfl | ht'
            · have := huniq j' rss' he'
              subst this
              omega
            · exact hpre t' ht' j' rss' he'
          · intro hsome
            have := hbeat hsome
            omega

/-- Claim C30.  When lowmem_shrink scans (`nr_to_scan > 0`, `scan_mutex` free) with
a threshold `min_score_adj` and no task is already dying: it selects no process if
and only if no process is eligible, and then returns the remaining count; and
the process it kills is eligible, every eligible process before it in the
process list has a smaller `oom_score_adj` or the same one and a smaller
resident size, every eligible process after it has a smaller `oom_score_adj` or
the same one and a resident size that is not greater, and the value returned is
the remaining count minus the resident size of the killed process. -/
theorem lowmem_shrink_selects (env : LmkEnv) (nr_to_scan : Nat) (s : LmkState)
    (hnr : 0 < nr_to_scan) (hfree : s.scan_mutex = false)
    (hth : (lowmem_threshold env s).1 ≠ env.OOM_SCORE_ADJ_MAX + 1)
    (hnd : none_dying env s) :
    ((lowmem_shrink env nr_to_scan s).killed = none ↔
      ∀ tsk ∈ s.tasks, ∀ j rss, ¬ eligible (lowmem_threshold env s).1 tsk j rss) ∧
    ((lowmem_shrink env nr_to_scan s).killed = none →
      (lowmem_shrink env nr_to_scan s).ret = lmk_rem env) ∧
    (∀ k j, (lowmem_shrink env nr_to_scan s).killed = some (k, j) →
      ∃ pre tsk post rss, s.tasks = pre ++ tsk :: post ∧ k = pre.length ∧
        eligible (lowmem_threshold env s).1 tsk j rss ∧
        (∀ t ∈ pre, ∀ j' rss', eligible (lowmem_threshold env s).1 t j' rss' →
          t.oom_score_adj < tsk.oom_score_adj ∨
            (t.oom_score_adj = tsk.oom_score_adj ∧ rss' < rss)) ∧
        (∀ t ∈ post, ∀ j' rss', eligible (lowmem_threshold env s).1 t j' rss' →
          t.oom_score_adj < tsk.oom_score_adj ∨
            (t.oom_score_adj = tsk.oom_score_adj ∧ rss' ≤ rss)) ∧
        (lowmem_shrink env nr_to_scan s).ret = lmk_rem env - rss) := by
  obtain ⟨f1, f2, _⟩ := lowmem_threshold_frame env { s with scan_mutex := true }
  have hm := lowmem_threshold_mutex env s true
  have hnd' : ∀ tsk ∈ (lowmem_threshold env { s with scan_mutex := true }).2.tasks,
      tsk.PF_KTHREAD = false →
      ¬ (time_before_eq env.jiffies
          (lowmem_threshold env { s with scan_mutex := true }).2.lowmem_deathpending_timeout =
            true ∧ test_task_flag tsk = true) := by
    rw [f1, f2]
    exact hnd
  have hspec := select_loop_spec env (lowmem_threshold env { s with scan_mutex := true }).2
    (lowmem_threshold env s).1 (lowmem_threshold env { s with scan_mutex := true }).2.tasks 0
    ⟨none, 0, (lowmem_threshold env s).1, 0⟩ hnd'
  have hc1 : ¬ (nr_to_scan > 0 ∧ s.scan_mutex = true) := by simp [hfree]
  have hc2 : ¬ (nr_to_scan ≤ 0 ∨ (lowmem_threshold env s).1 = env.OOM_SCORE_ADJ_MAX + 1) := by
    intro h
    rcases h with h | h
    · omega
    · exact hth h
  have hrun : lowmem_shrink env nr_to_scan s =
      match select_loop env (lowmem_threshold env { s with scan_mutex := true }).2
          (lowmem_threshold env s).1
          (lowmem_threshold env { s with scan_mutex := true }).2.tasks 0
          ⟨none, 0, (lowmem_threshold env s).1, 0⟩ with
      | none => { ret := 0,
                  st := { (lowmem_threshold env { s with scan_mutex := true }).2 with
                    scan_mutex := false },
                  killed := none, dumped := false }
      | some sel =>
        match sel.selected with
        | some (k, j) =>
          { ret := lmk_rem env - sel.selected_tasksize
            st := { (lowmem_threshold env { s with scan_mutex := true }).2 with
              lowmem_deathpending_timeout := (env.jiffies + env.HZ) % 2 ^ 32
              tasks := set_memdie (lowmem_threshold env { s with scan_mutex := true }).2.tasks k j
              scan_mutex := false }
            killed := some (k, j)
            dumped := decide (sel.selected_oom_adj < 7) }
        | none => { ret := lmk_rem env,
                    st := { (lowmem_threshold env { s with scan_mutex := true }).2 with
                      scan_mutex := false },
                    killed := none, dumped := false } := by
    unfold lowmem_shrink
    simp only [if_neg hc1, if_pos hnr, hm, if_neg hc2]
    rfl
  rw [hrun]
  rw [f1] at hspec ⊢
  rcases hspec with ⟨h1, h2⟩ | ⟨pre, tsk, post, j, rss, hL, he, hr, hpre, hpost, _⟩
  · rw [h1]
    refine ⟨⟨fun _ tsk ht j rss he => ?_, fun _ => rfl⟩, fun _ => rfl, ?_⟩
    · have := (h2 tsk ht j rss he).1
      cases this
    · intro k j h
      cases h
  · rw [hr]
    simp only [Nat.zero_add]
    refine ⟨⟨fun h => ?_, fun h => ?_⟩, fun h => ?_, ?_⟩
    · cases h
    · exact absurd he (h tsk (by rw [hL]; simp) j rss)
    · cases h
    · intro k j' h
      simp only [Option.some.injEq, Prod.mk.injEq] at h
      obtain ⟨rfl, rfl⟩ := h
      exact ⟨pre, tsk, post, rss, hL, rfl, he, hpre, hpost, rfl⟩

/-- The scan of the example processes with threshold 0: the processes 101, 102 and
103 have the greatest `oom_score_adj`, 102 and 103 the greatest size among them,
and 102 comes first. -/
theorem lowmem_shrink_selects_witness :
    (lowmem_shrink (lmk_env 100 10 0 0) 1 (lmk_doc_state lmk_tasks)).killed = some (3, 0) ∧
    ∃ pre tsk post rss, (lmk_doc_state lmk_tasks).tasks = pre ++ tsk :: post ∧ 3 = pre.length ∧
      eligible (lowmem_threshold (lmk_env 100 10 0 0) (lmk_doc_state lmk_tasks)).1 tsk 0 rss ∧
      (∀ t ∈ pre, ∀ j' rss',
        eligible (lowmem_threshold (lmk_env 100 10 0 0) (lmk_doc_state lmk_tasks)).1 t j' rss' →
        t.oom_score_adj < tsk.oom_score_adj ∨
          (t.oom_score_adj = tsk.oom_score_adj ∧ rss' < rss)) ∧
      (∀ t ∈ post, ∀ j' rss',
        eligible (lowmem_threshold (lmk_env 100 10 0 0) (lmk_doc_state lmk_tasks)).1 t j' rss' →
        t.oom_score_adj < tsk.oom_score_adj ∨
          (t.oom_score_adj = tsk.oom_score_adj ∧ rss' ≤ rss)) ∧
      (lowmem_shrink (lmk_env 100 10 0 0) 1 (lmk_doc_state lmk_tasks)).ret =
        lmk_rem (lmk_env 100 10 0 0) - rss :=
  ⟨by decide,
   (lowmem_shrink_selects (lmk_env 100 10 0 0) 1 (lmk_doc_state lmk_tasks) (by decide) rfl
      (by decide) (by unfold none_dying; decide)).2.2 3 0 (by decide)⟩

end SSR
